import Mathlib

/-! # Actor::PickAnimations: the per-tick animation intent resolver

A shallow embedding of `src/anim_refactored.cpp` (one function,
`Actor::PickAnimations`, lines 1-966) and theorems about it.

Conventions of the embedding

* The function is split along its source lines into blocks that are
  composed, in source order, by `Actor.PickAnimations`; each block names
  the lines it embeds.
* Everything the function calls lives outside the file.  A call that only
  reads is a field of `World` (entity attributes, constant during a tick)
  or of `Rigs` (the state owned by the playback gateway).  A call that
  acts is recorded, in call order, in `World.trace`; after every recorded
  call the gateway state is replaced by `World.ext call rigs`, an arbitrary
  function, so nothing is assumed about what playback requests do to the
  channels.  The three values the entity context owns (current action,
  current sequence, weapon-out flag) are changed only by their setters.
* A member read through an absent object is `Fault.nullDeref`; a call that
  acts is recorded whatever its target.
* Calls whose result is discarded and that record nothing are left out:
  `nullsub_483710` (lines 16-17, 175), `GetBipedAnim` (line 70),
  `HasWeaponMod` at line 383 and `GetIsOverencumbered` (line 671).
* `float` values are exact rationals; rounding is not modelled.
* Enumerations are declared outside the file.  Their numbering follows
  the engine's declarations; the source itself pins `kAnimAction_None = -1`
  (lines 68/466, 385/386), `Equip_Weapon = 0` (line 118),
  `Unequip_Weapon = 1` (line 680), `kAnimGroup_Idle = 0` (line 565),
  `Forward = 3`, `FastForward = 7` (lines 703/797, 708/802),
  `kAnimMoveType_Sneaking = 1` (lines 19/42), the direction bits 1, 2, 4, 8
  (lines 615-627/638-650) and the on-ground controller state 0 (line 476).
-/

/-! ## Enumerations -/

/-- Modelled from the spec: the `AnimAction` enumeration (spec 4.2 lists its
states); its declaration is not in the source file. -/
def kAnimAction_None : Int := -1
def kAnimAction_Equip_Weapon : Int := 0
def kAnimAction_Unequip_Weapon : Int := 1
def kAnimAction_Attack : Int := 2
def kAnimAction_Attack_Eject : Int := 3
def kAnimAction_Attack_Follow_Through : Int := 4
def kAnimAction_Attack_Throw : Int := 5
def kAnimAction_Attack_Throw_Attach : Int := 6
def kAnimAction_Block : Int := 7
def kAnimAction_Recoil : Int := 8
def kAnimAction_Reload : Int := 9
def kAnimAction_Stagger : Int := 10
def kAnimAction_Dodge : Int := 11
def kAnimAction_Wait_For_Lower_Body_Anim : Int := 12
def kAnimAction_Wait_For_Special_Idle : Int := 13
def kAnimAction_Force_Script_Anim : Int := 14
def kAnimAction_ReloadLoopStart : Int := 15
def kAnimAction_ReloadLoopEnd : Int := 16
def kAnimAction_ReloadLoop : Int := 17

/-- Modelled from the spec: the case labels `kAAP1_*` of line 472-474 are
declared outside the source file; `kAAP1_X` is read as the action
numbered one above `kAnimAction_X`. -/
def kAAP1_Unequip_Weapon : Int := kAnimAction_Unequip_Weapon + 1
def kAAP1_Attack_Eject : Int := kAnimAction_Attack_Eject + 1
def kAAP1_Dodge : Int := kAnimAction_Dodge + 1

/-- Modelled from the spec: playback channels (glossary, "Channel"). -/
def kSequence_Idle : Nat := 0
def kSequence_Movement : Nat := 1
def kSequence_LeftArm : Nat := 2
def kSequence_LeftHand : Nat := 3
def kSequence_Weapon : Nat := 4

/-- Modelled from the spec: playback state of a sequence handle
(spec 3, "Inactive, Animating, other-terminal-states"). -/
def kAnimState_Inactive : Nat := 0
def kAnimState_Animating : Nat := 1

/-- Modelled from the spec: progress stages of a sequence (glossary,
"Progress stage"): hit point, eject point, attach point. -/
def kSeqState_HitOrDetach : Nat := 1
def kSeqState_EjectOrUnequipEnd : Nat := 2

/-- Modelled from the spec: key types of an animation group (glossary,
"Key type"). -/
def kAnimKeyType_ClampSequence : Nat := 0
def kAnimKeyType_LoopingSequenceOrAim : Nat := 1
def kAnimKeyType_Equip : Nat := 2
def kAnimKeyType_Unequip : Nat := 3
def kAnimKeyType_Attack : Nat := 4
def kAnimKeyType_PowerAttackOrPipboy : Nat := 5
def kAnimKeyType_AttackThrow : Nat := 6
def kAnimKeyType_PlaceMine : Nat := 7
def kAnimKeyType_SpinAttack : Nat := 8
def kAnimKeyType_LoopingReload : Nat := 9

/-- Modelled from the spec: locomotion types (spec 3). -/
def kAnimMoveType_Walking : Nat := 0
def kAnimMoveType_Sneaking : Nat := 1
def kAnimMoveType_Swimming : Nat := 2
def kAnimMoveType_Flying : Nat := 3

/-- Modelled from the spec: weapon-hand types (spec 3). -/
def kAnimHandType_H2H : Nat := 0
def kAnimHandType_1HM : Nat := 1
def kAnimHandType_2HM : Nat := 2
def kAnimHandType_1HP : Nat := 3

/-- Modelled from the spec: phases of the character controller
(spec 6, "grounded/jumping/falling"). -/
def kCharControllerState_OnGround : Nat := 0
def kCharControllerState_Jumping : Nat := 1
def kCharControllerState_InAir : Nat := 2

/-- Modelled from the spec: sit/sleep/furniture states (spec 3). -/
def kSitSleepState_Normal : Nat := 0
def kSitSleepState_WaitingForSitAnim : Nat := 3
def kSitSleepState_Sitting : Nat := 4
def kSitSleepState_WantToStand : Nat := 5
def kSitSleepState_WaitingForSleepAnim : Nat := 8
def kSitSleepState_Sleeping : Nat := 9
def kSitSleepState_WantToWake : Nat := 10

/-- Modelled from the spec: the two package types the attack branch asks
for; only their being different matters. -/
def kPackageType_UseItemAt : Nat := 8
def kPackageType_UseWeapon : Nat := 16

/-- Modelled from the spec: weapon-mod effects (spec 3, "installed-mod
flags affecting clip capacity / rate of fire"). -/
def kWeaponModEffect_IncreaseClipCapacity : Nat := 2
def kWeaponModEffect_IncreaseRateOfFire : Nat := 11

/-- Modelled from the spec: movement flags (spec 3, "MovementIntent"). -/
def kMoveFlag_Forward : Nat := 0x1
def kMoveFlag_Backward : Nat := 0x2
def kMoveFlag_Left : Nat := 0x4
def kMoveFlag_Right : Nat := 0x8
def kMoveFlag_TurnLeft : Nat := 0x10
def kMoveFlag_TurnRight : Nat := 0x20
def kMoveFlag_Walking : Nat := 0x100
def kMoveFlag_Running : Nat := 0x200
def kMoveFlag_Sneaking : Nat := 0x400
def kMoveFlag_Swimming : Nat := 0x800
def kMoveFlag_Jump : Nat := 0x1000
def kMoveFlag_Flying : Nat := 0x2000
def kMoveFlag_Fall : Nat := 0x4000
def kMoveFlag_Slide : Nat := 0x8000

/-- Modelled from the spec: base animation groups (spec 3). -/
def kAnimGroup_Idle : Nat := 0
def kAnimGroup_DynamicIdle : Nat := 1
def kAnimGroup_SpecialIdle : Nat := 2
def kAnimGroup_Forward : Nat := 3
def kAnimGroup_Backward : Nat := 4
def kAnimGroup_Left : Nat := 5
def kAnimGroup_Right : Nat := 6
def kAnimGroup_FastForward : Nat := 7
def kAnimGroup_FastBackward : Nat := 8
def kAnimGroup_FastLeft : Nat := 9
def kAnimGroup_FastRight : Nat := 10
def kAnimGroup_DodgeForward : Nat := 11
def kAnimGroup_DodgeBack : Nat := 12
def kAnimGroup_DodgeLeft : Nat := 13
def kAnimGroup_DodgeRight : Nat := 14
def kAnimGroup_TurnLeft : Nat := 15
def kAnimGroup_TurnRight : Nat := 16
def kAnimGroup_Equip : Nat := 24
def kAnimGroup_Unequip : Nat := 25
def kAnimGroup_AttackLoop : Nat := 0x50
def kAnimGroup_AttackLoopIS : Nat := 0x53
def kAnimGroup_Counter : Nat := 0xA8
def kAnimGroup_BlockIdle : Nat := 0xAA
def kAnimGroup_ReloadZStart : Nat := 0xB0
def kAnimGroup_JumpStart : Nat := 0xE3
def kAnimGroup_JumpLoop : Nat := 0xE4
def kAnimGroup_JumpLand : Nat := 0xE5
def kAnimGroup_JumpLoopForward : Nat := 0xEC
def kAnimGroup_JumpLoopBackward : Nat := 0xED
def kAnimGroup_JumpLoopLeft : Nat := 0xEE
def kAnimGroup_JumpLoopRight : Nat := 0xEF
def kAnimGroup_JumpLandForward : Nat := 0xF1
def kAnimGroup_JumpLandBackward : Nat := 0xF2
def kAnimGroup_JumpLandLeft : Nat := 0xF3
def kAnimGroup_JumpLandRight : Nat := 0xF4
def kAnimGroup_Invalid : Nat := 0xFF

/-! ## Data model -/

/-- The two rigs of the player: the primary one and the close-up one. -/
inductive Rig where
  | third
  | first
  deriving DecidableEq, Repr

/-- What the tick reads of a `TESAnimGroup`. -/
structure TESAnimGroup where
  GetSequenceGroup : Nat
  GetMoveType : Nat
  IsAimAnim : Bool
  IsJumping : Bool
  /-- The value of `TESAnimGroup::GetTimeForAction(group, 1)`. -/
  GetTimeForAction : ℚ

/-- What the tick reads of a `BSAnimGroupSequence`. -/
structure BSAnimGroupSequence where
  GetState : Nat
  GetTESAnimGroup : TESAnimGroup

/-- What the tick reads of an `AnimData`; channels are numbered by
`kSequence_*`, sequences are named by their handle. -/
structure AnimData where
  GetAnimSequenceElement : Nat → Option Nat
  GetNthSequenceGroupID : Nat → Nat
  GetSequenceState1 : Nat → Nat
  GetSequenceOffsetPlusTimePassed : Nat → ℚ
  GetAnimGroup08 : Bool
  sub_4985B0 : Bool
  IsNoIdlePlaying : Bool
  idleAnimQueued : Bool
  GetIdleAnimSequence_0 : Option Nat
  GetPlayingAnimGroupMovementVectorMagnitude : Nat → ℚ
  GetSequenceBaseFromMap : Nat → Bool

/-- The state owned by the playback gateway: the primary rig, the optional
close-up rig, and the sequence behind each handle. -/
structure Rigs where
  third : AnimData
  first : Option AnimData
  seq : Nat → BSAnimGroupSequence

/-- What the tick reads of a `TESObjectWEAP`. -/
structure TESObjectWEAP where
  getWeaponType : Nat
  IsAutomatic : Bool
  IsNonMeleeWeapon : Bool
  IsMeleeWeapon : Bool
  NoJamAfterReload : Bool
  GetReloadAnimGroup : Bool → Nat
  GetAnimMult : ℚ
  GetAnimAttackMult : Bool → ℚ
  GetEnchantmentItem : Bool

/-- The weapon profile (`GetWeaponInfo()`): `GetFlags` is the weapon form
the source calls `weap`. -/
structure ContChangesEntry where
  GetFlags : Option TESObjectWEAP
  HasWeaponMod : Nat → Bool
  GetExtraPoison : Bool

/-- What the tick reads of the character controller. -/
structure bhkCharacterController where
  GetContextHkState : Nat
  GetFallTimeElapsed : ℚ
  GetCycleType__Unk24 : Nat

/-- The first child of the weapon bone, as read at lines 129-142. -/
structure WeaponBoneChild where
  /-- The BSX extra data, if any, with the answer of `sub_8978D0`. -/
  extra : Option Bool
  grabLeft : Option Nat
  grabRight : Option Nat

/-- The key built by `Anim_Concat_MoveType_HandType_Group_PowerArmor`.
Modelled from the spec: the packing function is not in the source; spec 3
gives the key as the composite of these four parts. -/
structure AnimationGroupKey where
  moveType : Nat
  handType : Nat
  group : Nat
  powerArmor : Bool
  deriving DecidableEq, Repr

/-- The calls of the tick that act on the outside, with their arguments. -/
inductive Effect where
  | DebugLog
  | EndsSequenceIfNotAim (rig : Rig) (channel : Nat)
  | SetWeaponOut (out : Bool)
  | sub_8D6A80 (handType : Nat) (rig : Rig)
  | SetEquippedWeaponPosition
  | AimWeapon
  | sub_C74890 (side : Nat) (node : Option Nat)
  | sub_8978F0 (a b : Nat)
  | Unk_160
  | sub_8216C0
  | PlaySoundAtActorPos
  | MagicCaster_815870
  | SetAnimActionAndSequence (action : Int) (sequence : Option Nat)
  | SetQueuedIdleFlag
  | sub_899200 (a b : Nat)
  | Reload_
  | PlayAnimGroup (groupID : Nat) (flag : Nat)
  | PlayFirstPersonAnimation
  | PlayAttackAnim (group : Nat)
  | SetByte120To1
  | PlayLandJumpSound (cycleType : Nat)
  | SetQueuedAnimAsCurrent
  | SetMovementSpeedMult (rate : ℚ)
  | SetRateOfFire (rate : ℚ)
  | sub_8A5340
  | Unk_117
  deriving DecidableEq

/-- The ways a tick can go wrong. -/
inductive Fault where
  | nullDeref
  deriving DecidableEq, Repr

/-- Everything a tick reads, the three context values it owns, the gateway
state and the record of its calls. -/
structure World where
  -- entity attributes
  IsDying : Bool
  GetKnockedState : Bool
  isPlayer : Bool
  IsNotFirstPerson : Bool
  hasAnimData : Bool
  hasBaseProcess : Bool
  charController : Option bhkCharacterController
  IsSneaking : Bool
  GetAttackLoopTimeRemaining_111 : ℚ
  GetWantsWeaponOut_IfSwimmingCancelVATS : Bool
  GetWeaponInfo : Option ContChangesEntry
  GetMovementFlags : Nat
  GetSitSleepState : Nat
  /-- The field `byte0E` of the furniture data, if there is any. -/
  GetFurnitureData : Option Nat
  GetMagicItem160 : Bool
  GetIsInCombat : Bool
  /-- The type of the current package, if there is one. -/
  GetCurrentPackage : Option Nat
  IsUsingThrownWeapon : Bool
  IsDoingAttackAnimation : Bool
  GetWalkSpeed : ℚ
  GetRunSpeedMult : ℚ
  weaponBoneChild : Option WeaponBoneChild
  Unk_15D : Bool
  GetMagicShaderHitEffectForActor : Bool
  GetEquippedWeaponHealthBracket : Nat
  Actor_8843A0 : Bool
  Unk_8D : Bool
  GetIsRestrained : Bool
  GetIsUnConscious : Bool
  GetActorType : Nat
  GetByte12A : Bool
  GetByte128 : Bool
  /-- The rate `ApplyPerkModifiers(ModifyAttackSpeed, ..)` leaves in its
  in-out argument. -/
  ApplyPerkModifiers : ℚ → ℚ
  -- globals
  g_animSequenceTypes : Nat → Nat
  g_animKeyTypes : Nat → Nat
  g_weaponTypeToAnim : Nat → Nat
  GetWeaponReloadJamChance : Nat → ℚ
  /-- The draw of the random source consumed by the jam roll. -/
  randomDraw : ℚ
  fJumpAnimDelay : ℚ
  AnimGroup_IsReload : Nat → Bool
  AnimGroup_IsAttack : Nat → Bool
  AnimGroup_IsNonSpecialIdle : Nat → Bool
  AnimGroup_GetMoveType : Nat → Nat
  /-- The key `Actor__GetAnimKey(this, group, 0, 0, animData)` resolves to;
  the last argument is `none` for 0. -/
  Actor__GetAnimKey : Nat → Option Rig → Nat
  /-- The resolver `AnimData::495740(animData, key, 0)` of the primary rig. -/
  AnimData_495740 : AnimationGroupKey → Nat
  -- context owned by the entity
  GetCurrentAnimAction : Int
  GetCurrentSequence : Option Nat
  IsWeaponOut : Bool
  -- gateway
  rigs : Rigs
  ext : Effect → Rigs → Rigs
  trace : List Effect

/-- The local variables of `Actor::PickAnimations` that change after their
initialisation (lines 62-80). -/
structure Locals where
  v167 : ℚ
  movementSpeedMult : ℚ
  animGroup : Nat
  animMoveType : Nat
  animHandType : Nat
  animAction : Int
  currentAnimAction : Int
  /-- The movement-channel handle fetched at line 69. -/
  v159 : Option Nat

/-! ## Helpers that are not in the source file -/

/-- Modelled from the spec: `AnimGroupID::GetGroupID` is not in the source;
a group id carries its base group in its low byte (the source overwrites
that byte, lines 703 and 797, to change the group of an id). -/
def AnimGroupID.GetGroupID (id : Nat) : Nat := id % 256

/-- Modelled from the spec: `RNG::IsRandomDecimalBelow` is not in the
source; spec 6 gives the random source as a uniform draw in [0,1), and the
roll succeeds when the draw is below the chance. -/
def RNG.IsRandomDecimalBelow (draw chance : ℚ) : Bool := decide (draw < chance)

/-- Modelled from the spec: the packing function is not in the source; the
key is the composite of its four arguments (spec 3). -/
def Anim_Concat_MoveType_HandType_Group_PowerArmor
    (moveType handType group : Nat) (isPowerArmor : Bool) : AnimationGroupKey :=
  ⟨moveType, handType, group, isPowerArmor⟩

/-- A member read through a handle: absent handles fault. -/
def deref {α : Type} : Option α → Except Fault α
  | some a => Except.ok a
  | none => Except.error Fault.nullDeref

namespace World

/-- Record a call and let the gateway state react to it. -/
def perform (w : World) (e : Effect) : World :=
  { w with trace := w.trace ++ [e], rigs := w.ext e w.rigs }

/-- Lines 72-76: `weap` is the form of the weapon profile, 0 without one. -/
def weap (w : World) : Option TESObjectWEAP :=
  match w.GetWeaponInfo with
  | some weapInfo => weapInfo.GetFlags
  | none => none

/-- Modelled from the spec: `Actor::SetAnimActionAndSequence` is not in the
source; it records the action and the sequence handle that drives it
(spec 3, ActorAnimationContext). -/
def SetAnimActionAndSequence (w : World) (action : Int) (sequence : Option Nat) : World :=
  { w with trace := w.trace ++ [Effect.SetAnimActionAndSequence action sequence],
           GetCurrentAnimAction := action, GetCurrentSequence := sequence }

/-- Modelled from the spec: `SetWeaponOut` is not in the source; it sets the
weapon-out flag of the context. -/
def SetWeaponOut (w : World) (out : Bool) : World :=
  { w with trace := w.trace ++ [Effect.SetWeaponOut out], IsWeaponOut := out }

/-- The `TESAnimGroup` behind a sequence handle. -/
def group (w : World) (sequence : Nat) : TESAnimGroup :=
  (w.rigs.seq sequence).GetTESAnimGroup

/-- The value of `Actor::Process::GetByte12A(this) || Actor::Process::GetByte128(this)`. -/
def isPowerArmor (w : World) : Bool := w.GetByte12A || w.GetByte128

end World

/-! ## Describing what a block of the tick did -/

/-- `w.Performs P w1`: the state `w1` comes from `w` by further recorded
calls, each of which satisfies `P`, with the three context values (weapon-out
flag, current action, current sequence) unchanged. -/
def World.Performs (P : Effect → Prop) (w w1 : World) : Prop :=
  w1.IsWeaponOut = w.IsWeaponOut ∧ w1.GetCurrentAnimAction = w.GetCurrentAnimAction ∧
    w1.GetCurrentSequence = w.GetCurrentSequence ∧
    ∃ es, w1.trace = w.trace ++ es ∧ ∀ e ∈ es, P e

/-- `w.sameHost w1`: the state `w1` differs from `w` at most in the recorded
calls, the gateway state and the three context values; every attribute of
the entity and every global table reads the same. -/
def World.sameHost (w w1 : World) : Prop :=
  ∃ calls rigs action sequence out,
    w1 = { w with trace := calls, rigs := rigs, GetCurrentAnimAction := action,
                  GetCurrentSequence := sequence, IsWeaponOut := out }

/-- `w.Records P w1`: the state `w1` comes from `w` by further recorded
calls, each of which satisfies `P`; the context values may have changed. -/
def World.Records (P : Effect → Prop) (w w1 : World) : Prop :=
  ∃ es, w1.trace = w.trace ++ es ∧ ∀ e ∈ es, P e

/-- The locals `l1` differ from `l` at most in the requested action and in
the speed target. -/
def Locals.keepsKey (l l1 : Locals) : Prop :=
  l1.v167 = l.v167 ∧ l1.animGroup = l.animGroup ∧ l1.animMoveType = l.animMoveType ∧
    l1.animHandType = l.animHandType ∧ l1.currentAnimAction = l.currentAnimAction ∧
    l1.v159 = l.v159

/-- The three actions a tick can request (lines 497, 532, 538). -/
def isRequestedAction (action : Int) : Bool :=
  action == kAnimAction_Equip_Weapon || action == kAnimAction_Unequip_Weapon ||
    action == kAnimAction_Wait_For_Lower_Body_Anim

/-- A call of `Actor::SetAnimActionAndSequence` with one of the three
actions a tick can request. -/
def Effect.isRequestCommit : Effect → Bool
  | Effect.SetAnimActionAndSequence action _ => isRequestedAction action
  | _ => false

/-- What the request phase (lines 466-540) can make of the locals `l`:
either nothing is requested, the action in flight is kept and the group is
kept or becomes JumpLoop; or one of the three actions is requested, the
action in flight reads None, the group lies above the movement groups, and
the action in flight before the phase was None or a case label of line 470. -/
def RequestOutcome (l l2 : Locals) : Prop :=
  l2.v167 = l.v167 ∧ l2.animMoveType = l.animMoveType ∧ l2.animHandType = l.animHandType ∧
    l2.movementSpeedMult = l.movementSpeedMult ∧
    ((l2.animAction = -1 ∧ l2.currentAnimAction = l.currentAnimAction ∧
        (l2.animGroup = l.animGroup ∨ l2.animGroup = kAnimGroup_JumpLoop)) ∨
      (isRequestedAction l2.animAction = true ∧ l2.currentAnimAction = -1 ∧
        kAnimGroup_TurnRight < l2.animGroup ∧ l2.animGroup ≠ kAnimGroup_JumpLoop ∧
        (l.currentAnimAction = -1 ∨ l.currentAnimAction = kAAP1_Unequip_Weapon ∨
          l.currentAnimAction = kAAP1_Attack_Eject ∨ l.currentAnimAction = kAAP1_Dodge)))

/-- A call of `AnimData::SetMovementSpeedMult` or `AnimData::SetRateOfFire`. -/
def Effect.isSpeedOrRate : Effect → Bool
  | Effect.SetMovementSpeedMult _ => true
  | Effect.SetRateOfFire _ => true
  | _ => false

/-- A call the block of lines 419-464 can make: the commit of Block, Reload
or None, and the two playback calls of the jam reload. -/
def Effect.isFallback : Effect → Bool
  | Effect.SetAnimActionAndSequence action _ =>
    action == kAnimAction_None || action == kAnimAction_Block || action == kAnimAction_Reload
  | Effect.PlayAttackAnim _ => true
  | Effect.PlayFirstPersonAnimation => true
  | _ => false

/-- A call of the combat resolver `sub_899200`. -/
def Effect.isFire : Effect → Bool
  | Effect.sub_899200 _ _ => true
  | _ => false

/-- A call that lines 466-962 can make, once the action phase is over. -/
def Effect.isAfterAction : Effect → Bool
  | Effect.SetByte120To1 => true
  | Effect.PlayLandJumpSound _ => true
  | Effect.SetQueuedAnimAsCurrent => true
  | Effect.SetWeaponOut _ => true
  | Effect.SetMovementSpeedMult _ => true
  | Effect.SetRateOfFire _ => true
  | Effect.PlayAnimGroup _ _ => true
  | Effect.PlayFirstPersonAnimation => true
  | Effect.EndsSequenceIfNotAim _ _ => true
  | Effect.SetAnimActionAndSequence _ _ => true
  | Effect.sub_8A5340 => true
  | Effect.Unk_117 => true
  | _ => false

/-- `w.FiresOnce w1`: from `w` to `w1` the combat resolver `sub_899200` is
called exactly once, before any other call. -/
def World.FiresOnce (w w1 : World) : Prop :=
  ∃ a b es, w1.trace = w.trace ++ Effect.sub_899200 a b :: es ∧
    ∀ e ∈ es, Effect.isFire e = false

/-- A call of `Actor::SetAnimActionAndSequence`. -/
def Effect.isSetAction : Effect → Bool
  | Effect.SetAnimActionAndSequence _ _ => true
  | _ => false

/-- Modelled from the spec: the edges of the transition table (spec 4.2)
that the action phase may take while the action's sequence is live, from
the tick-start action to the action set. -/
def transitionEdge (action next : Int) : Bool :=
  (action == kAnimAction_Attack &&
      (next == kAnimAction_Attack_Follow_Through || next == kAnimAction_Attack_Eject)) ||
    (action == kAnimAction_Attack_Eject && next == kAnimAction_Attack_Follow_Through) ||
    (action == kAnimAction_Attack_Throw && next == kAnimAction_Attack_Throw_Attach) ||
    (action == kAnimAction_Attack_Throw_Attach &&
      next == kAnimAction_Attack_Follow_Through) ||
    (action == kAnimAction_ReloadLoop &&
      (next == kAnimAction_None || next == kAnimAction_ReloadLoop)) ||
    (action == kAnimAction_Wait_For_Lower_Body_Anim && next == kAnimAction_None)

/-- Modelled from the spec: the actions of the edge "any state to None,
Block or Reload" of the transition table (spec 4.2). -/
def isFallbackAction (next : Int) : Bool :=
  next == kAnimAction_None || next == kAnimAction_Block || next == kAnimAction_Reload

/-- Modelled from the spec: the actions the transition table (spec 4.2)
lets no tick set; they are started from outside. -/
def isForeignAction (next : Int) : Bool :=
  next == kAnimAction_Attack || next == kAnimAction_Attack_Throw ||
    next == kAnimAction_Dodge || next == kAnimAction_Force_Script_Anim

/-- `w.SetsOnly T w1`: from `w` to `w1` the current action is unchanged or
satisfies `T`, and every recorded call of `Actor::SetAnimActionAndSequence`
sets an action that satisfies `T`. -/
def World.SetsOnly (T : Int → Bool) (w w1 : World) : Prop :=
  (w1.GetCurrentAnimAction = w.GetCurrentAnimAction ∨ T w1.GetCurrentAnimAction = true) ∧
    ∃ es, w1.trace = w.trace ++ es ∧
      ∀ action sequence, Effect.SetAnimActionAndSequence action sequence ∈ es →
        T action = true

/-- A call addressed to the close-up rig. -/
def Effect.onFirst : Effect → Bool
  | Effect.EndsSequenceIfNotAim Rig.first _ => true
  | Effect.sub_8D6A80 _ Rig.first => true
  | _ => false

/-- The state `w` met after the calls `calls` instead of after none, and
with `first` applied to what the close-up rig holds. -/
def World.shift (calls : List Effect) (first : Option AnimData → Option AnimData)
    (w : World) : World :=
  { w with trace := calls ++ w.trace, rigs := { w.rigs with first := first w.rigs.first } }

/-- `w.Shifts first`: either `first` changes nothing, or the entity is not
the player and the gateway treats the close-up rig apart: a call that is not
addressed to the close-up rig reacts the same whatever `first` makes of that
rig, and commutes with `first` on it. -/
def World.Shifts (first : Option AnimData → Option AnimData) (w : World) : Prop :=
  (∀ x, first x = x) ∨
    (w.isPlayer = false ∧
      ∀ e, Effect.onFirst e = false → ∀ r : Rigs,
        w.ext e { r with first := first r.first }
          = { w.ext e r with first := first (w.ext e r).first })

/-! ## The action phase (lines 81-465) -/

namespace Actor.PickAnimations

/-- Lines 96-114: the per-rig loop of the equip/unequip commit, counting
`v128` down; the rig is the close-up one in the player's last round. -/
def equipRigLoop : Nat → World → World
  | 0, w => w
  | v128 + 1, w =>
    let first := w.isPlayer ∧ v128 + 1 = 1
    let animData_1 := if first then w.rigs.first else some w.rigs.third
    let w1 :=
      match w.weap, animData_1 with
      | some weap, some animData_1 =>
        if ¬ w.IsWeaponOut ∧ animData_1.GetAnimGroup08 then
          w.perform (Effect.sub_8D6A80 (w.g_weaponTypeToAnim weap.getWeaponType)
            (if first then Rig.first else Rig.third))
        else w
      | _, _ => w
    equipRigLoop v128 (w1.perform Effect.SetEquippedWeaponPosition)

/-- Lines 116-149: the player's rag-doll grab nodes after a commit. -/
def equipRagDoll (w : World) (currentAnimAction : Int) : World :=
  if currentAnimAction ≠ 0 then
    (((w.perform (Effect.sub_C74890 0 none)).perform (Effect.sub_C74890 1 none)).perform
      (Effect.sub_8978F0 1 1)).perform (Effect.sub_8978F0 1 1)
  else
    let grab : Option Nat × Option Nat :=
      match w.weaponBoneChild with
      | some v125 =>
        match v125.extra with
        | some true => (v125.grabLeft, v125.grabRight)
        | _ => (none, none)
      | none => (none, none)
    (w.perform (Effect.sub_C74890 0 grab.1)).perform (Effect.sub_C74890 1 grab.2)

/-- Lines 151-178: the cue played when the weapon is out after the commit. -/
def equipCue (w : World) : World :=
  if w.IsWeaponOut ∧ w.Unk_15D then
    let w1 := if w.GetMagicShaderHitEffectForActor then w.perform Effect.sub_8216C0 else w
    match w1.GetWeaponInfo with
    | some weapInfo =>
      match weapInfo.GetFlags with
      | some weap =>
        if weap.GetEnchantmentItem ∨ weapInfo.GetExtraPoison then
          w1.perform Effect.PlaySoundAtActorPos
        else w1
      | none => w1
    | none => w1
  else w

/-- Lines 86-180: `case kAnimAction_Equip_Weapon` and
`case kAnimAction_Unequip_Weapon`.  The arguments of `SetWeaponOut()` at
line 95 are elided in the source. Modelled from the spec: the flag flips to
match the requested phase (spec 4.2). -/
def caseEquipUnequip (w : World) (currentAnimAction : Int) : World :=
  if w.IsWeaponOut ≠ decide (currentAnimAction = kAnimAction_Equip_Weapon) ∧
      kSeqState_HitOrDetach ≤ w.rigs.third.GetSequenceState1 kSequence_Weapon then
    let v128 := if w.isPlayer then 2 else 1
    let w1 := w.SetWeaponOut (decide (currentAnimAction = kAnimAction_Equip_Weapon))
    let w2 := equipRigLoop v128 w1
    let w3 := w2.perform Effect.AimWeapon
    let w4 := if w3.isPlayer then equipRagDoll w3 currentAnimAction else w3
    equipCue (w4.perform Effect.Unk_160)
  else w

/-- The test of lines 220 and 253 on the current package. -/
def usesItemOrWeapon (w : World) : Bool :=
  match w.GetCurrentPackage with
  | some type => type == kPackageType_UseItemAt || type == kPackageType_UseWeapon
  | none => false

/-- Lines 210-228: the effect of a plain attack at the hit stage. -/
def fireAttack (w : World) : World :=
  if w.GetMagicItem160 then w.perform Effect.MagicCaster_815870
  else
    match w.weap with
    | some weap =>
      if ¬ weap.IsAutomatic then
        if weap.IsNonMeleeWeapon then w.perform Effect.SetQueuedIdleFlag
        else if w.isPlayer ∨ w.GetIsInCombat ∨ usesItemOrWeapon w then
          w.perform (Effect.sub_899200 0 1)
        else w.perform (Effect.sub_899200 0 0)
      else w
    | none =>
      if w.isPlayer ∨ w.GetIsInCombat ∨ usesItemOrWeapon w then
        w.perform (Effect.sub_899200 0 1)
      else w.perform (Effect.sub_899200 0 0)

/-- Lines 245-261: the effect of a power attack at the hit stage. -/
def firePowerAttack (w : World) : World :=
  if w.isPlayer ∨ w.GetIsInCombat then w.perform (Effect.sub_899200 1 1)
  else if usesItemOrWeapon w ∧ ¬ w.IsUsingThrownWeapon then w.perform (Effect.sub_899200 0 1)
  else w.perform (Effect.sub_899200 1 0)

/-- Line 231: no weapon, or an automatic or melee one. -/
def followsThrough (w : World) : Bool :=
  match w.weap with
  | some weap => weap.IsAutomatic || weap.IsMeleeWeapon
  | none => true

/-- Lines 181-275: `case kAnimAction_Attack`. -/
def caseAttack (w : World) : Except Fault World := do
  let curTPSAnim ← deref w.GetCurrentSequence
  let sequenceType := w.g_animSequenceTypes (9 * (w.group curTPSAnim).GetSequenceGroup)
  if sequenceType = kSequence_LeftArm then
    if w.rigs.third.GetSequenceState1 kSequence_LeftArm = kSeqState_HitOrDetach then
      let v38 := w.rigs.third.GetNthSequenceGroupID kSequence_LeftArm
      let v98 := w.g_animKeyTypes (9 * AnimGroupID.GetGroupID v38)
      if kAnimKeyType_Attack ≤ v98 ∧ v98 ≤ kAnimKeyType_PowerAttackOrPipboy then
        let w1 := if w.GetMagicItem160 then w.perform Effect.MagicCaster_815870 else w
        pure (w1.SetAnimActionAndSequence kAnimAction_Attack_Follow_Through w1.GetCurrentSequence)
      else pure w
    else pure w
  else if sequenceType = kSequence_Weapon then
    if w.g_animKeyTypes (9 * (w.group curTPSAnim).GetSequenceGroup)
          ≠ kAnimKeyType_LoopingSequenceOrAim ∧
        w.rigs.third.GetSequenceState1 kSequence_Weapon = kSeqState_HitOrDetach then
      let v33 := w.rigs.third.GetNthSequenceGroupID kSequence_Weapon
      let v102 := w.g_animKeyTypes (9 * AnimGroupID.GetGroupID v33)
      if v102 = kAnimKeyType_Attack then
        let w1 := fireAttack w
        if w1.IsDoingAttackAnimation then
          if followsThrough w1 then
            pure (w1.SetAnimActionAndSequence kAnimAction_Attack_Follow_Through
              w1.GetCurrentSequence)
          else
            pure (w1.SetAnimActionAndSequence kAnimAction_Attack_Eject w1.GetCurrentSequence)
        else pure w1
      else if v102 = kAnimKeyType_PowerAttackOrPipboy then
        let w1 := firePowerAttack w
        if w1.IsDoingAttackAnimation then
          pure (w1.SetAnimActionAndSequence kAnimAction_Attack_Follow_Through
            w1.GetCurrentSequence)
        else pure w1
      else if v102 = kAnimKeyType_SpinAttack ∧ w.GetAttackLoopTimeRemaining_111 = 0 then
        pure (w.SetAnimActionAndSequence kAnimAction_Attack_Follow_Through w.GetCurrentSequence)
      else pure w
    else pure w
  else pure w

/-- Lines 276-293: `case kAnimAction_Attack_Eject`. -/
def caseAttackEject (w : World) : Except Fault World := do
  let v40 ← deref w.GetCurrentSequence
  if w.g_animSequenceTypes (9 * (w.group v40).GetSequenceGroup) = kSequence_Weapon then
    match w.weap with
    | some _ =>
      if w.g_animKeyTypes (9 * (w.group v40).GetSequenceGroup)
            ≠ kAnimKeyType_LoopingSequenceOrAim ∧
          w.rigs.third.GetSequenceState1 kSequence_Weapon = kSeqState_EjectOrUnequipEnd then
        let w1 := w.perform Effect.SetQueuedIdleFlag
        pure (w1.SetAnimActionAndSequence kAnimAction_Attack_Follow_Through
          w1.GetCurrentSequence)
      else pure w
    | none => pure w
  else pure w

/-- Lines 308-309 and 331: a weapon that is not a melee weapon. -/
def hasNonMeleeWeapon (w : World) : Bool :=
  match w.weap with
  | some weap => ! weap.IsMeleeWeapon
  | none => false

/-- Lines 294-317: `case kAnimAction_Attack_Throw`. -/
def caseAttackThrow (w : World) : Except Fault World := do
  let currSequenceID ← deref w.GetCurrentSequence
  let keyType := w.g_animKeyTypes (9 * (w.group currSequenceID).GetSequenceGroup)
  if keyType = kAnimKeyType_AttackThrow ∨ keyType = kAnimKeyType_PlaceMine then
    let releaseKeyID :=
      if keyType = kAnimKeyType_AttackThrow then kSeqState_EjectOrUnequipEnd
      else kSeqState_HitOrDetach
    if w.rigs.third.GetSequenceState1 kSequence_Weapon = releaseKeyID then
      let w1 := if hasNonMeleeWeapon w then w.perform Effect.SetQueuedIdleFlag else w
      if w1.IsDoingAttackAnimation then
        pure (w1.SetAnimActionAndSequence kAnimAction_Attack_Throw_Attach w1.GetCurrentSequence)
      else pure w1
    else pure w
  else pure w

/-- Lines 338-347: the per-rig loop of the throw attach. -/
def attachRigLoop : Nat → World → World
  | 0, w => w
  | v133 + 1, w => attachRigLoop v133 (w.perform Effect.SetEquippedWeaponPosition)

/-- Lines 318-356: `case kAnimAction_Attack_Throw_Attach`. -/
def caseAttackThrowAttach (w : World) : Except Fault World := do
  let v26 ← deref w.GetCurrentSequence
  let v104 := w.g_animKeyTypes (9 * (w.group v26).GetSequenceGroup)
  if v104 = kAnimKeyType_AttackThrow ∨ v104 = kAnimKeyType_PlaceMine then
    let attachKeyID := if v104 = kAnimKeyType_AttackThrow then 3 else 2
    if w.rigs.third.GetSequenceState1 kSequence_Weapon = attachKeyID then
      let w1 :=
        if hasNonMeleeWeapon w then attachRigLoop (if w.isPlayer then 2 else 1) w else w
      if w1.IsDoingAttackAnimation then
        pure (w1.SetAnimActionAndSequence kAnimAction_Attack_Follow_Through
          w1.GetCurrentSequence)
      else pure w1
    else pure w
  else pure w

/-- Lines 360-376: `case kAnimAction_Wait_For_Lower_Body_Anim`; the jump to
`LABEL_203` runs line 463. -/
def caseWaitForLowerBody (charController : bhkCharacterController) (w : World) (l : Locals) :
    World :=
  if w.GetSitSleepState = kSitSleepState_Normal then
    if charController.GetContextHkState = kCharControllerState_Jumping then
      w.SetAnimActionAndSequence kAnimAction_None none
    else if charController.GetContextHkState = kCharControllerState_InAir then
      match l.v159 with
      | some v159 =>
        if (w.group v159).IsJumping then w.SetAnimActionAndSequence kAnimAction_None none
        else w
      | none => w
    else w
  else w

/-- Lines 377-414: `case kAnimAction_ReloadLoop`. -/
def caseReloadLoop (w : World) (l : Locals) : Except Fault (World × Locals) := do
  let anim ← deref w.GetCurrentSequence
  let sequenceType_ := (w.group anim).GetSequenceGroup
  if w.GetWantsWeaponOut_IfSwimmingCancelVATS ∧ ¬ w.IsWeaponOut ∧ w.weap.isSome ∧
      w.GetWeaponInfo.isSome then
    let w1 := w.perform Effect.Reload_
    pure (w1.SetAnimActionAndSequence kAnimAction_None none, { l with animAction := -1 })
  else if kAnimGroup_ReloadZStart < sequenceType_ then
    if w.rigs.third.GetSequenceState1 kSequence_Weapon = kAnimState_Animating then
      pure (w.perform Effect.SetQueuedIdleFlag, l)
    else pure (w, l)
  else
    let SequenceOffsetPlusTimePassed := w.rigs.third.GetSequenceOffsetPlusTimePassed anim
    if (w.group anim).GetTimeForAction ≤ SequenceOffsetPlusTimePassed then
      let weapInfo ← deref w.GetWeaponInfo
      let v23 := weapInfo.HasWeaponMod kWeaponModEffect_IncreaseClipCapacity
      let weap ← deref w.weap
      let a2a := weap.GetReloadAnimGroup v23
      let AnimKey := w.Actor__GetAnimKey a2a none
      let w1 :=
        if AnimGroupID.GetGroupID AnimKey = a2a then
          let w2 := w.perform (Effect.PlayAnimGroup AnimKey 1)
          if w2.isPlayer then w2.perform Effect.PlayFirstPersonAnimation else w2
        else w
      let v24 := w1.rigs.third.GetAnimSequenceElement kSequence_Weapon
      pure (w1.SetAnimActionAndSequence kAnimAction_ReloadLoop v24,
        { l with animAction := kAnimAction_ReloadLoop })
    else pure (w, l)

/-- Lines 421-430: adopt Block when the off-hand channel plays BlockIdle. -/
def adoptBlock (w : World) (l : Locals) : World × Locals :=
  match w.rigs.third.GetAnimSequenceElement kSequence_LeftArm with
  | some v53 =>
    if AnimGroupID.GetGroupID (w.rigs.third.GetNthSequenceGroupID kSequence_LeftArm)
        = kAnimGroup_BlockIdle then
      (w.SetAnimActionAndSequence kAnimAction_Block (some v53),
        { l with animAction := kAnimAction_Block })
    else (w, l)
  | none => (w, l)

/-- Lines 431-460: the reload jam roll. -/
def jamRoll (w : World) (l : Locals) : Except Fault (World × Locals) :=
  match w.weap with
  | some weap =>
    if ¬ weap.NoJamAfterReload ∧ l.currentAnimAction = kAnimAction_Reload then do
      let v54 ← deref w.GetCurrentSequence
      let v56 := (w.group v54).GetSequenceGroup
      if w.AnimGroup_IsReload v56 then
        let v120 := w.GetEquippedWeaponHealthBracket
        if 0 < w.GetWeaponReloadJamChance v120 then
          let WeaponReloadJamChance := w.GetWeaponReloadJamChance v120
          if RNG.IsRandomDecimalBelow w.randomDraw WeaponReloadJamChance then
            let animGroupID := weap.GetReloadAnimGroup false + 23
            let v119 := w.Actor__GetAnimKey animGroupID none
            if AnimGroupID.GetGroupID v119 = animGroupID then
              let w1 := w.perform (Effect.PlayAttackAnim animGroupID)
              let v57 := w1.rigs.third.GetAnimSequenceElement kSequence_Weapon
              let w2 := w1.SetAnimActionAndSequence kAnimAction_Reload v57
              pure (w2.perform Effect.PlayFirstPersonAnimation,
                { l with animAction := kAnimAction_Reload })
            else pure (w, l)
          else pure (w, l)
        else pure (w, l)
      else pure (w, l)
    else pure (w, l)
  | none => pure (w, l)

/-- Lines 419-464: the action's sequence is absent or Inactive. -/
def noLiveSequence (w : World) (l : Locals) : Except Fault (World × Locals) := do
  let (w1, l1) := adoptBlock w l
  let (w2, l2) ← jamRoll w1 l1
  if l2.animAction = -1 then
    pure (w2.SetAnimActionAndSequence kAnimAction_None none, l2)
  else pure (w2, l2)

/-- Lines 85-417: the switch on the action in flight. -/
def switchAction (charController : bhkCharacterController) (w : World) (l : Locals) :
    Except Fault (World × Locals) :=
  if l.currentAnimAction = kAnimAction_Equip_Weapon ∨
      l.currentAnimAction = kAnimAction_Unequip_Weapon then
    pure (caseEquipUnequip w l.currentAnimAction, l)
  else if l.currentAnimAction = kAnimAction_Attack then do
    pure ((← caseAttack w), l)
  else if l.currentAnimAction = kAnimAction_Attack_Eject then do
    pure ((← caseAttackEject w), l)
  else if l.currentAnimAction = kAnimAction_Attack_Throw then do
    pure ((← caseAttackThrow w), l)
  else if l.currentAnimAction = kAnimAction_Attack_Throw_Attach then do
    pure ((← caseAttackThrowAttach w), l)
  else if l.currentAnimAction = kAnimAction_Dodge then
    pure (w, { l with movementSpeedMult := w.GetWalkSpeed })
  else if l.currentAnimAction = kAnimAction_Wait_For_Lower_Body_Anim then
    pure (caseWaitForLowerBody charController w l, l)
  else if l.currentAnimAction = kAnimAction_ReloadLoop then
    caseReloadLoop w l
  else pure (w, l)

/-- Lines 81-465: advance the action in flight, if there is one. -/
def actionPhase (charController : bhkCharacterController) (w : World) (l : Locals) :
    Except Fault (World × Locals) :=
  if l.currentAnimAction ≠ kAnimAction_None then
    match w.GetCurrentSequence with
    | some sequence =>
      if (w.rigs.seq sequence).GetState ≠ 0 then switchAction charController w l
      else noLiveSequence w l
    | none => noLiveSequence w l
  else pure (w, l)

end Actor.PickAnimations

/-! ## Requests, hand type, locomotion type and classification (lines 466-665) -/

namespace Actor.PickAnimations

/-- Lines 498-517: the landing group for the direction held. -/
def landGroup (moveFlags : Nat) : Nat :=
  if moveFlags &&& kMoveFlag_Forward ≠ 0 then kAnimGroup_JumpLandForward
  else if moveFlags &&& kMoveFlag_Backward ≠ 0 then kAnimGroup_JumpLandBackward
  else if moveFlags &&& kMoveFlag_Left ≠ 0 then kAnimGroup_JumpLandLeft
  else if moveFlags &&& kMoveFlag_Right ≠ 0 then kAnimGroup_JumpLandRight
  else kAnimGroup_JumpLand

/-- Line 485: `v159 && TESAnimGroup::IsJumping(BSAnimGroupSequence::GetTESAnimGroup(v159))`. -/
def movementIsJumping (w : World) (v159 : Option Nat) : Bool :=
  match v159 with
  | some v159 => (w.group v159).IsJumping
  | none => false

/-- Lines 475-523: the body shared by the four case labels of line 470. -/
def jumpOrLand (charController : bhkCharacterController) (w : World) (l : Locals) :
    World × Locals :=
  let v92 := charController.GetContextHkState
  if v92 ≠ 0 then
    if v92 = kCharControllerState_Jumping then (w, { l with animGroup := kAnimGroup_JumpLoop })
    else if v92 = kCharControllerState_InAir then
      if w.fJumpAnimDelay < charController.GetFallTimeElapsed ∨ movementIsJumping w l.v159 then
        (w, { l with animGroup := kAnimGroup_JumpLoop })
      else (w, l)
    else (w, l)
  else
    match l.v159 with
    | some v159 =>
      if (w.group v159).IsJumping ∨ (w.group v159).GetSequenceGroup = kAnimGroup_JumpStart then
        ((w.perform Effect.SetByte120To1).perform
            (Effect.PlayLandJumpSound charController.GetCycleType__Unk24),
          { l with currentAnimAction := -1,
                   animAction := kAnimAction_Wait_For_Lower_Body_Anim,
                   animGroup := landGroup w.GetMovementFlags })
      else (w, l)
    | none => (w, l)

/-- Lines 466-540: request a landing, an equip or an unequip. -/
def requestPhase (charController : bhkCharacterController) (w : World) (l : Locals) :
    World × Locals :=
  if l.animAction = -1 then
    let (w1, l1) :=
      if w.GetSitSleepState = kSitSleepState_Normal then
        let (w2, l2) :=
          if l.currentAnimAction = -1 ∨ l.currentAnimAction = kAAP1_Unequip_Weapon ∨
              l.currentAnimAction = kAAP1_Attack_Eject ∨ l.currentAnimAction = kAAP1_Dodge then
            jumpOrLand charController w l
          else (w, l)
        if w2.GetWantsWeaponOut_IfSwimmingCancelVATS ∧ ¬ w2.IsWeaponOut ∧
            l2.currentAnimAction = -1 ∧ w2.Actor_8843A0 then
          ((if ¬ w2.rigs.third.IsNoIdlePlaying then w2.perform Effect.SetQueuedAnimAsCurrent
            else w2),
            { l2 with animGroup := kAnimGroup_Equip, animAction := kAnimAction_Equip_Weapon })
        else (w2, l2)
      else (w, l)
    if ¬ w1.GetWantsWeaponOut_IfSwimmingCancelVATS ∧ w1.IsWeaponOut ∧
        l1.currentAnimAction = -1 ∧ ¬ w1.Unk_8D ∧ ¬ w1.IsDying ∧ ¬ w1.GetKnockedState ∧
        ¬ w1.GetIsRestrained ∧ ¬ w1.GetIsUnConscious then
      (w1, { l1 with animGroup := kAnimGroup_Unequip, animAction := kAnimAction_Unequip_Weapon })
    else (w1, l1)
  else (w, l)

/-- Lines 541-552: the weapon-hand type of the key. -/
def pickHandType (w : World) (l : Locals) : Except Fault Locals :=
  if (w.GetActorType = 0 ∧ (w.GetWantsWeaponOut_IfSwimmingCancelVATS ∨ w.GetIsInCombat)) ∨
      w.IsWeaponOut ∨ l.animAction ≤ 1 then
    match w.GetWeaponInfo with
    | some weapInfo => do
      let v62 ← deref weapInfo.GetFlags
      pure { l with animHandType := w.g_weaponTypeToAnim v62.getWeaponType }
    | none => pure { l with animHandType := kAnimHandType_1HM }
  else pure l

/-- Lines 553-564: the locomotion type of the key. -/
def pickMoveType (w : World) (l : Locals) : Locals :=
  if w.GetMovementFlags &&& kMoveFlag_Swimming ≠ 0 then
    { l with animMoveType := kAnimMoveType_Swimming }
  else if w.GetMovementFlags &&& kMoveFlag_Flying ≠ 0 then
    { l with animMoveType := kAnimMoveType_Flying }
  else if w.GetMovementFlags &&& kMoveFlag_Sneaking ≠ 0 then
    { l with animMoveType := kAnimMoveType_Sneaking }
  else l

/-- The mask `kMoveFlag_Right | kMoveFlag_Left | kMoveFlag_Backward | kMoveFlag_Forward`. -/
def kMoveFlag_AnyDirection : Nat :=
  kMoveFlag_Right ||| kMoveFlag_Left ||| kMoveFlag_Backward ||| kMoveFlag_Forward

/-- The mask of line 636. -/
def kMoveFlag_AnyMode : Nat :=
  kMoveFlag_Slide ||| kMoveFlag_Fall ||| kMoveFlag_Flying ||| kMoveFlag_Jump |||
    kMoveFlag_Swimming ||| kMoveFlag_Sneaking ||| kMoveFlag_Running ||| kMoveFlag_Walking

/-- Lines 567-585: the jump loop for the direction held. -/
def jumpLoopGroup (moveFlags : Nat) (animGroup : Nat) : Nat :=
  if animGroup = kAnimGroup_JumpLoop ∧ moveFlags &&& kMoveFlag_AnyDirection ≠ 0 then
    if moveFlags &&& kMoveFlag_Forward ≠ 0 then kAnimGroup_JumpLoopForward
    else if moveFlags &&& kMoveFlag_Backward ≠ 0 then kAnimGroup_JumpLoopBackward
    else if moveFlags &&& kMoveFlag_Left ≠ 0 then kAnimGroup_JumpLoopLeft
    else if moveFlags &&& kMoveFlag_Right ≠ 0 then kAnimGroup_JumpLoopRight
    else animGroup
  else animGroup

/-- Lines 589-609: the idle of a seated or sleeping entity. -/
def sitSleepGroup (w : World) (l : Locals) : Except Fault Locals :=
  let furnitureOk : Bool :=
    match w.GetFurnitureData with
    | some byte0E => decide (byte0E ≤ 0x14)
    | none => true
  if w.GetSitSleepState = kSitSleepState_WaitingForSitAnim ∨
      w.GetSitSleepState = kSitSleepState_WaitingForSleepAnim then
    if (w.rigs.third.sub_4985B0 ∨ w.rigs.third.IsNoIdlePlaying) ∧ furnitureOk then
      pure { l with animGroup := kAnimGroup_DynamicIdle }
    else pure l
  else if w.GetSitSleepState = kSitSleepState_Sitting ∨
      w.GetSitSleepState = kSitSleepState_WantToStand ∨
      w.GetSitSleepState = kSitSleepState_Sleeping ∨
      w.GetSitSleepState = kSitSleepState_WantToWake then do
    let idleAnimQueued ←
      if w.isPlayer then do
        let firstPersonAnimData ← deref w.rigs.first
        pure firstPersonAnimData.idleAnimQueued
      else pure false
    if ¬ idleAnimQueued then
      if furnitureOk then pure { l with animGroup := kAnimGroup_DynamicIdle } else pure l
    else pure l
  else pure l

/-- Lines 611-664: the directional and turn block. -/
def directionBlock (w : World) (l : Locals) : Locals :=
  let moveFlags := w.GetMovementFlags
  if moveFlags &&& kMoveFlag_AnyDirection ≠ 0 then
    if moveFlags &&& kMoveFlag_Running ≠ 0 then
      let animGroup :=
        if moveFlags &&& 1 ≠ 0 then kAnimGroup_FastForward
        else if moveFlags &&& 2 ≠ 0 then kAnimGroup_FastBackward
        else if moveFlags &&& 4 ≠ 0 then kAnimGroup_FastLeft
        else if moveFlags &&& 8 ≠ 0 then kAnimGroup_FastRight
        else l.animGroup
      { l with animGroup := animGroup,
               movementSpeedMult :=
                 if w.GetActorType ≠ 0 then w.GetRunSpeedMult else w.GetWalkSpeed }
    else if moveFlags &&& kMoveFlag_AnyMode ≠ 0 then
      let animGroup :=
        if moveFlags &&& kMoveFlag_Forward ≠ 0 then kAnimGroup_Forward
        else if moveFlags &&& kMoveFlag_Backward ≠ 0 then kAnimGroup_Backward
        else if moveFlags &&& kMoveFlag_Left ≠ 0 then kAnimGroup_Left
        else if moveFlags &&& kMoveFlag_Right ≠ 0 then kAnimGroup_Right
        else l.animGroup
      { l with animGroup := animGroup, movementSpeedMult := w.GetWalkSpeed }
    else l
  else if moveFlags &&& kMoveFlag_TurnLeft ≠ 0 then { l with animGroup := kAnimGroup_TurnLeft }
  else if moveFlags &&& kMoveFlag_TurnRight ≠ 0 then { l with animGroup := kAnimGroup_TurnRight }
  else l

/-- Lines 565-665: the movement classification. -/
def classify (movementSpeed : ℚ) (w : World) (l : Locals) : Except Fault Locals :=
  if l.animGroup ≠ 0 then
    pure { l with animGroup := jumpLoopGroup w.GetMovementFlags l.animGroup }
  else do
    let l1 ← sitSleepGroup w l
    pure (directionBlock w { l1 with v167 := movementSpeed })

/-- Lines 62-80: the defaults of a tick. -/
def initLocals (w : World) : Locals :=
  { v167 := 1
    movementSpeedMult := 0
    animGroup := kAnimGroup_Idle
    animMoveType := kAnimMoveType_Walking
    animHandType := kAnimHandType_H2H
    animAction := kAnimAction_None
    currentAnimAction := w.GetCurrentAnimAction
    v159 := w.rigs.third.GetAnimSequenceElement kSequence_Movement }

/-- Lines 62-665: the tick up to and including the classification. -/
def classified (charController : bhkCharacterController) (movementSpeed : ℚ) (w : World) :
    Except Fault (World × Locals) := do
  let (w1, l1) ← actionPhase charController w (initLocals w)
  let (w2, l2) := requestPhase charController w1 l1
  let l3 ← pickHandType w2 l2
  let l4 ← classify movementSpeed w2 (pickMoveType w2 l3)
  pure (w2, l4)

end Actor.PickAnimations

/-! ## Resolution and commit (lines 666-962) -/

namespace Actor.PickAnimations

/-- The case labels of lines 696-702, 720-726 and 790-796 other than Forward. -/
def isSideOrDodge (group : Nat) : Bool :=
  group == kAnimGroup_Backward || group == kAnimGroup_Left || group == kAnimGroup_Right ||
    group == kAnimGroup_DodgeForward || group == kAnimGroup_DodgeBack ||
    group == kAnimGroup_DodgeLeft || group == kAnimGroup_DodgeRight

/-- The case labels of lines 705-707, 730-732 and 799-801. -/
def isFastSide (group : Nat) : Bool :=
  group == kAnimGroup_FastBackward || group == kAnimGroup_FastLeft ||
    group == kAnimGroup_FastRight

/-- Lines 690-746: the speed of a forced script animation; `id / 256 * 256`
is `id & ~0xFF`. -/
def forceScriptSpeed (turnSpeed : ℚ) (w : World) (l : Locals) : World :=
  let groupID_0 := w.rigs.third.GetNthSequenceGroupID kSequence_Movement
  let groupID_1 :=
    if w.GetActorType ≠ 0 then
      if isSideOrDodge (AnimGroupID.GetGroupID groupID_0) then
        (groupID_0 / 256 * 256) ||| kAnimGroup_Forward
      else if isFastSide (AnimGroupID.GetGroupID groupID_0) then
        (groupID_0 / 256 * 256) ||| kAnimGroup_FastForward
      else groupID_0
    else (groupID_0 &&& 0xFF00) ||| 3
  let group := AnimGroupID.GetGroupID groupID_1
  if group = kAnimGroup_TurnLeft ∨ group = kAnimGroup_TurnRight then
    w.perform (Effect.SetMovementSpeedMult turnSpeed)
  else
    let movementSpeedMult :=
      if group = kAnimGroup_Forward ∨ isSideOrDodge group then w.GetWalkSpeed
      else if group = kAnimGroup_FastForward ∨ isFastSide group then w.GetRunSpeedMult
      else l.movementSpeedMult
    let PlayingAnimGroupMovementVectorMagnitude :=
      w.rigs.third.GetPlayingAnimGroupMovementVectorMagnitude groupID_1
    let v167 :=
      if PlayingAnimGroupMovementVectorMagnitude ≠ 0 then
        (movementSpeedMult / PlayingAnimGroupMovementVectorMagnitude) * l.v167
      else l.v167
    w.perform (Effect.SetMovementSpeedMult v167)

/-- Lines 761-781: the rate of fire of an Equip..Counter group. -/
def rateOfFire (w : World) (animGroup : Nat) : ℚ :=
  match w.GetWeaponInfo with
  | some v66 =>
    match v66.GetFlags with
    | some weap =>
      let AnimMult := w.ApplyPerkModifiers weap.GetAnimMult
      if ¬ w.AnimGroup_IsAttack animGroup ∨ weap.IsMeleeWeapon then AnimMult
      else
        weap.GetAnimAttackMult (v66.HasWeaponMod kWeaponModEffect_IncreaseRateOfFire) * AnimMult
    | none => 1
  | none => 1

/-- Lines 786-811: the group id whose root-motion magnitude is fetched. -/
def magnitudeGroupID (w : World) (groupID_1 : Nat) : Nat :=
  if w.GetActorType ≠ 0 then
    if isSideOrDodge (AnimGroupID.GetGroupID groupID_1) then (groupID_1 &&& 0xFF00) ||| 3
    else if isFastSide (AnimGroupID.GetGroupID groupID_1) then (groupID_1 &&& 0xFF00) ||| 7
    else groupID_1
  else (groupID_1 &&& 0xFF00) ||| 3

/-- Lines 751-817: commit the movement-speed multiplier or the rate of fire. -/
def commitSpeed (turnSpeed : ℚ) (w : World) (l : Locals) (groupID_1 : Nat) : World :=
  if groupID_1 ≠ 255 then
    if l.animGroup = kAnimGroup_TurnLeft ∨ l.animGroup = kAnimGroup_TurnRight then
      w.perform (Effect.SetMovementSpeedMult turnSpeed)
    else if l.animGroup < kAnimGroup_Forward ∨ kAnimGroup_TurnRight < l.animGroup then
      if kAnimGroup_Equip ≤ l.animGroup ∧ l.animGroup ≤ kAnimGroup_Counter then
        w.perform (Effect.SetRateOfFire (rateOfFire w l.animGroup))
      else w
    else
      let v115 :=
        w.rigs.third.GetPlayingAnimGroupMovementVectorMagnitude (magnitudeGroupID w groupID_1)
      let v167 := if v115 ≠ 0 then (l.movementSpeedMult / v115) * l.v167 else l.v167
      w.perform (Effect.SetMovementSpeedMult v167)
  else w

/-- Lines 853-870: the jump loop that follows a jump start. -/
def jumpStartFollowUp (moveFlags : Nat) : Nat :=
  if moveFlags &&& kMoveFlag_AnyDirection ≠ 0 then
    if moveFlags &&& kMoveFlag_Forward ≠ 0 then kAnimGroup_JumpLoopForward
    else if moveFlags &&& kMoveFlag_Backward ≠ 0 then kAnimGroup_JumpLoopBackward
    else if moveFlags &&& kMoveFlag_Left ≠ 0 then kAnimGroup_JumpLoopLeft
    else if moveFlags &&& kMoveFlag_Right ≠ 0 then kAnimGroup_JumpLoopRight
    else kAnimGroup_JumpLoop
  else kAnimGroup_JumpLoop

/-- Lines 880-915: the movement group that follows a directional landing. -/
def landFollowUp (moveFlags : Nat) : Nat :=
  if moveFlags &&& kMoveFlag_Running ≠ 0 then
    if moveFlags &&& 1 ≠ 0 then kAnimGroup_FastForward
    else if moveFlags &&& 2 ≠ 0 then kAnimGroup_FastBackward
    else if moveFlags &&& 4 ≠ 0 then kAnimGroup_FastLeft
    else if moveFlags &&& 8 ≠ 0 then kAnimGroup_FastRight
    else kAnimGroup_Invalid
  else if moveFlags &&& 1 ≠ 0 then kAnimGroup_Forward
  else if moveFlags &&& 2 ≠ 0 then kAnimGroup_Backward
  else if moveFlags &&& 4 ≠ 0 then kAnimGroup_Left
  else if moveFlags &&& 8 ≠ 0 then kAnimGroup_Right
  else kAnimGroup_Invalid

/-- Lines 824-842: play the idle of a new locomotion type first. -/
def playIdleOfMoveType (w : World) (l : Locals) : World :=
  if w.g_animSequenceTypes (9 * l.animGroup) = kSequence_Movement ∧
      (w.rigs.third.GetAnimSequenceElement kSequence_Movement).isSome ∧
      l.animMoveType ≠
        w.AnimGroup_GetMoveType (w.rigs.third.GetNthSequenceGroupID kSequence_Movement) then
    let v112 := w.AnimData_495740
      (Anim_Concat_MoveType_HandType_Group_PowerArmor l.animMoveType l.animHandType
        kAnimGroup_Idle w.isPowerArmor)
    if v112 ≠ w.rigs.third.GetNthSequenceGroupID kSequence_Idle then
      (w.perform (Effect.PlayAnimGroup v112 1)).perform Effect.PlayFirstPersonAnimation
    else w
  else w

/-- Lines 850-924: the follow-up of a jump start or of a directional landing. -/
def playFollowUp (w : World) (l : Locals) : World :=
  if l.animGroup = kAnimGroup_JumpStart then
    let groupID_1 := w.AnimData_495740
      (Anim_Concat_MoveType_HandType_Group_PowerArmor l.animMoveType l.animHandType
        (jumpStartFollowUp w.GetMovementFlags) w.isPowerArmor)
    (w.perform (Effect.PlayAnimGroup groupID_1 0)).perform Effect.PlayFirstPersonAnimation
  else if kAnimGroup_JumpLandForward ≤ l.animGroup ∧ l.animGroup ≤ kAnimGroup_JumpLandRight ∧
      w.GetMovementFlags &&& kMoveFlag_AnyDirection ≠ 0 then
    if landFollowUp w.GetMovementFlags ≠ kAnimGroup_Invalid then
      let groupID_1 := w.AnimData_495740
        (Anim_Concat_MoveType_HandType_Group_PowerArmor l.animMoveType l.animHandType
          (landFollowUp w.GetMovementFlags) w.isPowerArmor)
      (w.perform (Effect.PlayAnimGroup groupID_1 0)).perform Effect.PlayFirstPersonAnimation
    else w
  else w

/-- Line 820: the resolved id is not what its channel plays, or the channel
has no sequence or an Inactive one. -/
def needsPlay (w : World) (l : Locals) (groupID_1 : Nat) : Bool :=
  let v162 := w.g_animSequenceTypes (9 * l.animGroup)
  decide (w.rigs.third.GetNthSequenceGroupID v162 ≠ groupID_1) ||
    match w.rigs.third.GetAnimSequenceElement v162 with
    | some sequence => (w.rigs.seq sequence).GetState == kAnimState_Inactive
    | none => true

/-- Lines 818-926: play the resolved group and record the requested action. -/
def playResolved (w : World) (l : Locals) (groupID_1 : Nat) : World :=
  if needsPlay w l groupID_1 then
    if w.rigs.third.GetSequenceBaseFromMap groupID_1 then
      let w1 := playIdleOfMoveType w l
      let w2 := w1.perform (Effect.PlayAnimGroup groupID_1 1)
      let w3 :=
        if l.animAction ≠ -1 ∧ ¬ w2.AnimGroup_IsNonSpecialIdle groupID_1 then
          w2.SetAnimActionAndSequence l.animAction
            (w2.rigs.third.GetAnimSequenceElement (w2.g_animSequenceTypes (9 * l.animGroup)))
        else w2
      playFollowUp (w3.perform Effect.PlayFirstPersonAnimation) l
    else w
  else w

/-- Lines 927-951: stop a movement sequence that no longer applies. -/
def endMovement (w : World) (l : Locals) : World :=
  match w.rigs.third.GetAnimSequenceElement kSequence_Movement with
  | some v79 =>
    if w.g_animSequenceTypes (9 * l.animGroup) ≠ kSequence_Movement then
      let shouldEndSequence : Bool :=
        ! (decide (l.currentAnimAction ≠ -1) && decide (w.GetCurrentSequence = some v79)) &&
          ! decide (w.rigs.third.GetIdleAnimSequence_0 = some v79) &&
          decide ((w.rigs.seq v79).GetState = kAnimState_Animating)
      if shouldEndSequence then
        let w1 := w.perform (Effect.EndsSequenceIfNotAim Rig.third kSequence_Movement)
        if w1.isPlayer then w1.perform (Effect.EndsSequenceIfNotAim Rig.first kSequence_Movement)
        else w1
      else w
    else w
  | none => w

/-- Lines 952-960: the hook run while the weapon channel plays an attack. -/
def attackHook (w : World) : World :=
  if (w.rigs.third.GetAnimSequenceElement kSequence_Weapon).isSome ∧
      w.AnimGroup_IsAttack (w.rigs.third.GetNthSequenceGroupID kSequence_Weapon) then
    (w.perform Effect.sub_8A5340).perform Effect.Unk_117
  else w

/-- Line 668: a directional, fast or dodge group is dropped for Idle when
the speed target is below 1. -/
def dropSlowMovement (l : Locals) : Nat :=
  if l.movementSpeedMult < 1 ∧ kAnimGroup_Forward ≤ l.animGroup ∧
      l.animGroup ≤ kAnimGroup_TurnRight ∧ l.animGroup ≠ kAnimGroup_TurnLeft ∧
      l.animGroup ≠ kAnimGroup_TurnRight then kAnimGroup_Idle
  else l.animGroup

/-- Lines 674-676: the key of the tick and the id it resolves to. -/
def resolvedID (w : World) (l : Locals) : Nat :=
  w.AnimData_495740
    (Anim_Concat_MoveType_HandType_Group_PowerArmor l.animMoveType l.animHandType
      (dropSlowMovement l) w.isPowerArmor)

/-- Modelled from the spec: the contract of the resolver at the key of the
tick (spec 4.3). The resolver is not in the source; following the spec it
relaxes the armor flag, the hand type and the locomotion type of the key,
never its base group, and answers with the no-group sentinel 255 when nothing
matches: the id it returns carries the base group the key asks for, or is
the sentinel. -/
def resolverKeepsGroup (w : World) (l : Locals) : Bool :=
  AnimGroupID.GetGroupID (resolvedID w l) == dropSlowMovement l || resolvedID w l == 255

/-- Lines 678-686: drop a request whose group did not resolve. -/
def dropUnresolved (w : World) (l : Locals) (v150 : Nat) : World × Int :=
  if l.animAction ≠ -1 ∧ dropSlowMovement l ≠ v150 then
    ((if l.animAction = 1 then w.SetWeaponOut false else w), -1)
  else (w, l.animAction)

/-- Lines 666-962: resolve the key, commit speed or rate, and play. -/
def resolvePhase (turnSpeed : ℚ) (w : World) (l : Locals) : World :=
  if l.animAction = -1 ∨ l.currentAnimAction = -1 then
    let groupID_1 := resolvedID w l
    let v150 := AnimGroupID.GetGroupID groupID_1
    let (w1, animAction) := dropUnresolved w l v150
    let l1 := { l with animAction := animAction, animGroup := v150 }
    if l1.currentAnimAction ≠ -1 ∧ w1.GetCurrentSequence.isSome ∧
        w1.rigs.third.GetAnimSequenceElement (w1.g_animSequenceTypes (9 * l1.animGroup))
          = w1.GetCurrentSequence then
      if l1.currentAnimAction = kAnimAction_Force_Script_Anim then
        forceScriptSpeed turnSpeed w1 l1
      else w1
    else
      let w2 := commitSpeed turnSpeed w1 l1 groupID_1
      let w3 := playResolved w2 l1 groupID_1
      attackHook (endMovement w3 l1)
  else w

/-- Line 688: the action in flight at the start of the tick has a sequence,
and that sequence is the one on the channel of the resolved group. -/
def sequenceInFlight (w : World) (l : Locals) (animGroup : Nat) : Bool :=
  decide (l.currentAnimAction ≠ -1) && w.GetCurrentSequence.isSome &&
    decide (w.rigs.third.GetAnimSequenceElement (w.g_animSequenceTypes (9 * animGroup))
      = w.GetCurrentSequence)

/-- Lines 692-716: the id whose group selects the speed of a forced script
animation and whose root-motion magnitude is fetched; `id / 256 * 256` is
`id & ~0xFF`. -/
def forceScriptGroupID (w : World) : Nat :=
  let groupID_0 := w.rigs.third.GetNthSequenceGroupID kSequence_Movement
  if w.GetActorType ≠ 0 then
    if isSideOrDodge (AnimGroupID.GetGroupID groupID_0) then
      (groupID_0 / 256 * 256) ||| kAnimGroup_Forward
    else if isFastSide (AnimGroupID.GetGroupID groupID_0) then
      (groupID_0 / 256 * 256) ||| kAnimGroup_FastForward
    else groupID_0
  else (groupID_0 &&& 0xFF00) ||| 3

/-- Lines 717-735: the speed the forced-script commit scales with, by the
group of `forceScriptGroupID`. -/
def forceScriptTarget (w : World) (l : Locals) : ℚ :=
  let group := AnimGroupID.GetGroupID (forceScriptGroupID w)
  if group = kAnimGroup_Forward ∨ isSideOrDodge group then w.GetWalkSpeed
  else if group = kAnimGroup_FastForward ∨ isFastSide group then w.GetRunSpeedMult
  else l.movementSpeedMult

/-- Lines 18-37 and 40-60: end a stale aim sequence or a finished attack
loop on the weapon channel of a rig. -/
def endStaleWeaponSequence (rig : Rig) (w : World) : Except Fault World := do
  let animData ← deref (match rig with
    | Rig.third => some w.rigs.third
    | Rig.first => w.rigs.first)
  let AnimSequenceElement := animData.GetAnimSequenceElement kSequence_Weapon
  let staleAim : Option Nat :=
    match AnimSequenceElement with
    | some sequence =>
      if (decide ((w.group sequence).GetMoveType = kAnimMoveType_Sneaking) != w.IsSneaking) ∧
          (w.rigs.seq sequence).GetState = kAnimState_Animating ∧
          (w.group sequence).IsAimAnim then some sequence
      else none
    | none => none
  match staleAim with
  | some sequence =>
    if animData.GetNthSequenceGroupID kSequence_Weapon ≠
        w.Actor__GetAnimKey (w.group sequence).GetSequenceGroup
          (match rig with
            | Rig.third => none
            | Rig.first => some Rig.first) then
      pure (w.perform (Effect.EndsSequenceIfNotAim rig kSequence_Weapon))
    else pure w
  | none =>
    let v9 := AnimGroupID.GetGroupID (animData.GetNthSequenceGroupID kSequence_Weapon)
    if v9 = kAnimGroup_AttackLoop ∨ v9 = kAnimGroup_AttackLoopIS then
      if w.GetAttackLoopTimeRemaining_111 = 0 then do
        let sequence ← deref AnimSequenceElement
        if (w.rigs.seq sequence).GetState = kAnimState_Animating then
          pure (w.perform (Effect.EndsSequenceIfNotAim rig kSequence_Weapon))
        else pure w
      else pure w
    else pure w

/-- Lines 18-61: both rigs of the player, the primary rig of anyone else. -/
def endStaleWeaponSequences (w : World) : Except Fault World := do
  let w1 ← endStaleWeaponSequence Rig.third w
  if w1.isPlayer then endStaleWeaponSequence Rig.first w1 else pure w1

/-- Lines 62-962: the tick once its guards and the weapon-channel
clean-up have passed. -/
def body (charController : bhkCharacterController) (movementSpeed turnSpeed : ℚ) (w : World) :
    Except Fault World := do
  let (w1, l) ← classified charController movementSpeed w
  pure (resolvePhase turnSpeed w1 l)

end Actor.PickAnimations

/-- The whole of `Actor::PickAnimations(movementSpeed, turnSpeed)`, lines
1-966.  The diagnostic of line 7 is recorded without reaching the gateway. -/
def Actor.PickAnimations (movementSpeed turnSpeed : ℚ) (w : World) : Except Fault World :=
  if ¬ w.IsDying ∧ ¬ w.GetKnockedState then
    if w.isPlayer ∧ ¬ w.IsNotFirstPerson then
      pure { w with trace := w.trace ++ [Effect.DebugLog] }
    else if w.hasAnimData ∧ w.hasBaseProcess then
      match w.charController with
      | some charController => do
        let w1 ← Actor.PickAnimations.endStaleWeaponSequences w
        Actor.PickAnimations.body charController movementSpeed turnSpeed w1
      | none => pure w
    else pure w
  else pure w

/-! ## Example worlds

Concrete inputs on which the theorems below are instantiated. -/

namespace Example

/-- An animation group that is neither an aim nor a jump animation. -/
def group (sequenceGroup : Nat) : TESAnimGroup :=
  { GetSequenceGroup := sequenceGroup
    GetMoveType := kAnimMoveType_Walking
    IsAimAnim := false
    IsJumping := false
    GetTimeForAction := 1 }

/-- A rig on which nothing plays. -/
def animData : AnimData :=
  { GetAnimSequenceElement := fun _ => none
    GetNthSequenceGroupID := fun _ => 0xFF
    GetSequenceState1 := fun _ => 0
    GetSequenceOffsetPlusTimePassed := fun _ => 0
    GetAnimGroup08 := false
    sub_4985B0 := false
    IsNoIdlePlaying := true
    idleAnimQueued := false
    GetIdleAnimSequence_0 := none
    GetPlayingAnimGroupMovementVectorMagnitude := fun _ => 0
    GetSequenceBaseFromMap := fun _ => true }

/-- A gateway with one idle rig and only Inactive sequences. -/
def rigs : Rigs :=
  { third := animData
    first := none
    seq := fun _ => { GetState := kAnimState_Inactive, GetTESAnimGroup := group 0 } }

/-- A controller standing on the ground. -/
def onGround : bhkCharacterController :=
  { GetContextHkState := kCharControllerState_OnGround
    GetFallTimeElapsed := 0
    GetCycleType__Unk24 := 0 }

/-- A sequence-type table: Idle on the idle channel, the movement groups
on the movement channel, BlockIdle on the off-hand channel, the rest on the
weapon channel. -/
def sequenceTypes (index : Nat) : Nat :=
  if index = 9 * kAnimGroup_Idle then kSequence_Idle
  else if index ≤ 9 * kAnimGroup_TurnRight then kSequence_Movement
  else if index = 9 * kAnimGroup_BlockIdle then kSequence_LeftArm
  else kSequence_Weapon

/-- A key-type table: group 26 is a plain attack, group 0x62 a power attack. -/
def keyTypes (index : Nat) : Nat :=
  if index = 9 * 26 then kAnimKeyType_Attack
  else if index = 9 * 0x62 then kAnimKeyType_PowerAttackOrPipboy
  else kAnimKeyType_ClampSequence

/-- An unarmed non-player entity standing still with no action in flight;
every key resolves to an id that carries its own group. -/
def world : World :=
  { IsDying := false
    GetKnockedState := false
    isPlayer := false
    IsNotFirstPerson := true
    hasAnimData := true
    hasBaseProcess := true
    charController := some onGround
    IsSneaking := false
    GetAttackLoopTimeRemaining_111 := 1
    GetWantsWeaponOut_IfSwimmingCancelVATS := false
    GetWeaponInfo := none
    GetMovementFlags := 0
    GetSitSleepState := kSitSleepState_Normal
    GetFurnitureData := none
    GetMagicItem160 := false
    GetIsInCombat := false
    GetCurrentPackage := none
    IsUsingThrownWeapon := false
    IsDoingAttackAnimation := true
    GetWalkSpeed := 1
    GetRunSpeedMult := 4
    weaponBoneChild := none
    Unk_15D := false
    GetMagicShaderHitEffectForActor := false
    GetEquippedWeaponHealthBracket := 0
    Actor_8843A0 := true
    Unk_8D := false
    GetIsRestrained := false
    GetIsUnConscious := false
    GetActorType := 1
    GetByte12A := false
    GetByte128 := false
    ApplyPerkModifiers := fun rate => rate
    g_animSequenceTypes := sequenceTypes
    g_animKeyTypes := keyTypes
    g_weaponTypeToAnim := fun _ => kAnimHandType_1HM
    GetWeaponReloadJamChance := fun _ => 1 / 10
    randomDraw := 0
    fJumpAnimDelay := 1
    AnimGroup_IsReload := fun group => decide (0xB1 ≤ group ∧ group ≤ 0xC7)
    AnimGroup_IsAttack := fun id => decide (26 ≤ id % 256 ∧ id % 256 < kAnimGroup_Counter)
    AnimGroup_IsNonSpecialIdle := fun id => decide (id % 256 = kAnimGroup_Idle)
    AnimGroup_GetMoveType := fun _ => kAnimMoveType_Walking
    Actor__GetAnimKey := fun group _ => group
    AnimData_495740 := fun key => key.group
    GetCurrentAnimAction := kAnimAction_None
    GetCurrentSequence := none
    IsWeaponOut := false
    rigs := rigs
    ext := fun _ rigs => rigs
    trace := [] }

/-- A semi-automatic pistol (one-handed) whose reload group depends on the clip mod. -/
def pistol : TESObjectWEAP :=
  { getWeaponType := 5
    IsAutomatic := false
    IsNonMeleeWeapon := true
    IsMeleeWeapon := false
    NoJamAfterReload := false
    GetReloadAnimGroup := fun modded => if modded then 0xB2 else 0xB1
    GetAnimMult := 1
    GetAnimAttackMult := fun _ => 1
    GetEnchantmentItem := false }

/-- The profile of the pistol, with the clip-capacity mod installed. -/
def pistolInfo : ContChangesEntry :=
  { GetFlags := some pistol
    HasWeaponMod := fun effect => decide (effect = kWeaponModEffect_IncreaseClipCapacity)
    GetExtraPoison := false }

/-- The gateway with sequence 7 of the given state and group on the weapon
channel, at the given progress stage. -/
def weaponRigs (state sequenceGroup stage : Nat) : Rigs :=
  { rigs with
    third :=
      { animData with
        GetAnimSequenceElement := fun channel =>
          if channel = kSequence_Weapon then some 7 else none
        GetNthSequenceGroupID := fun channel =>
          if channel = kSequence_Weapon then sequenceGroup else 0xFF
        GetSequenceState1 := fun channel => if channel = kSequence_Weapon then stage else 0
        GetSequenceOffsetPlusTimePassed := fun _ => 2 }
    seq := fun _ => { GetState := state, GetTESAnimGroup := group sequenceGroup } }

/-- The pistol owner with the given action in flight on sequence 7. -/
def armed (action : Int) (state sequenceGroup stage : Nat) : World :=
  { world with
    GetWeaponInfo := some pistolInfo
    GetCurrentAnimAction := action
    GetCurrentSequence := some 7
    rigs := weaponRigs state sequenceGroup stage }

/-- Mid-attack with the pistol, the weapon channel at the hit stage. -/
def attackWorld : World := armed kAnimAction_Attack kAnimState_Animating 26 kSeqState_HitOrDetach

/-- Equipping the pistol, the weapon channel at the given progress stage. -/
def equipWorld (weaponOut : Bool) (stage : Nat) : World :=
  { armed kAnimAction_Equip_Weapon kAnimState_Animating kAnimGroup_Equip stage with
    IsWeaponOut := weaponOut }

/-- Three ticks of an equip: below the hit stage, at it, and at it again
after the commit. -/
def equipRun (tick : Nat) : World :=
  if tick = 0 then equipWorld false 0
  else if tick = 1 then equipWorld false 1
  else equipWorld true 1

/-- In a reload loop whose start group has passed its action point, with
the given wants-weapon-out flag and weapon-out flag. -/
def reloadWorld (wantsWeaponOut weaponOut : Bool) : World :=
  { armed kAnimAction_ReloadLoop kAnimState_Animating kAnimGroup_ReloadZStart 0 with
    GetWantsWeaponOut_IfSwimmingCancelVATS := wantsWeaponOut
    IsWeaponOut := weaponOut }

/-- After a reload whose sequence has gone Inactive, with the given draw of
the random source and the given animation table. -/
def jamWorld (draw : ℚ) (table : Nat → Option Rig → Nat) : World :=
  { armed kAnimAction_Reload kAnimState_Inactive 0xB1 0 with
    randomDraw := draw
    Actor__GetAnimKey := table }

/-- Standing on the ground with the given movement flags. -/
def movingWorld (moveFlags : Nat) : World :=
  { world with GetMovementFlags := moveFlags }

/-- Running forward with the pistol held; the FastForward group moves the
entity by 2 per loop. -/
def runWorld : World :=
  { world with
    GetMovementFlags := kMoveFlag_Forward ||| kMoveFlag_Running
    GetWeaponInfo := some pistolInfo
    rigs :=
      { rigs with
        third :=
          { animData with
            GetPlayingAnimGroupMovementVectorMagnitude := fun id =>
              if id = kAnimGroup_FastForward then 2 else 0 } } }

/-- Unarmed and still, wanting the weapon out while it is not. -/
def raiseFistsWorld : World :=
  { world with GetWantsWeaponOut_IfSwimmingCancelVATS := true }

/-- Unarmed and still, wanting the weapon out while it is not, with a
resolver that has no Equip group and answers its key with the sentinel. -/
def noEquipWorld : World :=
  { raiseFistsWorld with
    AnimData_495740 := fun key => if key.group = kAnimGroup_Equip then 255 else key.group }

/-- The player in first person. -/
def firstPersonWorld : World :=
  { world with isPlayer := true, IsNotFirstPerson := false }

/-- A controller in its jumping phase. -/
def jumping : bhkCharacterController :=
  { GetContextHkState := kCharControllerState_Jumping
    GetFallTimeElapsed := 0
    GetCycleType__Unk24 := 0 }

/-- A script-forced animation in flight on sequence 7 of the movement
channel, which plays the id `playing`, with the given movement flags; the
FastForward group moves the entity by 2 per loop, every other group by 0. -/
def scriptedWorld (moveFlags playing : Nat) : World :=
  { world with
    GetMovementFlags := moveFlags
    GetCurrentAnimAction := kAnimAction_Force_Script_Anim
    GetCurrentSequence := some 7
    rigs :=
      { third :=
          { animData with
            GetAnimSequenceElement := fun channel =>
              if channel = kSequence_Movement then some 7 else none
            GetNthSequenceGroupID := fun channel =>
              if channel = kSequence_Movement then playing else 0xFF
            GetPlayingAnimGroupMovementVectorMagnitude := fun id =>
              if id = kAnimGroup_FastForward then 2 else 0 }
        first := none
        seq := fun _ => { GetState := kAnimState_Animating, GetTESAnimGroup := group playing } } }

/-- A script-forced FastForward animation in flight while the entity walks
forward. -/
def scriptedFastWorld : World :=
  scriptedWorld (kMoveFlag_Forward ||| kMoveFlag_Walking) kAnimGroup_FastForward

/-- A script-forced Forward animation in flight while the entity turns left. -/
def scriptedTurnWorld : World := scriptedWorld kMoveFlag_TurnLeft kAnimGroup_Forward

/-- Standing still with a resolver that answers every key with the
sentinel 255; the weapon channel plays the id 255 on the live sequence 7, and
the sequence-type table sends the group 255 to the given channel. -/
def sentinelWorld (channel : Nat) : World :=
  { world with
    AnimData_495740 := fun _ => 255
    g_animSequenceTypes := fun index => if index = 9 * 255 then channel else sequenceTypes index
    rigs := weaponRigs kAnimState_Animating 255 0 }

/-- Mid-attack with the pistol on sequence 7 of the weapon channel, below
the hit stage, on the ground, while the movement channel still plays the
jump loop on sequence 9; the landing groups play on the movement channel. -/
def landingWorld : World :=
  { armed kAnimAction_Attack kAnimState_Animating 26 0 with
    g_animSequenceTypes := fun index =>
      if index = 9 * kAnimGroup_JumpLand then kSequence_Movement else sequenceTypes index
    rigs :=
      { third :=
          { animData with
            GetAnimSequenceElement := fun channel =>
              if channel = kSequence_Weapon then some 7
              else if channel = kSequence_Movement then some 9 else none
            GetNthSequenceGroupID := fun channel =>
              if channel = kSequence_Weapon then 26
              else if channel = kSequence_Movement then kAnimGroup_JumpLoop else 0xFF }
        first := none
        seq := fun sequence =>
          if sequence = 9 then
            { GetState := kAnimState_Animating
              GetTESAnimGroup := { group kAnimGroup_JumpLoop with IsJumping := true } }
          else { GetState := kAnimState_Animating, GetTESAnimGroup := group 26 } } }

/-- After a reload, with the pistol held and no current sequence. -/
def lostReloadWorld : World :=
  { armed kAnimAction_Reload kAnimState_Inactive 0xB1 0 with GetCurrentSequence := none }

/-- In a reload loop past its action point, with no weapon profile. -/
def unarmedReloadWorld : World :=
  { reloadWorld false false with GetWeaponInfo := none }

/-- With no sequence on the weapon channel while its group id reads as
AttackLoop and the attack loop has no time remaining. -/
def emptyAttackLoopWorld : World :=
  { world with
    GetAttackLoopTimeRemaining_111 := 0
    rigs :=
      { rigs with
        third := { animData with GetNthSequenceGroupID := fun _ => kAnimGroup_AttackLoop } } }

/-- The pistol owner in the given throw action on sequence 7, whose group
0x70 is a thrown attack, with the weapon channel at the given stage. -/
def throwWorld (action : Int) (stage : Nat) : World :=
  { armed action kAnimState_Animating 0x70 stage with
    g_animKeyTypes := fun index =>
      if index = 9 * 0x70 then kAnimKeyType_AttackThrow else keyTypes index }

/-- Waiting for the lower body after a landing, with no current sequence
left, on the ground and with nothing on the movement channel. -/
def staleWaitWorld : World :=
  { world with GetCurrentAnimAction := kAnimAction_Wait_For_Lower_Body_Anim }

/-- Waiting for the lower body on the live sequence 7. -/
def waitWorld : World :=
  armed kAnimAction_Wait_For_Lower_Body_Anim kAnimState_Animating kAnimGroup_JumpLand 0

/-- After a reload whose sequence 7 has gone Inactive, with the pistol held
and the BlockIdle sequence 8 on the off-hand channel. -/
def blockWorld : World :=
  { armed kAnimAction_Reload kAnimState_Inactive 0xB1 0 with
    rigs :=
      { third :=
          { animData with
            GetAnimSequenceElement := fun channel =>
              if channel = kSequence_Weapon then some 7
              else if channel = kSequence_LeftArm then some 8 else none
            GetNthSequenceGroupID := fun channel =>
              if channel = kSequence_Weapon then 0xB1
              else if channel = kSequence_LeftArm then kAnimGroup_BlockIdle else 0xFF }
        first := none
        seq := fun sequence =>
          if sequence = 8 then
            { GetState := kAnimState_Animating, GetTESAnimGroup := group kAnimGroup_BlockIdle }
          else { GetState := kAnimState_Inactive, GetTESAnimGroup := group 0xB1 } } }

/-- Unarmed, running forward, wanting the weapon out while it is not. -/
def raiseFistsRunWorld : World :=
  { raiseFistsWorld with GetMovementFlags := kMoveFlag_Forward ||| kMoveFlag_Running }

/-- An entity of actor type 0 running forward. -/
def typeZeroRunWorld : World :=
  { movingWorld (kMoveFlag_Forward ||| kMoveFlag_Running) with GetActorType := 0 }

/-- Mid-attack with bare fists: the owner of `attackWorld` without a weapon
profile, the weapon channel at the hit stage. -/
def punchWorld : World := { attackWorld with GetWeaponInfo := none }

/-- The player in first person with no animation data, no base process and
no character controller. -/
def bareFirstPersonWorld : World :=
  { firstPersonWorld with hasAnimData := false, hasBaseProcess := false, charController := none }

/-- Mid-attack with the pistol at the hit stage, while dying. -/
def dyingWorld : World := { attackWorld with IsDying := true }

/-- In a reload loop on the live sequence 7 of the start group, whose
action-point time is 1, with the given elapsed time. -/
def reloadAtWorld (elapsed : ℚ) : World :=
  { reloadWorld true true with
    rigs :=
      { (reloadWorld true true).rigs with
        third :=
          { (reloadWorld true true).rigs.third with
            GetSequenceOffsetPlusTimePassed := fun _ => elapsed } } }

/-- An enchanted one-handed blade: a melee weapon, not a ranged one. -/
def sword : TESObjectWEAP :=
  { getWeaponType := 1
    IsAutomatic := false
    IsNonMeleeWeapon := false
    IsMeleeWeapon := true
    NoJamAfterReload := true
    GetReloadAnimGroup := fun _ => 0xFF
    GetAnimMult := 1
    GetAnimAttackMult := fun _ => 1
    GetEnchantmentItem := true }

/-- The profile of the sword, with no poison applied. -/
def swordInfo : ContChangesEntry :=
  { GetFlags := some sword
    HasWeaponMod := fun _ => false
    GetExtraPoison := false }

/-- Drawing the enchanted sword: Equip_Weapon in flight on the live
sequence 7, the weapon channel at the hit stage, the weapon not yet out. -/
def swordEquipWorld : World :=
  { equipWorld false kSeqState_HitOrDetach with
    GetWeaponInfo := some swordInfo
    Unk_15D := true }

/-- The landing entity with its attack at the hit stage: Attack is in flight
on the weapon channel with the pistol, the controller is on the ground and
the movement channel still plays a jump animation. -/
def landingHitWorld : World :=
  { landingWorld with
    rigs :=
      { landingWorld.rigs with
        third :=
          { landingWorld.rigs.third with
            GetSequenceState1 := fun channel =>
              if channel = kSequence_Weapon then kSeqState_HitOrDetach else 0 } } }

end Example

/-! ## Lemmas about the action phase -/

namespace Actor.PickAnimations

/-- With an action in flight on a live sequence the action phase is the
switch of lines 85-417. -/
theorem actionPhase_live (charController : bhkCharacterController) (w : World) (l : Locals)
    (s : Nat) (hcur : l.currentAnimAction ≠ kAnimAction_None)
    (hseq : w.GetCurrentSequence = some s) (hlive : (w.rigs.seq s).GetState ≠ 0) :
    actionPhase charController w l = switchAction charController w l := by
  simp [actionPhase, hcur, hseq, hlive]

/-- With an action in flight whose sequence is present but Inactive the
action phase is the block of lines 419-464. -/
theorem actionPhase_inactive (charController : bhkCharacterController) (w : World) (l : Locals)
    (s : Nat) (hcur : l.currentAnimAction ≠ kAnimAction_None)
    (hseq : w.GetCurrentSequence = some s) (hlive : (w.rigs.seq s).GetState = 0) :
    actionPhase charController w l = noLiveSequence w l := by
  simp [actionPhase, hcur, hseq, hlive]

theorem switchAction_equip (charController : bhkCharacterController) (w : World) (l : Locals)
    (hcur : l.currentAnimAction = kAnimAction_Equip_Weapon ∨
      l.currentAnimAction = kAnimAction_Unequip_Weapon) :
    switchAction charController w l
      = Except.ok (caseEquipUnequip w l.currentAnimAction, l) := by
  simp [switchAction, hcur]
  rfl

theorem switchAction_attack (charController : bhkCharacterController) (w : World) (l : Locals)
    (hcur : l.currentAnimAction = kAnimAction_Attack) :
    switchAction charController w l = (caseAttack w).map (fun w1 => (w1, l)) := by
  simp [switchAction, hcur, kAnimAction_Attack, kAnimAction_Equip_Weapon,
    kAnimAction_Unequip_Weapon]
  cases caseAttack w <;> rfl

theorem switchAction_reloadLoop (charController : bhkCharacterController) (w : World)
    (l : Locals) (hcur : l.currentAnimAction = kAnimAction_ReloadLoop) :
    switchAction charController w l = caseReloadLoop w l := by
  simp [switchAction, hcur, kAnimAction_ReloadLoop, kAnimAction_Attack,
    kAnimAction_Equip_Weapon, kAnimAction_Unequip_Weapon, kAnimAction_Attack_Eject,
    kAnimAction_Attack_Throw, kAnimAction_Attack_Throw_Attach, kAnimAction_Dodge,
    kAnimAction_Wait_For_Lower_Body_Anim]

/-- The effect of a plain attack leaves the context and the entity alone. -/
theorem fireAttack_fields (w : World) :
    (fireAttack w).IsDoingAttackAnimation = w.IsDoingAttackAnimation ∧
    (fireAttack w).GetCurrentSequence = w.GetCurrentSequence ∧
    (fireAttack w).GetWeaponInfo = w.GetWeaponInfo := by
  unfold fireAttack World.perform
  repeat' split
  all_goals simp

/-- The effect of a power attack leaves the context and the entity alone
and records no action. -/
theorem firePowerAttack_fields (w : World) :
    (firePowerAttack w).IsDoingAttackAnimation = w.IsDoingAttackAnimation ∧
    (firePowerAttack w).GetCurrentSequence = w.GetCurrentSequence ∧
    (∀ a q, Effect.SetAnimActionAndSequence a q ∈ (firePowerAttack w).trace →
      Effect.SetAnimActionAndSequence a q ∈ w.trace) := by
  unfold firePowerAttack World.perform
  repeat' split
  all_goals simp

end Actor.PickAnimations

/-! ## Lemmas about recorded calls -/

namespace World

theorem Performs.refl (P : Effect → Prop) (w : World) : w.Performs P w :=
  ⟨rfl, rfl, rfl, [], by simp, by simp⟩

theorem Performs.trans {P : Effect → Prop} {w w1 w2 : World} (h1 : w.Performs P w1)
    (h2 : w1.Performs P w2) : w.Performs P w2 := by
  obtain ⟨a1, b1, c1, es1, t1, p1⟩ := h1
  obtain ⟨a2, b2, c2, es2, t2, p2⟩ := h2
  refine ⟨a2.trans a1, b2.trans b1, c2.trans c1, es1 ++ es2, ?_, ?_⟩
  · rw [t2, t1, List.append_assoc]
  · intro e he
    rcases List.mem_append.mp he with h | h
    · exact p1 e h
    · exact p2 e h

theorem Performs.mono {P Q : Effect → Prop} {w w1 : World} (h : w.Performs P w1)
    (hPQ : ∀ e, P e → Q e) : w.Performs Q w1 := by
  obtain ⟨a1, b1, c1, es1, t1, p1⟩ := h
  exact ⟨a1, b1, c1, es1, t1, fun e he => hPQ e (p1 e he)⟩

theorem Performs.perform {P : Effect → Prop} (w : World) (e : Effect) (h : P e) :
    w.Performs P (w.perform e) :=
  ⟨rfl, rfl, rfl, [e], rfl, by simpa using h⟩

theorem Performs.perform_of {P : Effect → Prop} {w w1 : World} (h1 : w.Performs P w1)
    (e : Effect) (h : P e) : w.Performs P (w1.perform e) :=
  h1.trans (Performs.perform w1 e h)

theorem Performs.ite {P : Effect → Prop} {w w1 w2 : World} (c : Prop) [Decidable c]
    (h1 : w.Performs P w1) (h2 : w.Performs P w2) :
    w.Performs P (if c then w1 else w2) := by
  split
  · exact h1
  · exact h2

end World

namespace Actor.PickAnimations

/-- A call other than SetWeaponOut. -/
theorem equipRigLoop_performs (P : Effect → Prop) (hP : ∀ h r, P (Effect.sub_8D6A80 h r))
    (hQ : P Effect.SetEquippedWeaponPosition) (v128 : Nat) (w : World) :
    w.Performs P (equipRigLoop v128 w) := by
  induction v128 generalizing w with
  | zero => exact World.Performs.refl P w
  | succ n ih =>
    simp only [equipRigLoop]
    refine World.Performs.trans ?_ (ih _)
    refine World.Performs.perform_of ?_ _ hQ
    split
    · exact World.Performs.ite _ (World.Performs.perform w _ (hP _ _)) (World.Performs.refl P w)
    · exact World.Performs.refl P w

theorem equipRagDoll_performs (P : Effect → Prop) (hP : ∀ a n, P (Effect.sub_C74890 a n))
    (hQ : ∀ a b, P (Effect.sub_8978F0 a b)) (w : World) (currentAnimAction : Int) :
    w.Performs P (equipRagDoll w currentAnimAction) := by
  unfold equipRagDoll
  split
  · exact (((World.Performs.perform w _ (hP _ _)).perform_of _ (hP _ _)).perform_of _
      (hQ _ _)).perform_of _ (hQ _ _)
  · exact (World.Performs.perform w _ (hP _ _)).perform_of _ (hP _ _)

theorem equipCue_performs (P : Effect → Prop) (hP : P Effect.sub_8216C0)
    (hQ : P Effect.PlaySoundAtActorPos) (w : World) :
    w.Performs P (equipCue w) := by
  unfold equipCue
  split
  · have h1 : w.Performs P
        (if w.GetMagicShaderHitEffectForActor = true then w.perform Effect.sub_8216C0 else w) :=
      World.Performs.ite _ (World.Performs.perform w _ hP) (World.Performs.refl P w)
    revert h1
    generalize (if w.GetMagicShaderHitEffectForActor = true then w.perform Effect.sub_8216C0
      else w) = w1
    intro h1
    simp only []
    repeat' split
    all_goals first
      | exact h1.perform_of _ hQ
      | exact h1
  · exact World.Performs.refl P w

/-- A loop that runs at all positions the weapon among its calls. -/
theorem equipRigLoop_positions (v128 : Nat) (w : World) (hpos : 0 < v128) (es : List Effect)
    (h : (equipRigLoop v128 w).trace = w.trace ++ es) :
    Effect.SetEquippedWeaponPosition ∈ es := by
  obtain ⟨n, rfl⟩ : ∃ n, v128 = n + 1 := ⟨v128 - 1, by omega⟩
  simp only [equipRigLoop] at h
  have key : ∀ w1 : World, w.Performs (fun _ => True) w1 →
      (equipRigLoop n (w1.perform Effect.SetEquippedWeaponPosition)).trace = w.trace ++ es →
      Effect.SetEquippedWeaponPosition ∈ es := by
    intro w1 h1 h2
    obtain ⟨-, -, -, es1, t1, -⟩ := h1
    obtain ⟨-, -, -, es2, t2, -⟩ :=
      equipRigLoop_performs (fun _ => True) (fun _ _ => trivial) trivial n
        (w1.perform Effect.SetEquippedWeaponPosition)
    rw [t2] at h2
    simp only [World.perform, t1, List.append_assoc] at h2
    have h3 := List.append_cancel_left h2
    rw [← h3]
    simp
  refine key _ ?_ h
  split
  · exact World.Performs.ite _ (World.Performs.perform w _ trivial)
      (World.Performs.refl _ w)
  · exact World.Performs.refl _ w

/-- When its guard holds, the equip/unequip case commits: it sets the
weapon-out flag to the requested phase first, then positions the weapon and
refreshes the aim pose, and flips the flag no second time. -/
theorem caseEquipUnequip_commit (w : World) (currentAnimAction : Int)
    (hflag : w.IsWeaponOut ≠ decide (currentAnimAction = kAnimAction_Equip_Weapon))
    (hstage : kSeqState_HitOrDetach ≤ w.rigs.third.GetSequenceState1 kSequence_Weapon) :
    (caseEquipUnequip w currentAnimAction).IsWeaponOut
        = decide (currentAnimAction = kAnimAction_Equip_Weapon) ∧
    ∃ es, (caseEquipUnequip w currentAnimAction).trace
        = w.trace ++ Effect.SetWeaponOut (decide (currentAnimAction = kAnimAction_Equip_Weapon))
            :: es ∧
      Effect.SetEquippedWeaponPosition ∈ es ∧ Effect.AimWeapon ∈ es ∧
      ∀ b, Effect.SetWeaponOut b ∉ es := by
  let P : Effect → Prop := fun e => ∀ b, e ≠ Effect.SetWeaponOut b
  have hP : ∀ e, (∀ b, e ≠ Effect.SetWeaponOut b) → P e := fun _ h => h
  simp only [caseEquipUnequip, hflag, hstage, ne_eq, not_false_eq_true, and_self, if_true]
  generalize hv : (if w.isPlayer = true then 2 else 1) = v128
  have hv0 : 0 < v128 := by rw [← hv]; split <;> decide
  generalize hw1 : w.SetWeaponOut (decide (currentAnimAction = kAnimAction_Equip_Weapon)) = w1
  have ht1 : w1.trace = w.trace ++
      [Effect.SetWeaponOut (decide (currentAnimAction = kAnimAction_Equip_Weapon))] := by
    rw [← hw1]; rfl
  have hf1 : w1.IsWeaponOut = decide (currentAnimAction = kAnimAction_Equip_Weapon) := by
    rw [← hw1]; rfl
  obtain ⟨f12, -, -, es12, t12, p12⟩ :=
    equipRigLoop_performs P (fun _ _ => hP _ (by simp)) (hP _ (by simp)) v128 w1
  have hpos := equipRigLoop_positions v128 w1 hv0 es12 t12
  generalize equipRigLoop v128 w1 = w2 at f12 t12 ⊢
  have h36 : (w2.perform Effect.AimWeapon).Performs P
      (equipCue ((if (w2.perform Effect.AimWeapon).isPlayer = true then
          equipRagDoll (w2.perform Effect.AimWeapon) currentAnimAction
        else w2.perform Effect.AimWeapon).perform Effect.Unk_160)) :=
    ((World.Performs.ite _
        (equipRagDoll_performs P (fun _ _ => hP _ (by simp)) (fun _ _ => hP _ (by simp))
          (w2.perform Effect.AimWeapon) currentAnimAction)
        (World.Performs.refl P _)).perform_of Effect.Unk_160 (hP _ (by simp))).trans
      (equipCue_performs P (hP _ (by simp)) (hP _ (by simp)) _)
  obtain ⟨f36, -, -, es36, t36, p36⟩ := h36
  refine ⟨?_, es12 ++ Effect.AimWeapon :: es36, ?_, ?_, ?_, ?_⟩
  · rw [f36]
    show w2.IsWeaponOut = _
    rw [f12, hf1]
  · rw [t36]
    simp [World.perform, t12, ht1]
  · simp [hpos]
  · simp
  · intro b hb
    rcases List.mem_append.mp hb with h | h
    · exact p12 _ h b rfl
    · rcases List.mem_cons.mp h with h | h
      · cases h
      · exact p36 _ h b rfl

/-- When its guard fails, the equip/unequip case does nothing. -/
theorem caseEquipUnequip_idle (w : World) (currentAnimAction : Int)
    (h : w.IsWeaponOut = decide (currentAnimAction = kAnimAction_Equip_Weapon) ∨
      w.rigs.third.GetSequenceState1 kSequence_Weapon < kSeqState_HitOrDetach) :
    caseEquipUnequip w currentAnimAction = w := by
  unfold caseEquipUnequip
  rw [if_neg]
  rintro ⟨h1, h2⟩
  rcases h with h | h
  · exact h1 h
  · exact absurd h2 (Nat.not_le.mpr h)

/-- In a tick that starts in Equip_Weapon or Unequip_Weapon on a live
sequence the action phase is the equip/unequip case. -/
theorem actionPhase_equip (charController : bhkCharacterController) (w : World)
    (hcur : w.GetCurrentAnimAction = kAnimAction_Equip_Weapon ∨
      w.GetCurrentAnimAction = kAnimAction_Unequip_Weapon)
    (hseq : ∃ s, w.GetCurrentSequence = some s ∧ (w.rigs.seq s).GetState ≠ 0) :
    actionPhase charController w (initLocals w)
      = Except.ok (caseEquipUnequip w w.GetCurrentAnimAction, initLocals w) := by
  obtain ⟨s, hseq, hlive⟩ := hseq
  have hcur1 : (initLocals w).currentAnimAction = kAnimAction_Equip_Weapon ∨
      (initLocals w).currentAnimAction = kAnimAction_Unequip_Weapon := hcur
  have hne : (initLocals w).currentAnimAction ≠ kAnimAction_None := by
    rcases hcur1 with h1 | h1 <;> rw [h1] <;> decide
  rw [actionPhase_live charController w _ s hne hseq hlive,
    switchAction_equip charController w _ hcur1]
  rfl

/-- Without a successful roll the jam branch changes nothing, provided the
current sequence is present. -/
theorem jamRoll_no_jam (w : World) (l : Locals) (s : Nat)
    (hseq : w.GetCurrentSequence = some s)
    (hdraw : ¬ w.randomDraw < w.GetWeaponReloadJamChance w.GetEquippedWeaponHealthBracket) :
    jamRoll w l = Except.ok (w, l) := by
  unfold jamRoll
  split
  · simp only [deref, hseq, bind, Except.bind, pure, Except.pure, RNG.IsRandomDecimalBelow,
      decide_eq_true_eq, hdraw, if_false]
    repeat' split
    all_goals rfl
  · rfl

/-- Block is adopted exactly when the off-hand channel holds a sequence
whose group is BlockIdle. -/
theorem adoptBlock_cases (w : World) (l : Locals) :
    ((w.rigs.third.GetAnimSequenceElement kSequence_LeftArm = none ∨
        AnimGroupID.GetGroupID (w.rigs.third.GetNthSequenceGroupID kSequence_LeftArm)
          ≠ kAnimGroup_BlockIdle) ∧
      adoptBlock w l = (w, l)) ∨
    ∃ v53, w.rigs.third.GetAnimSequenceElement kSequence_LeftArm = some v53 ∧
      AnimGroupID.GetGroupID (w.rigs.third.GetNthSequenceGroupID kSequence_LeftArm)
        = kAnimGroup_BlockIdle ∧
      adoptBlock w l = (w.SetAnimActionAndSequence kAnimAction_Block (some v53),
        { l with animAction := kAnimAction_Block }) := by
  unfold adoptBlock
  split
  · rename_i v53 hv
    by_cases hb : AnimGroupID.GetGroupID (w.rigs.third.GetNthSequenceGroupID kSequence_LeftArm)
        = kAnimGroup_BlockIdle
    · exact Or.inr ⟨v53, hv, hb, by rw [if_pos hb]⟩
    · exact Or.inl ⟨Or.inr hb, by rw [if_neg hb]⟩
  · rename_i hv
    exact Or.inl ⟨Or.inl hv, rfl⟩

/-- A flag that is set is also set in any mask that contains its bits. -/
theorem flag_of_part (m a b : Nat) (hab : a &&& b = a) (h : m &&& a ≠ 0) : m &&& b ≠ 0 := by
  intro h0
  apply h
  rw [← hab, ← Nat.land_assoc, Nat.land_comm m a, Nat.land_assoc, h0]
  simp

/-- In the normal sit/sleep state no seated idle is selected. -/
theorem sitSleepGroup_normal (w : World) (l : Locals)
    (hsit : w.GetSitSleepState = kSitSleepState_Normal) : sitSleepGroup w l = Except.ok l := by
  simp [sitSleepGroup, hsit, kSitSleepState_Normal, kSitSleepState_WaitingForSitAnim,
    kSitSleepState_WaitingForSleepAnim, kSitSleepState_Sitting, kSitSleepState_WantToStand,
    kSitSleepState_Sleeping, kSitSleepState_WantToWake]
  rfl

/-- With no group selected earlier and a normal sit/sleep state the
classification is the directional and turn block. -/
theorem classify_idle (movementSpeed : ℚ) (w : World) (l : Locals)
    (hidle : l.animGroup = kAnimGroup_Idle)
    (hsit : w.GetSitSleepState = kSitSleepState_Normal) :
    classify movementSpeed w l
      = Except.ok (directionBlock w { l with v167 := movementSpeed }) := by
  unfold classify
  rw [if_neg (by rw [hidle]; decide), sitSleepGroup_normal w l hsit]
  rfl

end Actor.PickAnimations

/-! ## Lemmas about a tick with no action in flight -/

namespace Actor.PickAnimations

/-- Past its guards, with the weapon-channel clean-up done, the tick is its
body. -/
theorem tick_eq_body (movementSpeed turnSpeed : ℚ) (w w1 : World)
    (charController : bhkCharacterController)
    (hdying : w.IsDying = false) (hknocked : w.GetKnockedState = false)
    (hthird : ¬ (w.isPlayer = true ∧ w.IsNotFirstPerson = false))
    (hdata : w.hasAnimData = true) (hproc : w.hasBaseProcess = true)
    (hcc : w.charController = some charController)
    (hpre : endStaleWeaponSequences w = Except.ok w1) :
    Actor.PickAnimations movementSpeed turnSpeed w
      = body charController movementSpeed turnSpeed w1 := by
  have h1 : ¬ (w.isPlayer = true ∧ ¬ w.IsNotFirstPerson = true) := by
    rintro ⟨a, b⟩
    exact hthird ⟨a, by simpa using b⟩
  unfold Actor.PickAnimations
  rw [if_pos (by simp [hdying, hknocked]), if_neg h1, if_pos ⟨hdata, hproc⟩]
  simp only [hcc, hpre, bind, Except.bind]

/-- With no action in flight, a normal sit/sleep state, the controller on
the ground, no jump animation on the movement channel and the
wants-weapon-out flag agreeing with the weapon-out flag, the action phase
and the request phase change nothing. -/
theorem classified_idle_start (charController : bhkCharacterController) (movementSpeed : ℚ)
    (w : World)
    (hcur : w.GetCurrentAnimAction = kAnimAction_None)
    (hsit : w.GetSitSleepState = kSitSleepState_Normal)
    (hground : charController.GetContextHkState = kCharControllerState_OnGround)
    (hjump : ∀ v, w.rigs.third.GetAnimSequenceElement kSequence_Movement = some v →
      (w.group v).IsJumping = false ∧ (w.group v).GetSequenceGroup ≠ kAnimGroup_JumpStart)
    (hwants : w.GetWantsWeaponOut_IfSwimmingCancelVATS = w.IsWeaponOut) :
    classified charController movementSpeed w
      = (do
          let l3 ← pickHandType w (initLocals w)
          let l4 ← classify movementSpeed w (pickMoveType w l3)
          pure (w, l4)) := by
  have hc : (initLocals w).currentAnimAction = kAnimAction_None := hcur
  have ha : actionPhase charController w (initLocals w) = Except.ok (w, initLocals w) := by
    unfold actionPhase
    rw [if_neg (by simp [hc])]
    rfl
  have hj : jumpOrLand charController w (initLocals w) = (w, initLocals w) := by
    unfold jumpOrLand
    simp only [hground, kCharControllerState_OnGround, ne_eq, not_true_eq_false, if_false]
    split
    · rename_i v hv
      obtain ⟨h1, h2⟩ := hjump v hv
      rw [if_neg (by simp [h1, h2])]
    · rfl
  have hr : requestPhase charController w (initLocals w) = (w, initLocals w) := by
    have hm : (initLocals w).animAction = -1 := rfl
    have hc1 : (initLocals w).currentAnimAction = -1 := hc
    have hE : ¬ (w.GetWantsWeaponOut_IfSwimmingCancelVATS = true ∧ ¬ w.IsWeaponOut = true ∧
        (initLocals w).currentAnimAction = -1 ∧ w.Actor_8843A0 = true) := by
      rw [hwants]; cases w.IsWeaponOut <;> simp
    have hU : ¬ (¬ w.GetWantsWeaponOut_IfSwimmingCancelVATS = true ∧ w.IsWeaponOut = true ∧
        (initLocals w).currentAnimAction = -1 ∧ ¬ w.Unk_8D = true ∧ ¬ w.IsDying = true ∧
        ¬ w.GetKnockedState = true ∧ ¬ w.GetIsRestrained = true ∧
        ¬ w.GetIsUnConscious = true) := by
      rw [hwants]; cases w.IsWeaponOut <;> simp
    unfold requestPhase
    rw [if_pos hm, if_pos hsit, if_pos (Or.inl hc1), hj]
    simp only []
    rw [if_neg hE]
    simp only []
    rw [if_neg hU]
  unfold classified
  simp only [ha, bind, Except.bind, hr]

/-- With nothing requested and no action in flight the resolution phase
commits, plays, stops stale movement and runs the attack hook, in that
order. -/
theorem resolvePhase_fresh (turnSpeed : ℚ) (w : World) (l : Locals)
    (ha : l.animAction = -1) (hc : l.currentAnimAction = -1) :
    resolvePhase turnSpeed w l
      = attackHook (endMovement
          (playResolved
            (commitSpeed turnSpeed w
              { l with animAction := -1,
                       animGroup := AnimGroupID.GetGroupID (resolvedID w l) } (resolvedID w l))
            { l with animAction := -1,
                     animGroup := AnimGroupID.GetGroupID (resolvedID w l) } (resolvedID w l))
          { l with animAction := -1, animGroup := AnimGroupID.GetGroupID (resolvedID w l) }) := by
  have hd : ∀ v150, dropUnresolved w l v150 = (w, -1) := by
    intro v150
    unfold dropUnresolved
    rw [if_neg (by simp [ha]), ha]
  unfold resolvePhase
  rw [if_pos (Or.inl ha)]
  simp only [hd]
  rw [if_neg (by simp [hc])]

theorem playIdleOfMoveType_performs (P : Effect → Prop) (hP : ∀ id flag, P (Effect.PlayAnimGroup id flag))
    (hQ : P Effect.PlayFirstPersonAnimation) (w : World) (l : Locals) :
    w.Performs P (playIdleOfMoveType w l) := by
  unfold playIdleOfMoveType
  split
  · exact World.Performs.ite _
      ((World.Performs.perform w _ (hP _ _)).perform_of _ hQ) (World.Performs.refl P w)
  · exact World.Performs.refl P w

theorem playFollowUp_performs (P : Effect → Prop) (hP : ∀ id flag, P (Effect.PlayAnimGroup id flag))
    (hQ : P Effect.PlayFirstPersonAnimation) (w : World) (l : Locals) :
    w.Performs P (playFollowUp w l) := by
  unfold playFollowUp
  split
  · exact (World.Performs.perform w _ (hP _ _)).perform_of _ hQ
  · split
    · exact World.Performs.ite _
        ((World.Performs.perform w _ (hP _ _)).perform_of _ hQ) (World.Performs.refl P w)
    · exact World.Performs.refl P w

/-- With no action requested, playing the resolved group only issues
playback requests. -/
theorem playResolved_performs (P : Effect → Prop) (hP : ∀ id flag, P (Effect.PlayAnimGroup id flag))
    (hQ : P Effect.PlayFirstPersonAnimation) (w : World) (l : Locals) (groupID_1 : Nat)
    (ha : l.animAction = -1) :
    w.Performs P (playResolved w l groupID_1) := by
  unfold playResolved
  split
  · split
    · simp only [ha, ne_eq, not_true_eq_false, false_and, if_false]
      exact ((((playIdleOfMoveType_performs P hP hQ w l).perform_of _ (hP _ _)).perform_of _
        hQ).trans (playFollowUp_performs P hP hQ _ l))
    · exact World.Performs.refl P w
  · exact World.Performs.refl P w

theorem endMovement_performs (P : Effect → Prop)
    (hP : ∀ rig channel, P (Effect.EndsSequenceIfNotAim rig channel)) (w : World) (l : Locals) :
    w.Performs P (endMovement w l) := by
  unfold endMovement
  split
  · split
    · simp only []
      split
      · exact World.Performs.ite _
          ((World.Performs.perform w _ (hP _ _)).perform_of _ (hP _ _))
          (World.Performs.perform w _ (hP _ _))
      · exact World.Performs.refl P w
    · exact World.Performs.refl P w
  · exact World.Performs.refl P w

theorem attackHook_performs (P : Effect → Prop) (hP : P Effect.sub_8A5340)
    (hQ : P Effect.Unk_117) (w : World) : w.Performs P (attackHook w) := by
  unfold attackHook
  exact World.Performs.ite _ ((World.Performs.perform w _ hP).perform_of _ hQ)
    (World.Performs.refl P w)

/-- After the commit of a tick with nothing requested, only playback
requests, stop requests and the attack hook follow. -/
theorem afterCommit_performs (P : Effect → Prop)
    (hP : ∀ id flag, P (Effect.PlayAnimGroup id flag)) (hQ : P Effect.PlayFirstPersonAnimation)
    (hR : ∀ rig channel, P (Effect.EndsSequenceIfNotAim rig channel))
    (hS : P Effect.sub_8A5340) (hT : P Effect.Unk_117)
    (w : World) (l : Locals) (groupID_1 : Nat) (ha : l.animAction = -1) :
    w.Performs P (attackHook (endMovement (playResolved w l groupID_1) l)) :=
  ((playResolved_performs P hP hQ w l groupID_1 ha).trans
    (endMovement_performs P hR _ l)).trans (attackHook_performs P hS hT _)

/-- With no request pending the hand type of the key is the one the table
gives for the weapon held. -/
theorem pickHandType_armed (w : World) (l : Locals) (weapInfo : ContChangesEntry)
    (weap : TESObjectWEAP) (ha : l.animAction = -1)
    (hinfo : w.GetWeaponInfo = some weapInfo) (hweap : weapInfo.GetFlags = some weap) :
    pickHandType w l
      = Except.ok { l with animHandType := w.g_weaponTypeToAnim weap.getWeaponType } := by
  unfold pickHandType
  rw [if_pos (Or.inr (Or.inr (by rw [ha]; decide)))]
  simp only [hinfo, hweap, deref, bind, Except.bind, pure, Except.pure]

/-- With no request pending and no weapon profile the hand type of the key
is kAnimHandType_1HM (line 550). -/
theorem pickHandType_unarmed (w : World) (l : Locals) (ha : l.animAction = -1)
    (hinfo : w.GetWeaponInfo = none) :
    pickHandType w l = Except.ok { l with animHandType := kAnimHandType_1HM } := by
  unfold pickHandType
  rw [if_pos (Or.inr (Or.inr (by rw [ha]; decide)))]
  simp only [hinfo, pure, Except.pure]

/-- A tick with no action in flight and nothing to request, for an entity
running forward with a weapon held: the key is built from the weapon's hand
type and FastForward, and when the resolved id carries FastForward the
first call of the body commits the movement-speed multiplier; only
playback requests, stop requests and the attack hook follow. -/
theorem body_run_forward (charController : bhkCharacterController)
    (movementSpeed turnSpeed : ℚ) (w : World) (weapInfo : ContChangesEntry)
    (weap : TESObjectWEAP)
    (hcur : w.GetCurrentAnimAction = kAnimAction_None)
    (hsit : w.GetSitSleepState = kSitSleepState_Normal)
    (hground : charController.GetContextHkState = kCharControllerState_OnGround)
    (hjump : ∀ v, w.rigs.third.GetAnimSequenceElement kSequence_Movement = some v →
      (w.group v).IsJumping = false ∧ (w.group v).GetSequenceGroup ≠ kAnimGroup_JumpStart)
    (hwants : w.GetWantsWeaponOut_IfSwimmingCancelVATS = w.IsWeaponOut)
    (hflags : w.GetMovementFlags = kMoveFlag_Forward ||| kMoveFlag_Running)
    (hinfo : w.GetWeaponInfo = some weapInfo) (hweap : weapInfo.GetFlags = some weap)
    (htype : w.GetActorType ≠ 0) (hrun : 1 ≤ w.GetRunSpeedMult)
    (hres : AnimGroupID.GetGroupID (w.AnimData_495740
        (Anim_Concat_MoveType_HandType_Group_PowerArmor kAnimMoveType_Walking
          (w.g_weaponTypeToAnim weap.getWeaponType) kAnimGroup_FastForward w.isPowerArmor))
      = kAnimGroup_FastForward) :
    ∃ l w2, classified charController movementSpeed w = Except.ok (w, l) ∧
      resolvedID w l = w.AnimData_495740
        (Anim_Concat_MoveType_HandType_Group_PowerArmor kAnimMoveType_Walking
          (w.g_weaponTypeToAnim weap.getWeaponType) kAnimGroup_FastForward w.isPowerArmor) ∧
      body charController movementSpeed turnSpeed w = Except.ok w2 ∧
      (w.perform (Effect.SetMovementSpeedMult
        (if w.rigs.third.GetPlayingAnimGroupMovementVectorMagnitude (resolvedID w l) ≠ 0 then
          (w.GetRunSpeedMult /
            w.rigs.third.GetPlayingAnimGroupMovementVectorMagnitude (resolvedID w l))
            * movementSpeed
        else movementSpeed))).Performs
        (fun e => (∀ v, e ≠ Effect.SetMovementSpeedMult v) ∧ (∀ v, e ≠ Effect.SetRateOfFire v) ∧
          ∀ a q, e ≠ Effect.SetAnimActionAndSequence a q) w2 := by
  have hstart := classified_idle_start charController movementSpeed w hcur hsit hground hjump
    hwants
  have hhand := pickHandType_armed w (initLocals w) weapInfo weap rfl hinfo hweap
  have hmove : ∀ l : Locals, pickMoveType w l = l := by
    intro l
    unfold pickMoveType
    rw [hflags, if_neg (by decide), if_neg (by decide), if_neg (by decide)]
  have hdir : ∀ l : Locals, directionBlock w l
      = { l with animGroup := kAnimGroup_FastForward, movementSpeedMult := w.GetRunSpeedMult } := by
    intro l
    have h1 : (kMoveFlag_Forward ||| kMoveFlag_Running) &&& kMoveFlag_AnyDirection ≠ 0 := by
      decide
    have h2 : (kMoveFlag_Forward ||| kMoveFlag_Running) &&& kMoveFlag_Running ≠ 0 := by decide
    have h3 : (kMoveFlag_Forward ||| kMoveFlag_Running) &&& 1 ≠ 0 := by decide
    unfold directionBlock
    simp only [hflags, h1, h2, h3, htype, ne_eq, not_false_eq_true, if_true]
  have hclass : classified charController movementSpeed w
      = Except.ok (w, { initLocals w with
          animHandType := w.g_weaponTypeToAnim weap.getWeaponType,
          v167 := movementSpeed,
          animGroup := kAnimGroup_FastForward,
          movementSpeedMult := w.GetRunSpeedMult }) := by
    rw [hstart, hhand]
    simp only [bind, Except.bind, hmove]
    rw [classify_idle movementSpeed w _ rfl hsit, hdir]
    rfl
  generalize hl : ({ initLocals w with
      animHandType := w.g_weaponTypeToAnim weap.getWeaponType,
      v167 := movementSpeed,
      animGroup := kAnimGroup_FastForward,
      movementSpeedMult := w.GetRunSpeedMult } : Locals) = l at hclass
  have hl1 : l.animAction = -1 := by rw [← hl]; rfl
  have hl2 : l.currentAnimAction = -1 := by rw [← hl]; exact hcur
  have hl3 : l.movementSpeedMult = w.GetRunSpeedMult := by rw [← hl]
  have hl4 : l.v167 = movementSpeed := by rw [← hl]
  have hid : resolvedID w l = w.AnimData_495740
      (Anim_Concat_MoveType_HandType_Group_PowerArmor kAnimMoveType_Walking
        (w.g_weaponTypeToAnim weap.getWeaponType) kAnimGroup_FastForward w.isPowerArmor) := by
    unfold resolvedID dropSlowMovement
    rw [if_neg (by rw [hl3]; exact fun h => absurd h.1 (not_lt.mpr hrun)), ← hl]
    rfl
  have hbody : body charController movementSpeed turnSpeed w
      = Except.ok (resolvePhase turnSpeed w l) := by
    unfold body
    rw [hclass]
    rfl
  have hgrp : AnimGroupID.GetGroupID (resolvedID w l) = kAnimGroup_FastForward := by
    rw [hid]; exact hres
  have hne : resolvedID w l ≠ 255 := by
    intro h
    rw [h] at hgrp
    exact absurd hgrp (by decide)
  have hcommit : commitSpeed turnSpeed w
      { l with animAction := -1, animGroup := AnimGroupID.GetGroupID (resolvedID w l) }
      (resolvedID w l)
      = w.perform (Effect.SetMovementSpeedMult
        (if w.rigs.third.GetPlayingAnimGroupMovementVectorMagnitude (resolvedID w l) ≠ 0 then
          (w.GetRunSpeedMult /
            w.rigs.third.GetPlayingAnimGroupMovementVectorMagnitude (resolvedID w l))
            * movementSpeed
        else movementSpeed)) := by
    have hs1 : isSideOrDodge kAnimGroup_FastForward = false := by decide
    have hs2 : isFastSide kAnimGroup_FastForward = false := by decide
    have hs3 : ¬ (kAnimGroup_FastForward = kAnimGroup_TurnLeft ∨
        kAnimGroup_FastForward = kAnimGroup_TurnRight) := by decide
    have hs4 : ¬ (kAnimGroup_FastForward < kAnimGroup_Forward ∨
        kAnimGroup_TurnRight < kAnimGroup_FastForward) := by decide
    unfold commitSpeed magnitudeGroupID
    simp only [hgrp, hl3, hl4, hs1, hs2, hs3, hs4, htype, hne, ne_eq, not_false_eq_true,
      if_true, if_false, Bool.false_eq_true]
  refine ⟨l, _, hclass, hid, hbody, ?_⟩
  rw [resolvePhase_fresh turnSpeed w l hl1 hl2, hcommit]
  exact afterCommit_performs _ (fun _ _ => ⟨fun _ h => (by cases h), fun _ h => (by cases h),
      fun _ _ h => (by cases h)⟩)
    ⟨fun _ h => (by cases h), fun _ h => (by cases h), fun _ _ h => (by cases h)⟩
    (fun _ _ => ⟨fun _ h => (by cases h), fun _ h => (by cases h), fun _ _ h => (by cases h)⟩)
    ⟨fun _ h => (by cases h), fun _ h => (by cases h), fun _ _ h => (by cases h)⟩
    ⟨fun _ h => (by cases h), fun _ h => (by cases h), fun _ _ h => (by cases h)⟩ _ _ _ rfl

/-- A tick with no action in flight and nothing to request, for an unarmed
entity with no movement flag set: the key is built from the Idle base
group, and when the resolved id carries Idle the body only issues playback
requests, stop requests and the attack hook. -/
theorem body_idle (charController : bhkCharacterController)
    (movementSpeed turnSpeed : ℚ) (w : World)
    (hcur : w.GetCurrentAnimAction = kAnimAction_None)
    (hsit : w.GetSitSleepState = kSitSleepState_Normal)
    (hground : charController.GetContextHkState = kCharControllerState_OnGround)
    (hjump : ∀ v, w.rigs.third.GetAnimSequenceElement kSequence_Movement = some v →
      (w.group v).IsJumping = false ∧ (w.group v).GetSequenceGroup ≠ kAnimGroup_JumpStart)
    (hwants : w.GetWantsWeaponOut_IfSwimmingCancelVATS = w.IsWeaponOut)
    (hflags : w.GetMovementFlags = 0)
    (hinfo : w.GetWeaponInfo = none)
    (hres : AnimGroupID.GetGroupID (w.AnimData_495740
        (Anim_Concat_MoveType_HandType_Group_PowerArmor kAnimMoveType_Walking
          kAnimHandType_1HM kAnimGroup_Idle w.isPowerArmor))
      = kAnimGroup_Idle) :
    ∃ l w2, classified charController movementSpeed w = Except.ok (w, l) ∧
      l.animGroup = kAnimGroup_Idle ∧ l.animAction = kAnimAction_None ∧
      resolvedID w l = w.AnimData_495740
        (Anim_Concat_MoveType_HandType_Group_PowerArmor kAnimMoveType_Walking
          kAnimHandType_1HM kAnimGroup_Idle w.isPowerArmor) ∧
      body charController movementSpeed turnSpeed w = Except.ok w2 ∧
      w.Performs
        (fun e => (∀ v, e ≠ Effect.SetMovementSpeedMult v) ∧ (∀ v, e ≠ Effect.SetRateOfFire v) ∧
          ∀ a q, e ≠ Effect.SetAnimActionAndSequence a q) w2 := by
  have hstart := classified_idle_start charController movementSpeed w hcur hsit hground hjump
    hwants
  have hhand := pickHandType_unarmed w (initLocals w) rfl hinfo
  have hmove : ∀ l : Locals, pickMoveType w l = l := by
    intro l
    unfold pickMoveType
    rw [hflags, if_neg (by decide), if_neg (by decide), if_neg (by decide)]
  have hdir : ∀ l : Locals, directionBlock w l = l := by
    intro l
    unfold directionBlock
    simp only [hflags]
    rw [if_neg (by decide), if_neg (by decide), if_neg (by decide)]
  have hclass : classified charController movementSpeed w
      = Except.ok (w, { initLocals w with
          animHandType := kAnimHandType_1HM, v167 := movementSpeed }) := by
    rw [hstart, hhand]
    simp only [bind, Except.bind, hmove]
    rw [classify_idle movementSpeed w _ rfl hsit, hdir]
    rfl
  generalize hl : ({ initLocals w with
      animHandType := kAnimHandType_1HM, v167 := movementSpeed } : Locals) = l at hclass
  have hl1 : l.animAction = -1 := by rw [← hl]; rfl
  have hl2 : l.currentAnimAction = -1 := by rw [← hl]; exact hcur
  have hl3 : l.animGroup = kAnimGroup_Idle := by rw [← hl]; rfl
  have hid : resolvedID w l = w.AnimData_495740
      (Anim_Concat_MoveType_HandType_Group_PowerArmor kAnimMoveType_Walking
        kAnimHandType_1HM kAnimGroup_Idle w.isPowerArmor) := by
    unfold resolvedID dropSlowMovement
    rw [if_neg (by rw [hl3]; exact fun h => absurd h.2.1 (by decide)), ← hl]
    rfl
  have hbody : body charController movementSpeed turnSpeed w
      = Except.ok (resolvePhase turnSpeed w l) := by
    unfold body
    rw [hclass]
    rfl
  have hgrp : AnimGroupID.GetGroupID (resolvedID w l) = kAnimGroup_Idle := by
    rw [hid]; exact hres
  have hne : resolvedID w l ≠ 255 := by
    intro h
    rw [h] at hgrp
    exact absurd hgrp (by decide)
  have hcommit : commitSpeed turnSpeed w
      { l with animAction := -1, animGroup := AnimGroupID.GetGroupID (resolvedID w l) }
      (resolvedID w l) = w := by
    have hs3 : ¬ (kAnimGroup_Idle = kAnimGroup_TurnLeft ∨
        kAnimGroup_Idle = kAnimGroup_TurnRight) := by decide
    have hs4 : kAnimGroup_Idle < kAnimGroup_Forward ∨ kAnimGroup_TurnRight < kAnimGroup_Idle :=
      by decide
    have hs5 : ¬ (kAnimGroup_Equip ≤ kAnimGroup_Idle ∧ kAnimGroup_Idle ≤ kAnimGroup_Counter) :=
      by decide
    unfold commitSpeed
    simp only [hgrp, hs3, hs4, hs5, hne, ne_eq, not_false_eq_true, if_true, if_false]
  refine ⟨l, _, hclass, hl3, hl1, hid, hbody, ?_⟩
  rw [resolvePhase_fresh turnSpeed w l hl1 hl2, hcommit]
  exact afterCommit_performs _ (fun _ _ => ⟨fun _ h => (by cases h), fun _ h => (by cases h),
      fun _ _ h => (by cases h)⟩)
    ⟨fun _ h => (by cases h), fun _ h => (by cases h), fun _ _ h => (by cases h)⟩
    (fun _ _ => ⟨fun _ h => (by cases h), fun _ h => (by cases h), fun _ _ h => (by cases h)⟩)
    ⟨fun _ h => (by cases h), fun _ h => (by cases h), fun _ _ h => (by cases h)⟩
    ⟨fun _ h => (by cases h), fun _ h => (by cases h), fun _ _ h => (by cases h)⟩ _ _ _ rfl

/-- Picking the hand type changes neither the requested action nor the
action in flight. -/
theorem pickHandType_keeps (w : World) (l l1 : Locals) (h : pickHandType w l = Except.ok l1) :
    l1.animAction = l.animAction ∧ l1.currentAnimAction = l.currentAnimAction ∧
      l1.animGroup = l.animGroup := by
  unfold pickHandType at h
  split at h
  · split at h
    · rename_i weapInfo _
      cases hf : weapInfo.GetFlags with
      | none => simp [hf, deref, bind, Except.bind] at h
      | some weap =>
        simp only [hf, deref, bind, Except.bind, pure, Except.pure] at h
        injection h with h
        subst h
        exact ⟨rfl, rfl, rfl⟩
    · injection h with h
      subst h
      exact ⟨rfl, rfl, rfl⟩
  · injection h with h
    subst h
    exact ⟨rfl, rfl, rfl⟩

/-- Picking the locomotion type changes neither the requested action nor
the action in flight. -/
theorem pickMoveType_keeps (w : World) (l : Locals) :
    (pickMoveType w l).animAction = l.animAction ∧
      (pickMoveType w l).currentAnimAction = l.currentAnimAction ∧
      (pickMoveType w l).animGroup = l.animGroup := by
  unfold pickMoveType
  split_ifs <;> exact ⟨rfl, rfl, rfl⟩

theorem sitSleepGroup_keeps (w : World) (l l1 : Locals) (h : sitSleepGroup w l = Except.ok l1) :
    l1.animAction = l.animAction ∧ l1.currentAnimAction = l.currentAnimAction := by
  unfold sitSleepGroup at h
  simp only [deref, bind, Except.bind, pure, Except.pure] at h
  repeat' split at h
  all_goals first
    | (injection h with h; subst h; exact ⟨rfl, rfl⟩)
    | (exact absurd h (by simp))

theorem directionBlock_keeps (w : World) (l : Locals) :
    (directionBlock w l).animAction = l.animAction ∧
      (directionBlock w l).currentAnimAction = l.currentAnimAction := by
  unfold directionBlock
  simp only []
  split_ifs <;> exact ⟨rfl, rfl⟩

/-- The classification changes neither the requested action nor the action
in flight. -/
theorem classify_keeps (movementSpeed : ℚ) (w : World) (l l1 : Locals)
    (h : classify movementSpeed w l = Except.ok l1) :
    l1.animAction = l.animAction ∧ l1.currentAnimAction = l.currentAnimAction := by
  unfold classify at h
  split at h
  · injection h with h; subst h; exact ⟨rfl, rfl⟩
  · cases hs : sitSleepGroup w l with
    | error e => simp [hs, bind, Except.bind] at h
    | ok l2 =>
      simp only [hs, bind, Except.bind, pure, Except.pure] at h
      injection h with h
      subst h
      obtain ⟨a, b⟩ := sitSleepGroup_keeps w l l2 hs
      obtain ⟨c, d⟩ := directionBlock_keeps w { l2 with v167 := movementSpeed }
      exact ⟨c.trans a, d.trans b⟩

/-- The request phase does nothing once the action phase has set a
requested action. -/
theorem requestPhase_skip (charController : bhkCharacterController) (w : World) (l : Locals)
    (h : l.animAction ≠ -1) : requestPhase charController w l = (w, l) := by
  unfold requestPhase
  rw [if_neg h]

/-- The request phase does nothing while an action is in flight that is
none of the case labels of line 470. -/
theorem requestPhase_in_flight (charController : bhkCharacterController) (w : World)
    (l : Locals)
    (h : ¬ (l.currentAnimAction = -1 ∨ l.currentAnimAction = kAAP1_Unequip_Weapon ∨
      l.currentAnimAction = kAAP1_Attack_Eject ∨ l.currentAnimAction = kAAP1_Dodge)) :
    requestPhase charController w l = (w, l) := by
  have h1 : l.currentAnimAction ≠ -1 := fun hc => h (Or.inl hc)
  have hE : ¬ (w.GetWantsWeaponOut_IfSwimmingCancelVATS = true ∧ ¬ w.IsWeaponOut = true ∧
      l.currentAnimAction = -1 ∧ w.Actor_8843A0 = true) := fun hc => h1 hc.2.2.1
  have hU : ¬ (¬ w.GetWantsWeaponOut_IfSwimmingCancelVATS = true ∧ w.IsWeaponOut = true ∧
      l.currentAnimAction = -1 ∧ ¬ w.Unk_8D = true ∧ ¬ w.IsDying = true ∧
      ¬ w.GetKnockedState = true ∧ ¬ w.GetIsRestrained = true ∧
      ¬ w.GetIsUnConscious = true) := fun hc => h1 hc.2.2.1
  unfold requestPhase
  by_cases ha : l.animAction = -1
  · rw [if_pos ha]
    by_cases hs : w.GetSitSleepState = kSitSleepState_Normal
    · rw [if_pos hs, if_neg h]
      simp only []
      rw [if_neg hE]
      simp only []
      rw [if_neg hU]
    · rw [if_neg hs]
      simp only []
      rw [if_neg hU]
  · rw [if_neg ha]

/-- The tail of the classification, from the hand type on, leaves the
state alone and keeps the requested action and the action in flight. -/
theorem classified_tail (charController : bhkCharacterController) (movementSpeed : ℚ)
    (w w1 w2 : World) (l1 l2 : Locals)
    (ha : actionPhase charController w (initLocals w) = Except.ok (w1, l1))
    (hr : requestPhase charController w1 l1 = (w1, l1))
    (h : classified charController movementSpeed w = Except.ok (w2, l2)) :
    w2 = w1 ∧ l2.animAction = l1.animAction ∧ l2.currentAnimAction = l1.currentAnimAction := by
  unfold classified at h
  simp only [ha, bind, Except.bind, hr] at h
  cases hh : pickHandType w1 l1 with
  | error e => simp [hh] at h
  | ok l3 =>
    simp only [hh] at h
    cases hc : classify movementSpeed w1 (pickMoveType w1 l3) with
    | error e => simp [hc] at h
    | ok l4 =>
      simp only [hc, pure, Except.pure] at h
      injection h with h
      injection h with h5 h6
      subst h5 h6
      obtain ⟨a1, a2, -⟩ := pickHandType_keeps w1 l1 l3 hh
      obtain ⟨b1, b2, -⟩ := pickMoveType_keeps w1 l3
      obtain ⟨c1, c2⟩ := classify_keeps movementSpeed w1 _ l4 hc
      exact ⟨rfl, (c1.trans b1).trans a1, (c2.trans b2).trans a2⟩

theorem forceScriptSpeed_performs (P : Effect → Prop)
    (hP : ∀ v, P (Effect.SetMovementSpeedMult v)) (turnSpeed : ℚ) (w : World) (l : Locals) :
    w.Performs P (forceScriptSpeed turnSpeed w l) := by
  unfold forceScriptSpeed
  exact World.Performs.ite _ (World.Performs.perform w _ (hP _))
    (World.Performs.perform w _ (hP _))

theorem commitSpeed_performs (P : Effect → Prop)
    (hP : ∀ v, P (Effect.SetMovementSpeedMult v)) (hQ : ∀ v, P (Effect.SetRateOfFire v))
    (turnSpeed : ℚ) (w : World) (l : Locals) (groupID_1 : Nat) :
    w.Performs P (commitSpeed turnSpeed w l groupID_1) := by
  unfold commitSpeed
  split
  · split
    · exact World.Performs.perform w _ (hP _)
    · split
      · exact World.Performs.ite _ (World.Performs.perform w _ (hQ _))
          (World.Performs.refl P w)
      · exact World.Performs.perform w _ (hP _)
  · exact World.Performs.refl P w

/-- With no action requested, the resolution phase leaves the context
alone and records only speed and rate commits, playback requests, stop
requests and the attack hook. -/
theorem resolvePhase_performs (P : Effect → Prop)
    (hM : ∀ v, P (Effect.SetMovementSpeedMult v)) (hF : ∀ v, P (Effect.SetRateOfFire v))
    (hP : ∀ id flag, P (Effect.PlayAnimGroup id flag)) (hQ : P Effect.PlayFirstPersonAnimation)
    (hR : ∀ rig channel, P (Effect.EndsSequenceIfNotAim rig channel))
    (hS : P Effect.sub_8A5340) (hT : P Effect.Unk_117)
    (turnSpeed : ℚ) (w : World) (l : Locals) (ha : l.animAction = -1) :
    w.Performs P (resolvePhase turnSpeed w l) := by
  have hd : ∀ v150, dropUnresolved w l v150 = (w, -1) := by
    intro v150
    unfold dropUnresolved
    rw [if_neg (by simp [ha]), ha]
  unfold resolvePhase
  rw [if_pos (Or.inl ha)]
  simp only [hd]
  split
  · split
    · exact forceScriptSpeed_performs P hM turnSpeed w _
    · exact World.Performs.refl P w
  · exact (commitSpeed_performs P hM hF turnSpeed w _ _).trans
      (afterCommit_performs P hP hQ hR hS hT _ _ _ rfl)

/-- Once the action phase has set a requested action while an action is in
flight, the rest of the tick (lines 466-962) changes nothing. -/
theorem body_in_flight (charController : bhkCharacterController) (w w1 : World) (l1 : Locals)
    (ha : actionPhase charController w (initLocals w) = Except.ok (w1, l1))
    (h1 : l1.animAction ≠ -1) (h2 : l1.currentAnimAction ≠ -1)
    (movementSpeed turnSpeed : ℚ) (w2 : World)
    (hb : body charController movementSpeed turnSpeed w = Except.ok w2) : w2 = w1 := by
  unfold body at hb
  cases hc : classified charController movementSpeed w with
  | error e => simp [hc, bind, Except.bind] at hb
  | ok p =>
    obtain ⟨w3, l3⟩ := p
    simp only [hc, bind, Except.bind, pure, Except.pure] at hb
    obtain ⟨e1, e2, e3⟩ := classified_tail charController movementSpeed w w1 w3 l1 l3 ha
      (requestPhase_skip charController w1 l1 h1) hc
    subst e1
    have hr : resolvePhase turnSpeed w3 l3 = w3 := by
      unfold resolvePhase
      rw [if_neg (by rw [e2, e3]; exact fun h => h.elim h1 h2)]
    injection hb with hb
    rw [← hb, hr]

/-- When the action phase leaves no requested action while an action is in
flight that is none of the case labels of line 470, the rest of the tick
leaves the context alone and records only speed and rate commits, playback
requests, stop requests and the attack hook. -/
theorem body_no_request (P : Effect → Prop)
    (hM : ∀ v, P (Effect.SetMovementSpeedMult v)) (hF : ∀ v, P (Effect.SetRateOfFire v))
    (hP : ∀ id flag, P (Effect.PlayAnimGroup id flag)) (hQ : P Effect.PlayFirstPersonAnimation)
    (hR : ∀ rig channel, P (Effect.EndsSequenceIfNotAim rig channel))
    (hS : P Effect.sub_8A5340) (hT : P Effect.Unk_117)
    (charController : bhkCharacterController) (w w1 : World) (l1 : Locals)
    (ha : actionPhase charController w (initLocals w) = Except.ok (w1, l1))
    (h1 : l1.animAction = -1)
    (h2 : ¬ (l1.currentAnimAction = -1 ∨ l1.currentAnimAction = kAAP1_Unequip_Weapon ∨
      l1.currentAnimAction = kAAP1_Attack_Eject ∨ l1.currentAnimAction = kAAP1_Dodge))
    (movementSpeed turnSpeed : ℚ) (w2 : World)
    (hb : body charController movementSpeed turnSpeed w = Except.ok w2) : w1.Performs P w2 := by
  unfold body at hb
  cases hc : classified charController movementSpeed w with
  | error e => simp [hc, bind, Except.bind] at hb
  | ok p =>
    obtain ⟨w3, l3⟩ := p
    simp only [hc, bind, Except.bind, pure, Except.pure] at hb
    obtain ⟨e1, e2, -⟩ := classified_tail charController movementSpeed w w1 w3 l1 l3 ha
      (requestPhase_in_flight charController w1 l1 h2) hc
    subst e1
    injection hb with hb
    rw [← hb]
    exact resolvePhase_performs P hM hF hP hQ hR hS hT turnSpeed w3 l3 (e2.trans h1)

end Actor.PickAnimations

/-! ## Lemmas about what a tick records and requests -/

namespace World

theorem Records.nil (P : Effect → Prop) (w : World) : w.Records P w :=
  ⟨[], by simp, by simp⟩

theorem Records.append {P : Effect → Prop} {w w1 w2 : World} (h1 : w.Records P w1)
    (h2 : w1.Records P w2) : w.Records P w2 := by
  obtain ⟨es1, t1, p1⟩ := h1
  obtain ⟨es2, t2, p2⟩ := h2
  refine ⟨es1 ++ es2, by rw [t2, t1, List.append_assoc], ?_⟩
  intro e he
  rcases List.mem_append.mp he with h | h
  · exact p1 e h
  · exact p2 e h

theorem Records.weaken {P Q : Effect → Prop} {w w1 : World} (h : w.Records P w1)
    (hPQ : ∀ e, P e → Q e) : w.Records Q w1 := by
  obtain ⟨es1, t1, p1⟩ := h
  exact ⟨es1, t1, fun e he => hPQ e (p1 e he)⟩

theorem Performs.records {P : Effect → Prop} {w w1 : World} (h : w.Performs P w1) :
    w.Records P w1 := h.2.2.2

theorem Records.snoc {P : Effect → Prop} {w w1 : World} (h1 : w.Records P w1)
    (e : Effect) (h : P e) : w.Records P (w1.perform e) :=
  h1.append ⟨[e], rfl, by simpa using h⟩

theorem Records.setAction {P : Effect → Prop} {w w1 : World} (h1 : w.Records P w1)
    (action : Int) (sequence : Option Nat)
    (h : P (Effect.SetAnimActionAndSequence action sequence)) :
    w.Records P (w1.SetAnimActionAndSequence action sequence) :=
  h1.append ⟨[Effect.SetAnimActionAndSequence action sequence], rfl, by simpa using h⟩

theorem Records.setWeaponOut {P : Effect → Prop} {w w1 : World} (h1 : w.Records P w1)
    (out : Bool) (h : P (Effect.SetWeaponOut out)) : w.Records P (w1.SetWeaponOut out) :=
  h1.append ⟨[Effect.SetWeaponOut out], rfl, by simpa using h⟩

theorem Records.branch {P : Effect → Prop} {w w1 w2 : World} (c : Prop) [Decidable c]
    (h1 : w.Records P w1) (h2 : w.Records P w2) :
    w.Records P (if c then w1 else w2) := by
  split
  · exact h1
  · exact h2

end World

namespace Actor.PickAnimations

theorem caseEquipUnequip_records (P : Effect → Prop)
    (hP : ∀ e, Effect.isRequestCommit e = false → P e) (w : World) (currentAnimAction : Int) :
    w.Records P (caseEquipUnequip w currentAnimAction) := by
  unfold caseEquipUnequip
  split
  · simp only []
    refine World.Records.append ?_ (equipCue_performs P (by exact hP _ rfl) (by exact hP _ rfl) _).records
    refine World.Records.snoc ?_ _ (by exact hP _ rfl)
    have h3 : ∀ v128, w.Records P
        ((equipRigLoop v128
          (w.SetWeaponOut (decide (currentAnimAction = kAnimAction_Equip_Weapon)))).perform
            Effect.AimWeapon) := fun v128 =>
      (((World.Records.nil _ w).setWeaponOut _ (by exact hP _ rfl)).append
        (equipRigLoop_performs P (fun _ _ => hP _ rfl) (by exact hP _ rfl) v128 _).records).snoc _
          (by exact hP _ rfl)
    exact World.Records.branch _
      ((h3 _).append
        (equipRagDoll_performs P (fun _ _ => hP _ rfl) (fun _ _ => hP _ rfl) _ _).records)
      (h3 _)
  · exact World.Records.nil _ w

theorem fireAttack_records (P : Effect → Prop)
    (hP : ∀ e, Effect.isRequestCommit e = false → P e) (w : World) :
    w.Records P (fireAttack w) := by
  unfold fireAttack
  repeat' split
  all_goals first
    | exact World.Records.nil P w
    | exact (World.Records.nil P w).snoc _ (by exact hP _ rfl)

theorem firePowerAttack_records (P : Effect → Prop)
    (hP : ∀ e, Effect.isRequestCommit e = false → P e) (w : World) :
    w.Records P (firePowerAttack w) := by
  unfold firePowerAttack
  repeat' split
  all_goals first
    | exact World.Records.nil P w
    | exact (World.Records.nil P w).snoc _ (by exact hP _ rfl)

theorem caseAttack_records (P : Effect → Prop)
    (hP : ∀ e, Effect.isRequestCommit e = false → P e) (w w1 : World)
    (h : caseAttack w = Except.ok w1) : w.Records P w1 := by
  unfold caseAttack at h
  cases hs : w.GetCurrentSequence with
  | none => simp [hs, deref, bind, Except.bind] at h
  | some s =>
    simp only [hs, deref, bind, Except.bind, pure, Except.pure] at h
    split_ifs at h
    all_goals
      injection h with h
      subst h
      first
        | exact World.Records.nil P w
        | exact (World.Records.nil P w).setAction _ _ (by exact hP _ rfl)
        | exact ((World.Records.nil P w).snoc _ (by exact hP _ rfl)).setAction _ _ (by exact hP _ rfl)
        | exact (fireAttack_records P hP w).setAction _ _ (by exact hP _ rfl)
        | exact fireAttack_records P hP w
        | exact (firePowerAttack_records P hP w).setAction _ _ (by exact hP _ rfl)
        | exact firePowerAttack_records P hP w

theorem caseAttackEject_records (P : Effect → Prop)
    (hP : ∀ e, Effect.isRequestCommit e = false → P e) (w w1 : World)
    (h : caseAttackEject w = Except.ok w1) : w.Records P w1 := by
  unfold caseAttackEject at h
  cases hs : w.GetCurrentSequence with
  | none => simp [hs, deref, bind, Except.bind] at h
  | some s =>
    simp only [hs, deref, bind, Except.bind, pure, Except.pure] at h
    repeat' split at h
    all_goals
      injection h with h
      subst h
      first
        | exact World.Records.nil P w
        | exact ((World.Records.nil P w).snoc _ (by exact hP _ rfl)).setAction _ _ (by exact hP _ rfl)

theorem caseAttackThrow_records (P : Effect → Prop)
    (hP : ∀ e, Effect.isRequestCommit e = false → P e) (w w1 : World)
    (h : caseAttackThrow w = Except.ok w1) : w.Records P w1 := by
  unfold caseAttackThrow at h
  cases hs : w.GetCurrentSequence with
  | none => simp [hs, deref, bind, Except.bind] at h
  | some s =>
    simp only [hs, deref, bind, Except.bind, pure, Except.pure] at h
    split_ifs at h
    all_goals
      injection h with h
      subst h
      first
        | exact World.Records.nil P w
        | exact (World.Records.nil P w).setAction _ _ (by exact hP _ rfl)
        | exact (World.Records.nil P w).snoc _ (by exact hP _ rfl)
        | exact ((World.Records.nil P w).snoc _ (by exact hP _ rfl)).setAction _ _ (by exact hP _ rfl)

theorem attachRigLoop_records (P : Effect → Prop)
    (hP : ∀ e, Effect.isRequestCommit e = false → P e) (v133 : Nat) (w : World) :
    w.Records P (attachRigLoop v133 w) := by
  induction v133 generalizing w with
  | zero => exact World.Records.nil P w
  | succ n ih =>
    simp only [attachRigLoop]
    exact ((World.Records.nil P w).snoc _ (by exact hP _ rfl)).append (ih _)

theorem caseAttackThrowAttach_records (P : Effect → Prop)
    (hP : ∀ e, Effect.isRequestCommit e = false → P e) (w w1 : World)
    (h : caseAttackThrowAttach w = Except.ok w1) : w.Records P w1 := by
  unfold caseAttackThrowAttach at h
  cases hs : w.GetCurrentSequence with
  | none => simp [hs, deref, bind, Except.bind] at h
  | some s =>
    simp only [hs, deref, bind, Except.bind, pure, Except.pure] at h
    have h1 : w.Records P
        (if hasNonMeleeWeapon w = true then attachRigLoop (if w.isPlayer = true then 2 else 1) w
          else w) :=
      World.Records.branch _ (attachRigLoop_records P hP _ w) (World.Records.nil P w)
    generalize (if hasNonMeleeWeapon w = true then
      attachRigLoop (if w.isPlayer = true then 2 else 1) w else w) = wa at h h1
    split_ifs at h
    all_goals
      injection h with h
      subst h
      first
        | exact World.Records.nil P w
        | exact h1
        | exact h1.setAction _ _ (by exact hP _ rfl)

theorem caseWaitForLowerBody_records (P : Effect → Prop)
    (hP : ∀ e, Effect.isRequestCommit e = false → P e)
    (charController : bhkCharacterController) (w : World) (l : Locals) :
    w.Records P (caseWaitForLowerBody charController w l) := by
  unfold caseWaitForLowerBody
  repeat' split
  all_goals first
    | exact World.Records.nil P w
    | exact (World.Records.nil P w).setAction _ _ (by exact hP _ rfl)

theorem caseReloadLoop_summary (P : Effect → Prop)
    (hP : ∀ e, Effect.isRequestCommit e = false → P e) (w w1 : World) (l l1 : Locals)
    (h : caseReloadLoop w l = Except.ok (w1, l1)) :
    w.Records P w1 ∧ l.keepsKey l1 ∧ l1.movementSpeedMult = l.movementSpeedMult ∧
      (l1.animAction = l.animAction ∨ l1.animAction = -1 ∨
        l1.animAction = kAnimAction_ReloadLoop) := by
  unfold caseReloadLoop at h
  cases hs : w.GetCurrentSequence with
  | none => simp [hs, deref, bind, Except.bind] at h
  | some s =>
    simp only [hs, deref, bind, Except.bind, pure, Except.pure] at h
    split at h
    · injection h with h
      injection h with h1 h2
      subst h1 h2
      exact ⟨((World.Records.nil P w).snoc _ (by exact hP _ rfl)).setAction _ _
        (by exact hP _ rfl), ⟨rfl, rfl, rfl, rfl, rfl, rfl⟩, rfl, Or.inr (Or.inl rfl)⟩
    · split at h
      · split at h
        all_goals
          injection h with h
          injection h with h1 h2
          subst h1 h2
          first
            | exact ⟨World.Records.nil P w, ⟨rfl, rfl, rfl, rfl, rfl, rfl⟩, rfl, Or.inl rfl⟩
            | exact ⟨(World.Records.nil P w).snoc _ (by exact hP _ rfl),
                ⟨rfl, rfl, rfl, rfl, rfl, rfl⟩, rfl, Or.inl rfl⟩
      · split at h
        · cases hi : w.GetWeaponInfo with
          | none => simp [hi] at h
          | some weapInfo =>
            cases hw : w.weap with
            | none => simp [hi, hw] at h
            | some weap =>
              simp only [hi, hw] at h
              injection h with h
              injection h with h1 h2
              subst h1 h2
              refine ⟨World.Records.setAction ?_ _ _ (by exact hP _ rfl),
                ⟨rfl, rfl, rfl, rfl, rfl, rfl⟩, rfl, Or.inr (Or.inr rfl)⟩
              refine World.Records.branch _ ?_ (World.Records.nil P w)
              exact World.Records.branch _
                (((World.Records.nil P w).snoc _ (by exact hP _ rfl)).snoc _
                  (by exact hP _ rfl))
                ((World.Records.nil P w).snoc _ (by exact hP _ rfl))
        · injection h with h
          injection h with h1 h2
          subst h1 h2
          exact ⟨World.Records.nil P w, ⟨rfl, rfl, rfl, rfl, rfl, rfl⟩, rfl, Or.inl rfl⟩

/-- The jam roll either changes nothing or plays the jam reload and makes
the requested action Reload. -/
theorem jamRoll_cases (w w1 : World) (l l1 : Locals)
    (h : jamRoll w l = Except.ok (w1, l1)) :
    (w1 = w ∧ l1 = l) ∨
    ∃ weap, w.weap = some weap ∧
      w1 = (((w.perform (Effect.PlayAttackAnim (weap.GetReloadAnimGroup false + 23)))
          ).SetAnimActionAndSequence kAnimAction_Reload
            ((w.perform (Effect.PlayAttackAnim (weap.GetReloadAnimGroup false + 23))
              ).rigs.third.GetAnimSequenceElement kSequence_Weapon)).perform
          Effect.PlayFirstPersonAnimation ∧
      l1 = { l with animAction := kAnimAction_Reload } := by
  unfold jamRoll at h
  cases hw : w.weap with
  | none =>
    simp only [hw, pure, Except.pure] at h
    injection h with h
    injection h with h1 h2
    exact Or.inl ⟨h1.symm, h2.symm⟩
  | some weap =>
    simp only [hw] at h
    split at h
    · cases hs : w.GetCurrentSequence with
      | none => simp [hs, deref, bind, Except.bind] at h
      | some s =>
        simp only [hs, deref, bind, Except.bind, pure, Except.pure] at h
        split_ifs at h
        all_goals
          injection h with h
          injection h with h1 h2
          first
            | exact Or.inl ⟨h1.symm, h2.symm⟩
            | exact Or.inr ⟨weap, rfl, h1.symm, h2.symm⟩
    · simp only [pure, Except.pure] at h
      injection h with h
      injection h with h1 h2
      exact Or.inl ⟨h1.symm, h2.symm⟩

theorem noLiveSequence_summary (P : Effect → Prop)
    (hP : ∀ e, Effect.isRequestCommit e = false → P e) (w w1 : World) (l l1 : Locals)
    (ha : l.animAction = -1)
    (h : noLiveSequence w l = Except.ok (w1, l1)) :
    w.Records P w1 ∧ l.keepsKey l1 ∧ l1.movementSpeedMult = l.movementSpeedMult ∧
      (l1.animAction = -1 ∨ l1.animAction = kAnimAction_Block ∨
        l1.animAction = kAnimAction_Reload) := by
  unfold noLiveSequence at h
  have hb : ∃ wb lb, adoptBlock w l = (wb, lb) ∧ w.Records P wb ∧ l.keepsKey lb ∧
      lb.movementSpeedMult = l.movementSpeedMult ∧
      (lb.animAction = -1 ∨ lb.animAction = kAnimAction_Block) := by
    rcases adoptBlock_cases w l with ⟨-, h1⟩ | ⟨v53, -, -, h1⟩
    · exact ⟨w, l, h1, World.Records.nil P w, ⟨rfl, rfl, rfl, rfl, rfl, rfl⟩, rfl, Or.inl ha⟩
    · exact ⟨_, _, h1, (World.Records.nil P w).setAction _ _ (by exact hP _ rfl),
        ⟨rfl, rfl, rfl, rfl, rfl, rfl⟩, rfl, Or.inr rfl⟩
  obtain ⟨wb, lb, hab, hrb, hkb, hmb, hactb⟩ := hb
  rw [hab] at h
  simp only [bind, Except.bind] at h
  cases hj : jamRoll wb lb with
  | error e => simp [hj] at h
  | ok p =>
    obtain ⟨wj, lj⟩ := p
    simp only [hj, pure, Except.pure] at h
    have hjam := jamRoll_cases wb wj lb lj hj
    have hrj : wb.Records P wj ∧ lb.keepsKey lj ∧ lj.movementSpeedMult = lb.movementSpeedMult ∧
        (lj.animAction = lb.animAction ∨ lj.animAction = kAnimAction_Reload) := by
      rcases hjam with ⟨h1, h2⟩ | ⟨weap, -, h1, h2⟩
      · subst h1 h2
        exact ⟨World.Records.nil P _, ⟨rfl, rfl, rfl, rfl, rfl, rfl⟩, rfl, Or.inl rfl⟩
      · subst h1 h2
        exact ⟨(((World.Records.nil P wb).snoc _ (by exact hP _ rfl)).setAction _ _
          (by exact hP _ rfl)).snoc _ (by exact hP _ rfl),
          ⟨rfl, rfl, rfl, rfl, rfl, rfl⟩, rfl, Or.inr rfl⟩
    obtain ⟨hr2, hk2, hm2, hact2⟩ := hrj
    have hkeep : l.keepsKey lj := by
      obtain ⟨a1, a2, a3, a4, a5, a6⟩ := hkb
      obtain ⟨b1, b2, b3, b4, b5, b6⟩ := hk2
      exact ⟨b1.trans a1, b2.trans a2, b3.trans a3, b4.trans a4, b5.trans a5, b6.trans a6⟩
    have hact : lj.animAction = -1 ∨ lj.animAction = kAnimAction_Block ∨
        lj.animAction = kAnimAction_Reload := by
      rcases hact2 with h1 | h1
      · rcases hactb with h2 | h2
        · exact Or.inl (h1.trans h2)
        · exact Or.inr (Or.inl (h1.trans h2))
      · exact Or.inr (Or.inr h1)
    split at h
    all_goals
      injection h with h
      injection h with h1 h2
      subst h1 h2
      first
        | exact ⟨(hrb.append hr2).setAction _ _ (by exact hP _ rfl), hkeep, hm2.trans hmb, hact⟩
        | exact ⟨hrb.append hr2, hkeep, hm2.trans hmb, hact⟩

theorem switchAction_summary (P : Effect → Prop)
    (hP : ∀ e, Effect.isRequestCommit e = false → P e)
    (charController : bhkCharacterController) (w w1 : World) (l l1 : Locals)
    (h : switchAction charController w l = Except.ok (w1, l1)) :
    w.Records P w1 ∧ l.keepsKey l1 ∧
      (l1.movementSpeedMult = l.movementSpeedMult ∨ l1.movementSpeedMult = w.GetWalkSpeed) ∧
      (l1.animAction = l.animAction ∨ l1.animAction = -1 ∨
        l1.animAction = kAnimAction_ReloadLoop) := by
  have hk : l.keepsKey l := ⟨rfl, rfl, rfl, rfl, rfl, rfl⟩
  have lift : ∀ (r : Except Fault World),
      (do pure ((← r), l) : Except Fault (World × Locals)) = Except.ok (w1, l1) →
      r = Except.ok w1 ∧ l1 = l := by
    intro r hr
    cases r with
    | error e => simp [bind, Except.bind] at hr
    | ok v =>
      simp only [bind, Except.bind, pure, Except.pure] at hr
      injection hr with hr
      injection hr with h1 h2
      exact ⟨by rw [h1], h2.symm⟩
  unfold switchAction at h
  split at h
  · simp only [pure, Except.pure] at h
    injection h with h
    injection h with h1 h2
    subst h1 h2
    exact ⟨caseEquipUnequip_records P hP w _, hk, Or.inl rfl, Or.inl rfl⟩
  · split at h
    · obtain ⟨h1, h2⟩ := lift _ h
      subst h2
      exact ⟨caseAttack_records P hP w w1 h1, hk, Or.inl rfl, Or.inl rfl⟩
    · split at h
      · obtain ⟨h1, h2⟩ := lift _ h
        subst h2
        exact ⟨caseAttackEject_records P hP w w1 h1, hk, Or.inl rfl, Or.inl rfl⟩
      · split at h
        · obtain ⟨h1, h2⟩ := lift _ h
          subst h2
          exact ⟨caseAttackThrow_records P hP w w1 h1, hk, Or.inl rfl, Or.inl rfl⟩
        · split at h
          · obtain ⟨h1, h2⟩ := lift _ h
            subst h2
            exact ⟨caseAttackThrowAttach_records P hP w w1 h1, hk, Or.inl rfl, Or.inl rfl⟩
          · split at h
            · simp only [pure, Except.pure] at h
              injection h with h
              injection h with h1 h2
              subst h1 h2
              exact ⟨World.Records.nil P w, ⟨rfl, rfl, rfl, rfl, rfl, rfl⟩, Or.inr rfl,
                Or.inl rfl⟩
            · split at h
              · simp only [pure, Except.pure] at h
                injection h with h
                injection h with h1 h2
                subst h1 h2
                exact ⟨caseWaitForLowerBody_records P hP charController w l, hk, Or.inl rfl,
                  Or.inl rfl⟩
              · split at h
                · obtain ⟨a, b, c, d⟩ := caseReloadLoop_summary P hP w w1 l l1 h
                  exact ⟨a, b, Or.inl c, d⟩
                · simp only [pure, Except.pure] at h
                  injection h with h
                  injection h with h1 h2
                  subst h1 h2
                  exact ⟨World.Records.nil P w, hk, Or.inl rfl, Or.inl rfl⟩

/-- What the action phase can do: it records no commit of a requested
action, keeps the locals of the key, sets the speed target at most to the
walk speed (line 358), and leaves the requested action at None, Block,
Reload or ReloadLoop; with no action in flight it does nothing. -/
theorem actionPhase_summary (P : Effect → Prop)
    (hP : ∀ e, Effect.isRequestCommit e = false → P e)
    (charController : bhkCharacterController) (w w1 : World) (l l1 : Locals)
    (ha : l.animAction = -1)
    (h : actionPhase charController w l = Except.ok (w1, l1)) :
    w.Records P w1 ∧ l.keepsKey l1 ∧
      (l1.movementSpeedMult = l.movementSpeedMult ∨ l1.movementSpeedMult = w.GetWalkSpeed) ∧
      (l1.animAction = -1 ∨ l1.animAction = kAnimAction_Block ∨
        l1.animAction = kAnimAction_Reload ∨ l1.animAction = kAnimAction_ReloadLoop) ∧
      (l.currentAnimAction = -1 → w1 = w ∧ l1 = l) := by
  unfold actionPhase at h
  split at h
  · rename_i hcur
    have hlast : l.currentAnimAction = -1 → w1 = w ∧ l1 = l := fun hc => absurd hc hcur
    have hno : ∀ (h : noLiveSequence w l = Except.ok (w1, l1)),
        w.Records P w1 ∧ l.keepsKey l1 ∧
        (l1.movementSpeedMult = l.movementSpeedMult ∨ l1.movementSpeedMult = w.GetWalkSpeed) ∧
        (l1.animAction = -1 ∨ l1.animAction = kAnimAction_Block ∨
          l1.animAction = kAnimAction_Reload ∨ l1.animAction = kAnimAction_ReloadLoop) ∧
        (l.currentAnimAction = -1 → w1 = w ∧ l1 = l) := by
      intro h
      obtain ⟨a, b, c, d⟩ := noLiveSequence_summary P hP w w1 l l1 ha h
      refine ⟨a, b, Or.inl c, ?_, hlast⟩
      rcases d with d | d | d
      · exact Or.inl d
      · exact Or.inr (Or.inl d)
      · exact Or.inr (Or.inr (Or.inl d))
    split at h
    · split at h
      · obtain ⟨a, b, c, d⟩ := switchAction_summary P hP charController w w1 l l1 h
        refine ⟨a, b, c, ?_, hlast⟩
        rcases d with d | d | d
        · exact Or.inl (d.trans ha)
        · exact Or.inl d
        · exact Or.inr (Or.inr (Or.inr d))
      · exact hno h
    · exact hno h
  · simp only [pure, Except.pure] at h
    injection h with h
    injection h with h1 h2
    subst h1 h2
    exact ⟨World.Records.nil P w, ⟨rfl, rfl, rfl, rfl, rfl, rfl⟩, Or.inl rfl, Or.inl ha,
      fun _ => ⟨rfl, rfl⟩⟩

theorem landGroup_gt (moveFlags : Nat) :
    kAnimGroup_TurnRight < landGroup moveFlags ∧ landGroup moveFlags ≠ kAnimGroup_JumpLoop := by
  unfold landGroup
  split_ifs <;> decide

/-- What the body of the case labels of line 470 can do. -/
theorem jumpOrLand_summary (P : Effect → Prop)
    (hP : ∀ e, Effect.isRequestCommit e = false → P e)
    (charController : bhkCharacterController) (w w2 : World) (l l2 : Locals)
    (h : jumpOrLand charController w l = (w2, l2)) :
    w.Records P w2 ∧
      l2.v167 = l.v167 ∧ l2.animMoveType = l.animMoveType ∧
      l2.animHandType = l.animHandType ∧ l2.movementSpeedMult = l.movementSpeedMult ∧
      ((l2.animAction = l.animAction ∧ l2.currentAnimAction = l.currentAnimAction ∧
          (l2.animGroup = l.animGroup ∨ l2.animGroup = kAnimGroup_JumpLoop)) ∨
        (l2.animAction = kAnimAction_Wait_For_Lower_Body_Anim ∧ l2.currentAnimAction = -1 ∧
          l2.animGroup = landGroup w.GetMovementFlags)) := by
  unfold jumpOrLand at h
  simp only [] at h
  repeat' split at h
  all_goals
    injection h with h1 h2
    subst h1 h2
    first
      | exact ⟨World.Records.nil P w, rfl, rfl, rfl, rfl, Or.inl ⟨rfl, rfl, Or.inl rfl⟩⟩
      | exact ⟨World.Records.nil P w, rfl, rfl, rfl, rfl, Or.inl ⟨rfl, rfl, Or.inr rfl⟩⟩
      | exact ⟨((World.Records.nil P w).snoc _ (by exact hP _ rfl)).snoc _
          (by exact hP _ rfl), rfl, rfl, rfl, rfl, Or.inr ⟨rfl, rfl, rfl⟩⟩

/-- A request made on locals that satisfy `RequestOutcome` and read no
action in flight. -/
theorem requestOutcome_request {l lX : Locals} (h : RequestOutcome l lX)
    (hc : lX.currentAnimAction = -1) (action : Int) (group : Nat)
    (ha : isRequestedAction action = true) (hg : kAnimGroup_TurnRight < group)
    (hj : group ≠ kAnimGroup_JumpLoop) :
    RequestOutcome l { lX with animGroup := group, animAction := action } := by
  obtain ⟨a, b, c, d, e⟩ := h
  refine ⟨a, b, c, d, Or.inr ⟨ha, hc, hg, hj, ?_⟩⟩
  rcases e with ⟨-, e2, -⟩ | ⟨-, -, -, -, e5⟩
  · exact Or.inl (e2.symm.trans hc)
  · exact e5

theorem requestPhase_summary (P : Effect → Prop)
    (hP : ∀ e, Effect.isRequestCommit e = false → P e)
    (charController : bhkCharacterController) (w w2 : World) (l l2 : Locals)
    (ha : l.animAction = -1)
    (h : requestPhase charController w l = (w2, l2)) :
    w.Records P w2 ∧ RequestOutcome l l2 := by
  have h0 : RequestOutcome l l := ⟨rfl, rfl, rfl, rfl, Or.inl ⟨ha, rfl, Or.inl rfl⟩⟩
  unfold requestPhase at h
  rw [if_pos ha] at h
  -- the landing step
  have h1 : ∀ p1, (if l.currentAnimAction = -1 ∨ l.currentAnimAction = kAAP1_Unequip_Weapon ∨
        l.currentAnimAction = kAAP1_Attack_Eject ∨ l.currentAnimAction = kAAP1_Dodge then
        jumpOrLand charController w l else (w, l)) = p1 →
      w.Records P p1.1 ∧ RequestOutcome l p1.2 := by
    intro p1 hp1
    split at hp1
    · rename_i hlab
      obtain ⟨wj, lj⟩ := p1
      obtain ⟨a, b, c, d, e, f⟩ := jumpOrLand_summary P hP charController w wj l lj hp1
      refine ⟨a, b, c, d, e, ?_⟩
      rcases f with ⟨f1, f2, f3⟩ | ⟨f1, f2, f3⟩
      · exact Or.inl ⟨f1.trans ha, f2, f3⟩
      · refine Or.inr ⟨by rw [f1]; decide, f2, ?_, ?_, hlab⟩
        · rw [f3]; exact (landGroup_gt _).1
        · rw [f3]; exact (landGroup_gt _).2
    · subst hp1
      exact ⟨World.Records.nil P w, h0⟩
  -- the equip step
  have h2 : ∀ p2, (if w.GetSitSleepState = kSitSleepState_Normal then
        match
          if l.currentAnimAction = -1 ∨ l.currentAnimAction = kAAP1_Unequip_Weapon ∨
              l.currentAnimAction = kAAP1_Attack_Eject ∨ l.currentAnimAction = kAAP1_Dodge then
            jumpOrLand charController w l
          else (w, l) with
        | (w2, l2) =>
          if w2.GetWantsWeaponOut_IfSwimmingCancelVATS = true ∧ ¬w2.IsWeaponOut = true ∧
              l2.currentAnimAction = -1 ∧ w2.Actor_8843A0 = true then
            (if ¬w2.rigs.third.IsNoIdlePlaying = true then
                w2.perform Effect.SetQueuedAnimAsCurrent else w2,
              { l2 with animGroup := kAnimGroup_Equip, animAction := kAnimAction_Equip_Weapon })
          else (w2, l2)
      else (w, l)) = p2 →
      w.Records P p2.1 ∧ RequestOutcome l p2.2 := by
    intro p2 hp2
    split at hp2
    · generalize hg : (if l.currentAnimAction = -1 ∨
          l.currentAnimAction = kAAP1_Unequip_Weapon ∨
          l.currentAnimAction = kAAP1_Attack_Eject ∨ l.currentAnimAction = kAAP1_Dodge then
          jumpOrLand charController w l else (w, l)) = p1 at hp2
      obtain ⟨hr1, ho1⟩ := h1 p1 hg
      obtain ⟨wj, lj⟩ := p1
      simp only [] at hp2 hr1 ho1
      split at hp2
      · rename_i hE
        subst hp2
        refine ⟨World.Records.branch _ (hr1.snoc _ (by exact hP _ rfl)) hr1, ?_⟩
        exact requestOutcome_request ho1 hE.2.2.1 _ _ (by decide) (by decide) (by decide)
      · subst hp2
        exact ⟨hr1, ho1⟩
    · subst hp2
      exact ⟨World.Records.nil P w, h0⟩
  revert h
  generalize hg2 : (if w.GetSitSleepState = kSitSleepState_Normal then
        match
          if l.currentAnimAction = -1 ∨ l.currentAnimAction = kAAP1_Unequip_Weapon ∨
              l.currentAnimAction = kAAP1_Attack_Eject ∨ l.currentAnimAction = kAAP1_Dodge then
            jumpOrLand charController w l
          else (w, l) with
        | (w2, l2) =>
          if w2.GetWantsWeaponOut_IfSwimmingCancelVATS = true ∧ ¬w2.IsWeaponOut = true ∧
              l2.currentAnimAction = -1 ∧ w2.Actor_8843A0 = true then
            (if ¬w2.rigs.third.IsNoIdlePlaying = true then
                w2.perform Effect.SetQueuedAnimAsCurrent else w2,
              { l2 with animGroup := kAnimGroup_Equip, animAction := kAnimAction_Equip_Weapon })
          else (w2, l2)
      else (w, l)) = p2
  obtain ⟨hr2, ho2⟩ := h2 p2 hg2
  obtain ⟨wk, lk⟩ := p2
  simp only [] at hr2 ho2 ⊢
  intro h
  split at h
  · rename_i hU
    injection h with h3 h4
    subst h3 h4
    exact ⟨hr2, requestOutcome_request ho2 hU.2.2.1 _ _ (by decide) (by decide) (by decide)⟩
  · injection h with h3 h4
    subst h3 h4
    exact ⟨hr2, ho2⟩

/-- The steps of the tick up to the classification. -/
theorem classified_steps (charController : bhkCharacterController) (movementSpeed : ℚ)
    (w w1 : World) (l : Locals)
    (h : classified charController movementSpeed w = Except.ok (w1, l)) :
    ∃ wa la lb lc, actionPhase charController w (initLocals w) = Except.ok (wa, la) ∧
      requestPhase charController wa la = (w1, lb) ∧
      pickHandType w1 lb = Except.ok lc ∧
      classify movementSpeed w1 (pickMoveType w1 lc) = Except.ok l := by
  unfold classified at h
  cases ha : actionPhase charController w (initLocals w) with
  | error e => simp [ha, bind, Except.bind] at h
  | ok pa =>
    obtain ⟨wa, la⟩ := pa
    simp only [ha, bind, Except.bind] at h
    cases hr : requestPhase charController wa la with
    | mk w2 lb =>
      simp only [hr] at h
      cases hh : pickHandType w2 lb with
      | error e => simp [hh] at h
      | ok lc =>
        simp only [hh] at h
        cases hc : classify movementSpeed w2 (pickMoveType w2 lc) with
        | error e => simp [hc] at h
        | ok l4 =>
          simp only [hc, pure, Except.pure] at h
          injection h with h
          injection h with h1 h2
          subst h1 h2
          exact ⟨wa, la, lb, lc, rfl, hr, hh, hc⟩

/-- Picking the hand type changes the hand type only. -/
theorem pickHandType_result (w : World) (l l1 : Locals) (h : pickHandType w l = Except.ok l1) :
    ∃ handType, l1 = { l with animHandType := handType } := by
  unfold pickHandType at h
  split at h
  · split at h
    · rename_i weapInfo _
      cases hf : weapInfo.GetFlags with
      | none => simp [hf, deref, bind, Except.bind] at h
      | some weap =>
        simp only [hf, deref, bind, Except.bind, pure, Except.pure] at h
        injection h with h
        exact ⟨_, h.symm⟩
    · injection h with h
      exact ⟨_, h.symm⟩
  · injection h with h
    exact ⟨l.animHandType, h.symm⟩

/-- Without a weapon profile, line 541 decides between kAnimHandType_1HM
(line 550) and the hand type set before; there is no fault. -/
theorem pickHandType_no_profile (w : World) (l : Locals) (hinfo : w.GetWeaponInfo = none) :
    pickHandType w l = Except.ok { l with animHandType :=
      if (w.GetActorType = 0 ∧ (w.GetWantsWeaponOut_IfSwimmingCancelVATS = true ∨
          w.GetIsInCombat = true)) ∨ w.IsWeaponOut = true ∨ l.animAction ≤ 1
      then kAnimHandType_1HM else l.animHandType } := by
  unfold pickHandType
  split
  · simp only [hinfo, pure, Except.pure]
  · rfl

theorem pickMoveType_result (w : World) (l : Locals) :
    ∃ moveType, pickMoveType w l = { l with animMoveType := moveType } := by
  unfold pickMoveType
  split_ifs
  · exact ⟨_, rfl⟩
  · exact ⟨_, rfl⟩
  · exact ⟨_, rfl⟩
  · exact ⟨l.animMoveType, rfl⟩

theorem sitSleepGroup_result (w : World) (l l1 : Locals) (h : sitSleepGroup w l = Except.ok l1) :
    l1 = l ∨ l1 = { l with animGroup := kAnimGroup_DynamicIdle } := by
  unfold sitSleepGroup at h
  simp only [deref, bind, Except.bind, pure, Except.pure] at h
  repeat' split at h
  all_goals first
    | (injection h with h; exact Or.inl h.symm)
    | (injection h with h; exact Or.inr h.symm)
    | (exact absurd h (by simp))

theorem jumpLoopGroup_gt (moveFlags animGroup : Nat) (h : kAnimGroup_TurnRight < animGroup) :
    kAnimGroup_TurnRight < jumpLoopGroup moveFlags animGroup := by
  unfold jumpLoopGroup
  split_ifs
  all_goals first
    | exact h
    | decide

/-- The directional and turn block on a group that is Idle or DynamicIdle:
the group stays within the movement groups, and a directional or fast group
comes with the walk speed or the run multiplier as speed target. -/
theorem directionBlock_summary (w : World) (l : Locals) (hg : l.animGroup ≤ 1) :
    (directionBlock w l).v167 = l.v167 ∧
      (directionBlock w l).animHandType = l.animHandType ∧
      (directionBlock w l).animMoveType = l.animMoveType ∧
      (directionBlock w l).animGroup ≤ kAnimGroup_TurnRight ∧
      (kAnimGroup_Forward ≤ (directionBlock w l).animGroup →
        (directionBlock w l).animGroup ≤ kAnimGroup_DodgeRight →
        (directionBlock w l).movementSpeedMult = w.GetWalkSpeed ∨
          (directionBlock w l).movementSpeedMult = w.GetRunSpeedMult) := by
  have h1 : l.animGroup ≤ kAnimGroup_TurnRight := le_trans hg (by decide)
  have h2 : ¬ kAnimGroup_Forward ≤ l.animGroup := by
    intro h3
    have : (3 : Nat) ≤ l.animGroup := h3
    omega
  unfold directionBlock
  simp only []
  split_ifs
  all_goals refine ⟨rfl, rfl, rfl, ?_, ?_⟩
  all_goals first
    | exact h1
    | (dsimp only; decide)
    | (intro h3 _; exact absurd h3 h2)
    | (intro _ _; exact Or.inl rfl)
    | (intro _ _; exact Or.inr rfl)
    | (intro _ h4; exact absurd h4 (by dsimp only; decide))

/-- The classification either keeps a group selected earlier in the tick
(making a JumpLoop directional) and with it the speed input 1.0 of line 62,
or runs lines 588-665, which set the speed input to `movementSpeed`. -/
theorem classify_summary (movementSpeed : ℚ) (w : World) (l l1 : Locals)
    (h : classify movementSpeed w l = Except.ok l1) :
    l1.animAction = l.animAction ∧ l1.currentAnimAction = l.currentAnimAction ∧
      l1.animHandType = l.animHandType ∧ l1.animMoveType = l.animMoveType ∧
      ((l.animGroup ≠ 0 ∧ l1.v167 = l.v167 ∧ l1.movementSpeedMult = l.movementSpeedMult ∧
          l1.animGroup = jumpLoopGroup w.GetMovementFlags l.animGroup) ∨
        (l.animGroup = 0 ∧ l1.v167 = movementSpeed ∧ l1.animGroup ≤ kAnimGroup_TurnRight ∧
          (kAnimGroup_Forward ≤ l1.animGroup → l1.animGroup ≤ kAnimGroup_DodgeRight →
            l1.movementSpeedMult = w.GetWalkSpeed ∨
              l1.movementSpeedMult = w.GetRunSpeedMult))) := by
  unfold classify at h
  split at h
  · rename_i hg
    injection h with h
    subst h
    exact ⟨rfl, rfl, rfl, rfl, Or.inl ⟨hg, rfl, rfl, rfl⟩⟩
  · rename_i hg
    have hg0 : l.animGroup = 0 := by
      by_contra hc
      exact hg hc
    cases hs : sitSleepGroup w l with
    | error e => simp [hs, bind, Except.bind] at h
    | ok l2 =>
      simp only [hs, bind, Except.bind, pure, Except.pure] at h
      injection h with h
      subst h
      have h2 : l2.animGroup ≤ 1 ∧ l2.animAction = l.animAction ∧
          l2.currentAnimAction = l.currentAnimAction ∧ l2.animHandType = l.animHandType ∧
          l2.animMoveType = l.animMoveType := by
        rcases sitSleepGroup_result w l l2 hs with h3 | h3
        · subst h3
          exact ⟨by rw [hg0]; decide, rfl, rfl, rfl, rfl⟩
        · subst h3
          exact ⟨by dsimp only; decide, rfl, rfl, rfl, rfl⟩
      obtain ⟨a1, a2, a3, a4, a5⟩ := h2
      obtain ⟨b1, b2, b3, b4, b5⟩ :=
        directionBlock_summary w { l2 with v167 := movementSpeed } a1
      obtain ⟨c1, c2⟩ := directionBlock_keeps w { l2 with v167 := movementSpeed }
      exact ⟨c1.trans a2, c2.trans a3, b2.trans a4, b3.trans a5,
        Or.inr ⟨hg0, b1, b4, b5⟩⟩

/-- What the tick has established when the classification is done: no commit
of a requested action is recorded yet; a requested action comes with no
action in flight, a group above the movement groups and the speed input 1.0
of line 62, and only when the tick started with no action or with a case
label of line 470; the speed input is `movementSpeed` whenever the group lies
within the movement groups; and without a weapon profile the hand type is the
one of lines 541-551. -/
theorem classified_summary (P : Effect → Prop)
    (hP : ∀ e, Effect.isRequestCommit e = false → P e)
    (charController : bhkCharacterController) (movementSpeed : ℚ)
    (w w1 : World) (l : Locals)
    (h : classified charController movementSpeed w = Except.ok (w1, l)) :
    w.Records P w1 ∧
      ((isRequestedAction l.animAction = false ∧
          l.currentAnimAction = w.GetCurrentAnimAction ∧
          (l.animAction = -1 ∨ l.animAction = kAnimAction_Block ∨
            l.animAction = kAnimAction_Reload ∨ l.animAction = kAnimAction_ReloadLoop)) ∨
        (isRequestedAction l.animAction = true ∧ l.currentAnimAction = -1 ∧
          kAnimGroup_TurnRight < l.animGroup ∧
          (w.GetCurrentAnimAction = -1 ∨ w.GetCurrentAnimAction = kAAP1_Unequip_Weapon ∨
            w.GetCurrentAnimAction = kAAP1_Attack_Eject ∨
            w.GetCurrentAnimAction = kAAP1_Dodge))) ∧
      ((l.v167 = movementSpeed ∧ l.animGroup ≤ kAnimGroup_TurnRight ∧
          (kAnimGroup_Forward ≤ l.animGroup → l.animGroup ≤ kAnimGroup_DodgeRight →
            l.movementSpeedMult = w1.GetWalkSpeed ∨ l.movementSpeedMult = w1.GetRunSpeedMult)) ∨
        (kAnimGroup_TurnRight < l.animGroup ∧ l.v167 = 1)) ∧
      (w1.GetWeaponInfo = none →
        l.animHandType =
          if (w1.GetActorType = 0 ∧ (w1.GetWantsWeaponOut_IfSwimmingCancelVATS = true ∨
              w1.GetIsInCombat = true)) ∨ w1.IsWeaponOut = true ∨ l.animAction ≤ 1
          then kAnimHandType_1HM else kAnimHandType_H2H) := by
  obtain ⟨wa, la, lb, lc, ha, hr, hh, hc⟩ := classified_steps charController movementSpeed w w1 l h
  obtain ⟨ra, ⟨ka1, ka2, ka3, ka4, ka5, ka6⟩, -, aact, -⟩ :=
    actionPhase_summary P hP charController w wa (initLocals w) la rfl ha
  -- the request phase
  have hreq : wa.Records P w1 ∧ lb.v167 = 1 ∧ lb.animHandType = kAnimHandType_H2H ∧
      ((isRequestedAction lb.animAction = false ∧
          lb.currentAnimAction = w.GetCurrentAnimAction ∧
          (lb.animAction = -1 ∨ lb.animAction = kAnimAction_Block ∨
            lb.animAction = kAnimAction_Reload ∨ lb.animAction = kAnimAction_ReloadLoop) ∧
          (lb.animGroup = 0 ∨ lb.animGroup = kAnimGroup_JumpLoop)) ∨
        (isRequestedAction lb.animAction = true ∧ lb.currentAnimAction = -1 ∧
          kAnimGroup_TurnRight < lb.animGroup ∧ lb.animGroup ≠ kAnimGroup_JumpLoop ∧
          (w.GetCurrentAnimAction = -1 ∨ w.GetCurrentAnimAction = kAAP1_Unequip_Weapon ∨
            w.GetCurrentAnimAction = kAAP1_Attack_Eject ∨
            w.GetCurrentAnimAction = kAAP1_Dodge))) := by
    by_cases hm : la.animAction = -1
    · obtain ⟨rb, b1, -, b3, -, b5⟩ :=
        requestPhase_summary P hP charController wa w1 la lb hm hr
      refine ⟨rb, b1.trans ka1, b3.trans ka4, ?_⟩
      rcases b5 with ⟨c1, c2, c3⟩ | ⟨c1, c2, c3, c4, c5⟩
      · refine Or.inl ⟨by rw [c1]; decide, c2.trans ka5, Or.inl c1, ?_⟩
        rcases c3 with c3 | c3
        · exact Or.inl (c3.trans ka2)
        · exact Or.inr c3
      · rw [ka5] at c5
        exact Or.inr ⟨c1, c2, c3, c4, c5⟩
    · rw [requestPhase_skip charController wa la hm] at hr
      injection hr with h1 h2
      subst h1 h2
      refine ⟨World.Records.nil P _, ka1, ka4, Or.inl ⟨?_, ka5, aact, Or.inl ka2⟩⟩
      rcases aact with a | a | a | a
      · exact absurd a hm
      · rw [a]; decide
      · rw [a]; decide
      · rw [a]; decide
  obtain ⟨rb, hv, hhand, hcase⟩ := hreq
  -- the hand type and the locomotion type
  obtain ⟨handType, hlc⟩ := pickHandType_result w1 lb lc hh
  obtain ⟨moveType, hmt⟩ := pickMoveType_result w1 lc
  rw [hmt] at hc
  obtain ⟨s1, s2, s3, -, s5⟩ := classify_summary movementSpeed w1 _ l hc
  have e1 : l.animAction = lb.animAction := by rw [s1, hlc]
  have e2 : l.currentAnimAction = lb.currentAnimAction := by rw [s2, hlc]
  have eg : ({ lc with animMoveType := moveType } : Locals).animGroup = lb.animGroup := by
    rw [hlc]
  have ev : ({ lc with animMoveType := moveType } : Locals).v167 = lb.v167 := by rw [hlc]
  refine ⟨ra.append rb, ?_, ?_, ?_⟩
  · rcases hcase with ⟨c1, c2, c3, -⟩ | ⟨c1, c2, c3, c4, c5⟩
    · exact Or.inl ⟨by rw [e1]; exact c1, e2.trans c2, by rw [e1]; exact c3⟩
    · refine Or.inr ⟨by rw [e1]; exact c1, e2.trans c2, ?_, c5⟩
      rcases s5 with ⟨t1, -, -, t4⟩ | ⟨t1, -⟩
      · rw [t4, eg]
        exact jumpLoopGroup_gt _ _ c3
      · rw [eg] at t1
        rw [t1] at c3
        exact absurd c3 (by decide)
  · rcases s5 with ⟨t1, t2, -, t4⟩ | ⟨-, t2, t3, t4⟩
    · refine Or.inr ⟨?_, by rw [t2, ev, hv]⟩
      rw [t4, eg]
      rw [eg] at t1
      rcases hcase with ⟨-, -, -, c4⟩ | ⟨-, -, c3, -⟩
      · rcases c4 with c4 | c4
        · exact absurd c4 t1
        · rw [c4]
          unfold jumpLoopGroup
          split_ifs <;> decide
      · exact jumpLoopGroup_gt _ _ c3
    · exact Or.inl ⟨t2, t3, t4⟩
  · intro hinfo
    have hp := pickHandType_no_profile w1 lb hinfo
    rw [hh] at hp
    injection hp with hp
    rw [s3]
    show lc.animHandType = _
    rw [hp, e1, hhand]

/-- The forced-script commit in terms of `forceScriptGroupID` and
`forceScriptTarget`. -/
theorem forceScriptSpeed_eq (turnSpeed : ℚ) (w : World) (l : Locals) :
    forceScriptSpeed turnSpeed w l
      = if AnimGroupID.GetGroupID (forceScriptGroupID w) = kAnimGroup_TurnLeft ∨
            AnimGroupID.GetGroupID (forceScriptGroupID w) = kAnimGroup_TurnRight then
          w.perform (Effect.SetMovementSpeedMult turnSpeed)
        else
          w.perform (Effect.SetMovementSpeedMult
            (if w.rigs.third.GetPlayingAnimGroupMovementVectorMagnitude (forceScriptGroupID w) ≠ 0
              then (forceScriptTarget w l /
                w.rigs.third.GetPlayingAnimGroupMovementVectorMagnitude (forceScriptGroupID w))
                  * l.v167
              else l.v167)) := rfl

/-- Dropping an unresolved request records at most `SetWeaponOut(0)` and
leaves the action, the sequence and the gateway alone. -/
theorem dropUnresolved_summary (w : World) (l : Locals) (v150 : Nat) :
    ((dropUnresolved w l v150).1 = w ∨
        (l.animAction = 1 ∧ dropSlowMovement l ≠ v150 ∧
          (dropUnresolved w l v150).1 = w.SetWeaponOut false)) ∧
      (dropUnresolved w l v150).1.GetCurrentAnimAction = w.GetCurrentAnimAction ∧
      (dropUnresolved w l v150).1.GetCurrentSequence = w.GetCurrentSequence ∧
      (dropUnresolved w l v150).1.rigs = w.rigs ∧
      (dropUnresolved w l v150).1.g_animSequenceTypes = w.g_animSequenceTypes ∧
      ((dropUnresolved w l v150).2 = -1 ∨
        ((dropUnresolved w l v150).2 = l.animAction ∧ dropSlowMovement l = v150)) := by
  unfold dropUnresolved
  split
  · rename_i hc
    split
    · rename_i h1
      exact ⟨Or.inr ⟨h1, hc.2, rfl⟩, rfl, rfl, rfl, rfl, Or.inl rfl⟩
    · exact ⟨Or.inl rfl, rfl, rfl, rfl, rfl, Or.inl rfl⟩
  · rename_i hc
    refine ⟨Or.inl rfl, rfl, rfl, rfl, rfl, ?_⟩
    by_cases ha : l.animAction = -1
    · exact Or.inl ha
    · refine Or.inr ⟨rfl, ?_⟩
      by_contra hne
      exact hc ⟨ha, hne⟩

theorem dropUnresolved_records (P : Effect → Prop) (hP : P (Effect.SetWeaponOut false))
    (w : World) (l : Locals) (v150 : Nat) : w.Records P (dropUnresolved w l v150).1 := by
  rcases (dropUnresolved_summary w l v150).1 with h | ⟨-, -, h⟩
  · rw [h]
    exact World.Records.nil P w
  · rw [h]
    exact (World.Records.nil P w).setWeaponOut _ hP

/-- The test of line 688 reads the action in flight, the current sequence,
the gateway and the table only. -/
theorem sequenceInFlight_congr (w w1 : World) (l l1 : Locals) (animGroup : Nat)
    (h1 : w1.GetCurrentSequence = w.GetCurrentSequence) (h2 : w1.rigs = w.rigs)
    (h3 : w1.g_animSequenceTypes = w.g_animSequenceTypes)
    (h4 : l1.currentAnimAction = l.currentAnimAction) :
    sequenceInFlight w1 l1 animGroup = sequenceInFlight w l animGroup := by
  unfold sequenceInFlight
  rw [h1, h2, h3, h4]

/-- The resolution phase when the guard of line 666 holds, with the test of
line 688 as `sequenceInFlight`. -/
theorem resolvePhase_eq (turnSpeed : ℚ) (w : World) (l : Locals)
    (hguard : l.animAction = -1 ∨ l.currentAnimAction = -1) :
    resolvePhase turnSpeed w l
      = if sequenceInFlight w l (AnimGroupID.GetGroupID (resolvedID w l)) = true then
          if l.currentAnimAction = kAnimAction_Force_Script_Anim then
            forceScriptSpeed turnSpeed
              (dropUnresolved w l (AnimGroupID.GetGroupID (resolvedID w l))).1
              { l with
                animAction := (dropUnresolved w l (AnimGroupID.GetGroupID (resolvedID w l))).2
                animGroup := AnimGroupID.GetGroupID (resolvedID w l) }
          else (dropUnresolved w l (AnimGroupID.GetGroupID (resolvedID w l))).1
        else
          attackHook (endMovement
            (playResolved
              (commitSpeed turnSpeed
                (dropUnresolved w l (AnimGroupID.GetGroupID (resolvedID w l))).1
                { l with
                  animAction :=
                    (dropUnresolved w l (AnimGroupID.GetGroupID (resolvedID w l))).2
                  animGroup := AnimGroupID.GetGroupID (resolvedID w l) }
                (resolvedID w l))
              { l with
                animAction := (dropUnresolved w l (AnimGroupID.GetGroupID (resolvedID w l))).2
                animGroup := AnimGroupID.GetGroupID (resolvedID w l) }
              (resolvedID w l))
            { l with
              animAction := (dropUnresolved w l (AnimGroupID.GetGroupID (resolvedID w l))).2
              animGroup := AnimGroupID.GetGroupID (resolvedID w l) }) := by
  obtain ⟨-, -, d3, d4, d5, -⟩ :=
    dropUnresolved_summary w l (AnimGroupID.GetGroupID (resolvedID w l))
  unfold resolvePhase
  rw [if_pos hguard]
  simp only []
  generalize dropUnresolved w l (AnimGroupID.GetGroupID (resolvedID w l)) = d at d3 d4 d5 ⊢
  obtain ⟨wd, ad⟩ := d
  simp only [] at d3 d4 d5 ⊢
  have hs : sequenceInFlight w l (AnimGroupID.GetGroupID (resolvedID w l)) = true ↔
      (l.currentAnimAction ≠ -1 ∧ wd.GetCurrentSequence.isSome = true ∧
        wd.rigs.third.GetAnimSequenceElement
          (wd.g_animSequenceTypes (9 * AnimGroupID.GetGroupID (resolvedID w l)))
          = wd.GetCurrentSequence) := by
    unfold sequenceInFlight
    rw [d3, d4, d5]
    simp [Bool.and_eq_true]
    tauto
  by_cases hin : sequenceInFlight w l (AnimGroupID.GetGroupID (resolvedID w l)) = true
  · rw [if_pos hin, if_pos (hs.mp hin)]
  · rw [if_neg hin, if_neg (fun hc => hin (hs.mpr hc))]

/-- Playing the resolved group issues playback requests and at most one
commit of the requested action. -/
theorem playResolved_records (P : Effect → Prop)
    (hP : ∀ id flag, P (Effect.PlayAnimGroup id flag)) (hQ : P Effect.PlayFirstPersonAnimation)
    (w : World) (l : Locals) (groupID_1 : Nat)
    (hA : ∀ q, P (Effect.SetAnimActionAndSequence l.animAction q)) :
    w.Records P (playResolved w l groupID_1) := by
  unfold playResolved
  split
  · split
    · simp only []
      have h2 : w.Records P ((playIdleOfMoveType w l).perform (Effect.PlayAnimGroup groupID_1 1)) :=
        (playIdleOfMoveType_performs P hP hQ w l).records.snoc _ (hP _ _)
      refine World.Records.append ?_ (playFollowUp_performs P hP hQ _ l).records
      refine World.Records.snoc ?_ _ hQ
      exact World.Records.branch _ (h2.setAction _ _ (hA _)) h2
    · exact World.Records.nil P w
  · exact World.Records.nil P w

/-- After the commit only playback requests, at most one commit of the
requested action, stop requests and the attack hook follow. -/
theorem afterCommit_records (P : Effect → Prop)
    (hP : ∀ id flag, P (Effect.PlayAnimGroup id flag)) (hQ : P Effect.PlayFirstPersonAnimation)
    (hR : ∀ rig channel, P (Effect.EndsSequenceIfNotAim rig channel))
    (hS : P Effect.sub_8A5340) (hT : P Effect.Unk_117)
    (w : World) (l : Locals) (groupID_1 : Nat)
    (hA : ∀ q, P (Effect.SetAnimActionAndSequence l.animAction q)) :
    w.Records P (attackHook (endMovement (playResolved w l groupID_1) l)) :=
  ((playResolved_records P hP hQ w l groupID_1 hA).append
    (endMovement_performs P hR _ l).records).append (attackHook_performs P hS hT _).records

/-- Line 751: the sentinel commits nothing. -/
theorem commitSpeed_sentinel (turnSpeed : ℚ) (w : World) (l : Locals) :
    commitSpeed turnSpeed w l 255 = w := by
  unfold commitSpeed
  rw [if_neg (by simp)]

/-- Lines 753-756: a turn group commits the turn speed. -/
theorem commitSpeed_turn (turnSpeed : ℚ) (w : World) (l : Locals) (groupID_1 : Nat)
    (hid : groupID_1 ≠ 255)
    (hg : l.animGroup = kAnimGroup_TurnLeft ∨ l.animGroup = kAnimGroup_TurnRight) :
    commitSpeed turnSpeed w l groupID_1 = w.perform (Effect.SetMovementSpeedMult turnSpeed) := by
  unfold commitSpeed
  rw [if_pos hid, if_pos hg]

/-- Lines 784-816: a directional, fast or dodge group commits the scaled
speed input, or the speed input itself when the magnitude is zero. -/
theorem commitSpeed_movement (turnSpeed : ℚ) (w : World) (l : Locals) (groupID_1 : Nat)
    (hid : groupID_1 ≠ 255)
    (h1 : kAnimGroup_Forward ≤ l.animGroup) (h2 : l.animGroup ≤ kAnimGroup_DodgeRight) :
    commitSpeed turnSpeed w l groupID_1
      = w.perform (Effect.SetMovementSpeedMult
          (if w.rigs.third.GetPlayingAnimGroupMovementVectorMagnitude
                (magnitudeGroupID w groupID_1) ≠ 0 then
            (l.movementSpeedMult /
              w.rigs.third.GetPlayingAnimGroupMovementVectorMagnitude
                (magnitudeGroupID w groupID_1)) * l.v167
          else l.v167)) := by
  have a : (3 : Nat) ≤ l.animGroup := h1
  have b : l.animGroup ≤ 14 := h2
  unfold commitSpeed
  rw [if_pos hid, if_neg, if_neg]
  · simp only [kAnimGroup_Forward, kAnimGroup_TurnRight]
    omega
  · simp only [kAnimGroup_TurnLeft, kAnimGroup_TurnRight]
    omega

/-- The commit records nothing but a speed or a rate. -/
theorem commitSpeed_records (P : Effect → Prop)
    (hM : ∀ v, P (Effect.SetMovementSpeedMult v)) (hF : ∀ v, P (Effect.SetRateOfFire v))
    (turnSpeed : ℚ) (w : World) (l : Locals) (groupID_1 : Nat) :
    w.Records P (commitSpeed turnSpeed w l groupID_1) :=
  (commitSpeed_performs P hM hF turnSpeed w l groupID_1).records

/-- The id of a movement group is not the sentinel. -/
theorem ne_sentinel_of_group (groupID_1 : Nat)
    (h : AnimGroupID.GetGroupID groupID_1 ≤ kAnimGroup_TurnRight) : groupID_1 ≠ 255 := by
  intro hc
  subst hc
  exact absurd h (by decide)

/-- A group within the directional, fast and dodge groups is the group of
the key when the resolved id carries the key's group. -/
theorem dropSlowMovement_of_carry (l : Locals) (g : Nat) (h : g = dropSlowMovement l)
    (h1 : kAnimGroup_Forward ≤ g) : l.animGroup = g := by
  unfold dropSlowMovement at h
  split at h
  · subst h
    exact absurd h1 (by decide)
  · exact h.symm

/-- Once the classification has returned, the tick returns. -/
theorem body_eq (charController : bhkCharacterController) (movementSpeed turnSpeed : ℚ)
    (w w1 : World) (l : Locals)
    (h : classified charController movementSpeed w = Except.ok (w1, l)) :
    body charController movementSpeed turnSpeed w = Except.ok (resolvePhase turnSpeed w1 l) := by
  unfold body
  simp only [h, bind, Except.bind, pure, Except.pure]

/-- A request whose group resolved is kept. -/
theorem dropUnresolved_carry (w : World) (l : Locals) (v150 : Nat)
    (h : dropSlowMovement l = v150) : dropUnresolved w l v150 = (w, l.animAction) := by
  unfold dropUnresolved
  rw [if_neg (fun hc => hc.2 h)]

/-- With nothing requested there is nothing to drop. -/
theorem dropUnresolved_none (w : World) (l : Locals) (v150 : Nat) (h : l.animAction = -1) :
    dropUnresolved w l v150 = (w, -1) := by
  unfold dropUnresolved
  rw [if_neg (fun hc => hc.1 h), h]

/-- A tick that starts with an action in flight that is none of the case
labels of line 470 requests nothing, and its classification runs lines
588-665: the speed input is `movementSpeed` and the group lies within the
movement groups. -/
theorem classified_in_flight (charController : bhkCharacterController) (movementSpeed : ℚ)
    (w w1 : World) (l : Locals)
    (h : classified charController movementSpeed w = Except.ok (w1, l))
    (hstart : ¬ (w.GetCurrentAnimAction = -1 ∨ w.GetCurrentAnimAction = kAAP1_Unequip_Weapon ∨
      w.GetCurrentAnimAction = kAAP1_Attack_Eject ∨ w.GetCurrentAnimAction = kAAP1_Dodge)) :
    l.v167 = movementSpeed ∧ l.animGroup ≤ kAnimGroup_TurnRight ∧
      l.currentAnimAction = w.GetCurrentAnimAction ∧
      (l.animAction = -1 ∨ l.animAction = kAnimAction_Block ∨
        l.animAction = kAnimAction_Reload ∨ l.animAction = kAnimAction_ReloadLoop) := by
  obtain ⟨wa, la, lb, lc, ha, hr, hh, hc⟩ := classified_steps charController movementSpeed w w1 l h
  obtain ⟨-, ⟨-, ka2, -, -, ka5, -⟩, -, aact, -⟩ :=
    actionPhase_summary (fun _ => True) (fun _ _ => trivial) charController w wa
      (initLocals w) la rfl ha
  have hcur : la.currentAnimAction = w.GetCurrentAnimAction := ka5
  have hsame : lb = la := by
    by_cases hm : la.animAction = -1
    · rw [requestPhase_in_flight charController wa la (by rw [hcur]; exact hstart)] at hr
      injection hr with h1 h2
      exact h2.symm
    · rw [requestPhase_skip charController wa la hm] at hr
      injection hr with h1 h2
      exact h2.symm
  subst hsame
  obtain ⟨handType, hlc⟩ := pickHandType_result w1 lb lc hh
  obtain ⟨moveType, hmt⟩ := pickMoveType_result w1 lc
  rw [hmt] at hc
  obtain ⟨s1, s2, -, -, s5⟩ := classify_summary movementSpeed w1 _ l hc
  have hg : ({ lc with animMoveType := moveType } : Locals).animGroup = 0 := by
    rw [hlc]
    exact ka2
  refine ⟨?_, ?_, ?_, ?_⟩
  · rcases s5 with ⟨t1, -⟩ | ⟨-, t2, -⟩
    · exact absurd hg t1
    · exact t2
  · rcases s5 with ⟨t1, -⟩ | ⟨-, -, t3, -⟩
    · exact absurd hg t1
    · exact t3
  · rw [s2, hlc]
    exact hcur
  · rw [s1, hlc]
    exact aact

/-- Lines 717-735 for a directional, fast or dodge group: the run
multiplier for a fast group, the walk speed otherwise. -/
theorem forceScriptTarget_movement (w : World) (l : Locals)
    (h1 : kAnimGroup_Forward ≤ AnimGroupID.GetGroupID (forceScriptGroupID w))
    (h2 : AnimGroupID.GetGroupID (forceScriptGroupID w) ≤ kAnimGroup_DodgeRight) :
    forceScriptTarget w l
      = if AnimGroupID.GetGroupID (forceScriptGroupID w) = kAnimGroup_FastForward ∨
            isFastSide (AnimGroupID.GetGroupID (forceScriptGroupID w)) = true
        then w.GetRunSpeedMult else w.GetWalkSpeed := by
  unfold forceScriptTarget
  simp only []
  generalize AnimGroupID.GetGroupID (forceScriptGroupID w) = n at h1 h2 ⊢
  have a : (3 : Nat) ≤ n := h1
  have b : n ≤ 14 := h2
  interval_cases n <;> simp [isSideOrDodge, isFastSide, kAnimGroup_Forward, kAnimGroup_Backward,
    kAnimGroup_Left, kAnimGroup_Right, kAnimGroup_FastForward, kAnimGroup_FastBackward,
    kAnimGroup_FastLeft, kAnimGroup_FastRight, kAnimGroup_DodgeForward, kAnimGroup_DodgeBack,
    kAnimGroup_DodgeLeft, kAnimGroup_DodgeRight]

/-- Line 668 leaves a group above the movement groups alone. -/
theorem dropSlowMovement_high (l : Locals) (h : kAnimGroup_TurnRight < l.animGroup) :
    dropSlowMovement l = l.animGroup := by
  unfold dropSlowMovement
  rw [if_neg]
  rintro ⟨-, -, h3, -⟩
  exact absurd h (not_lt.mpr h3)

/-- With no action in flight the test of line 688 fails. -/
theorem sequenceInFlight_none (w : World) (l : Locals) (animGroup : Nat)
    (h : l.currentAnimAction = -1) : sequenceInFlight w l animGroup = false := by
  unfold sequenceInFlight
  simp [h]

/-- A request whose group did not resolve is dropped, and an unequip request
clears the weapon-out flag. -/
theorem dropUnresolved_miss (w : World) (l : Locals) (v150 : Nat)
    (ha : l.animAction ≠ -1) (hmiss : dropSlowMovement l ≠ v150) :
    dropUnresolved w l v150 = ((if l.animAction = 1 then w.SetWeaponOut false else w), -1) := by
  unfold dropUnresolved
  rw [if_pos ⟨ha, hmiss⟩]

/-- The jam roll returns unless it reads the group of an absent current
sequence (lines 435-436). -/
theorem jamRoll_returns (w : World) (l : Locals)
    (hsafe : w.GetCurrentSequence = none → ∀ weap, w.weap = some weap →
      weap.NoJamAfterReload = true ∨ l.currentAnimAction ≠ kAnimAction_Reload) :
    ∃ p, jamRoll w l = Except.ok p := by
  unfold jamRoll
  cases hw : w.weap with
  | none => exact ⟨_, rfl⟩
  | some weap =>
    simp only []
    split
    · rename_i hj
      cases hs : w.GetCurrentSequence with
      | none =>
        rcases hsafe hs weap hw with h | h
        · rw [h] at hj
          exact absurd hj.1 (by simp)
        · exact absurd hj.2 h
      | some s =>
        simp only [deref, bind, Except.bind, pure, Except.pure]
        split_ifs <;> exact ⟨_, rfl⟩
    · exact ⟨_, rfl⟩

/-- Lines 818-843: a resolved group that needs playing and has a sequence
base records its playback request; one that does not leaves the state
alone. -/
theorem playResolved_plays (P : Effect → Prop)
    (hP : ∀ id flag, P (Effect.PlayAnimGroup id flag)) (hQ : P Effect.PlayFirstPersonAnimation)
    (w : World) (l : Locals) (groupID_1 : Nat)
    (hA : ∀ q, P (Effect.SetAnimActionAndSequence l.animAction q)) :
    (needsPlay w l groupID_1 = true ∧ w.rigs.third.GetSequenceBaseFromMap groupID_1 = true →
        ∃ es, (playResolved w l groupID_1).trace = w.trace ++ es ∧
          Effect.PlayAnimGroup groupID_1 1 ∈ es ∧ ∀ e ∈ es, P e) ∧
      (¬ (needsPlay w l groupID_1 = true ∧
          w.rigs.third.GetSequenceBaseFromMap groupID_1 = true) →
        playResolved w l groupID_1 = w) := by
  constructor
  · rintro ⟨h1, h2⟩
    unfold playResolved
    rw [if_pos h1, if_pos h2]
    simp only []
    obtain ⟨e0, t0, p0⟩ := (playIdleOfMoveType_performs P hP hQ w l).records
    have hB : World.Records P ((playIdleOfMoveType w l).perform (Effect.PlayAnimGroup groupID_1 1))
        (playFollowUp
          ((if l.animAction ≠ -1 ∧
                ¬ ((playIdleOfMoveType w l).perform
                  (Effect.PlayAnimGroup groupID_1 1)).AnimGroup_IsNonSpecialIdle groupID_1 then
              ((playIdleOfMoveType w l).perform
                (Effect.PlayAnimGroup groupID_1 1)).SetAnimActionAndSequence l.animAction
                (((playIdleOfMoveType w l).perform
                  (Effect.PlayAnimGroup groupID_1 1)).rigs.third.GetAnimSequenceElement
                  (((playIdleOfMoveType w l).perform
                    (Effect.PlayAnimGroup groupID_1 1)).g_animSequenceTypes (9 * l.animGroup)))
            else (playIdleOfMoveType w l).perform (Effect.PlayAnimGroup groupID_1 1)).perform
            Effect.PlayFirstPersonAnimation) l) := by
      refine World.Records.append ?_ (playFollowUp_performs P hP hQ _ l).records
      refine World.Records.snoc ?_ _ hQ
      exact World.Records.branch _ ((World.Records.nil P _).setAction _ _ (hA _))
        (World.Records.nil P _)
    obtain ⟨e1, t1, p1⟩ := hB
    refine ⟨e0 ++ [Effect.PlayAnimGroup groupID_1 1] ++ e1, ?_, by simp, ?_⟩
    · rw [t1]
      show ((playIdleOfMoveType w l).trace ++ [Effect.PlayAnimGroup groupID_1 1]) ++ e1 = _
      rw [t0]
      simp
    · intro e he
      rcases List.mem_append.mp he with h | h
      · rcases List.mem_append.mp h with h | h
        · exact p0 e h
        · rw [List.mem_singleton.mp h]
          exact hP _ _
      · exact p1 e h
  · intro hn
    unfold playResolved
    by_cases h1 : needsPlay w l groupID_1 = true
    · rw [if_pos h1, if_neg (fun h2 => hn ⟨h1, h2⟩)]
    · rw [if_neg h1]

/-- The test of line 820 reads the gateway, the table and the group only. -/
theorem needsPlay_congr (w w1 : World) (l l1 : Locals) (groupID_1 : Nat)
    (h2 : w1.rigs = w.rigs) (h3 : w1.g_animSequenceTypes = w.g_animSequenceTypes)
    (h4 : l1.animGroup = l.animGroup) :
    needsPlay w1 l1 groupID_1 = needsPlay w l groupID_1 := by
  unfold needsPlay
  rw [h2, h3, h4]

/-- Lines 419-464 away from the unchecked read of lines 435-436: in a tick
whose tick-start action is not None and whose current sequence handle is
absent or Inactive, if no Block is adopted (the
off-hand channel does not play BlockIdle) and the jam branch does not read
an absent handle (the handle is present, or there is no weapon, or the
weapon forbids jams, or the action is not Reload), the action phase returns
and either a jam reload is triggered (the jam reload animation is played
and the action becomes Reload) or the action is set to None with no
sequence by `Actor::SetAnimActionAndSequence(None, 0)`. -/
theorem noLiveSequence_fallback (charController : bhkCharacterController) (w : World)
    (hcur : w.GetCurrentAnimAction ≠ kAnimAction_None)
    (hdead : ∀ s, w.GetCurrentSequence = some s → (w.rigs.seq s).GetState = kAnimState_Inactive)
    (hblock : w.rigs.third.GetAnimSequenceElement kSequence_LeftArm = none ∨
      AnimGroupID.GetGroupID (w.rigs.third.GetNthSequenceGroupID kSequence_LeftArm)
        ≠ kAnimGroup_BlockIdle)
    (hsafe : w.GetCurrentSequence = none → ∀ weap, w.weap = some weap →
      weap.NoJamAfterReload = true ∨ w.GetCurrentAnimAction ≠ kAnimAction_Reload) :
    ∃ w1 l1, actionPhase charController w (initLocals w) = Except.ok (w1, l1) ∧
      ((l1.animAction = kAnimAction_Reload ∧
          w1.GetCurrentAnimAction = kAnimAction_Reload ∧
          ∃ weap, w.weap = some weap ∧
            w1.trace = w.trace ++
              [Effect.PlayAttackAnim (weap.GetReloadAnimGroup false + 23),
                Effect.SetAnimActionAndSequence kAnimAction_Reload w1.GetCurrentSequence,
                Effect.PlayFirstPersonAnimation]) ∨
        (l1.animAction = -1 ∧ w1 = w.SetAnimActionAndSequence kAnimAction_None none ∧
          w1.GetCurrentAnimAction = kAnimAction_None ∧ w1.GetCurrentSequence = none ∧
          w1.trace = w.trace ++ [Effect.SetAnimActionAndSequence kAnimAction_None none])) := by
  have hphase : actionPhase charController w (initLocals w) = noLiveSequence w (initLocals w) := by
    have hcur1 : (initLocals w).currentAnimAction ≠ kAnimAction_None := hcur
    unfold actionPhase
    rw [if_pos hcur1]
    cases hs : w.GetCurrentSequence with
    | none => rfl
    | some s =>
      simp only []
      rw [if_neg (by rw [hdead s hs]; decide)]
  have hno : adoptBlock w (initLocals w) = (w, initLocals w) := by
    rcases adoptBlock_cases w (initLocals w) with ⟨-, h⟩ | ⟨v53, h1, h2, -⟩
    · exact h
    · rcases hblock with hb | hb
      · rw [hb] at h1
        cases h1
      · exact absurd h2 hb
  obtain ⟨p, hp⟩ := jamRoll_returns w (initLocals w) hsafe
  obtain ⟨wj, lj⟩ := p
  rw [hphase]
  unfold noLiveSequence
  rw [hno]
  simp only [bind, Except.bind, hp, pure, Except.pure]
  rcases jamRoll_cases w wj (initLocals w) lj hp with ⟨h1, h2⟩ | ⟨weap, hw, h1, h2⟩
  · subst h1 h2
    have hm : (initLocals wj).animAction = -1 := rfl
    rw [if_pos hm]
    exact ⟨_, _, rfl, Or.inr ⟨rfl, rfl, rfl, rfl, rfl⟩⟩
  · subst h1 h2
    rw [if_neg (show ¬ (kAnimAction_Reload = -1) by decide)]
    refine ⟨_, _, rfl, Or.inl ⟨rfl, rfl, weap, hw, ?_⟩⟩
    simp [World.perform, World.SetAnimActionAndSequence]

/-- The fallback at a concrete input: after a reload whose sequence has
gone Inactive, with a draw of 0.999 against a jam chance of 0.1, the action
is set to None with no sequence. -/
theorem noLiveSequence_fallback_example :
    ∃ w1 l1, actionPhase Example.onGround (Example.jamWorld (999 / 1000) (fun group _ => group))
        (initLocals (Example.jamWorld (999 / 1000) (fun group _ => group)))
        = Except.ok (w1, l1) ∧
      w1.GetCurrentAnimAction = kAnimAction_None ∧ w1.GetCurrentSequence = none ∧
      w1.trace = [Effect.SetAnimActionAndSequence kAnimAction_None none] := by
  obtain ⟨w1, l1, h1, h2⟩ :=
    noLiveSequence_fallback Example.onGround (Example.jamWorld (999 / 1000) (fun group _ => group))
      (by decide)
      (by
        intro s hs
        have h7 : s = 7 := by
          have : some 7 = some s := hs
          injection this with this
          exact this.symm
        subst h7
        rfl)
      (Or.inl rfl)
      (fun hnone => by cases hnone)
  rcases h2 with ⟨-, h3, -⟩ | ⟨-, -, h4, h5, h6⟩
  · exfalso
    have hj : jamRoll (Example.jamWorld (999 / 1000) (fun group _ => group))
        (initLocals (Example.jamWorld (999 / 1000) (fun group _ => group)))
        = Except.ok (Example.jamWorld (999 / 1000) (fun group _ => group),
            initLocals (Example.jamWorld (999 / 1000) (fun group _ => group))) :=
      jamRoll_no_jam _ _ 7 rfl (by norm_num [Example.jamWorld, Example.armed, Example.world])
    have hphase : actionPhase Example.onGround
        (Example.jamWorld (999 / 1000) (fun group _ => group))
        (initLocals (Example.jamWorld (999 / 1000) (fun group _ => group)))
        = Except.ok ((Example.jamWorld (999 / 1000) (fun group _ => group)
            ).SetAnimActionAndSequence kAnimAction_None none,
            initLocals (Example.jamWorld (999 / 1000) (fun group _ => group))) := by
      rw [actionPhase_inactive Example.onGround _ _ 7 (by decide) rfl rfl]
      unfold noLiveSequence
      have hb : adoptBlock (Example.jamWorld (999 / 1000) (fun group _ => group))
          (initLocals (Example.jamWorld (999 / 1000) (fun group _ => group)))
          = (Example.jamWorld (999 / 1000) (fun group _ => group),
              initLocals (Example.jamWorld (999 / 1000) (fun group _ => group))) := rfl
      rw [hb]
      simp only [bind, Except.bind, hj]
      rfl
    rw [hphase] at h1
    injection h1 with h1
    injection h1 with h1 h1b
    rw [← h1] at h3
    exact absurd h3 (by decide)
  · exact ⟨w1, l1, h1, h4, h5, h6⟩

end Actor.PickAnimations

/-! ## Lemmas about what a tick leaves alone -/

namespace World

theorem sameHost_refl (w : World) : w.sameHost w :=
  ⟨w.trace, w.rigs, w.GetCurrentAnimAction, w.GetCurrentSequence, w.IsWeaponOut, rfl⟩

theorem sameHost_trans {w w1 w2 : World} (h1 : w.sameHost w1) (h2 : w1.sameHost w2) :
    w.sameHost w2 := by
  obtain ⟨a1, b1, c1, d1, e1, rfl⟩ := h1
  obtain ⟨a2, b2, c2, d2, e2, rfl⟩ := h2
  exact ⟨a2, b2, c2, d2, e2, rfl⟩

theorem sameHost_perform {w w1 : World} (h : w.sameHost w1) (e : Effect) :
    w.sameHost (w1.perform e) := by
  obtain ⟨a1, b1, c1, d1, e1, rfl⟩ := h
  exact ⟨_, _, _, _, _, rfl⟩

theorem sameHost_setAction {w w1 : World} (h : w.sameHost w1) (action : Int)
    (sequence : Option Nat) : w.sameHost (w1.SetAnimActionAndSequence action sequence) := by
  obtain ⟨a1, b1, c1, d1, e1, rfl⟩ := h
  exact ⟨_, _, _, _, _, rfl⟩

theorem sameHost_setWeaponOut {w w1 : World} (h : w.sameHost w1) (out : Bool) :
    w.sameHost (w1.SetWeaponOut out) := by
  obtain ⟨a1, b1, c1, d1, e1, rfl⟩ := h
  exact ⟨_, _, _, _, _, rfl⟩

theorem sameHost_ite {w w1 w2 : World} (c : Prop) [Decidable c] (h1 : w.sameHost w1)
    (h2 : w.sameHost w2) : w.sameHost (if c then w1 else w2) := by
  split
  · exact h1
  · exact h2

/-- What a tick reads of the entity and of the global tables is the same in
both states. -/
theorem sameHost_reads {w w1 : World} (h : w.sameHost w1) :
    w1.GetMovementFlags = w.GetMovementFlags ∧ w1.GetWeaponInfo = w.GetWeaponInfo ∧
      w1.GetSitSleepState = w.GetSitSleepState ∧ w1.GetFurnitureData = w.GetFurnitureData ∧
      w1.GetActorType = w.GetActorType ∧ w1.GetWalkSpeed = w.GetWalkSpeed ∧
      w1.GetRunSpeedMult = w.GetRunSpeedMult ∧
      w1.GetWantsWeaponOut_IfSwimmingCancelVATS = w.GetWantsWeaponOut_IfSwimmingCancelVATS ∧
      w1.isPlayer = w.isPlayer ∧ w1.GetIsInCombat = w.GetIsInCombat := by
  obtain ⟨a1, b1, c1, d1, e1, rfl⟩ := h
  exact ⟨rfl, rfl, rfl, rfl, rfl, rfl, rfl, rfl, rfl, rfl⟩

end World

namespace Actor.PickAnimations

theorem equipRigLoop_host (v128 : Nat) {w0 w : World} (h : w0.sameHost w) :
    w0.sameHost (equipRigLoop v128 w) := by
  induction v128 generalizing w with
  | zero => exact h
  | succ n ih =>
    simp only [equipRigLoop]
    apply ih
    repeat' (first
      | with_reducible exact h
      | with_reducible apply World.sameHost_perform
      | split)

theorem equipRagDoll_host {w0 w : World} (h : w0.sameHost w) (currentAnimAction : Int) :
    w0.sameHost (equipRagDoll w currentAnimAction) := by
  unfold equipRagDoll
  repeat' (first
    | with_reducible exact h
    | with_reducible apply World.sameHost_perform
    | split)

theorem equipCue_host {w0 w : World} (h : w0.sameHost w) : w0.sameHost (equipCue w) := by
  unfold equipCue
  repeat' (first
    | with_reducible exact h
    | with_reducible apply World.sameHost_perform
    | split
    | dsimp only)

theorem caseEquipUnequip_host {w0 w : World} (h : w0.sameHost w) (currentAnimAction : Int) :
    w0.sameHost (caseEquipUnequip w currentAnimAction) := by
  unfold caseEquipUnequip
  repeat' (first
    | with_reducible exact h
    | with_reducible apply equipCue_host
    | with_reducible apply equipRagDoll_host
    | with_reducible apply equipRigLoop_host
    | with_reducible apply World.sameHost_perform
    | with_reducible apply World.sameHost_setWeaponOut
    | split)

theorem fireAttack_host {w0 w : World} (h : w0.sameHost w) : w0.sameHost (fireAttack w) := by
  unfold fireAttack
  repeat' (first
    | with_reducible exact h
    | with_reducible apply World.sameHost_perform
    | split)

theorem firePowerAttack_host {w0 w : World} (h : w0.sameHost w) :
    w0.sameHost (firePowerAttack w) := by
  unfold firePowerAttack
  repeat' (first
    | with_reducible exact h
    | with_reducible apply World.sameHost_perform
    | split)

theorem caseAttack_host {w0 w w1 : World} (h0 : w0.sameHost w)
    (h : caseAttack w = Except.ok w1) : w0.sameHost w1 := by
  unfold caseAttack at h
  cases hs : w.GetCurrentSequence with
  | none => simp [hs, deref, bind, Except.bind] at h
  | some s =>
    simp only [hs, deref, bind, Except.bind, pure, Except.pure] at h
    split_ifs at h
    all_goals
      cases h
      repeat' (first
        | with_reducible exact h0
        | with_reducible apply fireAttack_host
        | with_reducible apply firePowerAttack_host
        | with_reducible apply World.sameHost_perform
        | with_reducible apply World.sameHost_setAction)

theorem caseAttackEject_host {w0 w w1 : World} (h0 : w0.sameHost w)
    (h : caseAttackEject w = Except.ok w1) : w0.sameHost w1 := by
  unfold caseAttackEject at h
  cases hs : w.GetCurrentSequence with
  | none => simp [hs, deref, bind, Except.bind] at h
  | some s =>
    simp only [hs, deref, bind, Except.bind, pure, Except.pure] at h
    repeat' split at h
    all_goals
      cases h
      repeat' (first
        | with_reducible exact h0
        | with_reducible apply World.sameHost_perform
        | with_reducible apply World.sameHost_setAction)

theorem caseAttackThrow_host {w0 w w1 : World} (h0 : w0.sameHost w)
    (h : caseAttackThrow w = Except.ok w1) : w0.sameHost w1 := by
  unfold caseAttackThrow at h
  cases hs : w.GetCurrentSequence with
  | none => simp [hs, deref, bind, Except.bind] at h
  | some s =>
    simp only [hs, deref, bind, Except.bind, pure, Except.pure] at h
    split_ifs at h
    all_goals
      cases h
      repeat' (first
        | with_reducible exact h0
        | with_reducible apply World.sameHost_perform
        | with_reducible apply World.sameHost_setAction)

theorem attachRigLoop_host (v133 : Nat) {w0 w : World} (h : w0.sameHost w) :
    w0.sameHost (attachRigLoop v133 w) := by
  induction v133 generalizing w with
  | zero => exact h
  | succ n ih =>
    simp only [attachRigLoop]
    exact ih (World.sameHost_perform h _)

theorem caseAttackThrowAttach_host {w0 w w1 : World} (h0 : w0.sameHost w)
    (h : caseAttackThrowAttach w = Except.ok w1) : w0.sameHost w1 := by
  unfold caseAttackThrowAttach at h
  cases hs : w.GetCurrentSequence with
  | none => simp [hs, deref, bind, Except.bind] at h
  | some s =>
    simp only [hs, deref, bind, Except.bind, pure, Except.pure] at h
    split_ifs at h
    all_goals
      cases h
      repeat' (first
        | with_reducible exact h0
        | with_reducible apply attachRigLoop_host
        | with_reducible apply World.sameHost_perform
        | with_reducible apply World.sameHost_setAction)

theorem caseWaitForLowerBody_host (charController : bhkCharacterController) {w0 w : World}
    (h : w0.sameHost w) (l : Locals) : w0.sameHost (caseWaitForLowerBody charController w l) := by
  unfold caseWaitForLowerBody
  repeat' (first
    | with_reducible exact h
    | with_reducible apply World.sameHost_setAction
    | split)

theorem caseReloadLoop_host {w0 w w1 : World} {l l1 : Locals} (h0 : w0.sameHost w)
    (h : caseReloadLoop w l = Except.ok (w1, l1)) : w0.sameHost w1 := by
  unfold caseReloadLoop at h
  simp only [deref, bind, Except.bind, pure, Except.pure] at h
  repeat' split at h
  all_goals
    cases h
    repeat' (first
      | with_reducible exact h0
      | with_reducible apply World.sameHost_perform
      | with_reducible apply World.sameHost_setAction)

theorem adoptBlock_host {w0 w : World} (h : w0.sameHost w) (l : Locals) :
    w0.sameHost (adoptBlock w l).1 := by
  unfold adoptBlock
  repeat' (first
    | with_reducible exact h
    | with_reducible apply World.sameHost_setAction
    | split)

theorem jamRoll_host {w0 w w1 : World} {l l1 : Locals} (h0 : w0.sameHost w)
    (h : jamRoll w l = Except.ok (w1, l1)) : w0.sameHost w1 := by
  unfold jamRoll at h
  simp only [deref, bind, Except.bind, pure, Except.pure] at h
  repeat' split at h
  all_goals
    cases h
    repeat' (first
      | with_reducible exact h0
      | with_reducible apply World.sameHost_perform
      | with_reducible apply World.sameHost_setAction)

theorem noLiveSequence_host {w0 w w1 : World} {l l1 : Locals} (h0 : w0.sameHost w)
    (h : noLiveSequence w l = Except.ok (w1, l1)) : w0.sameHost w1 := by
  unfold noLiveSequence at h
  have hb := adoptBlock_host h0 l
  revert hb h
  generalize adoptBlock w l = b
  obtain ⟨wb, lb⟩ := b
  intro h hb
  simp only [bind, Except.bind] at h
  cases hj : jamRoll wb lb with
  | error e => simp [hj] at h
  | ok p =>
    obtain ⟨wj, lj⟩ := p
    have hjh := jamRoll_host hb hj
    simp only [hj, pure, Except.pure] at h
    split at h
    · cases h
      exact World.sameHost_setAction hjh _ _
    · cases h
      exact hjh

theorem switchAction_host (charController : bhkCharacterController) {w0 w w1 : World}
    {l l1 : Locals} (h0 : w0.sameHost w)
    (h : switchAction charController w l = Except.ok (w1, l1)) : w0.sameHost w1 := by
  unfold switchAction at h
  simp only [bind, Except.bind, pure, Except.pure] at h
  split_ifs at h
  · cases h
    exact caseEquipUnequip_host h0 _
  · cases hc : caseAttack w with
    | error e => simp [hc] at h
    | ok v =>
      simp only [hc] at h
      cases h
      exact caseAttack_host h0 hc
  · cases hc : caseAttackEject w with
    | error e => simp [hc] at h
    | ok v =>
      simp only [hc] at h
      cases h
      exact caseAttackEject_host h0 hc
  · cases hc : caseAttackThrow w with
    | error e => simp [hc] at h
    | ok v =>
      simp only [hc] at h
      cases h
      exact caseAttackThrow_host h0 hc
  · cases hc : caseAttackThrowAttach w with
    | error e => simp [hc] at h
    | ok v =>
      simp only [hc] at h
      cases h
      exact caseAttackThrowAttach_host h0 hc
  · cases h
    exact h0
  · cases h
    exact caseWaitForLowerBody_host charController h0 _
  · exact caseReloadLoop_host h0 h
  · cases h
    exact h0

theorem actionPhase_host (charController : bhkCharacterController) {w0 w w1 : World}
    {l l1 : Locals} (h0 : w0.sameHost w)
    (h : actionPhase charController w l = Except.ok (w1, l1)) : w0.sameHost w1 := by
  unfold actionPhase at h
  split at h
  · split at h
    · split at h
      · exact switchAction_host charController h0 h
      · exact noLiveSequence_host h0 h
    · exact noLiveSequence_host h0 h
  · cases h
    exact h0

theorem jumpOrLand_host (charController : bhkCharacterController) {w0 w : World}
    (h : w0.sameHost w) (l : Locals) : w0.sameHost (jumpOrLand charController w l).1 := by
  unfold jumpOrLand
  repeat' (first
    | with_reducible exact h
    | with_reducible apply World.sameHost_perform
    | split
    | dsimp only)

theorem requestPhase_host (charController : bhkCharacterController) {w0 w w1 : World}
    {l l1 : Locals} (h : w0.sameHost w)
    (hr : requestPhase charController w l = (w1, l1)) : w0.sameHost w1 := by
  have hj := jumpOrLand_host charController h l
  unfold requestPhase at hr
  generalize jumpOrLand charController w l = j at hj hr
  obtain ⟨wj, lj⟩ := j
  repeat' (first
    | split_ifs at hr
    | dsimp only at hr)
  all_goals
    cases hr
    repeat' (first
      | with_reducible exact h
      | with_reducible exact hj
      | with_reducible apply World.sameHost_perform)

/-- The classification leaves the entity and the tables as the tick found
them: what lines 64-80 read at the start of the tick is what lines 466-665
see. -/
theorem classified_host (charController : bhkCharacterController) (movementSpeed : ℚ)
    (w w1 : World) (l : Locals)
    (h : classified charController movementSpeed w = Except.ok (w1, l)) : w.sameHost w1 := by
  obtain ⟨wa, la, lb, lc, ha, hr, -, -⟩ := classified_steps charController movementSpeed w w1 l h
  have h1 := actionPhase_host charController (World.sameHost_refl w) ha
  exact requestPhase_host charController h1 hr

theorem forceScriptSpeed_host (turnSpeed : ℚ) {w0 w : World} (h : w0.sameHost w) (l : Locals) :
    w0.sameHost (forceScriptSpeed turnSpeed w l) := by
  unfold forceScriptSpeed
  dsimp only
  exact World.sameHost_ite _ (World.sameHost_perform h _) (World.sameHost_perform h _)

theorem commitSpeed_host (turnSpeed : ℚ) {w0 w : World} (h : w0.sameHost w) (l : Locals)
    (groupID_1 : Nat) : w0.sameHost (commitSpeed turnSpeed w l groupID_1) := by
  unfold commitSpeed
  repeat' (first
    | with_reducible exact h
    | with_reducible apply World.sameHost_perform
    | split)

theorem playIdleOfMoveType_host {w0 w : World} (h : w0.sameHost w) (l : Locals) :
    w0.sameHost (playIdleOfMoveType w l) := by
  unfold playIdleOfMoveType
  repeat' (first
    | with_reducible exact h
    | with_reducible apply World.sameHost_perform
    | split
    | dsimp only)

theorem playFollowUp_host {w0 w : World} (h : w0.sameHost w) (l : Locals) :
    w0.sameHost (playFollowUp w l) := by
  unfold playFollowUp
  repeat' (first
    | with_reducible exact h
    | with_reducible apply World.sameHost_perform
    | split)

theorem playResolved_host {w0 w : World} (h : w0.sameHost w) (l : Locals) (groupID_1 : Nat) :
    w0.sameHost (playResolved w l groupID_1) := by
  unfold playResolved
  repeat' (first
    | with_reducible exact h
    | with_reducible apply playFollowUp_host
    | with_reducible apply playIdleOfMoveType_host
    | with_reducible apply World.sameHost_perform
    | with_reducible apply World.sameHost_setAction
    | split)

theorem endMovement_host {w0 w : World} (h : w0.sameHost w) (l : Locals) :
    w0.sameHost (endMovement w l) := by
  unfold endMovement
  repeat' (first
    | with_reducible exact h
    | with_reducible apply World.sameHost_perform
    | split
    | dsimp only)

theorem attackHook_host {w0 w : World} (h : w0.sameHost w) : w0.sameHost (attackHook w) := by
  unfold attackHook
  repeat' (first
    | with_reducible exact h
    | with_reducible apply World.sameHost_perform
    | split)

theorem dropUnresolved_host {w0 w : World} (h : w0.sameHost w) (l : Locals) (v150 : Nat) :
    w0.sameHost (dropUnresolved w l v150).1 := by
  unfold dropUnresolved
  repeat' (first
    | with_reducible exact h
    | with_reducible apply World.sameHost_setWeaponOut
    | split)

theorem resolvePhase_host (turnSpeed : ℚ) {w0 w : World} (h : w0.sameHost w) (l : Locals) :
    w0.sameHost (resolvePhase turnSpeed w l) := by
  have hd := dropUnresolved_host h l (AnimGroupID.GetGroupID (resolvedID w l))
  unfold resolvePhase
  dsimp only
  generalize dropUnresolved w l (AnimGroupID.GetGroupID (resolvedID w l)) = d at hd
  obtain ⟨wd, ad⟩ := d
  repeat' (first
    | with_reducible exact h
    | with_reducible exact hd
    | with_reducible apply attackHook_host
    | with_reducible apply endMovement_host
    | with_reducible apply playResolved_host
    | with_reducible apply commitSpeed_host
    | with_reducible apply forceScriptSpeed_host
    | split)

theorem endStaleWeaponSequence_host (rig : Rig) {w0 w w1 : World} (h0 : w0.sameHost w)
    (h : endStaleWeaponSequence rig w = Except.ok w1) : w0.sameHost w1 := by
  unfold endStaleWeaponSequence at h
  simp only [deref, bind, Except.bind, pure, Except.pure] at h
  repeat' split at h
  all_goals
    cases h
    repeat' (first
      | with_reducible exact h0
      | with_reducible apply World.sameHost_perform)

theorem endStaleWeaponSequences_host {w0 w w1 : World} (h0 : w0.sameHost w)
    (h : endStaleWeaponSequences w = Except.ok w1) : w0.sameHost w1 := by
  unfold endStaleWeaponSequences at h
  cases h1 : endStaleWeaponSequence Rig.third w with
  | error e => simp [h1, bind, Except.bind] at h
  | ok wa =>
    simp only [h1, bind, Except.bind, pure, Except.pure] at h
    have ha := endStaleWeaponSequence_host Rig.third h0 h1
    split at h
    · exact endStaleWeaponSequence_host Rig.first ha h
    · cases h
      exact ha

/-- A whole tick leaves the entity and the tables as it found them: it
changes the recorded calls, the gateway state and the three context values
only. -/
theorem tick_host (movementSpeed turnSpeed : ℚ) (w w2 : World)
    (h : Actor.PickAnimations movementSpeed turnSpeed w = Except.ok w2) : w.sameHost w2 := by
  unfold Actor.PickAnimations at h
  split at h
  · split at h
    · cases h
      exact ⟨_, _, _, _, _, rfl⟩
    · split at h
      · split at h
        · rename_i charController hcc
          cases h1 : endStaleWeaponSequences w with
          | error e => simp [h1, bind, Except.bind] at h
          | ok w1 =>
            simp only [h1, bind, Except.bind] at h
            have ha := endStaleWeaponSequences_host (World.sameHost_refl w) h1
            unfold body at h
            cases hc : classified charController movementSpeed w1 with
            | error e => simp [hc, bind, Except.bind] at h
            | ok p =>
              obtain ⟨w3, l3⟩ := p
              simp only [hc, bind, Except.bind, pure, Except.pure] at h
              cases h
              exact resolvePhase_host turnSpeed
                (World.sameHost_trans ha (classified_host charController movementSpeed w1 w3 l3 hc))
                l3
        · cases h
          exact World.sameHost_refl w
      · cases h
        exact World.sameHost_refl w
  · cases h
    exact World.sameHost_refl w

theorem switchAction_eject (charController : bhkCharacterController) (w : World) (l : Locals)
    (hcur : l.currentAnimAction = kAnimAction_Attack_Eject) :
    switchAction charController w l = (caseAttackEject w).map (fun w1 => (w1, l)) := by
  simp [switchAction, hcur, kAnimAction_Attack, kAnimAction_Equip_Weapon,
    kAnimAction_Unequip_Weapon, kAnimAction_Attack_Eject]
  cases caseAttackEject w <;> rfl

theorem switchAction_throw (charController : bhkCharacterController) (w : World) (l : Locals)
    (hcur : l.currentAnimAction = kAnimAction_Attack_Throw) :
    switchAction charController w l = (caseAttackThrow w).map (fun w1 => (w1, l)) := by
  simp [switchAction, hcur, kAnimAction_Attack, kAnimAction_Equip_Weapon,
    kAnimAction_Unequip_Weapon, kAnimAction_Attack_Eject, kAnimAction_Attack_Throw]
  cases caseAttackThrow w <;> rfl

theorem switchAction_throwAttach (charController : bhkCharacterController) (w : World)
    (l : Locals) (hcur : l.currentAnimAction = kAnimAction_Attack_Throw_Attach) :
    switchAction charController w l = (caseAttackThrowAttach w).map (fun w1 => (w1, l)) := by
  simp [switchAction, hcur, kAnimAction_Attack, kAnimAction_Equip_Weapon,
    kAnimAction_Unequip_Weapon, kAnimAction_Attack_Eject, kAnimAction_Attack_Throw,
    kAnimAction_Attack_Throw_Attach]
  cases caseAttackThrowAttach w <;> rfl

theorem switchAction_wait (charController : bhkCharacterController) (w : World) (l : Locals)
    (hcur : l.currentAnimAction = kAnimAction_Wait_For_Lower_Body_Anim) :
    switchAction charController w l
      = Except.ok (caseWaitForLowerBody charController w l, l) := by
  simp [switchAction, hcur, kAnimAction_Attack, kAnimAction_Equip_Weapon,
    kAnimAction_Unequip_Weapon, kAnimAction_Attack_Eject, kAnimAction_Attack_Throw,
    kAnimAction_Attack_Throw_Attach, kAnimAction_Dodge, kAnimAction_Wait_For_Lower_Body_Anim]
  rfl

/-- With an action in flight and no current sequence the action phase is
the block of lines 419-464. -/
theorem actionPhase_absent (charController : bhkCharacterController) (w : World) (l : Locals)
    (hcur : l.currentAnimAction ≠ kAnimAction_None) (hseq : w.GetCurrentSequence = none) :
    actionPhase charController w l = noLiveSequence w l := by
  simp [actionPhase, hcur, hseq]

/-- What the block of lines 419-464 does when it returns: it leaves the
weapon-out flag alone, ends in None, Block or Reload, and records only the
commit of one of these and the playback calls of a jam reload. -/
theorem noLiveSequence_calls (w w1 : World) (l l1 : Locals) (ha : l.animAction = -1)
    (h : noLiveSequence w l = Except.ok (w1, l1)) :
    w1.IsWeaponOut = w.IsWeaponOut ∧
      (w1.GetCurrentAnimAction = kAnimAction_None ∨ w1.GetCurrentAnimAction = kAnimAction_Block ∨
        w1.GetCurrentAnimAction = kAnimAction_Reload) ∧
      ∃ es, w1.trace = w.trace ++ es ∧ ∀ e ∈ es, Effect.isFallback e = true := by
  unfold noLiveSequence at h
  have hb : ∃ wb lb, adoptBlock w l = (wb, lb) ∧ wb.IsWeaponOut = w.IsWeaponOut ∧
      ((wb = w ∧ lb = l) ∨ (wb.GetCurrentAnimAction = kAnimAction_Block ∧
        lb.animAction = kAnimAction_Block)) ∧
      ∃ es, wb.trace = w.trace ++ es ∧ ∀ e ∈ es, Effect.isFallback e = true := by
    rcases adoptBlock_cases w l with ⟨-, h1⟩ | ⟨v53, -, -, h1⟩
    · exact ⟨w, l, h1, rfl, Or.inl ⟨rfl, rfl⟩, [], by simp, by simp⟩
    · exact ⟨_, _, h1, rfl, Or.inr ⟨rfl, rfl⟩, [_], rfl, by
        intro e he
        rw [List.mem_singleton.mp he]
        rfl⟩
  obtain ⟨wb, lb, hab, hob, hactb, eb, tb, pb⟩ := hb
  rw [hab] at h
  simp only [bind, Except.bind] at h
  cases hj : jamRoll wb lb with
  | error e => simp [hj] at h
  | ok p =>
    obtain ⟨wj, lj⟩ := p
    simp only [hj, pure, Except.pure] at h
    rcases jamRoll_cases wb wj lb lj hj with ⟨h1, h2⟩ | ⟨weap, -, h1, h2⟩
    · subst h1 h2
      rcases hactb with ⟨h3, h4⟩ | ⟨h3, h4⟩
      · subst h3 h4
        rw [if_pos ha] at h
        cases h
        refine ⟨rfl, Or.inl rfl,
          eb ++ [Effect.SetAnimActionAndSequence kAnimAction_None none], ?_, ?_⟩
        · show wj.trace ++ [Effect.SetAnimActionAndSequence kAnimAction_None none] = _
          rw [← List.append_assoc, ← tb]
        · intro e he
          rcases List.mem_append.mp he with h5 | h5
          · exact pb e h5
          · rw [List.mem_singleton.mp h5]
            rfl
      · rw [if_neg (by rw [h4]; decide)] at h
        cases h
        exact ⟨hob, Or.inr (Or.inl h3), eb, tb, pb⟩
    · subst h1 h2
      rw [if_neg (show ¬ (kAnimAction_Reload = -1) by decide)] at h
      cases h
      refine ⟨hob, Or.inr (Or.inr rfl),
        eb ++ [Effect.PlayAttackAnim (weap.GetReloadAnimGroup false + 23),
          Effect.SetAnimActionAndSequence kAnimAction_Reload
            ((wb.perform (Effect.PlayAttackAnim (weap.GetReloadAnimGroup false + 23))
              ).rigs.third.GetAnimSequenceElement kSequence_Weapon),
          Effect.PlayFirstPersonAnimation], ?_, ?_⟩
      · show (wb.trace ++ [_]) ++ [_] ++ [_] = _
        rw [tb]
        simp
      · intro e he
        rcases List.mem_append.mp he with h5 | h5
        · exact pb e h5
        · simp only [List.mem_cons, List.mem_singleton, List.not_mem_nil, or_false] at h5
          rcases h5 with h5 | h5 | h5
          all_goals
            rw [h5]
            rfl

/-- Lines 294-317 on a present sequence: the throw advances exactly at the
release stage of its key type while the actor is doing an attack animation. -/
theorem caseAttackThrow_advance (w : World) (s : Nat) (hseq : w.GetCurrentSequence = some s)
    (hcur : w.GetCurrentAnimAction = kAnimAction_Attack_Throw) :
    ∃ w1, caseAttackThrow w = Except.ok w1 ∧ w1.GetCurrentSequence = some s ∧
      (w1.GetCurrentAnimAction = kAnimAction_Attack_Throw_Attach ∨
        w1.GetCurrentAnimAction = kAnimAction_Attack_Throw) ∧
      (w1.GetCurrentAnimAction = kAnimAction_Attack_Throw_Attach ↔
        ((w.g_animKeyTypes (9 * (w.group s).GetSequenceGroup) = kAnimKeyType_AttackThrow ∧
            w.rigs.third.GetSequenceState1 kSequence_Weapon = kSeqState_EjectOrUnequipEnd) ∨
          (w.g_animKeyTypes (9 * (w.group s).GetSequenceGroup) = kAnimKeyType_PlaceMine ∧
            w.rigs.third.GetSequenceState1 kSequence_Weapon = kSeqState_HitOrDetach)) ∧
        w.IsDoingAttackAnimation = true) := by
  have hne : kAnimAction_Attack_Throw ≠ kAnimAction_Attack_Throw_Attach := by decide
  have hmine : kAnimKeyType_PlaceMine ≠ kAnimKeyType_AttackThrow := by decide
  have hdo : (if hasNonMeleeWeapon w = true then w.perform Effect.SetQueuedIdleFlag
      else w).IsDoingAttackAnimation = w.IsDoingAttackAnimation := by
    split <;> rfl
  have hs1 : (if hasNonMeleeWeapon w = true then w.perform Effect.SetQueuedIdleFlag
      else w).GetCurrentSequence = some s := by
    split
    · exact hseq
    · exact hseq
  have hc1 : (if hasNonMeleeWeapon w = true then w.perform Effect.SetQueuedIdleFlag
      else w).GetCurrentAnimAction = kAnimAction_Attack_Throw := by
    split
    · exact hcur
    · exact hcur
  unfold caseAttackThrow
  simp only [hseq, deref, bind, Except.bind, pure, Except.pure]
  revert hdo hs1 hc1
  generalize (if hasNonMeleeWeapon w = true then w.perform Effect.SetQueuedIdleFlag else w) = wq
  intro hdo hs1 hc1
  by_cases hk : w.g_animKeyTypes (9 * (w.group s).GetSequenceGroup) = kAnimKeyType_AttackThrow ∨
      w.g_animKeyTypes (9 * (w.group s).GetSequenceGroup) = kAnimKeyType_PlaceMine
  · rw [if_pos hk]
    by_cases hst : w.rigs.third.GetSequenceState1 kSequence_Weapon =
        (if w.g_animKeyTypes (9 * (w.group s).GetSequenceGroup) = kAnimKeyType_AttackThrow
          then kSeqState_EjectOrUnequipEnd else kSeqState_HitOrDetach)
    · rw [if_pos hst]
      have hrel : (w.g_animKeyTypes (9 * (w.group s).GetSequenceGroup)
            = kAnimKeyType_AttackThrow ∧
          w.rigs.third.GetSequenceState1 kSequence_Weapon = kSeqState_EjectOrUnequipEnd) ∨
          (w.g_animKeyTypes (9 * (w.group s).GetSequenceGroup) = kAnimKeyType_PlaceMine ∧
            w.rigs.third.GetSequenceState1 kSequence_Weapon = kSeqState_HitOrDetach) := by
        rcases hk with h1 | h1
        · rw [if_pos h1] at hst
          exact Or.inl ⟨h1, hst⟩
        · rw [if_neg (by rw [h1]; exact hmine)] at hst
          exact Or.inr ⟨h1, hst⟩
      by_cases hd : wq.IsDoingAttackAnimation = true
      · rw [if_pos hd]
        exact ⟨_, rfl, hs1, Or.inl rfl, fun _ => ⟨hrel, hdo ▸ hd⟩, fun _ => rfl⟩
      · rw [if_neg hd]
        refine ⟨_, rfl, hs1, Or.inr hc1, fun h => ?_, fun h => absurd (hdo ▸ h.2) hd⟩
        rw [hc1] at h
        exact absurd h hne
    · rw [if_neg hst]
      refine ⟨_, rfl, hseq, Or.inr hcur, fun h => ?_, fun h => ?_⟩
      · rw [hcur] at h
        exact absurd h hne
      · exfalso
        apply hst
        rcases h.1 with ⟨h1, h2⟩ | ⟨h1, h2⟩
        · rw [if_pos h1]
          exact h2
        · rw [if_neg (by rw [h1]; exact hmine)]
          exact h2
  · rw [if_neg hk]
    refine ⟨_, rfl, hseq, Or.inr hcur, fun h => ?_, fun h => ?_⟩
    · rw [hcur] at h
      exact absurd h hne
    · exfalso
      rcases h.1 with ⟨h1, -⟩ | ⟨h1, -⟩
      · exact hk (Or.inl h1)
      · exact hk (Or.inr h1)

/-- Lines 318-356 on a present sequence: the attach advances exactly at the
attach stage of its key type while the actor is doing an attack animation. -/
theorem caseAttackThrowAttach_advance (w : World) (s : Nat)
    (hseq : w.GetCurrentSequence = some s)
    (hcur : w.GetCurrentAnimAction = kAnimAction_Attack_Throw_Attach) :
    ∃ w1, caseAttackThrowAttach w = Except.ok w1 ∧ w1.GetCurrentSequence = some s ∧
      (w1.GetCurrentAnimAction = kAnimAction_Attack_Follow_Through ∨
        w1.GetCurrentAnimAction = kAnimAction_Attack_Throw_Attach) ∧
      (w1.GetCurrentAnimAction = kAnimAction_Attack_Follow_Through ↔
        ((w.g_animKeyTypes (9 * (w.group s).GetSequenceGroup) = kAnimKeyType_AttackThrow ∧
            w.rigs.third.GetSequenceState1 kSequence_Weapon = 3) ∨
          (w.g_animKeyTypes (9 * (w.group s).GetSequenceGroup) = kAnimKeyType_PlaceMine ∧
            w.rigs.third.GetSequenceState1 kSequence_Weapon = 2)) ∧
        w.IsDoingAttackAnimation = true) := by
  have hne : kAnimAction_Attack_Throw_Attach ≠ kAnimAction_Attack_Follow_Through := by decide
  have hmine : kAnimKeyType_PlaceMine ≠ kAnimKeyType_AttackThrow := by decide
  have hloop : ∀ n (w0 : World),
      (attachRigLoop n w0).IsDoingAttackAnimation = w0.IsDoingAttackAnimation ∧
      (attachRigLoop n w0).GetCurrentSequence = w0.GetCurrentSequence ∧
      (attachRigLoop n w0).GetCurrentAnimAction = w0.GetCurrentAnimAction := by
    intro n
    induction n with
    | zero => exact fun w0 => ⟨rfl, rfl, rfl⟩
    | succ n ih =>
      intro w0
      simp only [attachRigLoop]
      exact ih _
  have hq : ∀ wq, wq = (if hasNonMeleeWeapon w = true
        then attachRigLoop (if w.isPlayer = true then 2 else 1) w else w) →
      wq.IsDoingAttackAnimation = w.IsDoingAttackAnimation ∧
      wq.GetCurrentSequence = some s ∧
      wq.GetCurrentAnimAction = kAnimAction_Attack_Throw_Attach := by
    intro wq hwq
    subst hwq
    split
    · obtain ⟨a, b, c⟩ := hloop (if w.isPlayer = true then 2 else 1) w
      exact ⟨a, b.trans hseq, c.trans hcur⟩
    · exact ⟨rfl, hseq, hcur⟩
  unfold caseAttackThrowAttach
  simp only [hseq, deref, bind, Except.bind, pure, Except.pure]
  obtain ⟨hdo, hs1, hc1⟩ := hq _ rfl
  revert hdo hs1 hc1
  generalize (if hasNonMeleeWeapon w = true
    then attachRigLoop (if w.isPlayer = true then 2 else 1) w else w) = wq
  intro hdo hs1 hc1
  by_cases hk : w.g_animKeyTypes (9 * (w.group s).GetSequenceGroup) = kAnimKeyType_AttackThrow ∨
      w.g_animKeyTypes (9 * (w.group s).GetSequenceGroup) = kAnimKeyType_PlaceMine
  · rw [if_pos hk]
    by_cases hst : w.rigs.third.GetSequenceState1 kSequence_Weapon =
        (if w.g_animKeyTypes (9 * (w.group s).GetSequenceGroup) = kAnimKeyType_AttackThrow
          then 3 else 2)
    · rw [if_pos hst]
      have hrel : (w.g_animKeyTypes (9 * (w.group s).GetSequenceGroup)
            = kAnimKeyType_AttackThrow ∧
          w.rigs.third.GetSequenceState1 kSequence_Weapon = 3) ∨
          (w.g_animKeyTypes (9 * (w.group s).GetSequenceGroup) = kAnimKeyType_PlaceMine ∧
            w.rigs.third.GetSequenceState1 kSequence_Weapon = 2) := by
        rcases hk with h1 | h1
        · rw [if_pos h1] at hst
          exact Or.inl ⟨h1, hst⟩
        · rw [if_neg (by rw [h1]; exact hmine)] at hst
          exact Or.inr ⟨h1, hst⟩
      by_cases hd : wq.IsDoingAttackAnimation = true
      · rw [if_pos hd]
        exact ⟨_, rfl, hs1, Or.inl rfl, fun _ => ⟨hrel, hdo ▸ hd⟩, fun _ => rfl⟩
      · rw [if_neg hd]
        refine ⟨_, rfl, hs1, Or.inr hc1, fun h => ?_, fun h => absurd (hdo ▸ h.2) hd⟩
        rw [hc1] at h
        exact absurd h hne
    · rw [if_neg hst]
      refine ⟨_, rfl, hseq, Or.inr hcur, fun h => ?_, fun h => ?_⟩
      · rw [hcur] at h
        exact absurd h hne
      · exfalso
        apply hst
        rcases h.1 with ⟨h1, h2⟩ | ⟨h1, h2⟩
        · rw [if_pos h1]
          exact h2
        · rw [if_neg (by rw [h1]; exact hmine)]
          exact h2
  · rw [if_neg hk]
    refine ⟨_, rfl, hseq, Or.inr hcur, fun h => ?_, fun h => ?_⟩
    · rw [hcur] at h
      exact absurd h hne
    · exfalso
      rcases h.1 with ⟨h1, -⟩ | ⟨h1, -⟩
      · exact hk (Or.inl h1)
      · exact hk (Or.inr h1)

/-- Lines 475-523 do nothing when the controller is neither jumping nor in
the air and the movement channel holds no jump animation. -/
theorem jumpOrLand_quiet (charController : bhkCharacterController) (w : World) (l : Locals)
    (h1 : charController.GetContextHkState ≠ kCharControllerState_Jumping)
    (h2 : charController.GetContextHkState ≠ kCharControllerState_InAir)
    (h3 : ∀ v, l.v159 = some v →
      (w.group v).IsJumping = false ∧ (w.group v).GetSequenceGroup ≠ kAnimGroup_JumpStart) :
    jumpOrLand charController w l = (w, l) := by
  unfold jumpOrLand
  simp only []
  by_cases h0 : charController.GetContextHkState ≠ 0
  · rw [if_pos h0, if_neg h1, if_neg h2]
  · rw [if_neg h0]
    cases hv : l.v159 with
    | none => rfl
    | some v =>
      obtain ⟨a, b⟩ := h3 v hv
      simp only []
      rw [if_neg (by rw [a]; simp [b])]

/-- The request phase does nothing while an action is in flight and lines
475-523 do nothing. -/
theorem requestPhase_quiet (charController : bhkCharacterController) (w : World) (l : Locals)
    (h1 : l.currentAnimAction ≠ -1) (hj : jumpOrLand charController w l = (w, l)) :
    requestPhase charController w l = (w, l) := by
  have hE : ¬ (w.GetWantsWeaponOut_IfSwimmingCancelVATS = true ∧ ¬ w.IsWeaponOut = true ∧
      l.currentAnimAction = -1 ∧ w.Actor_8843A0 = true) := fun hc => h1 hc.2.2.1
  have hU : ¬ (¬ w.GetWantsWeaponOut_IfSwimmingCancelVATS = true ∧ w.IsWeaponOut = true ∧
      l.currentAnimAction = -1 ∧ ¬ w.Unk_8D = true ∧ ¬ w.IsDying = true ∧
      ¬ w.GetKnockedState = true ∧ ¬ w.GetIsRestrained = true ∧
      ¬ w.GetIsUnConscious = true) := fun hc => h1 hc.2.2.1
  have hY : ∀ (c : Prop) [Decidable c],
      (if c then jumpOrLand charController w l else (w, l)) = (w, l) := by
    intro c _
    split
    · exact hj
    · rfl
  unfold requestPhase
  by_cases ha : l.animAction = -1
  · rw [if_pos ha]
    by_cases hs : w.GetSitSleepState = kSitSleepState_Normal
    · rw [if_pos hs, hY]
      simp only []
      rw [if_neg hE]
      simp only []
      rw [if_neg hU]
    · rw [if_neg hs]
      simp only []
      rw [if_neg hU]
  · rw [if_neg ha]

/-- Lines 360-376: the wait ends exactly when the sit/sleep state is normal
and the controller is jumping, or in the air over a jump animation on the
movement channel. -/
theorem caseWaitForLowerBody_cases (charController : bhkCharacterController) (w : World)
    (l : Locals) :
    (w.GetSitSleepState = kSitSleepState_Normal ∧
        (charController.GetContextHkState = kCharControllerState_Jumping ∨
          (charController.GetContextHkState = kCharControllerState_InAir ∧
            ∃ v, l.v159 = some v ∧ (w.group v).IsJumping = true)) ∧
        caseWaitForLowerBody charController w l
          = w.SetAnimActionAndSequence kAnimAction_None none) ∨
      (¬ (w.GetSitSleepState = kSitSleepState_Normal ∧
          (charController.GetContextHkState = kCharControllerState_Jumping ∨
            (charController.GetContextHkState = kCharControllerState_InAir ∧
              ∃ v, l.v159 = some v ∧ (w.group v).IsJumping = true))) ∧
        caseWaitForLowerBody charController w l = w) := by
  unfold caseWaitForLowerBody
  by_cases hs : w.GetSitSleepState = kSitSleepState_Normal
  · rw [if_pos hs]
    by_cases hj : charController.GetContextHkState = kCharControllerState_Jumping
    · rw [if_pos hj]
      exact Or.inl ⟨hs, Or.inl hj, rfl⟩
    · rw [if_neg hj]
      by_cases hi : charController.GetContextHkState = kCharControllerState_InAir
      · rw [if_pos hi]
        cases hv : l.v159 with
        | none =>
          refine Or.inr ⟨?_, rfl⟩
          rintro ⟨-, h | ⟨-, v, h, -⟩⟩
          · exact hj h
          · cases h
        | some v =>
          simp only []
          by_cases hg : (w.group v).IsJumping = true
          · rw [if_pos hg]
            exact Or.inl ⟨hs, Or.inr ⟨hi, v, rfl, hg⟩, rfl⟩
          · rw [if_neg hg]
            refine Or.inr ⟨?_, rfl⟩
            rintro ⟨-, h | ⟨-, v1, h, h5⟩⟩
            · exact hj h
            · cases h
              exact hg h5
      · rw [if_neg hi]
        refine Or.inr ⟨?_, rfl⟩
        rintro ⟨-, h | ⟨h, -⟩⟩
        · exact hj h
        · exact hi h
  · rw [if_neg hs]
    exact Or.inr ⟨fun h => hs h.1, rfl⟩

/-- With no group selected earlier, the classification is the directional
and turn block run on the group the sit/sleep switch leaves: Idle or
DynamicIdle, and Idle in the normal sit/sleep state. -/
theorem classify_block (movementSpeed : ℚ) (w : World) (l l1 : Locals)
    (hidle : l.animGroup = kAnimGroup_Idle)
    (h : classify movementSpeed w l = Except.ok l1) :
    ∃ l2, (l2 = l ∨ l2 = { l with animGroup := kAnimGroup_DynamicIdle }) ∧
      (w.GetSitSleepState = kSitSleepState_Normal → l2 = l) ∧
      l1 = directionBlock w { l2 with v167 := movementSpeed } := by
  unfold classify at h
  rw [if_neg (by rw [hidle]; decide)] at h
  cases hs : sitSleepGroup w l with
  | error e => simp [hs, bind, Except.bind] at h
  | ok l2 =>
    simp only [hs, bind, Except.bind, pure, Except.pure] at h
    injection h with h
    refine ⟨l2, sitSleepGroup_result w l l2 hs, ?_, h.symm⟩
    intro hsit
    rw [sitSleepGroup_normal w l hsit] at hs
    injection hs with hs
    exact hs.symm

/-- What enters the classification of a tick: the group is Idle unless a
jump, landing, equip or unequip group was selected before, the locomotion
type is the one of lines 553-564, and a group other than Idle and JumpLoop
comes with a requested action. -/
theorem classified_entry (charController : bhkCharacterController) (movementSpeed : ℚ)
    (w w1 : World) (l : Locals)
    (h : classified charController movementSpeed w = Except.ok (w1, l)) :
    ∃ l0, classify movementSpeed w1 l0 = Except.ok l ∧
      (l0.animGroup = kAnimGroup_Idle ∨ kAnimGroup_TurnRight < l0.animGroup) ∧
      l0.animMoveType =
        (if w1.GetMovementFlags &&& kMoveFlag_Swimming ≠ 0 then kAnimMoveType_Swimming
          else if w1.GetMovementFlags &&& kMoveFlag_Flying ≠ 0 then kAnimMoveType_Flying
          else if w1.GetMovementFlags &&& kMoveFlag_Sneaking ≠ 0 then kAnimMoveType_Sneaking
          else kAnimMoveType_Walking) ∧
      (l0.animGroup = kAnimGroup_Idle ∨ l0.animGroup = kAnimGroup_JumpLoop ∨
        isRequestedAction l.animAction = true) := by
  obtain ⟨wa, la, lb, lc, ha, hr, hh, hc⟩ := classified_steps charController movementSpeed w w1 l h
  obtain ⟨-, ⟨-, ka2, ka3, -, -, -⟩, -, aact, -⟩ :=
    actionPhase_summary (fun _ => True) (fun _ _ => trivial) charController w wa
      (initLocals w) la rfl ha
  have hgroup : lb.animGroup = kAnimGroup_Idle ∨ kAnimGroup_TurnRight < lb.animGroup := by
    by_cases hact : la.animAction = -1
    · obtain ⟨-, -, -, -, -, hout⟩ :=
        requestPhase_summary (fun _ => True) (fun _ _ => trivial) charController wa w1 la lb
          hact hr
      rcases hout with ⟨-, -, hg | hg⟩ | ⟨-, -, hg, -⟩
      · exact Or.inl (hg.trans ka2)
      · exact Or.inr (by rw [hg]; decide)
      · exact Or.inr hg
    · rw [requestPhase_skip charController wa la hact] at hr
      injection hr with _ hr2
      rw [← hr2]
      exact Or.inl ka2
  have hmove : lb.animMoveType = kAnimMoveType_Walking := by
    by_cases hact : la.animAction = -1
    · obtain ⟨-, -, hm, -⟩ :=
        requestPhase_summary (fun _ => True) (fun _ _ => trivial) charController wa w1 la lb
          hact hr
      exact hm.trans ka3
    · rw [requestPhase_skip charController wa la hact] at hr
      injection hr with _ hr2
      rw [← hr2]
      exact ka3
  have hwhy : lb.animGroup = kAnimGroup_Idle ∨ lb.animGroup = kAnimGroup_JumpLoop ∨
      isRequestedAction lb.animAction = true := by
    by_cases hact : la.animAction = -1
    · obtain ⟨-, -, -, -, -, hout⟩ :=
        requestPhase_summary (fun _ => True) (fun _ _ => trivial) charController wa w1 la lb
          hact hr
      rcases hout with ⟨-, -, hg | hg⟩ | ⟨hq, -⟩
      · exact Or.inl (hg.trans ka2)
      · exact Or.inr (Or.inl hg)
      · exact Or.inr (Or.inr hq)
    · rw [requestPhase_skip charController wa la hact] at hr
      injection hr with _ hr2
      rw [← hr2]
      exact Or.inl ka2
  obtain ⟨handType, hlc⟩ := pickHandType_result w1 lb lc hh
  have hact1 : l.animAction = lb.animAction :=
    ((classify_keeps movementSpeed w1 _ l hc).1.trans (pickMoveType_keeps w1 lc).1).trans
      (pickHandType_keeps w1 lb lc hh).1
  refine ⟨_, hc, ?_, ?_, ?_⟩
  · rw [(pickMoveType_keeps w1 lc).2.2, hlc]
    exact hgroup
  · have hmc : lc.animMoveType = kAnimMoveType_Walking := by
      rw [hlc]
      exact hmove
    unfold pickMoveType
    split_ifs
    · rfl
    · rfl
    · rfl
    · exact hmc
  · rw [(pickMoveType_keeps w1 lc).2.2, hlc, hact1]
    exact hwhy

/-- Lines 611-656 on a group that is Idle or DynamicIdle: a directional or
fast group comes with the walk speed as target, except that a fast group of
an entity of nonzero actor type comes with the run multiplier; fast groups
need the Running flag and the other directional groups its absence. -/
theorem directionBlock_speed (w : World) (l : Locals) (hg : l.animGroup ≤ 1)
    (hdir : kAnimGroup_Forward ≤ (directionBlock w l).animGroup)
    (hfast : (directionBlock w l).animGroup ≤ kAnimGroup_FastRight) :
    (w.GetMovementFlags &&& kMoveFlag_Running ≠ 0 →
        kAnimGroup_FastForward ≤ (directionBlock w l).animGroup ∧
          (directionBlock w l).movementSpeedMult =
            if w.GetActorType ≠ 0 then w.GetRunSpeedMult else w.GetWalkSpeed) ∧
      (w.GetMovementFlags &&& kMoveFlag_Running = 0 →
        (directionBlock w l).animGroup ≤ kAnimGroup_Right ∧
          (directionBlock w l).movementSpeedMult = w.GetWalkSpeed) := by
  have h2 : ¬ kAnimGroup_Forward ≤ l.animGroup := by
    intro h3
    have : (3 : Nat) ≤ l.animGroup := h3
    omega
  revert hdir hfast
  unfold directionBlock
  simp only []
  by_cases hd : w.GetMovementFlags &&& kMoveFlag_AnyDirection ≠ 0
  · rw [if_pos hd]
    by_cases hr : w.GetMovementFlags &&& kMoveFlag_Running ≠ 0
    · rw [if_pos hr]
      intro hdir _
      refine ⟨fun _ => ⟨?_, rfl⟩, fun h0 => absurd h0 hr⟩
      dsimp only at hdir ⊢
      split_ifs at hdir ⊢
      all_goals first
        | decide
        | exact absurd hdir h2
    · rw [if_neg hr]
      by_cases hm : w.GetMovementFlags &&& kMoveFlag_AnyMode ≠ 0
      · rw [if_pos hm]
        intro hdir _
        refine ⟨fun h0 => absurd h0 hr, fun _ => ⟨?_, rfl⟩⟩
        dsimp only at hdir ⊢
        split_ifs at hdir ⊢
        all_goals first
          | decide
          | exact absurd hdir h2
      · rw [if_neg hm]
        intro hdir _
        exact absurd hdir h2
  · rw [if_neg hd]
    split_ifs
    all_goals
      intro hdir hfast
      first
        | exact absurd hfast (by dsimp only; decide)
        | exact absurd hdir h2

/-- The locomotion type of a tick that reaches the classification, by the
movement flags the tick started with. -/
theorem classified_moveType (charController : bhkCharacterController) (movementSpeed : ℚ)
    (w w1 : World) (l : Locals)
    (h : classified charController movementSpeed w = Except.ok (w1, l)) :
    l.animMoveType =
      (if w.GetMovementFlags &&& kMoveFlag_Swimming ≠ 0 then kAnimMoveType_Swimming
        else if w.GetMovementFlags &&& kMoveFlag_Flying ≠ 0 then kAnimMoveType_Flying
        else if w.GetMovementFlags &&& kMoveFlag_Sneaking ≠ 0 then kAnimMoveType_Sneaking
        else kAnimMoveType_Walking) := by
  obtain ⟨l0, hc, -, hm, -⟩ := classified_entry charController movementSpeed w w1 l h
  obtain ⟨hflags, -⟩ :=
    World.sameHost_reads (classified_host charController movementSpeed w w1 l h)
  obtain ⟨-, -, -, hkeep, -⟩ := classify_summary movementSpeed w1 l0 l hc
  rw [hkeep, hm, hflags]

/-- Lines 757-783: a group within Equip..Counter commits the rate of fire. -/
theorem commitSpeed_rate (turnSpeed : ℚ) (w : World) (l : Locals) (groupID_1 : Nat)
    (hid : groupID_1 ≠ 255)
    (h1 : kAnimGroup_Equip ≤ l.animGroup) (h2 : l.animGroup ≤ kAnimGroup_Counter) :
    commitSpeed turnSpeed w l groupID_1
      = w.perform (Effect.SetRateOfFire (rateOfFire w l.animGroup)) := by
  have h24 : (24 : Nat) ≤ l.animGroup := h1
  unfold commitSpeed
  rw [if_pos hid, if_neg, if_pos, if_pos ⟨h1, h2⟩]
  · right
    show 16 < l.animGroup
    omega
  · rintro (h | h)
    · have : l.animGroup = 15 := h
      omega
    · have : l.animGroup = 16 := h
      omega

/-- The rate of fire reads the entity and the tables only. -/
theorem rateOfFire_host {w w1 : World} (h : w.sameHost w1) (animGroup : Nat) :
    rateOfFire w1 animGroup = rateOfFire w animGroup := by
  obtain ⟨a1, b1, c1, d1, e1, rfl⟩ := h
  rfl

/-- Lines 761-781: the rate of fire is 1.0 without a weapon; with a weapon
it is the weapon's animation multiplier after the perk modifiers, times the
attack multiplier exactly for an attack group and a weapon that is not a
melee weapon. -/
theorem rateOfFire_cases (w : World) (animGroup : Nat) :
    (w.weap = none → rateOfFire w animGroup = 1) ∧
      ∀ weapInfo weap, w.GetWeaponInfo = some weapInfo → weapInfo.GetFlags = some weap →
        rateOfFire w animGroup =
          if w.AnimGroup_IsAttack animGroup = true ∧ weap.IsMeleeWeapon = false then
            weap.GetAnimAttackMult (weapInfo.HasWeaponMod kWeaponModEffect_IncreaseRateOfFire)
              * w.ApplyPerkModifiers weap.GetAnimMult
          else w.ApplyPerkModifiers weap.GetAnimMult := by
  constructor
  · intro hw
    unfold World.weap at hw
    unfold rateOfFire
    cases hi : w.GetWeaponInfo with
    | none => rfl
    | some weapInfo =>
      rw [hi] at hw
      simp only [] at hw ⊢
      rw [hw]
  · intro weapInfo weap hi hf
    unfold rateOfFire
    simp only [hi, hf]
    by_cases ha : w.AnimGroup_IsAttack animGroup = true
    · by_cases hm : weap.IsMeleeWeapon = true
      · rw [if_pos (Or.inr hm), if_neg (fun h => by rw [hm] at h; exact absurd h.2 (by decide))]
      · rw [if_neg (fun h => h.elim (fun h1 => h1 ha) hm),
          if_pos ⟨ha, by simpa using hm⟩]
    · rw [if_pos (Or.inl ha), if_neg (fun h => ha h.1)]

/-- A tick whose classification ends on a group within Equip..Counter has
requested an action, with no action in flight. -/
theorem classified_requested (charController : bhkCharacterController) (movementSpeed : ℚ)
    (w w1 : World) (l : Locals)
    (h : classified charController movementSpeed w = Except.ok (w1, l))
    (h1 : kAnimGroup_Equip ≤ l.animGroup) (h2 : l.animGroup ≤ kAnimGroup_Counter) :
    isRequestedAction l.animAction = true ∧ l.currentAnimAction = -1 := by
  have h24 : (24 : Nat) ≤ l.animGroup := h1
  have h168 : l.animGroup ≤ 168 := h2
  obtain ⟨l0, hc, -, -, hwhy⟩ := classified_entry charController movementSpeed w w1 l h
  obtain ⟨-, hreq, -, -⟩ :=
    classified_summary (fun _ => True) (fun _ _ => trivial) charController movementSpeed w w1 l h
  have hq : isRequestedAction l.animAction = true := by
    obtain ⟨-, -, -, -, hcase⟩ := classify_summary movementSpeed w1 l0 l hc
    rcases hcase with ⟨hne, -, -, hg⟩ | ⟨-, -, hle, -⟩
    · rcases hwhy with h0 | h0 | h0
      · exact absurd h0 hne
      · exfalso
        rw [h0] at hg
        have h228 : 228 ≤ l.animGroup := by
          rw [hg]
          unfold jumpLoopGroup
          split_ifs <;> decide
        omega
      · exact h0
    · exfalso
      have : l.animGroup ≤ 16 := hle
      omega
  rcases hreq with ⟨hf, -, -⟩ | ⟨-, hcur, -⟩
  · rw [hf] at hq
    exact absurd hq (by decide)
  · exact ⟨hq, hcur⟩

theorem jumpOrLand_calls (P : Effect → Prop) (hP : ∀ e, Effect.isAfterAction e = true → P e)
    (charController : bhkCharacterController) (w : World) (l : Locals) :
    w.Records P (jumpOrLand charController w l).1 := by
  unfold jumpOrLand
  simp only []
  repeat' split
  all_goals first
    | exact World.Records.nil P w
    | exact ((World.Records.nil P w).snoc _ (by exact hP _ rfl)).snoc _ (by exact hP _ rfl)

theorem requestPhase_calls (P : Effect → Prop) (hP : ∀ e, Effect.isAfterAction e = true → P e)
    (charController : bhkCharacterController) (w w1 : World) (l l1 : Locals)
    (hr : requestPhase charController w l = (w1, l1)) : w.Records P w1 := by
  have hj := jumpOrLand_calls P hP charController w l
  unfold requestPhase at hr
  generalize jumpOrLand charController w l = j at hj hr
  obtain ⟨wj, lj⟩ := j
  repeat' (first
    | split_ifs at hr
    | dsimp only at hr)
  all_goals
    cases hr
    first
      | exact World.Records.nil P w
      | exact hj
      | exact hj.snoc _ (by exact hP _ rfl)
      | exact (World.Records.nil P w).snoc _ (by exact hP _ rfl)

theorem resolvePhase_calls (P : Effect → Prop) (hP : ∀ e, Effect.isAfterAction e = true → P e)
    (turnSpeed : ℚ) (w : World) (l : Locals) : w.Records P (resolvePhase turnSpeed w l) := by
  have hd := dropUnresolved_records P (by exact hP _ rfl) w l
    (AnimGroupID.GetGroupID (resolvedID w l))
  unfold resolvePhase
  split
  · dsimp only
    generalize dropUnresolved w l (AnimGroupID.GetGroupID (resolvedID w l)) = d at hd
    obtain ⟨wd, ad⟩ := d
    dsimp only at hd ⊢
    split
    · split
      · exact hd.append (forceScriptSpeed_performs P (fun _ => by exact hP _ rfl) turnSpeed
          wd _).records
      · exact hd
    · exact (hd.append (commitSpeed_records P (fun _ => by exact hP _ rfl)
        (fun _ => by exact hP _ rfl) turnSpeed wd _ _)).append
        (afterCommit_records P (fun _ _ => by exact hP _ rfl) (by exact hP _ rfl)
          (fun _ _ => by exact hP _ rfl) (by exact hP _ rfl) (by exact hP _ rfl) _ _ _
          (fun _ => by exact hP _ rfl))
  · exact World.Records.nil P w

/-- Once the action phase is over, a tick records only calls of lines
466-962. -/
theorem body_after_action (P : Effect → Prop) (hP : ∀ e, Effect.isAfterAction e = true → P e)
    (charController : bhkCharacterController) (movementSpeed turnSpeed : ℚ)
    (w wa w2 : World) (la : Locals)
    (ha : actionPhase charController w (initLocals w) = Except.ok (wa, la))
    (hb : body charController movementSpeed turnSpeed w = Except.ok w2) : wa.Records P w2 := by
  unfold body at hb
  cases hc : classified charController movementSpeed w with
  | error e => simp [hc, bind, Except.bind] at hb
  | ok p =>
    obtain ⟨w3, l3⟩ := p
    simp only [hc, bind, Except.bind, pure, Except.pure] at hb
    injection hb with hb
    obtain ⟨wa1, la1, lb, lc, ha1, hr, -, -⟩ :=
      classified_steps charController movementSpeed w w3 l3 hc
    rw [ha] at ha1
    injection ha1 with ha1
    injection ha1 with e1 e2
    subst e1 e2
    rw [← hb]
    exact (requestPhase_calls P hP charController wa w3 la lb hr).append
      (resolvePhase_calls P hP turnSpeed w3 l3)

/-- No call of lines 466-962 is a call of the combat resolver. -/
theorem not_fire_of_afterAction (e : Effect) (h : Effect.isAfterAction e = true) :
    Effect.isFire e = false := by
  cases e <;> first | rfl | exact Bool.noConfusion h

/-- No call of the block of lines 419-464 is a call of the combat
resolver. -/
theorem not_fire_of_fallback (e : Effect) (h : Effect.isFallback e = true) :
    Effect.isFire e = false := by
  cases e <;> first | rfl | exact Bool.noConfusion h

/-- Lines 214-229: a plain attack calls the combat resolver exactly when no
magic item is held and there is no weapon, or one that is neither automatic
nor a non-melee weapon; otherwise it calls at most the magic caster or sets
the queued-idle flag. -/
theorem fireAttack_cases (w : World) :
    ((w.GetMagicItem160 = false ∧
        (w.weap = none ∨ ∃ weap, w.weap = some weap ∧ weap.IsAutomatic = false ∧
          weap.IsNonMeleeWeapon = false)) ∧
      ∃ a b, fireAttack w = w.perform (Effect.sub_899200 a b)) ∨
    ((w.GetMagicItem160 = true ∨ ∃ weap, w.weap = some weap ∧
        (weap.IsAutomatic = true ∨ weap.IsNonMeleeWeapon = true)) ∧
      (fireAttack w = w ∨ fireAttack w = w.perform Effect.MagicCaster_815870 ∨
        fireAttack w = w.perform Effect.SetQueuedIdleFlag)) := by
  unfold fireAttack
  by_cases hm : w.GetMagicItem160 = true
  · rw [if_pos hm]
    exact Or.inr ⟨Or.inl hm, Or.inr (Or.inl rfl)⟩
  · rw [if_neg hm]
    have hm0 : w.GetMagicItem160 = false := by simpa using hm
    cases hw : w.weap with
    | none =>
      simp only []
      refine Or.inl ⟨⟨hm0, Or.inl (by first | rfl | trivial)⟩, ?_⟩
      split
      · exact ⟨_, _, rfl⟩
      · exact ⟨_, _, rfl⟩
    | some weap =>
      simp only []
      by_cases hauto : weap.IsAutomatic = true
      · rw [if_neg (by simp [hauto])]
        exact Or.inr ⟨Or.inr ⟨weap, rfl, Or.inl hauto⟩, Or.inl rfl⟩
      · rw [if_pos (by simpa using hauto)]
        by_cases hnm : weap.IsNonMeleeWeapon = true
        · rw [if_pos hnm]
          exact Or.inr ⟨Or.inr ⟨weap, rfl, Or.inr hnm⟩, Or.inr (Or.inr rfl)⟩
        · rw [if_neg hnm]
          refine Or.inl ⟨⟨hm0, Or.inr ⟨weap, rfl, by simpa using hauto, by simpa using hnm⟩⟩, ?_⟩
          split
          · exact ⟨_, _, rfl⟩
          · exact ⟨_, _, rfl⟩

/-- Lines 245-261: a power attack calls the combat resolver. -/
theorem firePowerAttack_cases (w : World) :
    ∃ a b, firePowerAttack w = w.perform (Effect.sub_899200 a b) := by
  unfold firePowerAttack
  split_ifs
  · exact ⟨_, _, rfl⟩
  · exact ⟨_, _, rfl⟩
  · exact ⟨_, _, rfl⟩

/-- Lines 204-267 at the hit stage of a plain or power attack on the weapon
channel: the effect of the attack, and the advance when the actor is doing
an attack animation. -/
theorem caseAttack_hit (w : World) (s : Nat)
    (hseq : w.GetCurrentSequence = some s)
    (hchan : w.g_animSequenceTypes (9 * (w.group s).GetSequenceGroup) = kSequence_Weapon)
    (hkey : w.g_animKeyTypes (9 * (w.group s).GetSequenceGroup)
      ≠ kAnimKeyType_LoopingSequenceOrAim)
    (hstage : w.rigs.third.GetSequenceState1 kSequence_Weapon = kSeqState_HitOrDetach) :
    (w.g_animKeyTypes (9 * AnimGroupID.GetGroupID
        (w.rigs.third.GetNthSequenceGroupID kSequence_Weapon)) = kAnimKeyType_Attack →
      caseAttack w = Except.ok
        (if w.IsDoingAttackAnimation = true then
          (fireAttack w).SetAnimActionAndSequence
            (if followsThrough w = true then kAnimAction_Attack_Follow_Through
              else kAnimAction_Attack_Eject) (some s)
        else fireAttack w)) ∧
    (w.g_animKeyTypes (9 * AnimGroupID.GetGroupID
        (w.rigs.third.GetNthSequenceGroupID kSequence_Weapon))
        = kAnimKeyType_PowerAttackOrPipboy →
      caseAttack w = Except.ok
        (if w.IsDoingAttackAnimation = true then
          (firePowerAttack w).SetAnimActionAndSequence kAnimAction_Attack_Follow_Through
            (some s)
        else firePowerAttack w)) := by
  have hne : kSequence_Weapon ≠ kSequence_LeftArm := by decide
  obtain ⟨fa1, fa2, fa4⟩ := fireAttack_fields w
  obtain ⟨fp1, fp2, fp5⟩ := firePowerAttack_fields w
  have hft : followsThrough (fireAttack w) = followsThrough w := by
    simp [followsThrough, World.weap, fa4]
  constructor
  · intro h4
    unfold caseAttack
    simp only [hseq, deref, bind, Except.bind, pure, Except.pure]
    rw [if_neg (by rw [hchan]; exact hne), if_pos hchan, if_pos ⟨hkey, hstage⟩]
    rw [if_pos h4, fa1, fa2, hft, hseq]
    by_cases hd : w.IsDoingAttackAnimation = true
    · rw [if_pos hd, if_pos hd]
      by_cases hf : followsThrough w = true
      · rw [if_pos hf, if_pos hf]
      · rw [if_neg hf, if_neg hf]
    · rw [if_neg hd, if_neg hd]
  · intro h5
    unfold caseAttack
    simp only [hseq, deref, bind, Except.bind, pure, Except.pure]
    rw [if_neg (by rw [hchan]; exact hne), if_pos hchan, if_pos ⟨hkey, hstage⟩]
    rw [if_neg (by rw [h5]; decide), if_pos h5, fp1, fp2, hseq]
    by_cases hd : w.IsDoingAttackAnimation = true
    · rw [if_pos hd, if_pos hd]
    · rw [if_neg hd, if_neg hd]

/-- A call of the combat resolver followed by calls that are none makes
exactly one. -/
theorem firesOnce_of_fire {w x w1 : World} (a b : Nat)
    (hx : x = w.perform (Effect.sub_899200 a b))
    (h1 : x.Records (fun e => Effect.isFire e = false) w1) : w.FiresOnce w1 := by
  obtain ⟨es, t, p⟩ := h1
  refine ⟨a, b, es, ?_, p⟩
  rw [t, hx]
  simp [World.perform]

/-- Lines 276-293 with a current sequence: nothing, or the queued-idle flag
and the advance to Attack_Follow_Through. -/
theorem caseAttackEject_cases (w : World) (s : Nat) (hseq : w.GetCurrentSequence = some s) :
    caseAttackEject w = Except.ok w ∨
    caseAttackEject w = Except.ok ((w.perform Effect.SetQueuedIdleFlag).SetAnimActionAndSequence
      kAnimAction_Attack_Follow_Through (some s)) := by
  unfold caseAttackEject
  simp only [hseq, deref, bind, Except.bind, pure, Except.pure]
  split
  · split
    · split
      · right
        rw [← hseq]
        rfl
      · exact Or.inl rfl
    · exact Or.inl rfl
  · exact Or.inl rfl

/-- The action phase of a tick that starts in Attack_Follow_Through or
Attack_Eject records no call of the combat resolver. -/
theorem actionPhase_after_attack (charController : bhkCharacterController) (w w1 : World)
    (l1 : Locals)
    (hcur : w.GetCurrentAnimAction = kAnimAction_Attack_Follow_Through ∨
      w.GetCurrentAnimAction = kAnimAction_Attack_Eject)
    (h : actionPhase charController w (initLocals w) = Except.ok (w1, l1)) :
    w.Records (fun e => Effect.isFire e = false) w1 := by
  have hcur1 : (initLocals w).currentAnimAction = kAnimAction_Attack_Follow_Through ∨
      (initLocals w).currentAnimAction = kAnimAction_Attack_Eject := hcur
  have hne : (initLocals w).currentAnimAction ≠ kAnimAction_None := by
    rcases hcur1 with h1 | h1 <;> rw [h1] <;> decide
  have hdead : noLiveSequence w (initLocals w) = Except.ok (w1, l1) →
      w.Records (fun e => Effect.isFire e = false) w1 := by
    intro hn
    obtain ⟨-, -, es, t, p⟩ := noLiveSequence_calls w w1 _ l1 rfl hn
    exact ⟨es, t, fun e he => not_fire_of_fallback e (p e he)⟩
  cases hseq : w.GetCurrentSequence with
  | none =>
    rw [actionPhase_absent charController w _ hne hseq] at h
    exact hdead h
  | some s =>
    by_cases hlive : (w.rigs.seq s).GetState = 0
    · rw [actionPhase_inactive charController w _ s hne hseq hlive] at h
      exact hdead h
    · rw [actionPhase_live charController w _ s hne hseq hlive] at h
      rcases hcur1 with hc | hc
      · have hs : switchAction charController w (initLocals w)
            = Except.ok (w, initLocals w) := by
          simp [switchAction, hc, kAnimAction_Attack, kAnimAction_Equip_Weapon,
            kAnimAction_Unequip_Weapon, kAnimAction_Attack_Eject, kAnimAction_Attack_Throw,
            kAnimAction_Attack_Throw_Attach, kAnimAction_Dodge,
            kAnimAction_Wait_For_Lower_Body_Anim, kAnimAction_ReloadLoop,
            kAnimAction_Attack_Follow_Through]
          rfl
        rw [hs] at h
        injection h with h
        injection h with h
        rw [← h]
        exact World.Records.nil _ w
      · rw [switchAction_eject charController w _ hc] at h
        rcases caseAttackEject_cases w s hseq with he | he
        · rw [he] at h
          injection h with h
          injection h with h
          rw [← h]
          exact World.Records.nil _ w
        · rw [he] at h
          injection h with h
          injection h with h
          rw [← h]
          exact ((World.Records.nil (fun e => Effect.isFire e = false) w).snoc
            Effect.SetQueuedIdleFlag rfl).setAction _ _ rfl

/-- The action phase of a tick in Attack on a live sequence is `case
kAnimAction_Attack`. -/
theorem actionPhase_attack (charController : bhkCharacterController) (w x : World) (s : Nat)
    (hcur : w.GetCurrentAnimAction = kAnimAction_Attack)
    (hseq : w.GetCurrentSequence = some s)
    (hlive : (w.rigs.seq s).GetState ≠ 0)
    (hx : caseAttack w = Except.ok x) :
    actionPhase charController w (initLocals w) = Except.ok (x, initLocals w) := by
  have hcur1 : (initLocals w).currentAnimAction = kAnimAction_Attack := hcur
  rw [actionPhase_live charController w _ s (by rw [hcur1]; decide) hseq hlive,
    switchAction_attack charController w _ hcur1, hx]
  rfl

/-- The advance of lines 230-241 and 262-266 records no call of the combat
resolver. -/
theorem advance_quiet (x : World) (c : Prop) [Decidable c] (action : Int)
    (sequence : Option Nat) :
    x.Records (fun e => Effect.isFire e = false)
      (if c then x.SetAnimActionAndSequence action sequence else x) := by
  split
  · exact (World.Records.nil (fun e => Effect.isFire e = false) x).setAction _ _ rfl
  · exact World.Records.nil _ x

/-- Lines 535-539: an unequip request leaves the Unequip group selected, and
is made only while the weapon is out and not wanted out. -/
theorem requestPhase_unequip (charController : bhkCharacterController) (w w2 : World)
    (l l2 : Locals) (ha : l.animAction = -1)
    (h : requestPhase charController w l = (w2, l2))
    (hu : l2.animAction = kAnimAction_Unequip_Weapon) :
    l2.animGroup = kAnimGroup_Unequip ∧ w2.IsWeaponOut = true ∧
      w2.GetWantsWeaponOut_IfSwimmingCancelVATS = false := by
  have hj := jumpOrLand_summary (fun _ => True) (fun _ _ => trivial) charController w
    (jumpOrLand charController w l).1 l (jumpOrLand charController w l).2 rfl
  unfold requestPhase at h
  rw [if_pos ha] at h
  generalize jumpOrLand charController w l = j at hj h
  obtain ⟨wj, lj⟩ := j
  obtain ⟨-, -, -, -, -, hj⟩ := hj
  have hjact : lj.animAction ≠ kAnimAction_Unequip_Weapon := by
    rcases hj with ⟨h1, -, -⟩ | ⟨h1, -, -⟩
    · dsimp only at h1
      rw [h1, ha]
      decide
    · dsimp only at h1
      rw [h1]
      decide
  have hlact : l.animAction ≠ kAnimAction_Unequip_Weapon := by
    rw [ha]
    decide
  repeat' (first
    | split_ifs at h
    | dsimp only at h)
  all_goals
    cases h
    try dsimp only at hu
    first
      | exact absurd hu hjact
      | exact absurd hu hlact
      | exact absurd hu (by decide)
      | (refine ⟨rfl, ?_, ?_⟩ <;> simp_all)

/-- An unequip request that reaches the resolution comes with the Unequip
group, with no action in flight, while the weapon is out. -/
theorem classified_unequip (charController : bhkCharacterController) (movementSpeed : ℚ)
    (w w1 : World) (l : Locals)
    (h : classified charController movementSpeed w = Except.ok (w1, l))
    (hu : l.animAction = kAnimAction_Unequip_Weapon) :
    l.animGroup = kAnimGroup_Unequip ∧ l.currentAnimAction = -1 ∧ w1.IsWeaponOut = true := by
  obtain ⟨wa, la, lb, lc, ha, hr, hh, hcl⟩ := classified_steps charController movementSpeed w w1 l h
  obtain ⟨-, -, -, hact, -⟩ := actionPhase_summary (fun _ => True) (fun _ _ => trivial)
    charController w wa (initLocals w) la rfl ha
  obtain ⟨k1, -, k3⟩ := pickHandType_keeps w1 lb lc hh
  obtain ⟨m1, -, m3⟩ := pickMoveType_keeps w1 lc
  obtain ⟨c1, c2, -, -, cg⟩ := classify_summary movementSpeed w1 _ l hcl
  have hlb : lb.animAction = kAnimAction_Unequip_Weapon := by
    rw [← k1, ← m1, ← c1]
    exact hu
  have hla : la.animAction = -1 := by
    rcases hact with h1 | h1 | h1 | h1
    · exact h1
    all_goals
      exfalso
      rw [requestPhase_skip charController wa la (by rw [h1]; decide)] at hr
      cases hr
      rw [h1] at hlb
      exact absurd hlb (by decide)
  obtain ⟨hg, hout, -⟩ := requestPhase_unequip charController wa w1 la lb hla hr hlb
  obtain ⟨-, hout2⟩ := requestPhase_summary (fun _ => True) (fun _ _ => trivial)
    charController wa w1 la lb hla hr
  have hcur : lb.currentAnimAction = -1 := by
    obtain ⟨-, -, -, -, hcase⟩ := hout2
    rcases hcase with ⟨h1, -, -⟩ | ⟨-, h2, -⟩
    · rw [hlb] at h1
      exact absurd h1 (by decide)
    · exact h2
  have hgroup : (pickMoveType w1 lc).animGroup = kAnimGroup_Unequip := by
    rw [m3, k3, hg]
  refine ⟨?_, ?_, hout⟩
  · rcases cg with ⟨-, -, -, g⟩ | ⟨g, -⟩
    · rw [g, hgroup]
      simp [jumpLoopGroup, kAnimGroup_Unequip, kAnimGroup_JumpLoop]
    · rw [hgroup] at g
      exact absurd g (by decide)
  · rw [c2]
    have := (pickMoveType_keeps w1 lc).2.1
    rw [this]
    have := (pickHandType_keeps w1 lb lc hh).2.1
    rw [this, hcur]

theorem perform_isWeaponOut (w : World) (e : Effect) :
    (w.perform e).IsWeaponOut = w.IsWeaponOut := rfl

theorem setAction_isWeaponOut (w : World) (action : Int) (sequence : Option Nat) :
    (w.SetAnimActionAndSequence action sequence).IsWeaponOut = w.IsWeaponOut := rfl

/-- Playing the resolved group leaves the weapon-out flag alone. -/
theorem playResolved_weaponOut (w : World) (l : Locals) (groupID_1 : Nat) :
    (playResolved w l groupID_1).IsWeaponOut = w.IsWeaponOut := by
  have h1 := (playIdleOfMoveType_performs (fun _ => True) (fun _ _ => trivial) trivial w l).1
  unfold playResolved
  split
  · split
    · refine ((playFollowUp_performs (fun _ => True) (fun _ _ => trivial) trivial _ l).1).trans ?_
      split
      · simp only [perform_isWeaponOut, setAction_isWeaponOut]
        exact h1
      · simp only [perform_isWeaponOut]
        exact h1
    · rfl
  · rfl

/-- Lines 96-114: each round of the loop positions the weapon once, after
at most one call of `sub_8D6A80`. -/
theorem equipRigLoop_calls (v128 : Nat) (w : World) :
    ∃ es, (equipRigLoop v128 w).trace = w.trace ++ es ∧
      es.count Effect.SetEquippedWeaponPosition = v128 ∧
      ∀ e ∈ es, e = Effect.SetEquippedWeaponPosition ∨ ∃ h r, e = Effect.sub_8D6A80 h r := by
  induction v128 generalizing w with
  | zero => exact ⟨[], by simp [equipRigLoop], rfl, by simp⟩
  | succ n ih =>
    simp only [equipRigLoop]
    have hw1 : ∀ w1 : World, (w1 = w ∨ ∃ h r, w1 = w.perform (Effect.sub_8D6A80 h r)) →
        ∃ es, (equipRigLoop n (w1.perform Effect.SetEquippedWeaponPosition)).trace
            = w.trace ++ es ∧
          es.count Effect.SetEquippedWeaponPosition = n + 1 ∧
          ∀ e ∈ es, e = Effect.SetEquippedWeaponPosition ∨
            ∃ h r, e = Effect.sub_8D6A80 h r := by
      intro w1 h1
      obtain ⟨es, t, c, p⟩ := ih (w1.perform Effect.SetEquippedWeaponPosition)
      rcases h1 with rfl | ⟨h, r, rfl⟩
      · refine ⟨Effect.SetEquippedWeaponPosition :: es, ?_, ?_, ?_⟩
        · rw [t]
          simp [World.perform]
        · simp [c]
        · intro e he
          rcases List.mem_cons.mp he with he | he
          · exact Or.inl he
          · exact p e he
      · refine ⟨Effect.sub_8D6A80 h r :: Effect.SetEquippedWeaponPosition :: es, ?_, ?_, ?_⟩
        · rw [t]
          simp [World.perform]
        · simp [c]
        · intro e he
          rcases List.mem_cons.mp he with he | he
          · exact Or.inr ⟨h, r, he⟩
          · rcases List.mem_cons.mp he with he | he
            · exact Or.inl he
            · exact p e he
    apply hw1
    split
    · split
      · exact Or.inr ⟨_, _, rfl⟩
      · exact Or.inl rfl
    · exact Or.inl rfl

/-- Lines 338-347: each round of the loop positions the weapon once. -/
theorem attachRigLoop_calls (v133 : Nat) (w : World) :
    (attachRigLoop v133 w).trace
      = w.trace ++ List.replicate v133 Effect.SetEquippedWeaponPosition := by
  induction v133 generalizing w with
  | zero => simp [attachRigLoop]
  | succ n ih =>
    simp only [attachRigLoop]
    rw [ih]
    simp [World.perform, List.replicate_succ]

/-- Lines 151-178: the cue is played at most once, and only when the weapon
is out, `Unk_15D` answers, and the weapon carries an enchantment or an
applied poison. -/
theorem equipCue_calls (w : World) :
    ∃ es, (equipCue w).trace = w.trace ++ es ∧
      es.count Effect.PlaySoundAtActorPos ≤ 1 ∧
      (∀ e ∈ es, e = Effect.sub_8216C0 ∨ e = Effect.PlaySoundAtActorPos) ∧
      (Effect.PlaySoundAtActorPos ∈ es →
        w.IsWeaponOut = true ∧ w.Unk_15D = true ∧
        ∃ weapInfo weap, w.GetWeaponInfo = some weapInfo ∧ weapInfo.GetFlags = some weap ∧
          (weap.GetEnchantmentItem = true ∨ weapInfo.GetExtraPoison = true)) := by
  unfold equipCue
  by_cases hc : w.IsWeaponOut = true ∧ w.Unk_15D = true
  · rw [if_pos hc]
    have h1 : ∃ pre, (if w.GetMagicShaderHitEffectForActor = true then
          w.perform Effect.sub_8216C0 else w).trace = w.trace ++ pre ∧
        (∀ e ∈ pre, e = Effect.sub_8216C0) ∧
        (if w.GetMagicShaderHitEffectForActor = true then
          w.perform Effect.sub_8216C0 else w).GetWeaponInfo = w.GetWeaponInfo := by
      split
      · exact ⟨[_], rfl, fun e he => List.mem_singleton.mp he, rfl⟩
      · exact ⟨[], by simp, by simp, rfl⟩
    revert h1
    generalize (if w.GetMagicShaderHitEffectForActor = true then w.perform Effect.sub_8216C0
      else w) = w1
    rintro ⟨pre, t1, p1, g1⟩
    have hpre : pre.count Effect.PlaySoundAtActorPos = 0 :=
      List.count_eq_zero.mpr (fun h => by cases p1 _ h)
    have hquiet : ∀ Q : Prop, ∃ es, w1.trace = w.trace ++ es ∧
        es.count Effect.PlaySoundAtActorPos ≤ 1 ∧
        (∀ e ∈ es, e = Effect.sub_8216C0 ∨ e = Effect.PlaySoundAtActorPos) ∧
        (Effect.PlaySoundAtActorPos ∈ es → Q) :=
      fun _ => ⟨pre, t1, by rw [hpre]; exact Nat.zero_le _, fun e he => Or.inl (p1 e he),
        fun h => by cases p1 _ h⟩
    simp only []
    rw [g1]
    cases hi : w.GetWeaponInfo with
    | none => exact hquiet _
    | some weapInfo =>
      simp only []
      cases hf : weapInfo.GetFlags with
      | none => exact hquiet _
      | some weap =>
        simp only []
        by_cases hm : weap.GetEnchantmentItem = true ∨ weapInfo.GetExtraPoison = true
        · rw [if_pos hm]
          refine ⟨pre ++ [Effect.PlaySoundAtActorPos], ?_, ?_, ?_, ?_⟩
          · simp [World.perform, t1]
          · rw [List.count_append, hpre]
            simp
          · intro e he
            rcases List.mem_append.mp he with he | he
            · exact Or.inl (p1 e he)
            · exact Or.inr (List.mem_singleton.mp he)
          · exact fun _ => ⟨hc.1, hc.2, weapInfo, weap, rfl, hf, hm⟩
        · rw [if_neg hm]
          exact hquiet _
  · rw [if_neg hc]
    exact ⟨[], by simp, by simp, by simp, by simp⟩

/-- What the cue reads of the entity is the same in both states. -/
theorem sameHost_cue {w w1 : World} (h : w.sameHost w1) :
    w1.Unk_15D = w.Unk_15D ∧ w1.GetWeaponInfo = w.GetWeaponInfo ∧ w1.isPlayer = w.isPlayer := by
  obtain ⟨a1, b1, c1, d1, e1, rfl⟩ := h
  exact ⟨rfl, rfl, rfl⟩

/-- Lines 88-178 when the guard of line 88 holds: the calls of the commit,
in their order. -/
theorem caseEquipUnequip_trace (w : World) (currentAnimAction : Int)
    (hflag : w.IsWeaponOut ≠ decide (currentAnimAction = kAnimAction_Equip_Weapon))
    (hstage : kSeqState_HitOrDetach ≤ w.rigs.third.GetSequenceState1 kSequence_Weapon) :
    (caseEquipUnequip w currentAnimAction).IsWeaponOut
        = decide (currentAnimAction = kAnimAction_Equip_Weapon) ∧
    ∃ rigs rest, (caseEquipUnequip w currentAnimAction).trace
        = w.trace ++ Effect.SetWeaponOut (decide (currentAnimAction = kAnimAction_Equip_Weapon))
            :: (rigs ++ Effect.AimWeapon :: rest) ∧
      rigs.count Effect.SetEquippedWeaponPosition = (if w.isPlayer = true then 2 else 1) ∧
      (∀ e ∈ rigs, e = Effect.SetEquippedWeaponPosition ∨ ∃ h r, e = Effect.sub_8D6A80 h r) ∧
      (∀ e ∈ rest, (∀ b, e ≠ Effect.SetWeaponOut b) ∧ e ≠ Effect.SetEquippedWeaponPosition ∧
        e ≠ Effect.AimWeapon) ∧
      rest.count Effect.PlaySoundAtActorPos ≤ 1 ∧
      (Effect.PlaySoundAtActorPos ∈ rest →
        currentAnimAction = kAnimAction_Equip_Weapon ∧ w.Unk_15D = true ∧
        ∃ weapInfo weap, w.GetWeaponInfo = some weapInfo ∧ weapInfo.GetFlags = some weap ∧
          (weap.GetEnchantmentItem = true ∨ weapInfo.GetExtraPoison = true)) := by
  let P : Effect → Prop := fun e => (∀ b, e ≠ Effect.SetWeaponOut b) ∧
    e ≠ Effect.SetEquippedWeaponPosition ∧ e ≠ Effect.AimWeapon ∧
    e ≠ Effect.PlaySoundAtActorPos
  have hP : ∀ e, ((∀ b, e ≠ Effect.SetWeaponOut b) ∧ e ≠ Effect.SetEquippedWeaponPosition ∧
      e ≠ Effect.AimWeapon ∧ e ≠ Effect.PlaySoundAtActorPos) → P e := fun _ h => h
  simp only [caseEquipUnequip, hflag, hstage, ne_eq, not_false_eq_true, and_self, if_true]
  have hf1 : (w.SetWeaponOut (decide (currentAnimAction = kAnimAction_Equip_Weapon))).IsWeaponOut
      = decide (currentAnimAction = kAnimAction_Equip_Weapon) := rfl
  have ht1 : (w.SetWeaponOut (decide (currentAnimAction = kAnimAction_Equip_Weapon))).trace
      = w.trace ++ [Effect.SetWeaponOut (decide (currentAnimAction = kAnimAction_Equip_Weapon))] :=
    rfl
  have hh1 : w.sameHost
      (w.SetWeaponOut (decide (currentAnimAction = kAnimAction_Equip_Weapon))) :=
    World.sameHost_setWeaponOut (World.sameHost_refl w) _
  revert hf1 ht1 hh1
  generalize w.SetWeaponOut (decide (currentAnimAction = kAnimAction_Equip_Weapon)) = w1
  intro hf1 ht1 hh1
  obtain ⟨rigs, t12, c12, p12⟩ := equipRigLoop_calls (if w.isPlayer = true then 2 else 1) w1
  have f12 := (equipRigLoop_performs (fun _ => True) (fun _ _ => trivial) trivial
    (if w.isPlayer = true then 2 else 1) w1).1
  have hh2 := equipRigLoop_host (if w.isPlayer = true then 2 else 1) hh1
  revert t12 f12 hh2
  generalize equipRigLoop (if w.isPlayer = true then 2 else 1) w1 = w2
  intro t12 f12 hh2
  have h35 : (w2.perform Effect.AimWeapon).Performs P
      ((if (w2.perform Effect.AimWeapon).isPlayer = true then
          equipRagDoll (w2.perform Effect.AimWeapon) currentAnimAction
        else w2.perform Effect.AimWeapon).perform Effect.Unk_160) :=
    (World.Performs.ite _
        (equipRagDoll_performs P (fun _ _ => hP _ (by simp)) (fun _ _ => hP _ (by simp))
          (w2.perform Effect.AimWeapon) currentAnimAction)
        (World.Performs.refl P _)).perform_of Effect.Unk_160 (hP _ (by simp))
  have hh5 : w.sameHost
      ((if (w2.perform Effect.AimWeapon).isPlayer = true then
          equipRagDoll (w2.perform Effect.AimWeapon) currentAnimAction
        else w2.perform Effect.AimWeapon).perform Effect.Unk_160) :=
    World.sameHost_perform
      (World.sameHost_ite _ (equipRagDoll_host (World.sameHost_perform hh2 _) _)
        (World.sameHost_perform hh2 _)) _
  revert h35 hh5
  generalize (if (w2.perform Effect.AimWeapon).isPlayer = true then
      equipRagDoll (w2.perform Effect.AimWeapon) currentAnimAction
    else w2.perform Effect.AimWeapon).perform Effect.Unk_160 = w5
  rintro ⟨f35, -, -, doll, t35, p35⟩ hh5
  obtain ⟨cue, t56, c56, p56, q56⟩ := equipCue_calls w5
  obtain ⟨r1, r2, -⟩ := sameHost_cue hh5
  have hf5 : w5.IsWeaponOut = decide (currentAnimAction = kAnimAction_Equip_Weapon) := by
    rw [f35]
    show w2.IsWeaponOut = _
    rw [f12, hf1]
  have hdoll : doll.count Effect.PlaySoundAtActorPos = 0 :=
    List.count_eq_zero.mpr (fun h => (p35 _ h).2.2.2 rfl)
  refine ⟨?_, rigs, doll ++ cue, ?_, c12, p12, ?_, ?_, ?_⟩
  · rw [(equipCue_performs (fun _ => True) trivial trivial w5).1, hf5]
  · rw [t56, t35]
    simp [World.perform, t12, ht1]
  · intro e he
    rcases List.mem_append.mp he with he | he
    · exact ⟨(p35 e he).1, (p35 e he).2.1, (p35 e he).2.2.1⟩
    · rcases p56 e he with h | h
      · subst h
        exact ⟨fun _ h => (by cases h), fun h => (by cases h), fun h => (by cases h)⟩
      · subst h
        exact ⟨fun _ h => (by cases h), fun h => (by cases h), fun h => (by cases h)⟩
  · rw [List.count_append, hdoll]
    simpa using c56
  · intro hin
    have hcue : Effect.PlaySoundAtActorPos ∈ cue := by
      rcases List.mem_append.mp hin with h | h
      · exact absurd rfl ((p35 _ h).2.2.2)
      · exact h
    obtain ⟨a, b, weapInfo, weap, c, d, e⟩ := q56 hcue
    rw [hf5] at a
    exact ⟨by simpa using a, by rw [← r1]; exact b, weapInfo, weap, by rw [← r2]; exact c, d, e⟩

/-- No call of lines 466-962 positions the weapon or plays the equip cue. -/
theorem quiet_of_afterAction (es : List Effect)
    (h : ∀ e ∈ es, Effect.isAfterAction e = true) :
    es.count Effect.SetEquippedWeaponPosition = 0 ∧ Effect.PlaySoundAtActorPos ∉ es :=
  ⟨List.count_eq_zero.mpr (fun hin => Bool.noConfusion (h _ hin)),
    fun hin => Bool.noConfusion (h _ hin)⟩

theorem setsOnly_refl (T : Int → Bool) (w : World) : w.SetsOnly T w :=
  ⟨Or.inl rfl, [], by simp, by simp⟩

theorem setsOnly_trans {T : Int → Bool} {w w1 w2 : World} (h1 : w.SetsOnly T w1)
    (h2 : w1.SetsOnly T w2) : w.SetsOnly T w2 := by
  obtain ⟨a1, es1, t1, p1⟩ := h1
  obtain ⟨a2, es2, t2, p2⟩ := h2
  refine ⟨?_, es1 ++ es2, by rw [t2, t1, List.append_assoc], ?_⟩
  · rcases a2 with a2 | a2
    · rcases a1 with a1 | a1
      · exact Or.inl (a2.trans a1)
      · exact Or.inr (by rw [a2]; exact a1)
    · exact Or.inr a2
  · intro action sequence he
    rcases List.mem_append.mp he with h | h
    · exact p1 _ _ h
    · exact p2 _ _ h

theorem setsOnly_perform {T : Int → Bool} {w0 w : World} (h : w0.SetsOnly T w) (e : Effect)
    (he : Effect.isSetAction e = false) : w0.SetsOnly T (w.perform e) := by
  refine setsOnly_trans h ⟨Or.inl rfl, [e], rfl, ?_⟩
  intro action sequence hin
  rw [← List.mem_singleton.mp hin] at he
  exact Bool.noConfusion he

theorem setsOnly_setAction {T : Int → Bool} {w0 w : World} (h : w0.SetsOnly T w)
    (action : Int) (sequence : Option Nat) (hT : T action = true) :
    w0.SetsOnly T (w.SetAnimActionAndSequence action sequence) := by
  refine setsOnly_trans h ⟨Or.inr hT, [Effect.SetAnimActionAndSequence action sequence], rfl, ?_⟩
  intro a q hin
  have h1 := List.mem_singleton.mp hin
  injection h1 with h1 h2
  rw [h1]
  exact hT

theorem setsOnly_setWeaponOut {T : Int → Bool} {w0 w : World} (h : w0.SetsOnly T w)
    (out : Bool) : w0.SetsOnly T (w.SetWeaponOut out) := by
  refine setsOnly_trans h ⟨Or.inl rfl, [Effect.SetWeaponOut out], rfl, ?_⟩
  intro a q hin
  cases List.mem_singleton.mp hin

theorem setsOnly_ite {T : Int → Bool} {w0 w1 w2 : World} (c : Prop) [Decidable c]
    (h1 : w0.SetsOnly T w1) (h2 : w0.SetsOnly T w2) :
    w0.SetsOnly T (if c then w1 else w2) := by
  split
  · exact h1
  · exact h2

theorem setsOnly_weaken {T U : Int → Bool} {w w1 : World} (h : w.SetsOnly T w1)
    (hTU : ∀ action, T action = true → U action = true) : w.SetsOnly U w1 := by
  obtain ⟨a, es, t, p⟩ := h
  refine ⟨?_, es, t, fun action sequence hin => hTU _ (p _ _ hin)⟩
  rcases a with a | a
  · exact Or.inl a
  · exact Or.inr (hTU _ a)

/-- Calls other than `Actor::SetAnimActionAndSequence` that leave the
context alone set no action. -/
theorem setsOnly_performs {T : Int → Bool} {w0 w w1 : World} (h0 : w0.SetsOnly T w)
    (h : w.Performs (fun e => Effect.isSetAction e = false) w1) : w0.SetsOnly T w1 := by
  obtain ⟨-, a, -, es, t, p⟩ := h
  refine setsOnly_trans h0 ⟨Or.inl a, es, t, ?_⟩
  intro action sequence hin
  exact Bool.noConfusion (p _ hin)

theorem caseEquipUnequip_sets (T : Int → Bool) {w0 w : World} (h : w0.SetsOnly T w)
    (currentAnimAction : Int) : w0.SetsOnly T (caseEquipUnequip w currentAnimAction) := by
  unfold caseEquipUnequip
  split
  · dsimp only
    refine setsOnly_performs ?_
      (equipCue_performs (fun e => Effect.isSetAction e = false) rfl rfl _)
    refine setsOnly_perform ?_ Effect.Unk_160 rfl
    have h3 : w0.SetsOnly T ((equipRigLoop (if w.isPlayer = true then 2 else 1)
        (w.SetWeaponOut (decide (currentAnimAction = kAnimAction_Equip_Weapon)))).perform
          Effect.AimWeapon) :=
      setsOnly_perform (setsOnly_performs (setsOnly_setWeaponOut h _)
        (equipRigLoop_performs (fun e => Effect.isSetAction e = false) (fun _ _ => rfl) rfl
          _ _)) Effect.AimWeapon rfl
    exact setsOnly_ite _
      (setsOnly_performs h3 (equipRagDoll_performs (fun e => Effect.isSetAction e = false)
        (fun _ _ => rfl) (fun _ _ => rfl) _ _)) h3
  · exact h

theorem fireAttack_sets (T : Int → Bool) {w0 w : World} (h : w0.SetsOnly T w) :
    w0.SetsOnly T (fireAttack w) := by
  unfold fireAttack
  repeat' (first
    | with_reducible exact h
    | with_reducible apply setsOnly_perform
    | rfl
    | split)

theorem firePowerAttack_sets (T : Int → Bool) {w0 w : World} (h : w0.SetsOnly T w) :
    w0.SetsOnly T (firePowerAttack w) := by
  unfold firePowerAttack
  repeat' (first
    | with_reducible exact h
    | with_reducible apply setsOnly_perform
    | rfl
    | split)

theorem caseAttack_sets (T : Int → Bool)
    (hT1 : T kAnimAction_Attack_Follow_Through = true) (hT2 : T kAnimAction_Attack_Eject = true)
    {w0 w w1 : World} (h0 : w0.SetsOnly T w) (h : caseAttack w = Except.ok w1) :
    w0.SetsOnly T w1 := by
  unfold caseAttack at h
  cases hs : w.GetCurrentSequence with
  | none => simp [hs, deref, bind, Except.bind] at h
  | some s =>
    simp only [hs, deref, bind, Except.bind, pure, Except.pure] at h
    split_ifs at h
    all_goals
      cases h
      repeat' (first
        | with_reducible exact h0
        | with_reducible exact hT1
        | with_reducible exact hT2
        | with_reducible exact fireAttack_sets T h0
        | with_reducible exact firePowerAttack_sets T h0
        | with_reducible apply setsOnly_perform
        | with_reducible apply setsOnly_setAction
        | rfl)

theorem caseAttackEject_sets (T : Int → Bool)
    (hT : T kAnimAction_Attack_Follow_Through = true)
    {w0 w w1 : World} (h0 : w0.SetsOnly T w) (h : caseAttackEject w = Except.ok w1) :
    w0.SetsOnly T w1 := by
  unfold caseAttackEject at h
  cases hs : w.GetCurrentSequence with
  | none => simp [hs, deref, bind, Except.bind] at h
  | some s =>
    simp only [hs, deref, bind, Except.bind, pure, Except.pure] at h
    repeat' split at h
    all_goals
      cases h
      repeat' (first
        | with_reducible exact h0
        | with_reducible exact hT
        | with_reducible apply setsOnly_perform
        | with_reducible apply setsOnly_setAction
        | rfl)

theorem caseAttackThrow_sets (T : Int → Bool)
    (hT : T kAnimAction_Attack_Throw_Attach = true)
    {w0 w w1 : World} (h0 : w0.SetsOnly T w) (h : caseAttackThrow w = Except.ok w1) :
    w0.SetsOnly T w1 := by
  unfold caseAttackThrow at h
  cases hs : w.GetCurrentSequence with
  | none => simp [hs, deref, bind, Except.bind] at h
  | some s =>
    simp only [hs, deref, bind, Except.bind, pure, Except.pure] at h
    split_ifs at h
    all_goals
      cases h
      repeat' (first
        | with_reducible exact h0
        | with_reducible exact hT
        | with_reducible apply setsOnly_perform
        | with_reducible apply setsOnly_setAction
        | rfl)

theorem attachRigLoop_sets (T : Int → Bool) (v133 : Nat) {w0 w : World}
    (h : w0.SetsOnly T w) : w0.SetsOnly T (attachRigLoop v133 w) := by
  induction v133 generalizing w with
  | zero => exact h
  | succ n ih =>
    simp only [attachRigLoop]
    exact ih (setsOnly_perform h Effect.SetEquippedWeaponPosition rfl)

theorem caseAttackThrowAttach_sets (T : Int → Bool)
    (hT : T kAnimAction_Attack_Follow_Through = true)
    {w0 w w1 : World} (h0 : w0.SetsOnly T w) (h : caseAttackThrowAttach w = Except.ok w1) :
    w0.SetsOnly T w1 := by
  unfold caseAttackThrowAttach at h
  cases hs : w.GetCurrentSequence with
  | none => simp [hs, deref, bind, Except.bind] at h
  | some s =>
    simp only [hs, deref, bind, Except.bind, pure, Except.pure] at h
    have h1 : w0.SetsOnly T
        (if hasNonMeleeWeapon w = true then attachRigLoop (if w.isPlayer = true then 2 else 1) w
          else w) :=
      setsOnly_ite _ (attachRigLoop_sets T _ h0) h0
    generalize (if hasNonMeleeWeapon w = true then
      attachRigLoop (if w.isPlayer = true then 2 else 1) w else w) = wa at h h1
    split_ifs at h
    all_goals
      cases h
      repeat' (first
        | with_reducible exact h0
        | with_reducible exact h1
        | with_reducible exact hT
        | with_reducible apply setsOnly_setAction)

theorem caseWaitForLowerBody_sets (T : Int → Bool) (hT : T kAnimAction_None = true)
    (charController : bhkCharacterController) {w0 w : World} (h : w0.SetsOnly T w)
    (l : Locals) : w0.SetsOnly T (caseWaitForLowerBody charController w l) := by
  unfold caseWaitForLowerBody
  repeat' (first
    | with_reducible exact h
    | with_reducible exact hT
    | with_reducible apply setsOnly_setAction
    | split)

theorem caseReloadLoop_sets (T : Int → Bool) (hT1 : T kAnimAction_None = true)
    (hT2 : T kAnimAction_ReloadLoop = true) {w0 w w1 : World} {l l1 : Locals}
    (h0 : w0.SetsOnly T w) (h : caseReloadLoop w l = Except.ok (w1, l1)) :
    w0.SetsOnly T w1 := by
  unfold caseReloadLoop at h
  simp only [deref, bind, Except.bind, pure, Except.pure] at h
  repeat' split at h
  all_goals
    cases h
    repeat' (first
      | with_reducible exact h0
      | with_reducible exact hT1
      | with_reducible exact hT2
      | with_reducible apply setsOnly_perform
      | with_reducible apply setsOnly_setAction
      | rfl)

/-- Lines 419-464 set only None, Block or Reload, and end in one of them. -/
theorem noLiveSequence_sets (w w1 : World) (l l1 : Locals) (ha : l.animAction = -1)
    (h : noLiveSequence w l = Except.ok (w1, l1)) :
    isFallbackAction w1.GetCurrentAnimAction = true ∧ w.SetsOnly isFallbackAction w1 := by
  obtain ⟨-, hact, es, t, p⟩ := noLiveSequence_calls w w1 l l1 ha h
  have hfin : isFallbackAction w1.GetCurrentAnimAction = true := by
    rcases hact with h1 | h1 | h1 <;> rw [h1] <;> rfl
  exact ⟨hfin, Or.inr hfin, es, t, fun action sequence hin => p _ hin⟩

/-- The switch of lines 85-417 changes the action only along the edges of
the transition table that leave the action in flight. -/
theorem switchAction_sets (charController : bhkCharacterController) (w w1 : World)
    (l l1 : Locals) (h : switchAction charController w l = Except.ok (w1, l1)) :
    w.SetsOnly (transitionEdge l.currentAnimAction) w1 := by
  have h0 := setsOnly_refl (transitionEdge l.currentAnimAction) w
  unfold switchAction at h
  simp only [bind, Except.bind, pure, Except.pure] at h
  split_ifs at h with c1 c2 c3 c4 c5 c6 c7 c8
  · cases h
    exact caseEquipUnequip_sets _ h0 _
  · cases hc : caseAttack w with
    | error e => simp [hc] at h
    | ok v =>
      simp only [hc] at h
      cases h
      exact caseAttack_sets _ (by rw [c2]; rfl) (by rw [c2]; rfl) h0 hc
  · cases hc : caseAttackEject w with
    | error e => simp [hc] at h
    | ok v =>
      simp only [hc] at h
      cases h
      exact caseAttackEject_sets _ (by rw [c3]; rfl) h0 hc
  · cases hc : caseAttackThrow w with
    | error e => simp [hc] at h
    | ok v =>
      simp only [hc] at h
      cases h
      exact caseAttackThrow_sets _ (by rw [c4]; rfl) h0 hc
  · cases hc : caseAttackThrowAttach w with
    | error e => simp [hc] at h
    | ok v =>
      simp only [hc] at h
      cases h
      exact caseAttackThrowAttach_sets _ (by rw [c5]; rfl) h0 hc
  · cases h
    exact h0
  · cases h
    exact caseWaitForLowerBody_sets _ (by rw [c7]; rfl) charController h0 _
  · exact caseReloadLoop_sets _ (by rw [c8]; rfl) (by rw [c8]; rfl) h0 h
  · cases h
    exact h0

/-- An edge of the transition table never leads to Attack, Attack_Throw,
Dodge or Force_Script_Anim. -/
theorem not_foreign_of_edge (action next : Int) (h : transitionEdge action next = true) :
    isForeignAction next = false := by
  simp only [transitionEdge, Bool.or_eq_true, Bool.and_eq_true, beq_iff_eq] at h
  rcases h with ((((⟨-, h | h⟩ | ⟨-, h⟩) | ⟨-, h⟩) | ⟨-, h⟩) | ⟨-, h | h⟩) | ⟨-, h⟩
  all_goals
    rw [h]
    rfl

/-- The fallback never leads to Attack, Attack_Throw, Dodge or
Force_Script_Anim. -/
theorem not_foreign_of_fallback (next : Int) (h : isFallbackAction next = true) :
    isForeignAction next = false := by
  simp only [isFallbackAction, Bool.or_eq_true, beq_iff_eq] at h
  rcases h with (h | h) | h
  all_goals
    rw [h]
    rfl

/-- The action phase sets neither Attack, Attack_Throw, Dodge nor
Force_Script_Anim. -/
theorem actionPhase_sets (charController : bhkCharacterController) (w w1 : World)
    (l1 : Locals) (h : actionPhase charController w (initLocals w) = Except.ok (w1, l1)) :
    w.SetsOnly (fun next => ! isForeignAction next) w1 := by
  have hedge : ∀ action next, transitionEdge action next = true →
      (! isForeignAction next) = true := fun action next he => by
    rw [not_foreign_of_edge action next he]
    rfl
  have hfall : ∀ next, isFallbackAction next = true → (! isForeignAction next) = true :=
    fun next he => by
      rw [not_foreign_of_fallback next he]
      rfl
  unfold actionPhase at h
  split at h
  · split at h
    · split at h
      · exact setsOnly_weaken (switchAction_sets charController w w1 _ l1 h) (hedge _)
      · exact setsOnly_weaken (noLiveSequence_sets w w1 _ l1 rfl h).2 hfall
    · exact setsOnly_weaken (noLiveSequence_sets w w1 _ l1 rfl h).2 hfall
  · cases h
    exact setsOnly_refl _ w

theorem requestPhase_sets (T : Int → Bool) (charController : bhkCharacterController)
    {w0 w w1 : World} {l l1 : Locals} (h : w0.SetsOnly T w)
    (hr : requestPhase charController w l = (w1, l1)) : w0.SetsOnly T w1 := by
  have hj : w0.SetsOnly T (jumpOrLand charController w l).1 := by
    unfold jumpOrLand
    repeat' (first
      | with_reducible exact h
      | with_reducible apply setsOnly_perform
      | rfl
      | split
      | dsimp only)
  unfold requestPhase at hr
  generalize jumpOrLand charController w l = j at hj hr
  obtain ⟨wj, lj⟩ := j
  repeat' (first
    | split_ifs at hr
    | dsimp only at hr)
  all_goals
    cases hr
    repeat' (first
      | with_reducible exact h
      | with_reducible exact hj
      | with_reducible apply setsOnly_perform
      | rfl)

theorem playResolved_sets (T : Int → Bool) {w0 w : World} (h : w0.SetsOnly T w) (l : Locals)
    (groupID_1 : Nat) (hT : l.animAction ≠ -1 → T l.animAction = true) :
    w0.SetsOnly T (playResolved w l groupID_1) := by
  unfold playResolved
  split
  · split
    · dsimp only
      refine setsOnly_performs ?_
        (playFollowUp_performs (fun e => Effect.isSetAction e = false) (fun _ _ => rfl) rfl _ l)
      refine setsOnly_perform ?_ Effect.PlayFirstPersonAnimation rfl
      have h2 : w0.SetsOnly T ((playIdleOfMoveType w l).perform
          (Effect.PlayAnimGroup groupID_1 1)) :=
        setsOnly_perform
          (setsOnly_performs h (playIdleOfMoveType_performs
            (fun e => Effect.isSetAction e = false) (fun _ _ => rfl) rfl w l)) _ (by rfl)
      split
      · rename_i hc
        exact setsOnly_setAction h2 _ _ (hT hc.1)
      · exact h2
    · exact h
  · exact h

/-- The resolution phase sets at most the requested action. -/
theorem resolvePhase_sets (T : Int → Bool) (turnSpeed : ℚ) {w0 w : World}
    (h : w0.SetsOnly T w) (l : Locals) (hT : l.animAction ≠ -1 → T l.animAction = true) :
    w0.SetsOnly T (resolvePhase turnSpeed w l) := by
  have hd : w0.SetsOnly T (dropUnresolved w l (AnimGroupID.GetGroupID (resolvedID w l))).1 := by
    unfold dropUnresolved
    repeat' (first
      | with_reducible exact h
      | with_reducible apply setsOnly_setWeaponOut
      | split)
  have ha : (dropUnresolved w l (AnimGroupID.GetGroupID (resolvedID w l))).2 ≠ -1 →
      T (dropUnresolved w l (AnimGroupID.GetGroupID (resolvedID w l))).2 = true := by
    obtain ⟨-, -, -, -, -, h6⟩ :=
      dropUnresolved_summary w l (AnimGroupID.GetGroupID (resolvedID w l))
    rcases h6 with h6 | ⟨h6, -⟩
    · exact fun hn => absurd h6 hn
    · rw [h6]
      exact hT
  unfold resolvePhase
  dsimp only
  generalize dropUnresolved w l (AnimGroupID.GetGroupID (resolvedID w l)) = d at hd ha
  obtain ⟨wd, ad⟩ := d
  dsimp only at hd ha ⊢
  split
  · split
    · split
      · exact setsOnly_performs hd (forceScriptSpeed_performs
          (fun e => Effect.isSetAction e = false) (fun _ => rfl) turnSpeed wd _)
      · exact hd
    · refine setsOnly_performs ?_
        (attackHook_performs (fun e => Effect.isSetAction e = false) rfl rfl _)
      refine setsOnly_performs ?_
        (endMovement_performs (fun e => Effect.isSetAction e = false) (fun _ _ => rfl) _ _)
      refine playResolved_sets T ?_ _ _ ha
      exact setsOnly_performs hd
        (commitSpeed_performs (fun e => Effect.isSetAction e = false) (fun _ => rfl)
          (fun _ => rfl) turnSpeed wd _ _)
  · exact h

theorem endStaleWeaponSequence_sets (T : Int → Bool) (rig : Rig) {w0 w w1 : World}
    (h0 : w0.SetsOnly T w) (h : endStaleWeaponSequence rig w = Except.ok w1) :
    w0.SetsOnly T w1 := by
  unfold endStaleWeaponSequence at h
  simp only [deref, bind, Except.bind, pure, Except.pure] at h
  repeat' split at h
  all_goals
    cases h
    repeat' (first
      | with_reducible exact h0
      | with_reducible apply setsOnly_perform
      | rfl)

/-- No tick sets the action to Attack, Attack_Throw, Dodge or
Force_Script_Anim. -/
theorem tick_sets (movementSpeed turnSpeed : ℚ) (w w2 : World)
    (h : Actor.PickAnimations movementSpeed turnSpeed w = Except.ok w2) :
    w.SetsOnly (fun next => ! isForeignAction next) w2 := by
  unfold Actor.PickAnimations at h
  split at h
  · split at h
    · cases h
      refine ⟨Or.inl rfl, [Effect.DebugLog], rfl, ?_⟩
      intro action sequence hin
      cases List.mem_singleton.mp hin
    · split at h
      · split at h
        · rename_i charController hcc
          cases h1 : endStaleWeaponSequences w with
          | error e => simp [h1, bind, Except.bind] at h
          | ok w1 =>
            simp only [h1, bind, Except.bind] at h
            have ha : w.SetsOnly (fun next => ! isForeignAction next) w1 := by
              unfold endStaleWeaponSequences at h1
              cases h3 : endStaleWeaponSequence Rig.third w with
              | error e => simp [h3, bind, Except.bind] at h1
              | ok wa =>
                simp only [h3, bind, Except.bind, pure, Except.pure] at h1
                have h4 : w.SetsOnly (fun next => ! isForeignAction next) wa :=
                  endStaleWeaponSequence_sets _ Rig.third (setsOnly_refl _ w) h3
                split at h1
                · exact endStaleWeaponSequence_sets _ Rig.first h4 h1
                · cases h1
                  exact h4
            unfold body at h
            cases hc : classified charController movementSpeed w1 with
            | error e => simp [hc, bind, Except.bind] at h
            | ok p =>
              obtain ⟨w3, l3⟩ := p
              simp only [hc, bind, Except.bind, pure, Except.pure] at h
              cases h
              obtain ⟨wa, la, lb, lc, hact, hr, -, -⟩ :=
                classified_steps charController movementSpeed w1 w3 l3 hc
              obtain ⟨-, hcase, -, -⟩ := classified_summary (fun _ => True)
                (fun _ _ => trivial) charController movementSpeed w1 w3 l3 hc
              refine resolvePhase_sets _ turnSpeed
                (requestPhase_sets _ charController
                  (setsOnly_trans ha (actionPhase_sets charController w1 wa la hact)) hr) l3 ?_
              intro _
              rcases hcase with ⟨-, -, h5 | h5 | h5 | h5⟩ | ⟨h5, -⟩
              · rw [h5]; rfl
              · rw [h5]; rfl
              · rw [h5]; rfl
              · rw [h5]; rfl
              · simp only [isRequestedAction, Bool.or_eq_true, beq_iff_eq] at h5
                rcases h5 with (h5 | h5) | h5
                · rw [h5]; rfl
                · rw [h5]; rfl
                · rw [h5]; rfl
        · cases h
          exact setsOnly_refl _ w
      · cases h
        exact setsOnly_refl _ w
  · cases h
    exact setsOnly_refl _ w

/-- A shifted state reads like the state itself, the record of calls and
the close-up rig apart. -/
theorem shift_reads (calls : List Effect) (first : Option AnimData → Option AnimData)
    (w : World) :
    (w.shift calls first).IsDying = w.IsDying ∧
      (w.shift calls first).GetKnockedState = w.GetKnockedState ∧
      (w.shift calls first).isPlayer = w.isPlayer ∧
      (w.shift calls first).IsNotFirstPerson = w.IsNotFirstPerson ∧
      (w.shift calls first).hasAnimData = w.hasAnimData ∧
      (w.shift calls first).hasBaseProcess = w.hasBaseProcess ∧
      (w.shift calls first).charController = w.charController ∧
      (w.shift calls first).IsSneaking = w.IsSneaking ∧
      (w.shift calls first).GetAttackLoopTimeRemaining_111 = w.GetAttackLoopTimeRemaining_111 ∧
      (w.shift calls first).GetWantsWeaponOut_IfSwimmingCancelVATS = w.GetWantsWeaponOut_IfSwimmingCancelVATS ∧
      (w.shift calls first).GetWeaponInfo = w.GetWeaponInfo ∧
      (w.shift calls first).GetMovementFlags = w.GetMovementFlags ∧
      (w.shift calls first).GetSitSleepState = w.GetSitSleepState ∧
      (w.shift calls first).GetFurnitureData = w.GetFurnitureData ∧
      (w.shift calls first).GetMagicItem160 = w.GetMagicItem160 ∧
      (w.shift calls first).GetIsInCombat = w.GetIsInCombat ∧
      (w.shift calls first).GetCurrentPackage = w.GetCurrentPackage ∧
      (w.shift calls first).IsUsingThrownWeapon = w.IsUsingThrownWeapon ∧
      (w.shift calls first).IsDoingAttackAnimation = w.IsDoingAttackAnimation ∧
      (w.shift calls first).GetWalkSpeed = w.GetWalkSpeed ∧
      (w.shift calls first).GetRunSpeedMult = w.GetRunSpeedMult ∧
      (w.shift calls first).weaponBoneChild = w.weaponBoneChild ∧
      (w.shift calls first).Unk_15D = w.Unk_15D ∧
      (w.shift calls first).GetMagicShaderHitEffectForActor = w.GetMagicShaderHitEffectForActor ∧
      (w.shift calls first).GetEquippedWeaponHealthBracket = w.GetEquippedWeaponHealthBracket ∧
      (w.shift calls first).Actor_8843A0 = w.Actor_8843A0 ∧
      (w.shift calls first).Unk_8D = w.Unk_8D ∧
      (w.shift calls first).GetIsRestrained = w.GetIsRestrained ∧
      (w.shift calls first).GetIsUnConscious = w.GetIsUnConscious ∧
      (w.shift calls first).GetActorType = w.GetActorType ∧
      (w.shift calls first).GetByte12A = w.GetByte12A ∧
      (w.shift calls first).GetByte128 = w.GetByte128 ∧
      (w.shift calls first).ApplyPerkModifiers = w.ApplyPerkModifiers ∧
      (w.shift calls first).g_animSequenceTypes = w.g_animSequenceTypes ∧
      (w.shift calls first).g_animKeyTypes = w.g_animKeyTypes ∧
      (w.shift calls first).g_weaponTypeToAnim = w.g_weaponTypeToAnim ∧
      (w.shift calls first).GetWeaponReloadJamChance = w.GetWeaponReloadJamChance ∧
      (w.shift calls first).randomDraw = w.randomDraw ∧
      (w.shift calls first).fJumpAnimDelay = w.fJumpAnimDelay ∧
      (w.shift calls first).AnimGroup_IsReload = w.AnimGroup_IsReload ∧
      (w.shift calls first).AnimGroup_IsAttack = w.AnimGroup_IsAttack ∧
      (w.shift calls first).AnimGroup_IsNonSpecialIdle = w.AnimGroup_IsNonSpecialIdle ∧
      (w.shift calls first).AnimGroup_GetMoveType = w.AnimGroup_GetMoveType ∧
      (w.shift calls first).Actor__GetAnimKey = w.Actor__GetAnimKey ∧
      (w.shift calls first).AnimData_495740 = w.AnimData_495740 ∧
      (w.shift calls first).GetCurrentAnimAction = w.GetCurrentAnimAction ∧
      (w.shift calls first).GetCurrentSequence = w.GetCurrentSequence ∧
      (w.shift calls first).IsWeaponOut = w.IsWeaponOut ∧
      (w.shift calls first).ext = w.ext ∧
      (w.shift calls first).rigs.third = w.rigs.third ∧
      (w.shift calls first).rigs.seq = w.rigs.seq ∧
      (w.shift calls first).rigs.first = first w.rigs.first ∧
      (w.shift calls first).trace = calls ++ w.trace ∧
      (w.shift calls first).weap = w.weap ∧
      (w.shift calls first).isPowerArmor = w.isPowerArmor ∧
      (∀ sequence, (w.shift calls first).group sequence = w.group sequence) ∧
      usesItemOrWeapon (w.shift calls first) = usesItemOrWeapon w ∧
      followsThrough (w.shift calls first) = followsThrough w ∧
      hasNonMeleeWeapon (w.shift calls first) = hasNonMeleeWeapon w ∧
      (∀ v159, movementIsJumping (w.shift calls first) v159 = movementIsJumping w v159) :=
  ⟨rfl, rfl, rfl, rfl, rfl, rfl, rfl, rfl, rfl, rfl, rfl, rfl, rfl, rfl, rfl, rfl, rfl, rfl, rfl, rfl, rfl, rfl, rfl, rfl, rfl, rfl, rfl, rfl, rfl, rfl, rfl, rfl, rfl, rfl, rfl, rfl, rfl, rfl, rfl, rfl, rfl, rfl, rfl, rfl, rfl, rfl, rfl, rfl, rfl, rfl, rfl, rfl, rfl, rfl, rfl, fun _ => rfl, rfl, rfl, rfl,
    fun _ => rfl⟩

theorem shifts_perform {first : Option AnimData → Option AnimData} {w : World}
    (h : w.Shifts first) (e : Effect) : (w.perform e).Shifts first := h

theorem shifts_setAction {first : Option AnimData → Option AnimData} {w : World}
    (h : w.Shifts first) (action : Int) (sequence : Option Nat) :
    (w.SetAnimActionAndSequence action sequence).Shifts first := h

theorem shifts_setWeaponOut {first : Option AnimData → Option AnimData} {w : World}
    (h : w.Shifts first) (out : Bool) : (w.SetWeaponOut out).Shifts first := h

/-- The hypothesis on the entity and the gateway outlives the tick. -/
theorem shifts_host {first : Option AnimData → Option AnimData} {w w1 : World}
    (h : w.Shifts first) (hh : w.sameHost w1) : w1.Shifts first := by
  obtain ⟨calls, rigs, action, sequence, out, rfl⟩ := hh
  exact h

/-- The hypothesis on the entity and the gateway depends on who the entity
is and on the gateway only. -/
theorem shifts_keeps {first : Option AnimData → Option AnimData} {w0 w : World}
    (h : w0.Shifts first) (hx : w.ext = w0.ext) (hp : w.isPlayer = w0.isPlayer) :
    w.Shifts first := by
  unfold World.Shifts at h ⊢
  rw [hx, hp]
  exact h

theorem host_keeps {w w1 : World} (h : w.sameHost w1) :
    w1.ext = w.ext ∧ w1.isPlayer = w.isPlayer := by
  obtain ⟨calls, rigs, action, sequence, out, rfl⟩ := h
  exact ⟨rfl, rfl⟩

/-- A recorded call changes neither who the entity is nor the gateway. -/
theorem calls_keep :
    (∀ (w : World) (e : Effect), (w.perform e).ext = w.ext) ∧
      (∀ (w : World) (e : Effect), (w.perform e).isPlayer = w.isPlayer) ∧
      (∀ (w : World) (action : Int) (sequence : Option Nat),
        (w.SetAnimActionAndSequence action sequence).ext = w.ext) ∧
      (∀ (w : World) (action : Int) (sequence : Option Nat),
        (w.SetAnimActionAndSequence action sequence).isPlayer = w.isPlayer) ∧
      (∀ (w : World) (out : Bool), (w.SetWeaponOut out).ext = w.ext) ∧
      ∀ (w : World) (out : Bool), (w.SetWeaponOut out).isPlayer = w.isPlayer :=
  ⟨fun _ _ => rfl, fun _ _ => rfl, fun _ _ _ => rfl, fun _ _ _ => rfl, fun _ _ => rfl,
    fun _ _ => rfl⟩

/-- A call that is not addressed to the close-up rig commutes with the
shift, at any state of the same entity and gateway. -/
theorem perform_shift {first : Option AnimData → Option AnimData} {w0 : World}
    (h : w0.Shifts first) (calls : List Effect) (w : World) (e : Effect)
    (hx : w.ext = w0.ext) (he : Effect.onFirst e = false) :
    (w.shift calls first).perform e = (w.perform e).shift calls first := by
  rcases h with h | ⟨-, h⟩
  · have hf : first = fun x => x := funext h
    subst hf
    simp only [World.shift, World.perform, List.append_assoc]
  · simp only [World.shift, World.perform, List.append_assoc]
    rw [hx, h e he w.rigs]

/-- Any call commutes with a shift that leaves the close-up rig alone. -/
theorem perform_shift_id {first : Option AnimData → Option AnimData}
    (h : ∀ x, first x = x) (calls : List Effect) (w : World) (e : Effect) :
    (w.shift calls first).perform e = (w.perform e).shift calls first := by
  have hf : first = fun x => x := funext h
  subst hf
  simp only [World.shift, World.perform, List.append_assoc]

/-- The two calls that change the context commute with the shift. -/
theorem calls_shift (calls : List Effect) (first : Option AnimData → Option AnimData) :
    (∀ (w : World) (action : Int) (sequence : Option Nat),
        (w.shift calls first).SetAnimActionAndSequence action sequence
          = (w.SetAnimActionAndSequence action sequence).shift calls first) ∧
      ∀ (w : World) (out : Bool),
        (w.shift calls first).SetWeaponOut out = (w.SetWeaponOut out).shift calls first := by
  refine ⟨fun w action sequence => ?_, fun w out => ?_⟩
  · simp only [World.shift, World.SetAnimActionAndSequence, List.append_assoc]
  · simp only [World.shift, World.SetWeaponOut, List.append_assoc]

theorem equipRigLoop_keeps (v128 : Nat) (w : World) :
    (equipRigLoop v128 w).ext = w.ext ∧ (equipRigLoop v128 w).isPlayer = w.isPlayer :=
  host_keeps (equipRigLoop_host v128 (World.sameHost_refl w))

theorem equipRigLoop_shift {first : Option AnimData → Option AnimData} {w0 : World}
    (h : w0.Shifts first) (calls : List Effect) (v128 : Nat) (w : World)
    (hx : w.ext = w0.ext) (hp : w.isPlayer = w0.isPlayer) :
    equipRigLoop v128 (w.shift calls first) = (equipRigLoop v128 w).shift calls first := by
  induction v128 generalizing w with
  | zero => rfl
  | succ n ih =>
    have hw : w.Shifts first := shifts_keeps h hx hp
    simp only [equipRigLoop, shift_reads]
    rcases hw with hid | ⟨hq, hsep⟩
    · simp only [hid]
      repeat' split
      all_goals
        simp only [perform_shift_id hid]
        exact ih _ hx hp
    · have hw : w.Shifts first := Or.inr ⟨hq, hsep⟩
      simp only [hq, Bool.false_eq_true, false_and, if_false]
      repeat' split
      all_goals
        simp only [perform_shift hw, Effect.onFirst, calls_keep]
        exact ih _ hx hp

theorem equipRagDoll_keeps (w : World) (currentAnimAction : Int) :
    (equipRagDoll w currentAnimAction).ext = w.ext ∧
      (equipRagDoll w currentAnimAction).isPlayer = w.isPlayer :=
  host_keeps (equipRagDoll_host (World.sameHost_refl w) currentAnimAction)

theorem equipRagDoll_shift {first : Option AnimData → Option AnimData} {w0 : World}
    (h : w0.Shifts first) (calls : List Effect) (w : World) (currentAnimAction : Int)
    (hx : w.ext = w0.ext) :
    equipRagDoll (w.shift calls first) currentAnimAction
      = (equipRagDoll w currentAnimAction).shift calls first := by
  unfold equipRagDoll
  simp only [shift_reads, perform_shift h, hx, Effect.onFirst, calls_keep,
    ← apply_ite (World.shift calls first)]

theorem equipCue_shift {first : Option AnimData → Option AnimData} {w0 : World}
    (h : w0.Shifts first) (calls : List Effect) (w : World) (hx : w.ext = w0.ext) :
    equipCue (w.shift calls first) = (equipCue w).shift calls first := by
  unfold equipCue
  simp only [shift_reads, perform_shift h, hx, Effect.onFirst, calls_keep,
    ← apply_ite (World.shift calls first)]
  repeat' split
  all_goals first
    | rfl
    | simp only [shift_reads, perform_shift h, hx, Effect.onFirst, calls_keep]

theorem caseEquipUnequip_shift {first : Option AnimData → Option AnimData} {w0 : World}
    (h : w0.Shifts first) (calls : List Effect) (w : World) (currentAnimAction : Int)
    (hx : w.ext = w0.ext) (hp : w.isPlayer = w0.isPlayer) :
    caseEquipUnequip (w.shift calls first) currentAnimAction
      = (caseEquipUnequip w currentAnimAction).shift calls first := by
  unfold caseEquipUnequip
  simp only [shift_reads, perform_shift h, hx, hp, Effect.onFirst, calls_keep, calls_shift,
    equipRigLoop_shift h, equipRigLoop_keeps, equipRagDoll_shift h, equipRagDoll_keeps,
    equipCue_shift h, apply_ite World.ext, ite_self,
    ← apply_ite (World.shift calls first)]

theorem fireAttack_keeps (w : World) :
    (fireAttack w).ext = w.ext ∧ (fireAttack w).isPlayer = w.isPlayer :=
  host_keeps (fireAttack_host (World.sameHost_refl w))

theorem fireAttack_shift {first : Option AnimData → Option AnimData} {w0 : World}
    (h : w0.Shifts first) (calls : List Effect) (w : World) (hx : w.ext = w0.ext) :
    fireAttack (w.shift calls first) = (fireAttack w).shift calls first := by
  unfold fireAttack
  simp only [shift_reads, perform_shift h, hx, Effect.onFirst, calls_keep,
    ← apply_ite (World.shift calls first)]
  repeat' split
  all_goals rfl

theorem firePowerAttack_keeps (w : World) :
    (firePowerAttack w).ext = w.ext ∧ (firePowerAttack w).isPlayer = w.isPlayer :=
  host_keeps (firePowerAttack_host (World.sameHost_refl w))

theorem firePowerAttack_shift {first : Option AnimData → Option AnimData} {w0 : World}
    (h : w0.Shifts first) (calls : List Effect) (w : World) (hx : w.ext = w0.ext) :
    firePowerAttack (w.shift calls first) = (firePowerAttack w).shift calls first := by
  unfold firePowerAttack
  simp only [shift_reads, perform_shift h, hx, Effect.onFirst, calls_keep,
    ← apply_ite (World.shift calls first)]

theorem caseAttack_shift {first : Option AnimData → Option AnimData} {w0 : World}
    (h : w0.Shifts first) (calls : List Effect) (w : World) (hx : w.ext = w0.ext) :
    caseAttack (w.shift calls first) = (caseAttack w).map (World.shift calls first) := by
  unfold caseAttack
  simp only [shift_reads]
  cases w.GetCurrentSequence with
  | none => rfl
  | some s =>
    simp only [deref, bind, Except.bind, pure, Except.pure, shift_reads, perform_shift h, hx,
      fireAttack_shift h, firePowerAttack_shift h, calls_shift, Effect.onFirst, calls_keep,
      ← apply_ite (World.shift calls first)]
    repeat' split
    all_goals rfl

theorem caseAttackEject_shift {first : Option AnimData → Option AnimData} {w0 : World}
    (h : w0.Shifts first) (calls : List Effect) (w : World) (hx : w.ext = w0.ext) :
    caseAttackEject (w.shift calls first)
      = (caseAttackEject w).map (World.shift calls first) := by
  unfold caseAttackEject
  simp only [shift_reads]
  cases w.GetCurrentSequence with
  | none => rfl
  | some s =>
    simp only [deref, bind, Except.bind, pure, Except.pure, shift_reads, perform_shift h, hx,
      calls_shift, Effect.onFirst, calls_keep,
      ← apply_ite (World.shift calls first)]
    repeat' split
    all_goals rfl

theorem caseAttackThrow_shift {first : Option AnimData → Option AnimData} {w0 : World}
    (h : w0.Shifts first) (calls : List Effect) (w : World) (hx : w.ext = w0.ext) :
    caseAttackThrow (w.shift calls first)
      = (caseAttackThrow w).map (World.shift calls first) := by
  unfold caseAttackThrow
  simp only [shift_reads]
  cases w.GetCurrentSequence with
  | none => rfl
  | some s =>
    simp only [deref, bind, Except.bind, pure, Except.pure, shift_reads, perform_shift h, hx,
      calls_shift, Effect.onFirst, calls_keep,
      ← apply_ite (World.shift calls first)]
    repeat' split
    all_goals rfl

theorem attachRigLoop_shift {first : Option AnimData → Option AnimData} {w0 : World}
    (h : w0.Shifts first) (calls : List Effect) (v133 : Nat) (w : World)
    (hx : w.ext = w0.ext) :
    attachRigLoop v133 (w.shift calls first) = (attachRigLoop v133 w).shift calls first := by
  induction v133 generalizing w with
  | zero => rfl
  | succ n ih =>
    simp only [attachRigLoop, perform_shift h, hx, Effect.onFirst]
    exact ih _ hx

theorem caseAttackThrowAttach_shift {first : Option AnimData → Option AnimData} {w0 : World}
    (h : w0.Shifts first) (calls : List Effect) (w : World) (hx : w.ext = w0.ext) :
    caseAttackThrowAttach (w.shift calls first)
      = (caseAttackThrowAttach w).map (World.shift calls first) := by
  unfold caseAttackThrowAttach
  simp only [shift_reads]
  cases w.GetCurrentSequence with
  | none => rfl
  | some s =>
    simp only [deref, bind, Except.bind, pure, Except.pure, shift_reads, perform_shift h, hx,
      attachRigLoop_shift h, calls_shift, Effect.onFirst, calls_keep,
      ← apply_ite (World.shift calls first)]
    repeat' split
    all_goals rfl

theorem caseWaitForLowerBody_shift (first : Option AnimData → Option AnimData)
    (charController : bhkCharacterController) (calls : List Effect) (w : World) (l : Locals) :
    caseWaitForLowerBody charController (w.shift calls first) l
      = (caseWaitForLowerBody charController w l).shift calls first := by
  unfold caseWaitForLowerBody
  simp only [shift_reads, calls_shift, ← apply_ite (World.shift calls first)]
  repeat' split
  all_goals rfl

theorem caseReloadLoop_shift {first : Option AnimData → Option AnimData} {w0 : World}
    (h : w0.Shifts first) (calls : List Effect) (w : World) (l : Locals)
    (hx : w.ext = w0.ext) :
    caseReloadLoop (w.shift calls first) l
      = (caseReloadLoop w l).map (fun p => (p.1.shift calls first, p.2)) := by
  unfold caseReloadLoop
  simp only [shift_reads]
  cases w.GetCurrentSequence with
  | none => rfl
  | some s =>
    simp only [deref, bind, Except.bind, pure, Except.pure, shift_reads, perform_shift h, hx,
      calls_shift, Effect.onFirst, calls_keep,
      ← apply_ite (World.shift calls first)]
    repeat' split
    all_goals rfl

theorem adoptBlock_shift (first : Option AnimData → Option AnimData) (calls : List Effect)
    (w : World) (l : Locals) :
    adoptBlock (w.shift calls first) l
      = ((adoptBlock w l).1.shift calls first, (adoptBlock w l).2) := by
  unfold adoptBlock
  simp only [shift_reads, calls_shift]
  repeat' split
  all_goals rfl

theorem adoptBlock_keeps (w : World) (l : Locals) :
    (adoptBlock w l).1.ext = w.ext ∧ (adoptBlock w l).1.isPlayer = w.isPlayer :=
  host_keeps (adoptBlock_host (World.sameHost_refl w) l)

theorem jamRoll_shift {first : Option AnimData → Option AnimData} {w0 : World}
    (h : w0.Shifts first) (calls : List Effect) (w : World) (l : Locals)
    (hx : w.ext = w0.ext) :
    jamRoll (w.shift calls first) l
      = (jamRoll w l).map (fun p => (p.1.shift calls first, p.2)) := by
  unfold jamRoll
  simp only [shift_reads]
  repeat' split
  all_goals first
    | rfl
    | (cases w.GetCurrentSequence with
       | none => rfl
       | some s =>
         simp only [deref, bind, Except.bind, pure, Except.pure, shift_reads,
           perform_shift h, hx, calls_shift, Effect.onFirst, calls_keep]
         repeat' split
         all_goals rfl)

theorem noLiveSequence_shift {first : Option AnimData → Option AnimData} {w0 : World}
    (h : w0.Shifts first) (calls : List Effect) (w : World) (l : Locals)
    (hx : w.ext = w0.ext) :
    noLiveSequence (w.shift calls first) l
      = (noLiveSequence w l).map (fun p => (p.1.shift calls first, p.2)) := by
  unfold noLiveSequence
  rw [adoptBlock_shift]
  have hb : (adoptBlock w l).1.ext = w0.ext := (adoptBlock_keeps w l).1.trans hx
  generalize adoptBlock w l = b at hb
  obtain ⟨wb, lb⟩ := b
  simp only [bind, Except.bind, jamRoll_shift h calls wb lb hb]
  cases jamRoll wb lb with
  | error e => rfl
  | ok p =>
    obtain ⟨wj, lj⟩ := p
    simp only [Except.map, pure, Except.pure, calls_shift]
    split <;> rfl

theorem switchAction_shift {first : Option AnimData → Option AnimData} {w0 : World}
    (h : w0.Shifts first) (calls : List Effect) (charController : bhkCharacterController)
    (w : World) (l : Locals) (hx : w.ext = w0.ext) (hp : w.isPlayer = w0.isPlayer) :
    switchAction charController (w.shift calls first) l
      = (switchAction charController w l).map (fun p => (p.1.shift calls first, p.2)) := by
  unfold switchAction
  simp only [shift_reads, caseEquipUnequip_shift h calls w _ hx hp, caseAttack_shift h calls w hx,
    caseAttackEject_shift h calls w hx, caseAttackThrow_shift h calls w hx,
    caseAttackThrowAttach_shift h calls w hx, caseWaitForLowerBody_shift,
    caseReloadLoop_shift h calls w l hx]
  split_ifs
  · rfl
  · cases caseAttack w <;> rfl
  · cases caseAttackEject w <;> rfl
  · cases caseAttackThrow w <;> rfl
  · cases caseAttackThrowAttach w <;> rfl
  · rfl
  · rfl
  · rfl
  · rfl

theorem actionPhase_shift {first : Option AnimData → Option AnimData} {w0 : World}
    (h : w0.Shifts first) (calls : List Effect) (charController : bhkCharacterController)
    (w : World) (l : Locals) (hx : w.ext = w0.ext) (hp : w.isPlayer = w0.isPlayer) :
    actionPhase charController (w.shift calls first) l
      = (actionPhase charController w l).map (fun p => (p.1.shift calls first, p.2)) := by
  unfold actionPhase
  simp only [shift_reads, switchAction_shift h calls charController w l hx hp,
    noLiveSequence_shift h calls w l hx]
  repeat' split
  all_goals rfl

theorem jumpOrLand_shift {first : Option AnimData → Option AnimData} {w0 : World}
    (h : w0.Shifts first) (calls : List Effect) (charController : bhkCharacterController)
    (w : World) (l : Locals) (hx : w.ext = w0.ext) :
    jumpOrLand charController (w.shift calls first) l
      = ((jumpOrLand charController w l).1.shift calls first,
          (jumpOrLand charController w l).2) := by
  unfold jumpOrLand
  simp only [shift_reads, perform_shift h, hx, Effect.onFirst, calls_keep]
  repeat' split
  all_goals rfl

theorem requestPhase_shift {first : Option AnimData → Option AnimData} {w0 : World}
    (h : w0.Shifts first) (calls : List Effect) (charController : bhkCharacterController)
    (w : World) (l : Locals) (hx : w.ext = w0.ext) :
    requestPhase charController (w.shift calls first) l
      = ((requestPhase charController w l).1.shift calls first,
          (requestPhase charController w l).2) := by
  have hj : (jumpOrLand charController w l).1.ext = w0.ext :=
    (host_keeps (jumpOrLand_host charController (World.sameHost_refl w) l)).1.trans hx
  unfold requestPhase
  simp only [shift_reads, jumpOrLand_shift h calls charController w l hx]
  generalize jumpOrLand charController w l = j at hj
  obtain ⟨wj, lj⟩ := j
  simp only [] at hj
  repeat' (first
    | rfl
    | simp only [shift_reads, perform_shift h, hx, hj, Effect.onFirst, calls_keep]
    | split)

theorem pickHandType_shift (first : Option AnimData → Option AnimData) (calls : List Effect)
    (w : World) (l : Locals) : pickHandType (w.shift calls first) l = pickHandType w l :=
  rfl

theorem pickMoveType_shift (first : Option AnimData → Option AnimData) (calls : List Effect)
    (w : World) (l : Locals) : pickMoveType (w.shift calls first) l = pickMoveType w l :=
  rfl

theorem directionBlock_shift (first : Option AnimData → Option AnimData) (calls : List Effect)
    (w : World) (l : Locals) : directionBlock (w.shift calls first) l = directionBlock w l :=
  rfl

/-- The idle of a seated or sleeping entity reads the close-up rig for the
player only. -/
theorem sitSleepGroup_shift {first : Option AnimData → Option AnimData} {w : World}
    (h : w.Shifts first) (calls : List Effect) (l : Locals) :
    sitSleepGroup (w.shift calls first) l = sitSleepGroup w l := by
  unfold sitSleepGroup
  simp only [shift_reads]
  rcases h with hid | ⟨hq, -⟩
  · simp only [hid]
  · simp only [hq, Bool.false_eq_true, if_false]

theorem classify_shift {first : Option AnimData → Option AnimData} {w : World}
    (h : w.Shifts first) (calls : List Effect) (movementSpeed : ℚ) (l : Locals) :
    classify movementSpeed (w.shift calls first) l = classify movementSpeed w l := by
  unfold classify
  simp only [shift_reads, sitSleepGroup_shift h, directionBlock_shift]

theorem classified_shift {first : Option AnimData → Option AnimData} {w : World}
    (h : w.Shifts first) (calls : List Effect) (charController : bhkCharacterController)
    (movementSpeed : ℚ) :
    classified charController movementSpeed (w.shift calls first)
      = (classified charController movementSpeed w).map
          (fun p => (p.1.shift calls first, p.2)) := by
  unfold classified
  have hi : initLocals (w.shift calls first) = initLocals w := rfl
  rw [hi, actionPhase_shift h calls charController w _ rfl rfl]
  cases ha : actionPhase charController w (initLocals w) with
  | error e => rfl
  | ok p =>
    obtain ⟨w1, l1⟩ := p
    have h1 := host_keeps (actionPhase_host charController (World.sameHost_refl w) ha)
    simp only [bind, Except.bind, Except.map, requestPhase_shift h calls charController w1 l1 h1.1]
    have hr : (requestPhase charController w1 l1).1.ext = w1.ext ∧
        (requestPhase charController w1 l1).1.isPlayer = w1.isPlayer :=
      host_keeps (requestPhase_host charController (World.sameHost_refl w1) rfl)
    generalize requestPhase charController w1 l1 = r at hr
    obtain ⟨w2, l2⟩ := r
    have h2 : w2.Shifts first := shifts_keeps h (hr.1.trans h1.1) (hr.2.trans h1.2)
    simp only [pickHandType_shift, pickMoveType_shift, classify_shift h2]
    cases pickHandType w2 l2 with
    | error e => rfl
    | ok l3 =>
      simp only []
      cases classify movementSpeed w2 (pickMoveType w2 l3) with
      | error e => rfl
      | ok l4 => rfl

theorem forceScriptSpeed_shift {first : Option AnimData → Option AnimData} {w0 : World}
    (h : w0.Shifts first) (calls : List Effect) (turnSpeed : ℚ) (w : World) (l : Locals)
    (hx : w.ext = w0.ext) :
    forceScriptSpeed turnSpeed (w.shift calls first) l
      = (forceScriptSpeed turnSpeed w l).shift calls first := by
  unfold forceScriptSpeed
  simp only [shift_reads, perform_shift h, hx, Effect.onFirst, calls_keep,
    ← apply_ite (World.shift calls first)]

theorem rateOfFire_shift (first : Option AnimData → Option AnimData) (calls : List Effect)
    (w : World) (animGroup : Nat) :
    rateOfFire (w.shift calls first) animGroup = rateOfFire w animGroup :=
  rfl

theorem magnitudeGroupID_shift (first : Option AnimData → Option AnimData)
    (calls : List Effect) (w : World) (groupID_1 : Nat) :
    magnitudeGroupID (w.shift calls first) groupID_1 = magnitudeGroupID w groupID_1 :=
  rfl

theorem commitSpeed_keeps (turnSpeed : ℚ) (w : World) (l : Locals) (groupID_1 : Nat) :
    (commitSpeed turnSpeed w l groupID_1).ext = w.ext ∧
      (commitSpeed turnSpeed w l groupID_1).isPlayer = w.isPlayer :=
  host_keeps (commitSpeed_host turnSpeed (World.sameHost_refl w) l groupID_1)

theorem commitSpeed_shift {first : Option AnimData → Option AnimData} {w0 : World}
    (h : w0.Shifts first) (calls : List Effect) (turnSpeed : ℚ) (w : World) (l : Locals)
    (groupID_1 : Nat) (hx : w.ext = w0.ext) :
    commitSpeed turnSpeed (w.shift calls first) l groupID_1
      = (commitSpeed turnSpeed w l groupID_1).shift calls first := by
  unfold commitSpeed
  simp only [shift_reads, rateOfFire_shift, magnitudeGroupID_shift, perform_shift h, hx,
    Effect.onFirst, calls_keep, ← apply_ite (World.shift calls first)]

theorem playIdleOfMoveType_keeps (w : World) (l : Locals) :
    (playIdleOfMoveType w l).ext = w.ext ∧ (playIdleOfMoveType w l).isPlayer = w.isPlayer :=
  host_keeps (playIdleOfMoveType_host (World.sameHost_refl w) l)

theorem playIdleOfMoveType_shift {first : Option AnimData → Option AnimData} {w0 : World}
    (h : w0.Shifts first) (calls : List Effect) (w : World) (l : Locals)
    (hx : w.ext = w0.ext) :
    playIdleOfMoveType (w.shift calls first) l
      = (playIdleOfMoveType w l).shift calls first := by
  unfold playIdleOfMoveType
  simp only [shift_reads, perform_shift h, hx, Effect.onFirst, calls_keep,
    ← apply_ite (World.shift calls first)]

theorem playFollowUp_keeps (w : World) (l : Locals) :
    (playFollowUp w l).ext = w.ext ∧ (playFollowUp w l).isPlayer = w.isPlayer :=
  host_keeps (playFollowUp_host (World.sameHost_refl w) l)

theorem playFollowUp_shift {first : Option AnimData → Option AnimData} {w0 : World}
    (h : w0.Shifts first) (calls : List Effect) (w : World) (l : Locals)
    (hx : w.ext = w0.ext) :
    playFollowUp (w.shift calls first) l = (playFollowUp w l).shift calls first := by
  unfold playFollowUp
  simp only [shift_reads, perform_shift h, hx, Effect.onFirst, calls_keep,
    ← apply_ite (World.shift calls first)]

theorem needsPlay_shift (first : Option AnimData → Option AnimData) (calls : List Effect)
    (w : World) (l : Locals) (groupID_1 : Nat) :
    needsPlay (w.shift calls first) l groupID_1 = needsPlay w l groupID_1 :=
  rfl

theorem playResolved_keeps (w : World) (l : Locals) (groupID_1 : Nat) :
    (playResolved w l groupID_1).ext = w.ext ∧
      (playResolved w l groupID_1).isPlayer = w.isPlayer :=
  host_keeps (playResolved_host (World.sameHost_refl w) l groupID_1)

theorem playResolved_shift {first : Option AnimData → Option AnimData} {w0 : World}
    (h : w0.Shifts first) (calls : List Effect) (w : World) (l : Locals) (groupID_1 : Nat)
    (hx : w.ext = w0.ext) :
    playResolved (w.shift calls first) l groupID_1
      = (playResolved w l groupID_1).shift calls first := by
  unfold playResolved
  simp only [shift_reads, needsPlay_shift, playIdleOfMoveType_shift h, playIdleOfMoveType_keeps,
    playFollowUp_shift h, perform_shift h, calls_shift, hx, Effect.onFirst, calls_keep,
    apply_ite World.ext, ite_self, ← apply_ite (World.shift calls first)]

theorem endMovement_keeps (w : World) (l : Locals) :
    (endMovement w l).ext = w.ext ∧ (endMovement w l).isPlayer = w.isPlayer :=
  host_keeps (endMovement_host (World.sameHost_refl w) l)

/-- The stop request on the close-up rig is reached by the player only. -/
theorem endMovement_shift {first : Option AnimData → Option AnimData} {w0 : World}
    (h : w0.Shifts first) (calls : List Effect) (w : World) (l : Locals)
    (hx : w.ext = w0.ext) (hp : w.isPlayer = w0.isPlayer) :
    endMovement (w.shift calls first) l = (endMovement w l).shift calls first := by
  unfold endMovement
  rcases shifts_keeps h hx hp with hid | ⟨hq, -⟩
  · simp only [shift_reads, perform_shift_id hid, calls_keep,
      ← apply_ite (World.shift calls first)]
    split <;> rfl
  · simp only [shift_reads, perform_shift h, hx, hq, Effect.onFirst, calls_keep,
      Bool.false_eq_true, if_false, ← apply_ite (World.shift calls first)]
    split <;> rfl

theorem attackHook_shift {first : Option AnimData → Option AnimData} {w0 : World}
    (h : w0.Shifts first) (calls : List Effect) (w : World) (hx : w.ext = w0.ext) :
    attackHook (w.shift calls first) = (attackHook w).shift calls first := by
  unfold attackHook
  simp only [shift_reads, perform_shift h, hx, Effect.onFirst, calls_keep,
    ← apply_ite (World.shift calls first)]

theorem resolvedID_shift (first : Option AnimData → Option AnimData) (calls : List Effect)
    (w : World) (l : Locals) : resolvedID (w.shift calls first) l = resolvedID w l :=
  rfl

theorem dropUnresolved_keeps (w : World) (l : Locals) (v150 : Nat) :
    (dropUnresolved w l v150).1.ext = w.ext ∧
      (dropUnresolved w l v150).1.isPlayer = w.isPlayer :=
  host_keeps (dropUnresolved_host (World.sameHost_refl w) l v150)

theorem dropUnresolved_shift (first : Option AnimData → Option AnimData)
    (calls : List Effect) (w : World) (l : Locals) (v150 : Nat) :
    dropUnresolved (w.shift calls first) l v150
      = ((dropUnresolved w l v150).1.shift calls first, (dropUnresolved w l v150).2) := by
  unfold dropUnresolved
  simp only [calls_shift]
  repeat' split
  all_goals rfl

theorem resolvePhase_shift {first : Option AnimData → Option AnimData} {w0 : World}
    (h : w0.Shifts first) (calls : List Effect) (turnSpeed : ℚ) (w : World) (l : Locals)
    (hx : w.ext = w0.ext) (hp : w.isPlayer = w0.isPlayer) :
    resolvePhase turnSpeed (w.shift calls first) l
      = (resolvePhase turnSpeed w l).shift calls first := by
  have hd := dropUnresolved_keeps w l (AnimGroupID.GetGroupID (resolvedID w l))
  unfold resolvePhase
  simp only [resolvedID_shift, dropUnresolved_shift]
  generalize dropUnresolved w l (AnimGroupID.GetGroupID (resolvedID w l)) = d at hd
  obtain ⟨wd, ad⟩ := d
  simp only [] at hd
  simp only [shift_reads, forceScriptSpeed_shift h calls turnSpeed wd _ (hd.1.trans hx),
    commitSpeed_shift h calls turnSpeed wd _ _ (hd.1.trans hx), commitSpeed_keeps,
    playResolved_shift h, playResolved_keeps, endMovement_shift h, endMovement_keeps,
    attackHook_shift h, hd, hx, hp, ← apply_ite (World.shift calls first)]

theorem endStaleWeaponSequence_shift {first : Option AnimData → Option AnimData} {w0 : World}
    (h : w0.Shifts first) (calls : List Effect) (rig : Rig) (w : World)
    (hx : w.ext = w0.ext) (hr : rig = Rig.first → ∀ x, first x = x) :
    endStaleWeaponSequence rig (w.shift calls first)
      = (endStaleWeaponSequence rig w).map (World.shift calls first) := by
  unfold endStaleWeaponSequence
  cases rig with
  | third =>
    simp only [shift_reads, deref, bind, Except.bind, pure, Except.pure, perform_shift h, hx,
      Effect.onFirst, calls_keep, ← apply_ite (World.shift calls first)]
    repeat' split
    all_goals rfl
  | first =>
    have hid := hr rfl
    simp only [shift_reads, hid, perform_shift_id hid,
      ← apply_ite (World.shift calls first)]
    cases w.rigs.first with
    | none => rfl
    | some animData =>
      simp only [deref, bind, Except.bind, pure, Except.pure]
      repeat' split
      all_goals rfl

theorem endStaleWeaponSequences_shift {first : Option AnimData → Option AnimData} {w : World}
    (h : w.Shifts first) (calls : List Effect) :
    endStaleWeaponSequences (w.shift calls first)
      = (endStaleWeaponSequences w).map (World.shift calls first) := by
  unfold endStaleWeaponSequences
  simp only [bind, Except.bind,
    endStaleWeaponSequence_shift h calls Rig.third w rfl (fun hr => by cases hr)]
  cases h3 : endStaleWeaponSequence Rig.third w with
  | error e => rfl
  | ok w1 =>
    have h1 := host_keeps (endStaleWeaponSequence_host Rig.third (World.sameHost_refl w) h3)
    simp only [Except.map, shift_reads, pure, Except.pure]
    rcases h with hid | ⟨hq, hsep⟩
    · rw [endStaleWeaponSequence_shift (Or.inl hid) calls Rig.first w1 h1.1 (fun _ => hid)]
      split
      · cases endStaleWeaponSequence Rig.first w1 <;> rfl
      · rfl
    · rw [h1.2, hq]
      rfl

theorem body_shift {first : Option AnimData → Option AnimData} {w : World}
    (h : w.Shifts first) (calls : List Effect) (charController : bhkCharacterController)
    (movementSpeed turnSpeed : ℚ) :
    body charController movementSpeed turnSpeed (w.shift calls first)
      = (body charController movementSpeed turnSpeed w).map (World.shift calls first) := by
  unfold body
  rw [classified_shift h calls charController movementSpeed]
  cases hc : classified charController movementSpeed w with
  | error e => rfl
  | ok p =>
    obtain ⟨w1, l⟩ := p
    have h1 := host_keeps (classified_host charController movementSpeed w w1 l hc)
    simp only [Except.map, bind, Except.bind, pure, Except.pure,
      resolvePhase_shift h calls turnSpeed w1 l h1.1 h1.2]

/-- The whole tick commutes with the shift: met after other calls, or with
another close-up rig when the entity is not the player and the gateway
treats that rig apart, the tick faults or returns alike, makes the same
calls, and leaves the same state. -/
theorem tick_shift {first : Option AnimData → Option AnimData} {w : World}
    (h : w.Shifts first) (calls : List Effect) (movementSpeed turnSpeed : ℚ) :
    Actor.PickAnimations movementSpeed turnSpeed (w.shift calls first)
      = (Actor.PickAnimations movementSpeed turnSpeed w).map (World.shift calls first) := by
  unfold Actor.PickAnimations
  simp only [shift_reads]
  split
  · split
    · rename_i hfp
      rcases h with hid | ⟨hq, -⟩
      · have hf : first = fun x => x := funext hid
        subst hf
        simp only [Except.map, pure, Except.pure, World.shift, List.append_assoc]
      · rw [hq] at hfp
        exact absurd hfp.1 (by decide)
    · split
      · cases w.charController with
        | none => rfl
        | some charController =>
          simp only [bind, Except.bind, endStaleWeaponSequences_shift h calls]
          cases h1 : endStaleWeaponSequences w with
          | error e => rfl
          | ok w1 =>
            have hw1 : w1.Shifts first :=
              shifts_host h (endStaleWeaponSequences_host (World.sameHost_refl w) h1)
            simp only [Except.map]
            exact body_shift hw1 calls charController movementSpeed turnSpeed
      · rfl
  · rfl

theorem equipRigLoop_third (I : World → Prop)
    (hI : ∀ w e, Effect.onFirst e = false → I w → I (w.perform e))
    (v128 : Nat) {w : World} (hp : w.isPlayer = false) (h0 : I w) :
    I (equipRigLoop v128 w) := by
  induction v128 generalizing w with
  | zero => exact h0
  | succ n ih =>
    simp only [equipRigLoop, hp, Bool.false_eq_true, false_and, if_false]
    apply ih
    · repeat' split
      all_goals exact hp
    · apply hI _ _ (by rfl)
      repeat' (first
        | with_reducible exact h0
        | rfl
        | with_reducible apply hI
        | split)

theorem equipRagDoll_third (I : World → Prop)
    (hI : ∀ w e, Effect.onFirst e = false → I w → I (w.perform e))
    {w : World} (h0 : I w) (currentAnimAction : Int) :
    I (equipRagDoll w currentAnimAction) := by
  unfold equipRagDoll
  repeat' (first
    | with_reducible exact h0
    | rfl
    | with_reducible apply hI
    | split)

theorem equipCue_third (I : World → Prop)
    (hI : ∀ w e, Effect.onFirst e = false → I w → I (w.perform e))
    {w : World} (h0 : I w) : I (equipCue w) := by
  unfold equipCue
  split
  · have h1 : I (if w.GetMagicShaderHitEffectForActor = true then w.perform Effect.sub_8216C0
        else w) := by
      split
      · exact hI _ _ (by rfl) h0
      · exact h0
    revert h1
    generalize (if w.GetMagicShaderHitEffectForActor = true then w.perform Effect.sub_8216C0
      else w) = w1
    intro h1
    dsimp only
    repeat' (first
      | with_reducible exact h1
      | rfl
      | with_reducible apply hI
      | split)
  · exact h0

theorem caseEquipUnequip_third (I : World → Prop)
    (hI : ∀ w e, Effect.onFirst e = false → I w → I (w.perform e))
    (hW : ∀ w out, I w → I (w.SetWeaponOut out))
    {w : World} (hp : w.isPlayer = false) (h0 : I w) (currentAnimAction : Int) :
    I (caseEquipUnequip w currentAnimAction) := by
  unfold caseEquipUnequip
  split
  · dsimp only
    refine equipCue_third I hI (hI _ _ (by rfl) ?_)
    generalize (if w.isPlayer = true then 2 else 1) = v128
    have h3 : I ((equipRigLoop v128
        (w.SetWeaponOut (decide (currentAnimAction = kAnimAction_Equip_Weapon)))).perform
          Effect.AimWeapon) :=
      hI _ _ (by rfl) (equipRigLoop_third I hI _
        (by exact hp : (w.SetWeaponOut
          (decide (currentAnimAction = kAnimAction_Equip_Weapon))).isPlayer = false)
        (hW _ _ h0))
    split
    · exact equipRagDoll_third I hI h3 _
    · exact h3
  · exact h0

theorem fireAttack_third (I : World → Prop)
    (hI : ∀ w e, Effect.onFirst e = false → I w → I (w.perform e))
    {w : World} (h0 : I w) : I (fireAttack w) := by
  unfold fireAttack
  repeat' (first
    | with_reducible exact h0
    | rfl
    | with_reducible apply hI
    | split)

theorem firePowerAttack_third (I : World → Prop)
    (hI : ∀ w e, Effect.onFirst e = false → I w → I (w.perform e))
    {w : World} (h0 : I w) : I (firePowerAttack w) := by
  unfold firePowerAttack
  repeat' (first
    | with_reducible exact h0
    | rfl
    | with_reducible apply hI
    | split)

theorem caseAttack_third (I : World → Prop)
    (hI : ∀ w e, Effect.onFirst e = false → I w → I (w.perform e))
    (hA : ∀ w action sequence, I w → I (w.SetAnimActionAndSequence action sequence))
    {w w1 : World} (h0 : I w) (h : caseAttack w = Except.ok w1) : I w1 := by
  unfold caseAttack at h
  cases hs : w.GetCurrentSequence with
  | none => simp [hs, deref, bind, Except.bind] at h
  | some s =>
    simp only [hs, deref, bind, Except.bind, pure, Except.pure] at h
    split_ifs at h
    all_goals
      cases h
      repeat' (first
        | with_reducible exact h0
        | rfl
        | with_reducible exact fireAttack_third I hI h0
        | with_reducible exact firePowerAttack_third I hI h0
        | with_reducible apply hA
        | with_reducible apply hI)

theorem caseAttackEject_third (I : World → Prop)
    (hI : ∀ w e, Effect.onFirst e = false → I w → I (w.perform e))
    (hA : ∀ w action sequence, I w → I (w.SetAnimActionAndSequence action sequence))
    {w w1 : World} (h0 : I w) (h : caseAttackEject w = Except.ok w1) : I w1 := by
  unfold caseAttackEject at h
  cases hs : w.GetCurrentSequence with
  | none => simp [hs, deref, bind, Except.bind] at h
  | some s =>
    simp only [hs, deref, bind, Except.bind, pure, Except.pure] at h
    repeat' split at h
    all_goals
      cases h
      repeat' (first
        | with_reducible exact h0
        | rfl
        | with_reducible apply hA
        | with_reducible apply hI)

theorem caseAttackThrow_third (I : World → Prop)
    (hI : ∀ w e, Effect.onFirst e = false → I w → I (w.perform e))
    (hA : ∀ w action sequence, I w → I (w.SetAnimActionAndSequence action sequence))
    {w w1 : World} (h0 : I w) (h : caseAttackThrow w = Except.ok w1) : I w1 := by
  unfold caseAttackThrow at h
  cases hs : w.GetCurrentSequence with
  | none => simp [hs, deref, bind, Except.bind] at h
  | some s =>
    simp only [hs, deref, bind, Except.bind, pure, Except.pure] at h
    split_ifs at h
    all_goals
      cases h
      repeat' (first
        | with_reducible exact h0
        | rfl
        | with_reducible apply hA
        | with_reducible apply hI)

theorem attachRigLoop_third (I : World → Prop)
    (hI : ∀ w e, Effect.onFirst e = false → I w → I (w.perform e))
    (v133 : Nat) {w : World} (h0 : I w) : I (attachRigLoop v133 w) := by
  induction v133 generalizing w with
  | zero => exact h0
  | succ n ih =>
    simp only [attachRigLoop]
    exact ih (hI _ _ (by rfl) h0)

theorem caseAttackThrowAttach_third (I : World → Prop)
    (hI : ∀ w e, Effect.onFirst e = false → I w → I (w.perform e))
    (hA : ∀ w action sequence, I w → I (w.SetAnimActionAndSequence action sequence))
    {w w1 : World} (h0 : I w) (h : caseAttackThrowAttach w = Except.ok w1) : I w1 := by
  unfold caseAttackThrowAttach at h
  cases hs : w.GetCurrentSequence with
  | none => simp [hs, deref, bind, Except.bind] at h
  | some s =>
    simp only [hs, deref, bind, Except.bind, pure, Except.pure] at h
    have h1 : I (if hasNonMeleeWeapon w = true then
        attachRigLoop (if w.isPlayer = true then 2 else 1) w else w) := by
      split
      · exact attachRigLoop_third I hI _ h0
      · exact h0
    generalize (if hasNonMeleeWeapon w = true then
      attachRigLoop (if w.isPlayer = true then 2 else 1) w else w) = wa at h h1
    split_ifs at h
    all_goals
      cases h
      repeat' (first
        | with_reducible exact h0
        | with_reducible exact h1
        | with_reducible apply hA)

theorem caseWaitForLowerBody_third (I : World → Prop)
    (hA : ∀ w action sequence, I w → I (w.SetAnimActionAndSequence action sequence))
    (charController : bhkCharacterController) {w : World} (h0 : I w) (l : Locals) :
    I (caseWaitForLowerBody charController w l) := by
  unfold caseWaitForLowerBody
  repeat' (first
    | with_reducible exact h0
    | with_reducible apply hA
    | split)

theorem caseReloadLoop_third (I : World → Prop)
    (hI : ∀ w e, Effect.onFirst e = false → I w → I (w.perform e))
    (hA : ∀ w action sequence, I w → I (w.SetAnimActionAndSequence action sequence))
    {w w1 : World} {l l1 : Locals} (h0 : I w)
    (h : caseReloadLoop w l = Except.ok (w1, l1)) : I w1 := by
  unfold caseReloadLoop at h
  simp only [deref, bind, Except.bind, pure, Except.pure] at h
  repeat' split at h
  all_goals
    cases h
    repeat' (first
      | with_reducible exact h0
      | rfl
      | with_reducible apply hA
      | with_reducible apply hI)

theorem noLiveSequence_third (I : World → Prop)
    (hI : ∀ w e, Effect.onFirst e = false → I w → I (w.perform e))
    (hA : ∀ w action sequence, I w → I (w.SetAnimActionAndSequence action sequence))
    {w w1 : World} {l l1 : Locals} (h0 : I w)
    (h : noLiveSequence w l = Except.ok (w1, l1)) : I w1 := by
  have hb : I (adoptBlock w l).1 := by
    unfold adoptBlock
    repeat' (first
      | with_reducible exact h0
      | with_reducible apply hA
      | split)
  unfold noLiveSequence at h
  revert hb h
  generalize adoptBlock w l = b
  obtain ⟨wb, lb⟩ := b
  intro h hb
  simp only [bind, Except.bind] at h
  cases hj : jamRoll wb lb with
  | error e => simp [hj] at h
  | ok p =>
    obtain ⟨wj, lj⟩ := p
    have hjr : I wj := by
      unfold jamRoll at hj
      simp only [deref, bind, Except.bind, pure, Except.pure] at hj
      repeat' split at hj
      all_goals
        cases hj
        repeat' (first
          | with_reducible exact hb
          | rfl
          | with_reducible apply hA
          | with_reducible apply hI)
    simp only [hj, pure, Except.pure] at h
    split at h
    · cases h
      exact hA _ _ _ hjr
    · cases h
      exact hjr

theorem switchAction_third (I : World → Prop)
    (hI : ∀ w e, Effect.onFirst e = false → I w → I (w.perform e))
    (hA : ∀ w action sequence, I w → I (w.SetAnimActionAndSequence action sequence))
    (hW : ∀ w out, I w → I (w.SetWeaponOut out))
    (charController : bhkCharacterController) {w w1 : World} {l l1 : Locals}
    (hp : w.isPlayer = false) (h0 : I w)
    (h : switchAction charController w l = Except.ok (w1, l1)) : I w1 := by
  unfold switchAction at h
  simp only [bind, Except.bind, pure, Except.pure] at h
  split_ifs at h
  · cases h
    exact caseEquipUnequip_third I hI hW hp h0 _
  · cases hc : caseAttack w with
    | error e => simp [hc] at h
    | ok v =>
      simp only [hc] at h
      cases h
      exact caseAttack_third I hI hA h0 hc
  · cases hc : caseAttackEject w with
    | error e => simp [hc] at h
    | ok v =>
      simp only [hc] at h
      cases h
      exact caseAttackEject_third I hI hA h0 hc
  · cases hc : caseAttackThrow w with
    | error e => simp [hc] at h
    | ok v =>
      simp only [hc] at h
      cases h
      exact caseAttackThrow_third I hI hA h0 hc
  · cases hc : caseAttackThrowAttach w with
    | error e => simp [hc] at h
    | ok v =>
      simp only [hc] at h
      cases h
      exact caseAttackThrowAttach_third I hI hA h0 hc
  · cases h
    exact h0
  · cases h
    exact caseWaitForLowerBody_third I hA charController h0 _
  · exact caseReloadLoop_third I hI hA h0 h
  · cases h
    exact h0

theorem actionPhase_third (I : World → Prop)
    (hI : ∀ w e, Effect.onFirst e = false → I w → I (w.perform e))
    (hA : ∀ w action sequence, I w → I (w.SetAnimActionAndSequence action sequence))
    (hW : ∀ w out, I w → I (w.SetWeaponOut out))
    (charController : bhkCharacterController) {w w1 : World} {l l1 : Locals}
    (hp : w.isPlayer = false) (h0 : I w)
    (h : actionPhase charController w l = Except.ok (w1, l1)) : I w1 := by
  unfold actionPhase at h
  split at h
  · split at h
    · split at h
      · exact switchAction_third I hI hA hW charController hp h0 h
      · exact noLiveSequence_third I hI hA h0 h
    · exact noLiveSequence_third I hI hA h0 h
  · cases h
    exact h0

theorem requestPhase_third (I : World → Prop)
    (hI : ∀ w e, Effect.onFirst e = false → I w → I (w.perform e))
    (charController : bhkCharacterController) {w w1 : World} {l l1 : Locals}
    (h0 : I w) (hr : requestPhase charController w l = (w1, l1)) : I w1 := by
  have hj : I (jumpOrLand charController w l).1 := by
    unfold jumpOrLand
    repeat' (first
      | with_reducible exact h0
      | rfl
      | with_reducible apply hI
      | split
      | dsimp only)
  unfold requestPhase at hr
  generalize jumpOrLand charController w l = j at hj hr
  obtain ⟨wj, lj⟩ := j
  repeat' (first
    | split_ifs at hr
    | dsimp only at hr)
  all_goals
    cases hr
    repeat' (first
      | with_reducible exact h0
      | with_reducible exact hj
      | rfl
      | with_reducible apply hI)

theorem endMovement_third (I : World → Prop)
    (hI : ∀ w e, Effect.onFirst e = false → I w → I (w.perform e))
    {w : World} (hp : w.isPlayer = false) (h0 : I w) (l : Locals) :
    I (endMovement w l) := by
  unfold endMovement
  have hq : ∀ e, (w.perform e).isPlayer = false := fun _ => hp
  simp only [hq, Bool.false_eq_true, if_false]
  repeat' (first
    | with_reducible exact h0
    | rfl
    | with_reducible apply hI
    | split)

theorem playResolved_third (I : World → Prop)
    (hI : ∀ w e, Effect.onFirst e = false → I w → I (w.perform e))
    (hA : ∀ w action sequence, I w → I (w.SetAnimActionAndSequence action sequence))
    {w : World} (h0 : I w) (l : Locals) (groupID_1 : Nat) :
    I (playResolved w l groupID_1) := by
  have hidle : I (playIdleOfMoveType w l) := by
    unfold playIdleOfMoveType
    repeat' (first
      | with_reducible exact h0
      | rfl
      | with_reducible apply hI
      | split
      | dsimp only)
  have hfollow : ∀ w1 : World, I w1 → I (playFollowUp w1 l) := by
    intro w1 h1
    unfold playFollowUp
    repeat' (first
      | with_reducible exact h1
      | rfl
      | with_reducible apply hI
      | split)
  unfold playResolved
  split
  · split
    · dsimp only
      refine hfollow _ (hI _ _ (by rfl) ?_)
      split
      · exact hA _ _ _ (hI _ _ (by rfl) hidle)
      · exact hI _ _ (by rfl) hidle
    · exact h0
  · exact h0

theorem resolvePhase_third (I : World → Prop)
    (hI : ∀ w e, Effect.onFirst e = false → I w → I (w.perform e))
    (hA : ∀ w action sequence, I w → I (w.SetAnimActionAndSequence action sequence))
    (hW : ∀ w out, I w → I (w.SetWeaponOut out))
    (turnSpeed : ℚ) {w : World} (hp : w.isPlayer = false) (h0 : I w) (l : Locals) :
    I (resolvePhase turnSpeed w l) := by
  have hd : I (dropUnresolved w l (AnimGroupID.GetGroupID (resolvedID w l))).1 := by
    unfold dropUnresolved
    repeat' (first
      | with_reducible exact h0
      | with_reducible apply hW
      | split)
  have hk := (dropUnresolved_keeps w l (AnimGroupID.GetGroupID (resolvedID w l))).2
  unfold resolvePhase
  dsimp only
  generalize dropUnresolved w l (AnimGroupID.GetGroupID (resolvedID w l)) = d at hd hk
  obtain ⟨wd, ad⟩ := d
  dsimp only at hd hk ⊢
  split
  · split
    · split
      · unfold forceScriptSpeed
        repeat' (first
          | with_reducible exact hd
          | rfl
          | with_reducible apply hI
          | split
          | dsimp only)
      · exact hd
    · have hc : ∀ l1 : Locals, I (commitSpeed turnSpeed wd l1 (resolvedID w l)) := by
        intro l1
        unfold commitSpeed
        repeat' (first
          | with_reducible exact hd
          | rfl
          | with_reducible apply hI
          | split)
      have hatk : ∀ we : World, I we → I (attackHook we) := by
        intro we he
        unfold attackHook
        repeat' (first
          | with_reducible exact he
          | rfl
          | with_reducible apply hI
          | split)
      refine hatk _ (endMovement_third I hI ?_
        (playResolved_third I hI hA (hc _) _ (resolvedID w l)) _)
      rw [(playResolved_keeps _ _ _).2, (commitSpeed_keeps _ _ _ _).2, hk, hp]
  · exact h0

theorem endStaleWeaponSequence_third (I : World → Prop)
    (hI : ∀ w e, Effect.onFirst e = false → I w → I (w.perform e))
    {w w1 : World} (h0 : I w)
    (h : endStaleWeaponSequence Rig.third w = Except.ok w1) : I w1 := by
  unfold endStaleWeaponSequence at h
  simp only [deref, bind, Except.bind, pure, Except.pure] at h
  repeat' split at h
  all_goals
    cases h
    repeat' (first
      | with_reducible exact h0
      | rfl
      | with_reducible apply hI)

/-- Whatever holds at the start of a tick of an entity other than the
player, and is kept by every call that is not addressed to the close-up rig,
holds when the tick returns. -/
theorem tick_third (I : World → Prop)
    (hI : ∀ w e, Effect.onFirst e = false → I w → I (w.perform e))
    (hA : ∀ w action sequence, I w → I (w.SetAnimActionAndSequence action sequence))
    (hW : ∀ w out, I w → I (w.SetWeaponOut out))
    (movementSpeed turnSpeed : ℚ) (w w2 : World) (hp : w.isPlayer = false) (h0 : I w)
    (h : Actor.PickAnimations movementSpeed turnSpeed w = Except.ok w2) : I w2 := by
  unfold Actor.PickAnimations at h
  split at h
  · split at h
    · rename_i hfp
      rw [hp] at hfp
      exact absurd hfp.1 (by decide)
    · split at h
      · split at h
        · rename_i charController hcc
          cases h1 : endStaleWeaponSequences w with
          | error e => simp [h1, bind, Except.bind] at h
          | ok w1 =>
            simp only [h1, bind, Except.bind] at h
            have hk := host_keeps (endStaleWeaponSequences_host (World.sameHost_refl w) h1)
            have ha : I w1 := by
              unfold endStaleWeaponSequences at h1
              cases h3 : endStaleWeaponSequence Rig.third w with
              | error e => simp [h3, bind, Except.bind] at h1
              | ok wa =>
                simp only [h3, bind, Except.bind, pure, Except.pure] at h1
                have h4 : I wa := endStaleWeaponSequence_third I hI h0 h3
                have h5 := host_keeps
                  (endStaleWeaponSequence_host Rig.third (World.sameHost_refl w) h3)
                rw [h5.2, hp] at h1
                cases h1
                exact h4
            unfold body at h
            cases hc : classified charController movementSpeed w1 with
            | error e => simp [hc, bind, Except.bind] at h
            | ok p =>
              obtain ⟨w3, l3⟩ := p
              simp only [hc, bind, Except.bind, pure, Except.pure] at h
              cases h
              obtain ⟨wa, la, lb, lc, hact, hr, -, -⟩ :=
                classified_steps charController movementSpeed w1 w3 l3 hc
              have hk3 := host_keeps (classified_host charController movementSpeed w1 w3 l3 hc)
              refine resolvePhase_third I hI hA hW turnSpeed (by rw [hk3.2, hk.2, hp])
                (requestPhase_third I hI charController
                  (actionPhase_third I hI hA hW charController (by rw [hk.2, hp]) ha hact) hr) l3
        · cases h
          exact h0
      · cases h
        exact h0
  · cases h
    exact h0

/-- The requests of lines 466-540 leave the action and its sequence as they
are: they only make calls. -/
theorem requestPhase_context (charController : bhkCharacterController) (w : World)
    (l : Locals) :
    (requestPhase charController w l).1.GetCurrentAnimAction = w.GetCurrentAnimAction ∧
      (requestPhase charController w l).1.GetCurrentSequence = w.GetCurrentSequence :=
  requestPhase_third
    (fun w1 => w1.GetCurrentAnimAction = w.GetCurrentAnimAction ∧
      w1.GetCurrentSequence = w.GetCurrentSequence)
    (fun _ _ _ h => h) charController ⟨rfl, rfl⟩ rfl

/-- A tick that starts with an action in flight and requests no landing
requests nothing. -/
theorem requestPhase_no_landing (charController : bhkCharacterController) (w : World)
    (l : Locals) (ha : l.animAction = -1) (hc : l.currentAnimAction ≠ -1)
    (h : w.GetSitSleepState ≠ kSitSleepState_Normal ∨
      charController.GetContextHkState ≠ 0 ∨
      ∀ v, l.v159 = some v →
        (w.group v).IsJumping = false ∧ (w.group v).GetSequenceGroup ≠ kAnimGroup_JumpStart) :
    (requestPhase charController w l).2.animAction = -1 := by
  have hU : ∀ (w1 : World) (l1 : Locals), l1.currentAnimAction ≠ -1 →
      ¬ (¬ w1.GetWantsWeaponOut_IfSwimmingCancelVATS = true ∧ w1.IsWeaponOut = true ∧
        l1.currentAnimAction = -1 ∧ ¬ w1.Unk_8D = true ∧ ¬ w1.IsDying = true ∧
        ¬ w1.GetKnockedState = true ∧ ¬ w1.GetIsRestrained = true ∧
        ¬ w1.GetIsUnConscious = true) := fun _ _ h1 hx => h1 hx.2.2.1
  unfold requestPhase
  rw [if_pos ha]
  by_cases hs : w.GetSitSleepState = kSitSleepState_Normal
  · have h1 : charController.GetContextHkState ≠ 0 ∨
        ∀ v, l.v159 = some v →
          (w.group v).IsJumping = false ∧
            (w.group v).GetSequenceGroup ≠ kAnimGroup_JumpStart := by
      rcases h with h | h
      · exact absurd hs h
      · exact h
    have hj : (jumpOrLand charController w l).2.animAction = -1 ∧
        (jumpOrLand charController w l).2.currentAnimAction ≠ -1 := by
      unfold jumpOrLand
      dsimp only
      split
      · repeat' split
        all_goals exact ⟨ha, hc⟩
      · rename_i h0
        split
        · rename_i v hv
          split
          · rename_i hjump
            rcases h1 with h1 | h1
            · exact absurd h1 h0
            · obtain ⟨h2, h3⟩ := h1 v hv
              rcases hjump with hjump | hjump
              · rw [h2] at hjump
                exact Bool.noConfusion hjump
              · exact absurd hjump h3
          · exact ⟨ha, hc⟩
        · exact ⟨ha, hc⟩
    have hp : ∀ (c : Prop) [Decidable c],
        (if c then jumpOrLand charController w l else (w, l)).2.animAction = -1 ∧
          (if c then jumpOrLand charController w l else (w, l)).2.currentAnimAction ≠ -1 := by
      intro c _
      split
      · exact hj
      · exact ⟨ha, hc⟩
    rw [if_pos hs]
    have hq := hp (l.currentAnimAction = -1 ∨ l.currentAnimAction = kAAP1_Unequip_Weapon ∨
      l.currentAnimAction = kAAP1_Attack_Eject ∨ l.currentAnimAction = kAAP1_Dodge)
    revert hq
    generalize (if l.currentAnimAction = -1 ∨ l.currentAnimAction = kAAP1_Unequip_Weapon ∨
      l.currentAnimAction = kAAP1_Attack_Eject ∨ l.currentAnimAction = kAAP1_Dodge then
      jumpOrLand charController w l else (w, l)) = p1
    obtain ⟨wj, lj⟩ := p1
    intro hq
    simp only [] at hq ⊢
    have hE : ¬ (wj.GetWantsWeaponOut_IfSwimmingCancelVATS = true ∧ ¬ wj.IsWeaponOut = true ∧
        lj.currentAnimAction = -1 ∧ wj.Actor_8843A0 = true) := fun hx => hq.2 hx.2.2.1
    rw [if_neg hE]
    simp only []
    rw [if_neg (hU wj lj hq.2)]
    exact hq.1
  · rw [if_neg hs]
    simp only []
    rw [if_neg (hU w l hc)]
    exact ha

/-- Lines 200-274: in a tick that starts in Attack with a live sequence that plays on
the weapon channel, whose key type is not looping/aim, with the weapon
channel at the hit/detach stage and the actor still doing an attack
animation, the action phase (lines 81-465) returns, and: if the key type of
the group playing on the weapon channel is plain Attack, the action becomes
Attack_Eject on the same sequence when a weapon is present that is neither
automatic nor melee, and Attack_Follow_Through when there is no weapon or
it is automatic or melee; if that key type is the power attack, the action
becomes Attack_Follow_Through on the same sequence and no Attack_Eject is
recorded, whatever the weapon. -/
theorem actionPhase_hit_stage (charController : bhkCharacterController) (w : World) (s : Nat)
    (hcur : w.GetCurrentAnimAction = kAnimAction_Attack)
    (hseq : w.GetCurrentSequence = some s)
    (hlive : (w.rigs.seq s).GetState ≠ 0)
    (hchan : w.g_animSequenceTypes (9 * (w.group s).GetSequenceGroup) = kSequence_Weapon)
    (hkey : w.g_animKeyTypes (9 * (w.group s).GetSequenceGroup)
      ≠ kAnimKeyType_LoopingSequenceOrAim)
    (hstage : w.rigs.third.GetSequenceState1 kSequence_Weapon = kSeqState_HitOrDetach)
    (hdoing : w.IsDoingAttackAnimation = true) :
    ∃ w1, actionPhase charController w (initLocals w) = Except.ok (w1, initLocals w) ∧
      (w.g_animKeyTypes (9 * AnimGroupID.GetGroupID
          (w.rigs.third.GetNthSequenceGroupID kSequence_Weapon)) = kAnimKeyType_Attack →
        w1.GetCurrentSequence = some s ∧
        ((∃ weap, w.weap = some weap ∧ weap.IsAutomatic = false ∧ weap.IsMeleeWeapon = false) →
          w1.GetCurrentAnimAction = kAnimAction_Attack_Eject) ∧
        ((w.weap = none ∨ ∃ weap, w.weap = some weap ∧
            (weap.IsAutomatic = true ∨ weap.IsMeleeWeapon = true)) →
          w1.GetCurrentAnimAction = kAnimAction_Attack_Follow_Through)) ∧
      (w.g_animKeyTypes (9 * AnimGroupID.GetGroupID
          (w.rigs.third.GetNthSequenceGroupID kSequence_Weapon))
          = kAnimKeyType_PowerAttackOrPipboy →
        w1.GetCurrentSequence = some s ∧
        w1.GetCurrentAnimAction = kAnimAction_Attack_Follow_Through ∧
        ∀ q, Effect.SetAnimActionAndSequence kAnimAction_Attack_Eject q ∈ w1.trace →
          Effect.SetAnimActionAndSequence kAnimAction_Attack_Eject q ∈ w.trace) := by
  have hne : kSequence_Weapon ≠ kSequence_LeftArm := by decide
  obtain ⟨fa1, fa2, fa4⟩ := fireAttack_fields w
  obtain ⟨fp1, fp2, fp5⟩ := firePowerAttack_fields w
  have hweap : (fireAttack w).weap = w.weap := by simp [World.weap, fa4]
  have hcur1 : (initLocals w).currentAnimAction = kAnimAction_Attack := hcur
  rw [actionPhase_live charController w _ s (by rw [hcur1]; decide) hseq hlive,
    switchAction_attack charController w _ hcur1]
  simp only [caseAttack, deref, hseq, bind, Except.bind, hchan, hne, if_false, if_true, hkey,
    hstage, ne_eq, not_false_eq_true, and_self, fa1, fa2, fp1, fp2, hdoing, pure, Except.pure]
  by_cases h4 : w.g_animKeyTypes (9 * AnimGroupID.GetGroupID
      (w.rigs.third.GetNthSequenceGroupID kSequence_Weapon)) = kAnimKeyType_Attack
  · have h5 : kAnimKeyType_Attack ≠ kAnimKeyType_PowerAttackOrPipboy := by decide
    simp only [h4, if_true, h5, false_implies, and_true, true_implies]
    by_cases hf : followsThrough (fireAttack w) = true
    · simp only [hf, if_true, Except.map]
      refine ⟨_, rfl, rfl, ?_, fun _ => rfl⟩
      rintro ⟨weap, hw, ha, hm⟩
      simp [followsThrough, hweap, hw, ha, hm] at hf
    · simp only [hf, if_false, Except.map]
      refine ⟨_, rfl, rfl, fun _ => rfl, ?_⟩
      rintro (hw | ⟨weap, hw, ha⟩)
      · simp [followsThrough, hweap, hw] at hf
      · rcases ha with ha | ha <;> simp [followsThrough, hweap, hw, ha] at hf
  · simp only [h4, if_false, false_implies, true_and]
    by_cases h5 : w.g_animKeyTypes (9 * AnimGroupID.GetGroupID
        (w.rigs.third.GetNthSequenceGroupID kSequence_Weapon)) = kAnimKeyType_PowerAttackOrPipboy
    · simp only [h5, if_true, Except.map, true_implies]
      refine ⟨_, rfl, rfl, rfl, ?_⟩
      intro q hq
      simp only [World.SetAnimActionAndSequence, List.mem_append, List.mem_singleton] at hq
      rcases hq with hq | hq
      · exact fp5 _ _ hq
      · injection hq with hq1; exact absurd hq1 (by decide)
    · simp only [h5, if_false, false_implies, and_true]
      split <;> exact ⟨_, rfl⟩

/-- The low byte of an id whose low byte was cleared with `& 0xFF00` and then
set to a group below 256 (lines 704, 709, 716, 798, 803, 810) is that group. -/
theorem group_of_masked (x b : Nat) (hb : b < 256) :
    AnimGroupID.GetGroupID ((x &&& 0xFF00) ||| b) = b := by
  have h0 : (x &&& 0xFF00) % 2 ^ 8 = 0 := by
    apply Nat.eq_of_testBit_eq
    intro i
    rw [Nat.testBit_mod_two_pow, Nat.testBit_and, Nat.zero_testBit]
    by_cases hi : i < 8
    · have h : Nat.testBit 0xFF00 i = false := by
        interval_cases i <;> rfl
      rw [h]
      simp
    · simp [hi]
  have h1 : x &&& 0xFF00 = 2 ^ 8 * ((x &&& 0xFF00) / 256) := by
    have := Nat.div_add_mod (x &&& 0xFF00) 256
    omega
  have h2 : 2 ^ 8 * ((x &&& 0xFF00) / 256) + b = 2 ^ 8 * ((x &&& 0xFF00) / 256) ||| b :=
    Nat.mul_add_lt_is_or (by omega) _
  unfold AnimGroupID.GetGroupID
  rw [h1, ← h2]
  omega

/-- The low byte of an id whose low byte was cleared with `& ~0xFF`, written
`id / 256 * 256`, and then set to a group below 256 is that group. -/
theorem group_of_cleared (x b : Nat) (hb : b < 256) :
    AnimGroupID.GetGroupID ((x / 256 * 256) ||| b) = b := by
  have h1 : x / 256 * 256 = 2 ^ 8 * (x / 256) := by omega
  have h2 : 2 ^ 8 * (x / 256) + b = 2 ^ 8 * (x / 256) ||| b :=
    Nat.mul_add_lt_is_or (by omega) _
  unfold AnimGroupID.GetGroupID
  rw [h1, ← h2]
  omega

/-- Lines 692-716: the group of the adjusted id of a forced script animation,
from the group that plays on the movement channel. For actor type 0 line 716
rewrites every id to Forward; for the other actor types Backward, Left, Right
and the dodge groups become Forward and the fast side groups FastForward. -/
theorem forceScriptGroupID_group (w : World) :
    AnimGroupID.GetGroupID (forceScriptGroupID w) =
      if w.GetActorType ≠ 0 then
        if isSideOrDodge
            (AnimGroupID.GetGroupID (w.rigs.third.GetNthSequenceGroupID kSequence_Movement)) then
          kAnimGroup_Forward
        else if isFastSide
            (AnimGroupID.GetGroupID (w.rigs.third.GetNthSequenceGroupID kSequence_Movement)) then
          kAnimGroup_FastForward
        else AnimGroupID.GetGroupID (w.rigs.third.GetNthSequenceGroupID kSequence_Movement)
      else kAnimGroup_Forward := by
  unfold forceScriptGroupID
  simp only []
  split
  · split
    · exact group_of_cleared _ _ (by decide)
    · split
      · exact group_of_cleared _ _ (by decide)
      · rfl
  · exact group_of_masked _ 3 (by decide)

/-- Lines 692-735: when the actor type is 0, or a directional, fast or dodge
group plays on the movement channel, the adjusted id carries Forward or
FastForward, and it carries FastForward exactly when the actor type is not 0
and a fast group plays. -/
theorem forceScriptGroupID_movement (w : World)
    (h : w.GetActorType = 0 ∨
      (kAnimGroup_Forward ≤
          AnimGroupID.GetGroupID (w.rigs.third.GetNthSequenceGroupID kSequence_Movement) ∧
        AnimGroupID.GetGroupID (w.rigs.third.GetNthSequenceGroupID kSequence_Movement)
          ≤ kAnimGroup_DodgeRight)) :
    kAnimGroup_Forward ≤ AnimGroupID.GetGroupID (forceScriptGroupID w) ∧
    AnimGroupID.GetGroupID (forceScriptGroupID w) ≤ kAnimGroup_DodgeRight ∧
    ((AnimGroupID.GetGroupID (forceScriptGroupID w) = kAnimGroup_FastForward ∨
        isFastSide (AnimGroupID.GetGroupID (forceScriptGroupID w)) = true) ↔
      (w.GetActorType ≠ 0 ∧
        (AnimGroupID.GetGroupID (w.rigs.third.GetNthSequenceGroupID kSequence_Movement)
            = kAnimGroup_FastForward ∨
          isFastSide
            (AnimGroupID.GetGroupID (w.rigs.third.GetNthSequenceGroupID kSequence_Movement))
            = true))) := by
  rw [forceScriptGroupID_group]
  by_cases ht : w.GetActorType = 0
  · rw [if_neg (not_not.mpr ht)]
    exact ⟨by decide, by decide, by simp [ht, kAnimGroup_Forward, kAnimGroup_FastForward,
      isFastSide, kAnimGroup_FastBackward, kAnimGroup_FastLeft, kAnimGroup_FastRight]⟩
  · rw [if_pos ht]
    rcases h with h | ⟨h1, h2⟩
    · exact absurd h ht
    · revert h1 h2
      generalize AnimGroupID.GetGroupID
        (w.rigs.third.GetNthSequenceGroupID kSequence_Movement) = g
      intro h1 h2
      have a : 3 ≤ g := h1
      have b : g ≤ 14 := h2
      interval_cases g <;> simp [ht, isSideOrDodge, isFastSide, kAnimGroup_Forward,
        kAnimGroup_Backward, kAnimGroup_Left, kAnimGroup_Right, kAnimGroup_FastForward,
        kAnimGroup_FastBackward, kAnimGroup_FastLeft, kAnimGroup_FastRight,
        kAnimGroup_DodgeForward, kAnimGroup_DodgeBack, kAnimGroup_DodgeLeft,
        kAnimGroup_DodgeRight]

/-- Lines 666-687 under the contract of the resolver: a resolved id that
carries a group up to TurnRight is not the sentinel, so it carries the base
group of the key. -/
theorem carry_of_contract (w : World) (l : Locals) (h : resolverKeepsGroup w l = true)
    (h2 : AnimGroupID.GetGroupID (resolvedID w l) ≤ kAnimGroup_TurnRight) :
    AnimGroupID.GetGroupID (resolvedID w l) = dropSlowMovement l := by
  unfold resolverKeepsGroup at h
  rw [Bool.or_eq_true, beq_iff_eq, beq_iff_eq] at h
  rcases h with h | h
  · exact h
  · rw [h] at h2
    exact absurd h2 (by decide)

end Actor.PickAnimations

/-! ## The claims -/

open Actor.PickAnimations

/-- C1 as stated fails: the landing entity is mid-attack with the
semi-automatic pistol (neither automatic nor melee) on a live sequence of
the weapon channel, key type plain Attack, at the hit stage and still doing
an attack animation. The action phase sets Attack_Eject, but the same tick
then requests a landing (the switch of line 470 admits a tick that starts in
Attack), plays JumpLand and ends in Wait_For_Lower_Body_Anim on the movement
sequence. -/
theorem C1_counterexample :
    Example.landingHitWorld.GetCurrentAnimAction = kAnimAction_Attack ∧
    Example.landingHitWorld.GetCurrentSequence = some 7 ∧
    (Example.landingHitWorld.rigs.seq 7).GetState = kAnimState_Animating ∧
    Example.landingHitWorld.g_animSequenceTypes
      (9 * (Example.landingHitWorld.group 7).GetSequenceGroup) = kSequence_Weapon ∧
    Example.landingHitWorld.g_animKeyTypes
      (9 * (Example.landingHitWorld.group 7).GetSequenceGroup) = kAnimKeyType_Attack ∧
    Example.landingHitWorld.rigs.third.GetSequenceState1 kSequence_Weapon
      = kSeqState_HitOrDetach ∧
    Example.landingHitWorld.IsDoingAttackAnimation = true ∧
    Example.landingHitWorld.g_animKeyTypes (9 * AnimGroupID.GetGroupID
      (Example.landingHitWorld.rigs.third.GetNthSequenceGroupID kSequence_Weapon))
      = kAnimKeyType_Attack ∧
    Example.landingHitWorld.weap = some Example.pistol ∧
    Example.pistol.IsAutomatic = false ∧ Example.pistol.IsMeleeWeapon = false ∧
    (∃ w1, actionPhase Example.onGround Example.landingHitWorld
        (initLocals Example.landingHitWorld)
          = Except.ok (w1, initLocals Example.landingHitWorld) ∧
      w1.GetCurrentAnimAction = kAnimAction_Attack_Eject ∧
      w1.GetCurrentSequence = some 7) ∧
    ∃ w2, Actor.PickAnimations 1 0 Example.landingHitWorld = Except.ok w2 ∧
      w2.GetCurrentAnimAction = kAnimAction_Wait_For_Lower_Body_Anim ∧
      w2.GetCurrentSequence = some 9 ∧
      w2.trace = [Effect.SetQueuedIdleFlag,
        Effect.SetAnimActionAndSequence kAnimAction_Attack_Eject (some 7),
        Effect.SetByte120To1,
        Effect.PlayLandJumpSound Example.onGround.GetCycleType__Unk24,
        Effect.PlayAnimGroup kAnimGroup_JumpLand 1,
        Effect.SetAnimActionAndSequence kAnimAction_Wait_For_Lower_Body_Anim (some 9),
        Effect.PlayFirstPersonAnimation, Effect.sub_8A5340, Effect.Unk_117] :=
  ⟨rfl, rfl, rfl, rfl, rfl, rfl, rfl, rfl, rfl, rfl, rfl, ⟨_, rfl, rfl, rfl⟩,
    _, rfl, rfl, rfl, rfl⟩

/-- C1, amended: in a tick that starts in Attack with a live sequence that
plays on the weapon channel, whose key type is not looping/aim, with the
weapon channel at the hit/detach stage and the actor still doing an attack
animation, the action phase (lines 81-465) returns, and: if the key type of
the group playing on the weapon channel is plain Attack, the action becomes
Attack_Eject on the same sequence when a weapon is present that is neither
automatic nor melee, and Attack_Follow_Through when there is no weapon or
it is automatic or melee; if that key type is the power attack, the action
becomes Attack_Follow_Through on the same sequence and no Attack_Eject is
recorded, whatever the weapon. The rest of the tick keeps that action and
its sequence when lines 466-540 request no new action, and they request
none when the sit/sleep state is not Normal, or the controller is not on the
ground, or the movement channel has no sequence that is a jump animation or
of group JumpStart (no landing). -/
theorem C1_attack_hit_stage (charController : bhkCharacterController) (w : World) (s : Nat)
    (hcur : w.GetCurrentAnimAction = kAnimAction_Attack)
    (hseq : w.GetCurrentSequence = some s)
    (hlive : (w.rigs.seq s).GetState ≠ 0)
    (hchan : w.g_animSequenceTypes (9 * (w.group s).GetSequenceGroup) = kSequence_Weapon)
    (hkey : w.g_animKeyTypes (9 * (w.group s).GetSequenceGroup)
      ≠ kAnimKeyType_LoopingSequenceOrAim)
    (hstage : w.rigs.third.GetSequenceState1 kSequence_Weapon = kSeqState_HitOrDetach)
    (hdoing : w.IsDoingAttackAnimation = true) :
    ∃ w1, actionPhase charController w (initLocals w) = Except.ok (w1, initLocals w) ∧
      (w.g_animKeyTypes (9 * AnimGroupID.GetGroupID
          (w.rigs.third.GetNthSequenceGroupID kSequence_Weapon)) = kAnimKeyType_Attack →
        w1.GetCurrentSequence = some s ∧
        ((∃ weap, w.weap = some weap ∧ weap.IsAutomatic = false ∧ weap.IsMeleeWeapon = false) →
          w1.GetCurrentAnimAction = kAnimAction_Attack_Eject) ∧
        ((w.weap = none ∨ ∃ weap, w.weap = some weap ∧
            (weap.IsAutomatic = true ∨ weap.IsMeleeWeapon = true)) →
          w1.GetCurrentAnimAction = kAnimAction_Attack_Follow_Through)) ∧
      (w.g_animKeyTypes (9 * AnimGroupID.GetGroupID
          (w.rigs.third.GetNthSequenceGroupID kSequence_Weapon))
          = kAnimKeyType_PowerAttackOrPipboy →
        w1.GetCurrentSequence = some s ∧
        w1.GetCurrentAnimAction = kAnimAction_Attack_Follow_Through ∧
        ∀ q, Effect.SetAnimActionAndSequence kAnimAction_Attack_Eject q ∈ w1.trace →
          Effect.SetAnimActionAndSequence kAnimAction_Attack_Eject q ∈ w.trace) ∧
      ((w1.GetSitSleepState ≠ kSitSleepState_Normal ∨
          charController.GetContextHkState ≠ 0 ∨
          ∀ v, (initLocals w).v159 = some v →
            (w1.group v).IsJumping = false ∧
              (w1.group v).GetSequenceGroup ≠ kAnimGroup_JumpStart) →
        (requestPhase charController w1 (initLocals w)).2.animAction = -1) ∧
      ∀ (movementSpeed turnSpeed : ℚ) (w2 : World),
        (requestPhase charController w1 (initLocals w)).2.animAction = -1 →
        body charController movementSpeed turnSpeed w = Except.ok w2 →
          w2.GetCurrentAnimAction = w1.GetCurrentAnimAction ∧
            w2.GetCurrentSequence = w1.GetCurrentSequence := by
  obtain ⟨w1, ha, hplain, hpower⟩ :=
    actionPhase_hit_stage charController w s hcur hseq hlive hchan hkey hstage hdoing
  have hc0 : (initLocals w).currentAnimAction ≠ -1 := by
    show w.GetCurrentAnimAction ≠ -1
    rw [hcur]
    decide
  refine ⟨w1, ha, hplain, hpower, ?_, ?_⟩
  · exact requestPhase_no_landing charController w1 (initLocals w) rfl hc0
  · intro movementSpeed turnSpeed w2 hreq hb
    unfold body at hb
    cases hc : classified charController movementSpeed w with
    | error e => simp [hc, bind, Except.bind] at hb
    | ok p =>
      obtain ⟨w3, l3⟩ := p
      simp only [hc, bind, Except.bind, pure, Except.pure] at hb
      cases hb
      obtain ⟨wa, la, lb, lc, hact, hr, hh, hcl⟩ :=
        classified_steps charController movementSpeed w w3 l3 hc
      rw [ha] at hact
      cases hact
      have hctx := requestPhase_context charController w1 (initLocals w)
      rw [hr] at hctx hreq
      dsimp only at hctx hreq
      have h3 : l3.animAction = -1 := by
        rw [(classify_keeps movementSpeed w3 _ l3 hcl).1]
        show (pickMoveType w3 lc).animAction = -1
        have h4 : (pickMoveType w3 lc).animAction = lc.animAction := by
          unfold pickMoveType
          repeat' split
          all_goals rfl
        rw [h4, (pickHandType_keeps w3 lb lc hh).1]
        exact hreq
      obtain ⟨-, h5, h6, -⟩ := resolvePhase_performs (fun _ => True) (fun _ => trivial)
        (fun _ => trivial) (fun _ _ => trivial) trivial (fun _ _ => trivial) trivial trivial
        turnSpeed w3 l3 h3
      exact ⟨h5.trans hctx.1, h6.trans hctx.2⟩

/-- C1, amended, at a concrete input: mid-attack with a semi-automatic
pistol at the hit stage and nothing on the movement channel, the action
phase sets Attack_Eject and the tick ends in it. -/
theorem C1_attack_hit_stage_witness :
    ∃ w1 w2, actionPhase Example.onGround Example.attackWorld (initLocals Example.attackWorld)
        = Except.ok (w1, initLocals Example.attackWorld) ∧
      w1.GetCurrentSequence = some 7 ∧
      w1.GetCurrentAnimAction = kAnimAction_Attack_Eject ∧
      body Example.onGround 1 0 Example.attackWorld = Except.ok w2 ∧
      w2.GetCurrentSequence = some 7 ∧
      w2.GetCurrentAnimAction = kAnimAction_Attack_Eject := by
  obtain ⟨w1, h, hA, -, hno, htick⟩ :=
    C1_attack_hit_stage Example.onGround Example.attackWorld 7
      rfl rfl (by decide) (by decide) (by decide) (by decide) rfl
  have h1 := hA (by decide)
  have h2 : ∃ w2, body Example.onGround 1 0 Example.attackWorld = Except.ok w2 :=
    ⟨_, rfl⟩
  obtain ⟨w2, hb⟩ := h2
  have h3 := htick 1 0 w2
    (hno (Or.inr (Or.inr (fun v hv => by cases hv)))) hb
  have h4 := h1.2.1 ⟨Example.pistol, rfl, rfl, rfl⟩
  exact ⟨w1, w2, h, h1.1, h4, hb, h3.2.trans h1.1, h3.1.trans h4⟩

/-- C2: in every tick that starts in Equip_Weapon or Unequip_Weapon with a
live current sequence while the weapon channel's progress stage is below
kSeqState_HitOrDetach, the action phase changes nothing: it records no call
(no SetWeaponOut, no SetEquippedWeaponPosition, no AimWeapon) and leaves the
weapon-out flag as it was; this holds for every tick of any list of such
ticks. -/
theorem C2_no_premature_commit (charController : bhkCharacterController) (ticks : List World)
    (h : ∀ w ∈ ticks,
      (w.GetCurrentAnimAction = kAnimAction_Equip_Weapon ∨
        w.GetCurrentAnimAction = kAnimAction_Unequip_Weapon) ∧
      (∃ s, w.GetCurrentSequence = some s ∧ (w.rigs.seq s).GetState ≠ 0) ∧
      w.rigs.third.GetSequenceState1 kSequence_Weapon < kSeqState_HitOrDetach) :
    ∀ w ∈ ticks, actionPhase charController w (initLocals w) = Except.ok (w, initLocals w) := by
  intro w hw
  obtain ⟨hcur, ⟨s, hseq, hlive⟩, hstage⟩ := h w hw
  have hcur1 : (initLocals w).currentAnimAction = kAnimAction_Equip_Weapon ∨
      (initLocals w).currentAnimAction = kAnimAction_Unequip_Weapon := hcur
  have hne : (initLocals w).currentAnimAction ≠ kAnimAction_None := by
    rcases hcur1 with h1 | h1 <;> rw [h1] <;> decide
  rw [actionPhase_live charController w _ s hne hseq hlive,
    switchAction_equip charController w _ hcur1]
  simp [caseEquipUnequip, Nat.not_le.mpr hstage]

/-- C2 at a concrete input: a tick of a run of two ticks of an equip below
the hit stage changes nothing in its action phase. -/
theorem C2_no_premature_commit_witness :
    actionPhase Example.onGround (Example.equipWorld false 0)
        (initLocals (Example.equipWorld false 0))
      = Except.ok (Example.equipWorld false 0, initLocals (Example.equipWorld false 0)) :=
  C2_no_premature_commit Example.onGround [Example.equipWorld false 0, Example.equipWorld false 0]
    (by
      intro w hw
      simp only [List.mem_cons, List.mem_singleton, List.not_mem_nil, or_false, or_self] at hw
      subst hw
      exact ⟨Or.inl rfl, ⟨7, rfl, by decide⟩, by decide⟩)
    (Example.equipWorld false 0) (by simp)

/-- C3 as stated fails: a one-tick run in Equip_Weapon on a live sequence
whose first (and only) tick has the weapon channel at the hit/detach stage,
but whose weapon-out flag already matches the requested phase, performs no
commit at all. -/
theorem C3_counterexample :
    (Example.equipWorld true 1).GetCurrentAnimAction = kAnimAction_Equip_Weapon ∧
    (Example.equipWorld true 1).GetCurrentSequence = some 7 ∧
    ((Example.equipWorld true 1).rigs.seq 7).GetState ≠ 0 ∧
    kSeqState_HitOrDetach
      ≤ (Example.equipWorld true 1).rigs.third.GetSequenceState1 kSequence_Weapon ∧
    Actor.PickAnimations.actionPhase Example.onGround (Example.equipWorld true 1)
        (Actor.PickAnimations.initLocals (Example.equipWorld true 1))
      = Except.ok (Example.equipWorld true 1,
          Actor.PickAnimations.initLocals (Example.equipWorld true 1)) ∧
    (Example.equipWorld true 1).trace = [] := by
  refine ⟨rfl, rfl, by decide, by decide, ?_, rfl⟩
  rw [Actor.PickAnimations.actionPhase_equip _ _ (Or.inl rfl) ⟨7, rfl, by decide⟩,
    Actor.PickAnimations.caseEquipUnequip_idle _ _ (Or.inl (by decide))]

/-- C3, amended: over a run of `n` consecutive ticks that stay in the same
action, Equip_Weapon or Unequip_Weapon, on a live sequence, that starts with
the weapon-out flag differing from the requested phase and in which the
flag at each next tick is the one the previous action phase left, the
commit is performed in exactly the first tick whose weapon-channel progress
stage is at or above kSeqState_HitOrDetach: that tick records SetWeaponOut
once, then the weapon positioning and the aim refresh, and ends with the
flag matching the phase; every other tick of the run, earlier or later,
changes nothing in its action phase. -/
theorem C3_single_commit (charController : bhkCharacterController) (action : Int)
    (run : Nat → World) (n : Nat)
    (haction : action = kAnimAction_Equip_Weapon ∨ action = kAnimAction_Unequip_Weapon)
    (hstay : ∀ i, i < n → (run i).GetCurrentAnimAction = action ∧
      ∃ s, (run i).GetCurrentSequence = some s ∧ ((run i).rigs.seq s).GetState ≠ 0)
    (hstart : (run 0).IsWeaponOut ≠ decide (action = kAnimAction_Equip_Weapon))
    (hlink : ∀ i, i + 1 < n → ∀ w1 l1,
      actionPhase charController (run i) (initLocals (run i)) = Except.ok (w1, l1) →
      (run (i + 1)).IsWeaponOut = w1.IsWeaponOut) :
    ∀ i, i < n →
      ((kSeqState_HitOrDetach ≤ (run i).rigs.third.GetSequenceState1 kSequence_Weapon ∧
          ∀ j, j < i →
            (run j).rigs.third.GetSequenceState1 kSequence_Weapon < kSeqState_HitOrDetach) →
        ∃ w1 es, actionPhase charController (run i) (initLocals (run i))
            = Except.ok (w1, initLocals (run i)) ∧
          w1.trace = (run i).trace ++
            Effect.SetWeaponOut (decide (action = kAnimAction_Equip_Weapon)) :: es ∧
          Effect.SetEquippedWeaponPosition ∈ es ∧ Effect.AimWeapon ∈ es ∧
          (∀ b, Effect.SetWeaponOut b ∉ es) ∧
          w1.IsWeaponOut = decide (action = kAnimAction_Equip_Weapon)) ∧
      (¬ (kSeqState_HitOrDetach ≤ (run i).rigs.third.GetSequenceState1 kSequence_Weapon ∧
          ∀ j, j < i →
            (run j).rigs.third.GetSequenceState1 kSequence_Weapon < kSeqState_HitOrDetach) →
        actionPhase charController (run i) (initLocals (run i))
          = Except.ok (run i, initLocals (run i))) := by
  have hphase : ∀ i, i < n → actionPhase charController (run i) (initLocals (run i))
      = Except.ok (caseEquipUnequip (run i) action, initLocals (run i)) := by
    intro i hi
    obtain ⟨hc, hs⟩ := hstay i hi
    rw [actionPhase_equip charController (run i) (by rw [hc]; exact haction) hs, hc]
  -- the flag differs from the phase until the first tick at the stage, and matches after
  have hinv : ∀ i, i < n →
      ((∀ j, j < i →
          (run j).rigs.third.GetSequenceState1 kSequence_Weapon < kSeqState_HitOrDetach) →
        (run i).IsWeaponOut ≠ decide (action = kAnimAction_Equip_Weapon)) ∧
      ((∃ j, j < i ∧
          kSeqState_HitOrDetach ≤ (run j).rigs.third.GetSequenceState1 kSequence_Weapon) →
        (run i).IsWeaponOut = decide (action = kAnimAction_Equip_Weapon)) := by
    intro i
    induction i with
    | zero =>
      intro _
      exact ⟨fun _ => hstart, fun ⟨j, hj, _⟩ => absurd hj (Nat.not_lt_zero j)⟩
    | succ k ih =>
      intro hk
      obtain ⟨ih1, ih2⟩ := ih (by omega)
      have hnext := hlink k hk _ _ (hphase k (by omega))
      constructor
      · intro hall
        have hbelow := hall k (by omega)
        rw [hnext, caseEquipUnequip_idle _ _ (Or.inr hbelow)]
        exact ih1 (fun j hj => hall j (by omega))
      · rintro ⟨j, hj, hjs⟩
        by_cases hearlier : ∃ j, j < k ∧
            kSeqState_HitOrDetach ≤ (run j).rigs.third.GetSequenceState1 kSequence_Weapon
        · rw [hnext, caseEquipUnequip_idle _ _ (Or.inl (ih2 hearlier))]
          exact ih2 hearlier
        · have hall : ∀ j, j < k →
              (run j).rigs.third.GetSequenceState1 kSequence_Weapon < kSeqState_HitOrDetach := by
            intro j' hj'
            by_contra hcon
            exact hearlier ⟨j', hj', Nat.not_lt.mp hcon⟩
          have hjk : j = k := by
            by_contra hcon
            exact absurd hjs (Nat.not_le.mpr (hall j (by omega)))
          subst hjk
          rw [hnext]
          exact (caseEquipUnequip_commit _ _ (ih1 hall) hjs).1
  intro i hi
  obtain ⟨inv1, inv2⟩ := hinv i hi
  constructor
  · rintro ⟨hs, hall⟩
    obtain ⟨hf, es, ht, hp, ha, hn⟩ := caseEquipUnequip_commit (run i) action (inv1 hall) hs
    exact ⟨_, es, hphase i hi, ht, hp, ha, hn, hf⟩
  · intro hnot
    rw [hphase i hi]
    by_cases hs : kSeqState_HitOrDetach ≤ (run i).rigs.third.GetSequenceState1 kSequence_Weapon
    · have hex : ∃ j, j < i ∧
          kSeqState_HitOrDetach ≤ (run j).rigs.third.GetSequenceState1 kSequence_Weapon := by
        by_contra hcon
        apply hnot
        refine ⟨hs, fun j hj => ?_⟩
        by_contra hcon2
        exact hcon ⟨j, hj, Nat.not_lt.mp hcon2⟩
      rw [caseEquipUnequip_idle _ _ (Or.inl (inv2 hex))]
    · rw [caseEquipUnequip_idle _ _ (Or.inr (Nat.not_le.mp hs))]

/-- C3, amended, at a concrete input: of three ticks of an equip (below the
hit stage, at it, at it again) the second commits and the third does not. -/
theorem C3_single_commit_witness :
    (∃ w1 es, actionPhase Example.onGround (Example.equipRun 1) (initLocals (Example.equipRun 1))
        = Except.ok (w1, initLocals (Example.equipRun 1)) ∧
      w1.trace = (Example.equipRun 1).trace ++ Effect.SetWeaponOut true :: es ∧
      Effect.SetEquippedWeaponPosition ∈ es ∧ Effect.AimWeapon ∈ es ∧
      (∀ b, Effect.SetWeaponOut b ∉ es) ∧ w1.IsWeaponOut = true) ∧
    actionPhase Example.onGround (Example.equipRun 2) (initLocals (Example.equipRun 2))
      = Except.ok (Example.equipRun 2, initLocals (Example.equipRun 2)) := by
  have hstay : ∀ i, i < 3 → (Example.equipRun i).GetCurrentAnimAction = kAnimAction_Equip_Weapon ∧
      ∃ s, (Example.equipRun i).GetCurrentSequence = some s ∧
        ((Example.equipRun i).rigs.seq s).GetState ≠ 0 := by
    intro i hi
    interval_cases i <;> exact ⟨rfl, 7, rfl, by decide⟩
  have h := C3_single_commit Example.onGround kAnimAction_Equip_Weapon Example.equipRun 3
    (Or.inl rfl) hstay (by decide)
    (by
      intro i hi w1 l1 hw
      have hi2 : i < 3 := by omega
      rw [actionPhase_equip Example.onGround (Example.equipRun i)
        (Or.inl (hstay i hi2).1) (hstay i hi2).2] at hw
      injection hw with hw
      injection hw with hw
      subst hw
      interval_cases i <;> rfl)
  refine ⟨?_, ?_⟩
  · exact (h 1 (by decide)).1 ⟨by decide, fun j hj => by interval_cases j; decide⟩
  · exact (h 2 (by decide)).2 (fun hc => absurd (hc.2 1 (by decide)) (by decide))

/-- C4: in a tick that starts in ReloadLoop with a live sequence, that is
not aborted, whose group is at or below kAnimGroup_ReloadZStart and whose
elapsed time has reached the group's action-point time, with a weapon and
its profile present, the action phase looks up the reload group
`GetReloadAnimGroup(weap, HasWeaponMod(weapInfo, IncreaseClipCapacity))`
(the modded variant when the clip-capacity mod is installed); it starts
playback of the resolved id if and only if that id carries exactly this
group; the action after the phase is ReloadLoop bound to the weapon
channel's sequence; and the rest of the tick changes nothing more, so that
this is the state after the tick. -/
theorem C4_reload_loop_lookup (charController : bhkCharacterController) (w : World) (s : Nat)
    (weapInfo : ContChangesEntry) (weap : TESObjectWEAP)
    (hcur : w.GetCurrentAnimAction = kAnimAction_ReloadLoop)
    (hseq : w.GetCurrentSequence = some s)
    (hlive : (w.rigs.seq s).GetState ≠ 0)
    (hinfo : w.GetWeaponInfo = some weapInfo)
    (hweap : weapInfo.GetFlags = some weap)
    (hkeep : ¬ (w.GetWantsWeaponOut_IfSwimmingCancelVATS = true ∧ w.IsWeaponOut = false))
    (hgroup : (w.group s).GetSequenceGroup ≤ kAnimGroup_ReloadZStart)
    (htime : (w.group s).GetTimeForAction ≤ w.rigs.third.GetSequenceOffsetPlusTimePassed s) :
    ∃ w1 es, actionPhase charController w (initLocals w)
        = Except.ok (w1, { initLocals w with animAction := kAnimAction_ReloadLoop }) ∧
      w1.GetCurrentAnimAction = kAnimAction_ReloadLoop ∧
      w1.GetCurrentSequence = w1.rigs.third.GetAnimSequenceElement kSequence_Weapon ∧
      w1.trace = w.trace ++ es ++
        [Effect.SetAnimActionAndSequence kAnimAction_ReloadLoop w1.GetCurrentSequence] ∧
      (AnimGroupID.GetGroupID (w.Actor__GetAnimKey (weap.GetReloadAnimGroup
            (weapInfo.HasWeaponMod kWeaponModEffect_IncreaseClipCapacity)) none)
          = weap.GetReloadAnimGroup (weapInfo.HasWeaponMod kWeaponModEffect_IncreaseClipCapacity) →
        es = Effect.PlayAnimGroup (w.Actor__GetAnimKey (weap.GetReloadAnimGroup
            (weapInfo.HasWeaponMod kWeaponModEffect_IncreaseClipCapacity)) none) 1 ::
          (if w.isPlayer = true then [Effect.PlayFirstPersonAnimation] else [])) ∧
      (AnimGroupID.GetGroupID (w.Actor__GetAnimKey (weap.GetReloadAnimGroup
            (weapInfo.HasWeaponMod kWeaponModEffect_IncreaseClipCapacity)) none)
          ≠ weap.GetReloadAnimGroup (weapInfo.HasWeaponMod kWeaponModEffect_IncreaseClipCapacity) →
        es = []) ∧
      ∀ movementSpeed turnSpeed w2,
        body charController movementSpeed turnSpeed w = Except.ok w2 → w2 = w1 := by
  have hcur1 : (initLocals w).currentAnimAction = kAnimAction_ReloadLoop := hcur
  have hw : w.weap = some weap := by simp [World.weap, hinfo, hweap]
  have hnot : ¬ (w.GetWantsWeaponOut_IfSwimmingCancelVATS = true ∧ ¬ w.IsWeaponOut = true ∧
      w.weap.isSome = true ∧ w.GetWeaponInfo.isSome = true) := by
    rintro ⟨h1, h2, -, -⟩
    exact hkeep ⟨h1, by simpa using h2⟩
  -- the rest of the tick: a requested action with an action in flight skips lines 466-962
  have htail : ∀ w1, actionPhase charController w (initLocals w)
        = Except.ok (w1, { initLocals w with animAction := kAnimAction_ReloadLoop }) →
      ∀ movementSpeed turnSpeed w2,
        body charController movementSpeed turnSpeed w = Except.ok w2 → w2 = w1 :=
    fun w1 ha => body_in_flight charController w w1 _ ha
      (show kAnimAction_ReloadLoop ≠ -1 by decide)
      (show w.GetCurrentAnimAction ≠ -1 by rw [hcur]; decide)
  revert htail
  rw [actionPhase_live charController w _ s (by rw [hcur1]; decide) hseq hlive,
    switchAction_reloadLoop charController w _ hcur1]
  unfold caseReloadLoop
  simp only [deref, hseq, bind, Except.bind, pure, Except.pure]
  rw [if_neg hnot, if_neg (Nat.not_lt.mpr hgroup), if_pos htime]
  simp only [hinfo, hw]
  generalize weap.GetReloadAnimGroup
    (weapInfo.HasWeaponMod kWeaponModEffect_IncreaseClipCapacity) = a2a
  generalize w.Actor__GetAnimKey a2a none = AnimKey
  by_cases hk : AnimGroupID.GetGroupID AnimKey = a2a
  · rw [if_pos hk]
    intro htail
    by_cases hp : w.isPlayer = true
    · refine ⟨_, Effect.PlayAnimGroup AnimKey 1 :: [Effect.PlayFirstPersonAnimation], rfl, rfl, rfl,
        ?_, fun _ => by simp [hp], fun h => absurd hk h, htail _ rfl⟩
      simp [World.SetAnimActionAndSequence, World.perform, hp]
    · refine ⟨_, [Effect.PlayAnimGroup AnimKey 1], rfl, rfl, rfl, ?_, fun _ => by simp [hp],
        fun h => absurd hk h, htail _ rfl⟩
      simp [World.SetAnimActionAndSequence, World.perform, hp]
  · rw [if_neg hk]
    intro htail
    exact ⟨_, [], rfl, rfl, rfl, by simp [World.SetAnimActionAndSequence],
      fun h => absurd h hk, fun _ => rfl, htail _ rfl⟩

/-- C4 at a concrete input: with the clip-capacity mod installed the modded
reload group 0xB2 is looked up and played, and the tick ends in ReloadLoop
again, bound to the weapon channel's sequence. -/
theorem C4_reload_loop_lookup_witness :
    ∃ w1, Actor.PickAnimations 1 0 (Example.reloadWorld true true) = Except.ok w1 ∧
      w1.GetCurrentAnimAction = kAnimAction_ReloadLoop ∧
      w1.GetCurrentSequence = some 7 ∧
      w1.trace = [Effect.PlayAnimGroup 0xB2 1,
        Effect.SetAnimActionAndSequence kAnimAction_ReloadLoop (some 7)] := by
  obtain ⟨w1, es, h1, h2, h3, h4, h5, -, h7⟩ :=
    C4_reload_loop_lookup Example.onGround (Example.reloadWorld true true) 7 Example.pistolInfo
      Example.pistol rfl rfl (by decide) rfl rfl (by decide) (by decide)
      (by norm_num [World.group, Example.reloadWorld, Example.armed, Example.weaponRigs,
        Example.group])
  have h6 := h5 (by decide)
  subst h6
  have hb : ∃ w2, Actor.PickAnimations 1 0 (Example.reloadWorld true true) = Except.ok w2 ∧
      body Example.onGround 1 0 (Example.reloadWorld true true) = Except.ok w2 ∧
      w2.GetCurrentSequence = some 7 := ⟨_, rfl, rfl, rfl⟩
  obtain ⟨w2, hb1, hb2, hb3⟩ := hb
  have h8 := h7 1 0 w2 hb2
  subst h8
  exact ⟨w2, hb1, h2, hb3, by rw [h4, hb3]; rfl⟩

/-- C5 as stated fails: in a tick that starts in ReloadLoop on a live
sequence with the weapon out and the wants-weapon-out flag false (the entity
wants the weapon holstered), the reload is not aborted: the reload group is
played and the tick ends in ReloadLoop again, not in None. -/
theorem C5_counterexample :
    (Example.reloadWorld false true).GetCurrentAnimAction = kAnimAction_ReloadLoop ∧
    (Example.reloadWorld false true).GetCurrentSequence = some 7 ∧
    ((Example.reloadWorld false true).rigs.seq 7).GetState ≠ 0 ∧
    (Example.reloadWorld false true).GetWantsWeaponOut_IfSwimmingCancelVATS = false ∧
    ∃ w2, Actor.PickAnimations 1 0 (Example.reloadWorld false true) = Except.ok w2 ∧
      w2.GetCurrentAnimAction = kAnimAction_ReloadLoop ∧
      w2.GetCurrentAnimAction ≠ kAnimAction_None ∧
      w2.GetCurrentSequence = some 7 ∧
      w2.trace = [Effect.PlayAnimGroup 0xB2 1,
        Effect.SetAnimActionAndSequence kAnimAction_ReloadLoop (some 7)] :=
  ⟨rfl, rfl, by decide, rfl, _, rfl, rfl, by decide, rfl, rfl⟩

/-- C5, amended: in a tick that starts in ReloadLoop with a live sequence,
if the entity wants its weapon out while the weapon-out flag is not set,
and a weapon and its profile are present, the reload is aborted in that
tick's action phase: Reload_ is called, the action is reset to None with no
sequence, and no animation group is played; and whenever the rest of the
tick completes, the action is still None with no sequence and no action has
been recorded after the reset. -/
theorem C5_reload_abort (charController : bhkCharacterController) (w : World) (s : Nat)
    (weapInfo : ContChangesEntry) (weap : TESObjectWEAP)
    (hcur : w.GetCurrentAnimAction = kAnimAction_ReloadLoop)
    (hseq : w.GetCurrentSequence = some s)
    (hlive : (w.rigs.seq s).GetState ≠ 0)
    (hinfo : w.GetWeaponInfo = some weapInfo)
    (hweap : weapInfo.GetFlags = some weap)
    (hwants : w.GetWantsWeaponOut_IfSwimmingCancelVATS = true)
    (hout : w.IsWeaponOut = false) :
    ∃ w1, actionPhase charController w (initLocals w)
        = Except.ok (w1, { initLocals w with animAction := -1 }) ∧
      w1.GetCurrentAnimAction = kAnimAction_None ∧
      w1.GetCurrentSequence = none ∧
      w1.trace = w.trace ++
        [Effect.Reload_, Effect.SetAnimActionAndSequence kAnimAction_None none] ∧
      ∀ movementSpeed turnSpeed w2,
        body charController movementSpeed turnSpeed w = Except.ok w2 →
        w2.GetCurrentAnimAction = kAnimAction_None ∧ w2.GetCurrentSequence = none ∧
        ∃ es, w2.trace = w1.trace ++ es ∧
          ∀ e ∈ es, ∀ a q, e ≠ Effect.SetAnimActionAndSequence a q := by
  have hcur1 : (initLocals w).currentAnimAction = kAnimAction_ReloadLoop := hcur
  have hw : w.weap = some weap := by simp [World.weap, hinfo, hweap]
  have hyes : w.GetWantsWeaponOut_IfSwimmingCancelVATS = true ∧ ¬ w.IsWeaponOut = true ∧
      w.weap.isSome = true ∧ w.GetWeaponInfo.isSome = true := by
    simp [hwants, hout, hw, hinfo]
  -- the rest of the tick: ReloadLoop is none of the case labels of line 470
  have htail : ∀ w1, actionPhase charController w (initLocals w)
        = Except.ok (w1, { initLocals w with animAction := -1 }) →
      ∀ movementSpeed turnSpeed w2,
        body charController movementSpeed turnSpeed w = Except.ok w2 →
        w1.Performs (fun e => ∀ a q, e ≠ Effect.SetAnimActionAndSequence a q) w2 :=
    fun w1 ha => body_no_request _
      (fun _ _ _ h => (by cases h)) (fun _ _ _ h => (by cases h))
      (fun _ _ _ _ h => (by cases h)) (fun _ _ h => (by cases h))
      (fun _ _ _ _ h => (by cases h)) (fun _ _ h => (by cases h)) (fun _ _ h => (by cases h))
      charController w w1 _ ha rfl
      (show ¬ (w.GetCurrentAnimAction = -1 ∨ w.GetCurrentAnimAction = kAAP1_Unequip_Weapon ∨
          w.GetCurrentAnimAction = kAAP1_Attack_Eject ∨ w.GetCurrentAnimAction = kAAP1_Dodge) by
        rw [hcur]; decide)
  revert htail
  rw [actionPhase_live charController w _ s (by rw [hcur1]; decide) hseq hlive,
    switchAction_reloadLoop charController w _ hcur1]
  unfold caseReloadLoop
  simp only [deref, hseq, bind, Except.bind, pure, Except.pure]
  rw [if_pos hyes]
  intro htail
  refine ⟨_, rfl, rfl, rfl, by simp [World.SetAnimActionAndSequence, World.perform], ?_⟩
  intro movementSpeed turnSpeed w2 hb
  obtain ⟨-, h2, h3, h4⟩ := htail _ rfl movementSpeed turnSpeed w2 hb
  exact ⟨h2, h3, h4⟩

/-- C5, amended, at a concrete input: mid-reload, wanting the weapon out
while it is not, the reload is aborted and the tick ends in None with no
sequence. -/
theorem C5_reload_abort_witness :
    ∃ w2, Actor.PickAnimations 1 0 (Example.reloadWorld true false) = Except.ok w2 ∧
      w2.GetCurrentAnimAction = kAnimAction_None ∧
      w2.GetCurrentSequence = none ∧
      Effect.Reload_ ∈ w2.trace := by
  obtain ⟨w1, -, -, -, h4, h5⟩ :=
    C5_reload_abort Example.onGround (Example.reloadWorld true false) 7 Example.pistolInfo
      Example.pistol rfl rfl (by decide) rfl rfl rfl rfl
  have hb : ∃ w2, Actor.PickAnimations 1 0 (Example.reloadWorld true false) = Except.ok w2 ∧
      body Example.onGround 1 0 (Example.reloadWorld true false) = Except.ok w2 :=
    ⟨_, rfl, rfl⟩
  obtain ⟨w2, hb1, hb2⟩ := hb
  obtain ⟨h6, h7, es, h8, -⟩ := h5 1 0 w2 hb2
  exact ⟨w2, hb1, h6, h7, by rw [h8, h4]; simp⟩

/-- C6: in a tick that starts in Reload with its sequence present but
Inactive, if the draw of the random source is not below the jam chance of
the weapon's condition bracket (as with a draw of 0.999 against a chance of
0.1), no jam triggers, whatever the weapon: the action phase returns, plays
no jam reload animation, records no Reload action, and leaves the action
at Block or None. -/
theorem C6_no_jam (charController : bhkCharacterController) (w : World) (s : Nat)
    (hcur : w.GetCurrentAnimAction = kAnimAction_Reload)
    (hseq : w.GetCurrentSequence = some s)
    (hlive : (w.rigs.seq s).GetState = 0)
    (hdraw : ¬ w.randomDraw < w.GetWeaponReloadJamChance w.GetEquippedWeaponHealthBracket) :
    ∃ w1 l1 es, actionPhase charController w (initLocals w) = Except.ok (w1, l1) ∧
      l1.animAction ≠ kAnimAction_Reload ∧
      (w1.GetCurrentAnimAction = kAnimAction_Block ∨
        w1.GetCurrentAnimAction = kAnimAction_None) ∧
      w1.trace = w.trace ++ es ∧
      ∀ e ∈ es, (∀ group, e ≠ Effect.PlayAttackAnim group) ∧
        (∀ sequence, e ≠ Effect.SetAnimActionAndSequence kAnimAction_Reload sequence) := by
  have hcur1 : (initLocals w).currentAnimAction ≠ kAnimAction_None := by
    show w.GetCurrentAnimAction ≠ _
    rw [hcur]; decide
  rw [actionPhase_inactive charController w _ s hcur1 hseq hlive]
  unfold noLiveSequence
  rcases adoptBlock_cases w (initLocals w) with ⟨-, hno⟩ | ⟨v53, -, -, hyes⟩
  · rw [hno]
    simp only [bind, Except.bind]
    rw [jamRoll_no_jam w _ s hseq hdraw]
    have hm : (initLocals w).animAction = -1 := rfl
    simp only [hm, if_true, pure, Except.pure]
    refine ⟨_, _, [Effect.SetAnimActionAndSequence kAnimAction_None none], rfl,
      ?_, Or.inr rfl, rfl, ?_⟩
    · rw [hm]; decide
    · intro e he
      rw [List.mem_singleton] at he
      subst he
      exact ⟨fun _ h => (by cases h), fun _ h => (by injection h with h1; exact absurd h1 (by decide))⟩
  · rw [hyes]
    simp only [bind, Except.bind]
    rw [jamRoll_no_jam (w.SetAnimActionAndSequence kAnimAction_Block (some v53)) _ v53 rfl hdraw]
    have hm : ¬ (kAnimAction_Block = -1) := by decide
    simp only [hm, if_false, pure, Except.pure]
    refine ⟨_, _, [Effect.SetAnimActionAndSequence kAnimAction_Block (some v53)], rfl,
      ?_, Or.inl rfl, rfl, ?_⟩
    · show kAnimAction_Block ≠ kAnimAction_Reload
      decide
    intro e he
    rw [List.mem_singleton] at he
    subst he
    exact ⟨fun _ h => (by cases h), fun _ h => (by injection h with h1; exact absurd h1 (by decide))⟩

/-- C6 at a concrete input: a draw of 0.999 against a jam chance of 0.1
triggers no jam; the action falls back to None. -/
theorem C6_no_jam_witness :
    (Example.jamWorld (999 / 1000) (fun group _ => group)).GetWeaponReloadJamChance
        (Example.jamWorld (999 / 1000) (fun group _ => group)).GetEquippedWeaponHealthBracket
      = 1 / 10 ∧
    ∃ w1 l1 es, actionPhase Example.onGround (Example.jamWorld (999 / 1000) (fun group _ => group))
        (initLocals (Example.jamWorld (999 / 1000) (fun group _ => group)))
        = Except.ok (w1, l1) ∧
      l1.animAction ≠ kAnimAction_Reload ∧
      (w1.GetCurrentAnimAction = kAnimAction_Block ∨
        w1.GetCurrentAnimAction = kAnimAction_None) ∧
      w1.trace = (Example.jamWorld (999 / 1000) (fun group _ => group)).trace ++ es ∧
      ∀ e ∈ es, (∀ group, e ≠ Effect.PlayAttackAnim group) ∧
        (∀ sequence, e ≠ Effect.SetAnimActionAndSequence kAnimAction_Reload sequence) :=
  ⟨rfl, C6_no_jam Example.onGround (Example.jamWorld (999 / 1000) (fun group _ => group)) 7
    rfl rfl rfl (by norm_num [Example.jamWorld, Example.armed, Example.world])⟩

/-- C7 as stated fails: under the jam preconditions (a weapon that allows
jams, tick-start action Reload, a present but Inactive sequence of a reload
group, jam chance 0.1) and a draw of 0.0, an animation table in which the
jam group does not resolve triggers no jam: no animation is played and the
action falls back to None. -/
theorem C7_counterexample :
    (Example.jamWorld 0 (fun _ _ => 255)).weap = some Example.pistol ∧
    Example.pistol.NoJamAfterReload = false ∧
    (Example.jamWorld 0 (fun _ _ => 255)).GetCurrentAnimAction = kAnimAction_Reload ∧
    (Example.jamWorld 0 (fun _ _ => 255)).GetCurrentSequence = some 7 ∧
    ((Example.jamWorld 0 (fun _ _ => 255)).rigs.seq 7).GetState = kAnimState_Inactive ∧
    (Example.jamWorld 0 (fun _ _ => 255)).AnimGroup_IsReload
      ((Example.jamWorld 0 (fun _ _ => 255)).group 7).GetSequenceGroup = true ∧
    (Example.jamWorld 0 (fun _ _ => 255)).GetWeaponReloadJamChance
      (Example.jamWorld 0 (fun _ _ => 255)).GetEquippedWeaponHealthBracket = 1 / 10 ∧
    (Example.jamWorld 0 (fun _ _ => 255)).randomDraw = 0 ∧
    ∃ w1 l1, actionPhase Example.onGround (Example.jamWorld 0 (fun _ _ => 255))
        (initLocals (Example.jamWorld 0 (fun _ _ => 255))) = Except.ok (w1, l1) ∧
      w1.GetCurrentAnimAction = kAnimAction_None ∧
      w1.trace = [Effect.SetAnimActionAndSequence kAnimAction_None none] := by
  refine ⟨rfl, rfl, rfl, rfl, rfl, by decide, rfl, rfl, ?_⟩
  rw [actionPhase_inactive Example.onGround _ _ 7 (by decide) rfl rfl]
  unfold noLiveSequence
  have h1 : adoptBlock (Example.jamWorld 0 (fun _ _ => 255))
      (initLocals (Example.jamWorld 0 (fun _ _ => 255)))
      = (Example.jamWorld 0 (fun _ _ => 255),
          initLocals (Example.jamWorld 0 (fun _ _ => 255))) := rfl
  have h2 : jamRoll (Example.jamWorld 0 (fun _ _ => 255))
      (initLocals (Example.jamWorld 0 (fun _ _ => 255)))
      = Except.ok (Example.jamWorld 0 (fun _ _ => 255),
          initLocals (Example.jamWorld 0 (fun _ _ => 255))) := by
    have hw : (Example.jamWorld 0 (fun _ _ => 255)).weap = some Example.pistol := rfl
    have hs : (Example.jamWorld 0 (fun _ _ => 255)).GetCurrentSequence = some 7 := rfl
    unfold jamRoll
    simp only [hw, hs, deref, bind, Except.bind, pure, Except.pure]
    rw [if_pos (by decide), if_pos (by decide)]
    split
    · split
      · rw [if_neg (by decide)]
      · rfl
    · rfl
  rw [h1]
  simp only [bind, Except.bind]
  rw [h2]
  exact ⟨_, _, rfl, rfl, rfl⟩

/-- C7, amended: under the jam preconditions (a weapon that allows jams,
tick-start action Reload, a present but Inactive sequence of a reload group,
a positive jam chance) with the off-hand channel not playing BlockIdle, if
the draw of the random source is below the jam chance (as 0.0 is below 0.1),
a jam triggers exactly when the jam group (the weapon's reload group plus
23) resolves in the animation table: then the jam reload animation is
played and the action becomes Reload bound to the weapon channel's
sequence; when the jam group does not resolve, nothing is played and the
action falls back to None. -/
theorem C7_jam_when_resolved (charController : bhkCharacterController) (w : World) (s : Nat)
    (weapInfo : ContChangesEntry) (weap : TESObjectWEAP)
    (hcur : w.GetCurrentAnimAction = kAnimAction_Reload)
    (hseq : w.GetCurrentSequence = some s)
    (hlive : (w.rigs.seq s).GetState = 0)
    (hinfo : w.GetWeaponInfo = some weapInfo)
    (hweap : weapInfo.GetFlags = some weap)
    (hjam : weap.NoJamAfterReload = false)
    (hreload : w.AnimGroup_IsReload (w.group s).GetSequenceGroup = true)
    (hblock : w.rigs.third.GetAnimSequenceElement kSequence_LeftArm = none ∨
      AnimGroupID.GetGroupID (w.rigs.third.GetNthSequenceGroupID kSequence_LeftArm)
        ≠ kAnimGroup_BlockIdle)
    (hchance : 0 < w.GetWeaponReloadJamChance w.GetEquippedWeaponHealthBracket)
    (hdraw : w.randomDraw < w.GetWeaponReloadJamChance w.GetEquippedWeaponHealthBracket) :
    (AnimGroupID.GetGroupID (w.Actor__GetAnimKey (weap.GetReloadAnimGroup false + 23) none)
        = weap.GetReloadAnimGroup false + 23 →
      ∃ w1, actionPhase charController w (initLocals w)
          = Except.ok (w1, { initLocals w with animAction := kAnimAction_Reload }) ∧
        w1.GetCurrentAnimAction = kAnimAction_Reload ∧
        w1.GetCurrentSequence
          = (w.perform (Effect.PlayAttackAnim (weap.GetReloadAnimGroup false + 23))).rigs.third.GetAnimSequenceElement
              kSequence_Weapon ∧
        w1.trace = w.trace ++
          [Effect.PlayAttackAnim (weap.GetReloadAnimGroup false + 23),
            Effect.SetAnimActionAndSequence kAnimAction_Reload w1.GetCurrentSequence,
            Effect.PlayFirstPersonAnimation]) ∧
    (AnimGroupID.GetGroupID (w.Actor__GetAnimKey (weap.GetReloadAnimGroup false + 23) none)
        ≠ weap.GetReloadAnimGroup false + 23 →
      actionPhase charController w (initLocals w)
        = Except.ok (w.SetAnimActionAndSequence kAnimAction_None none, initLocals w)) := by
  have hcur1 : (initLocals w).currentAnimAction = kAnimAction_Reload := hcur
  have hne : (initLocals w).currentAnimAction ≠ kAnimAction_None := by rw [hcur1]; decide
  have hw : w.weap = some weap := by simp [World.weap, hinfo, hweap]
  have hno : adoptBlock w (initLocals w) = (w, initLocals w) := by
    rcases adoptBlock_cases w (initLocals w) with ⟨-, h⟩ | ⟨v53, h1, h2, -⟩
    · exact h
    · rcases hblock with hb | hb
      · rw [hb] at h1; cases h1
      · exact absurd h2 hb
  have hm : (initLocals w).animAction = -1 := rfl
  rw [actionPhase_inactive charController w _ s hne hseq hlive]
  unfold noLiveSequence
  rw [hno]
  unfold jamRoll
  simp only [hw, hseq, deref, bind, Except.bind, pure, Except.pure]
  rw [if_pos ⟨by simp [hjam], hcur1⟩, if_pos hreload, if_pos hchance,
    if_pos (by simpa [RNG.IsRandomDecimalBelow] using hdraw)]
  constructor
  · intro hk
    rw [if_pos hk]
    simp only [show ¬ (kAnimAction_Reload = -1) by decide, if_false]
    exact ⟨_, rfl, rfl, rfl, by simp [World.SetAnimActionAndSequence, World.perform]⟩
  · intro hk
    rw [if_neg hk]
    simp only [hm, if_true]

/-- C7, amended, at a concrete input: a draw of 0.0 against a jam chance of
0.1, with a table that resolves the jam group 0xC8, plays the jam reload
and makes the action Reload. -/
theorem C7_jam_when_resolved_witness :
    ∃ w1, actionPhase Example.onGround (Example.jamWorld 0 (fun group _ => group))
        (initLocals (Example.jamWorld 0 (fun group _ => group)))
        = Except.ok (w1, { initLocals (Example.jamWorld 0 (fun group _ => group)) with
            animAction := kAnimAction_Reload }) ∧
      w1.GetCurrentAnimAction = kAnimAction_Reload ∧
      w1.trace = (Example.jamWorld 0 (fun group _ => group)).trace ++
        [Effect.PlayAttackAnim 0xC8,
          Effect.SetAnimActionAndSequence kAnimAction_Reload w1.GetCurrentSequence,
          Effect.PlayFirstPersonAnimation] := by
  obtain ⟨w1, h1, h2, -, h4⟩ :=
    (C7_jam_when_resolved Example.onGround (Example.jamWorld 0 (fun group _ => group)) 7
      Example.pistolInfo Example.pistol rfl rfl rfl rfl rfl rfl (by decide) (Or.inl rfl)
      (by norm_num [Example.jamWorld, Example.armed, Example.world])
      (by norm_num [Example.jamWorld, Example.armed, Example.world])).1 (by decide)
  exact ⟨w1, h1, h2, h4⟩

/-- C8 as stated fails: with the mask holding the Forward flag alone (one
direction, no Running), no action in flight, a normal sit/sleep state and
the controller on the ground, the group after the directional and turn
block is Idle, not Forward. -/
theorem C8_counterexample :
    (Example.movingWorld kMoveFlag_Forward).GetMovementFlags = kMoveFlag_Forward ∧
    (Example.movingWorld kMoveFlag_Forward).GetCurrentAnimAction = kAnimAction_None ∧
    (Example.movingWorld kMoveFlag_Forward).GetSitSleepState = kSitSleepState_Normal ∧
    Example.onGround.GetContextHkState = kCharControllerState_OnGround ∧
    ∃ w1 l1, classified Example.onGround 1 (Example.movingWorld kMoveFlag_Forward)
        = Except.ok (w1, l1) ∧
      l1.animGroup = kAnimGroup_Idle ∧ l1.animGroup ≠ kAnimGroup_Forward :=
  ⟨rfl, rfl, rfl, rfl, _, _, rfl, rfl, by decide⟩

/-- C8, amended: for every movement-flag mask that does not contain Running,
in the normal sit/sleep state and with no group selected earlier in the
tick (animGroup is still Idle when the classification starts), the group
after the directional and turn block is never FastForward, FastBackward,
FastLeft or FastRight; and if the mask moreover contains at least one of
the mode flags of line 636 (Walking, Sneaking, Swimming, Jump, Flying, Fall,
Slide) and exactly one of Forward, Backward, Left, Right, that group is the
matching non-fast group. -/
theorem C8_walk_direction (movementSpeed : ℚ) (w : World) (l : Locals)
    (hidle : l.animGroup = kAnimGroup_Idle)
    (hsit : w.GetSitSleepState = kSitSleepState_Normal)
    (hrun : w.GetMovementFlags &&& kMoveFlag_Running = 0) :
    ∃ l1, classify movementSpeed w l = Except.ok l1 ∧
      (l1.animGroup ≠ kAnimGroup_FastForward ∧ l1.animGroup ≠ kAnimGroup_FastBackward ∧
        l1.animGroup ≠ kAnimGroup_FastLeft ∧ l1.animGroup ≠ kAnimGroup_FastRight) ∧
      (w.GetMovementFlags &&& kMoveFlag_AnyMode ≠ 0 →
        (w.GetMovementFlags &&& kMoveFlag_Forward ≠ 0 ∧
            w.GetMovementFlags &&& kMoveFlag_Backward = 0 ∧
            w.GetMovementFlags &&& kMoveFlag_Left = 0 ∧
            w.GetMovementFlags &&& kMoveFlag_Right = 0 →
          l1.animGroup = kAnimGroup_Forward) ∧
        (w.GetMovementFlags &&& kMoveFlag_Forward = 0 ∧
            w.GetMovementFlags &&& kMoveFlag_Backward ≠ 0 ∧
            w.GetMovementFlags &&& kMoveFlag_Left = 0 ∧
            w.GetMovementFlags &&& kMoveFlag_Right = 0 →
          l1.animGroup = kAnimGroup_Backward) ∧
        (w.GetMovementFlags &&& kMoveFlag_Forward = 0 ∧
            w.GetMovementFlags &&& kMoveFlag_Backward = 0 ∧
            w.GetMovementFlags &&& kMoveFlag_Left ≠ 0 ∧
            w.GetMovementFlags &&& kMoveFlag_Right = 0 →
          l1.animGroup = kAnimGroup_Left) ∧
        (w.GetMovementFlags &&& kMoveFlag_Forward = 0 ∧
            w.GetMovementFlags &&& kMoveFlag_Backward = 0 ∧
            w.GetMovementFlags &&& kMoveFlag_Left = 0 ∧
            w.GetMovementFlags &&& kMoveFlag_Right ≠ 0 →
          l1.animGroup = kAnimGroup_Right)) := by
  refine ⟨_, classify_idle movementSpeed w l hidle hsit, ?_, ?_⟩
  · unfold directionBlock
    simp only [hrun, ne_eq, not_true_eq_false, if_false]
    split_ifs <;> simp [hidle, kAnimGroup_Idle, kAnimGroup_Forward, kAnimGroup_Backward,
      kAnimGroup_Left, kAnimGroup_Right, kAnimGroup_TurnLeft, kAnimGroup_TurnRight,
      kAnimGroup_FastForward, kAnimGroup_FastBackward, kAnimGroup_FastLeft,
      kAnimGroup_FastRight]
  · intro hmode
    have hdir : ∀ flag, flag &&& kMoveFlag_AnyDirection = flag →
        w.GetMovementFlags &&& flag ≠ 0 →
        w.GetMovementFlags &&& kMoveFlag_AnyDirection ≠ 0 :=
      fun flag h1 h2 => flag_of_part _ flag _ h1 h2
    refine ⟨?_, ?_, ?_, ?_⟩
    · rintro ⟨hF, -, -, -⟩
      have := hdir kMoveFlag_Forward (by decide) hF
      simp [directionBlock, this, hrun, hmode, hF]
    · rintro ⟨hF, hB, -, -⟩
      have := hdir kMoveFlag_Backward (by decide) hB
      simp [directionBlock, this, hrun, hmode, hF, hB]
    · rintro ⟨hF, hB, hL, -⟩
      have := hdir kMoveFlag_Left (by decide) hL
      simp [directionBlock, this, hrun, hmode, hF, hB, hL]
    · rintro ⟨hF, hB, hL, hR⟩
      have := hdir kMoveFlag_Right (by decide) hR
      simp [directionBlock, this, hrun, hmode, hF, hB, hL, hR]

/-- C8, amended, at a concrete input: walking forward (Forward and Walking
set) selects Forward. -/
theorem C8_walk_direction_witness :
    ∃ l1, classify 1 (Example.movingWorld (kMoveFlag_Forward ||| kMoveFlag_Walking))
        (initLocals (Example.movingWorld (kMoveFlag_Forward ||| kMoveFlag_Walking)))
        = Except.ok l1 ∧
      l1.animGroup = kAnimGroup_Forward ∧ l1.animGroup ≠ kAnimGroup_FastForward := by
  obtain ⟨l1, h1, h2, h3⟩ := C8_walk_direction 1
    (Example.movingWorld (kMoveFlag_Forward ||| kMoveFlag_Walking))
    (initLocals (Example.movingWorld (kMoveFlag_Forward ||| kMoveFlag_Walking)))
    rfl rfl (by decide)
  exact ⟨l1, h1, (h3 (by decide)).1 ⟨by decide, by decide, by decide, by decide⟩, h2.1⟩

/-- C9 as stated fails: a live, non-knocked entity on the ground with the
flags Forward + Running, a one-handed weapon and no action in flight, whose
run speed multiplier is 4 and whose FastForward group has root-motion
magnitude 2, called with movementSpeed 3, commits the multiplier 6, which
is (4 / 2) × 3, and never commits 4 / 2. -/
theorem C9_counterexample :
    Example.runWorld.IsDying = false ∧ Example.runWorld.GetKnockedState = false ∧
    Example.runWorld.GetMovementFlags = kMoveFlag_Forward ||| kMoveFlag_Running ∧
    Example.runWorld.g_weaponTypeToAnim Example.pistol.getWeaponType = kAnimHandType_1HM ∧
    Example.runWorld.GetCurrentAnimAction = kAnimAction_None ∧
    Example.runWorld.GetRunSpeedMult = 4 ∧
    Example.runWorld.rigs.third.GetPlayingAnimGroupMovementVectorMagnitude
      (Example.runWorld.AnimData_495740
        (Anim_Concat_MoveType_HandType_Group_PowerArmor kAnimMoveType_Walking kAnimHandType_1HM
          kAnimGroup_FastForward false)) = 2 ∧
    ∃ w2, Actor.PickAnimations 3 0 Example.runWorld = Except.ok w2 ∧
      Effect.SetMovementSpeedMult 6 ∈ w2.trace ∧
      Effect.SetMovementSpeedMult (4 / 2) ∉ w2.trace := by
  refine ⟨rfl, rfl, rfl, rfl, rfl, rfl, ?_, ?_⟩
  · simp [Example.runWorld, Example.world, Anim_Concat_MoveType_HandType_Group_PowerArmor]
  obtain ⟨l, w2, -, hid, hbody, -, -, -, es, ht, hes⟩ :=
    body_run_forward Example.onGround 3 0 Example.runWorld Example.pistolInfo Example.pistol
      rfl rfl rfl (fun v hv => by cases hv) rfl rfl rfl rfl (by decide)
      (by norm_num [Example.runWorld, Example.world]) (by decide)
  have hmag : Example.runWorld.rigs.third.GetPlayingAnimGroupMovementVectorMagnitude
      (resolvedID Example.runWorld l) = 2 := by
    rw [hid]
    simp [Example.runWorld, Example.world, Anim_Concat_MoveType_HandType_Group_PowerArmor]
  have hrun : Example.runWorld.GetRunSpeedMult = 4 := rfl
  rw [hmag, hrun] at ht
  have htr : w2.trace = Effect.SetMovementSpeedMult 6 :: es := by
    rw [ht]
    show ([] ++ [Effect.SetMovementSpeedMult _]) ++ es = _
    norm_num
  refine ⟨w2, ?_, ?_, ?_⟩
  · rw [tick_eq_body 3 0 Example.runWorld Example.runWorld Example.onGround rfl rfl (by decide)
      rfl rfl rfl rfl]
    exact hbody
  · rw [htr]; simp
  · rw [htr]
    intro h
    rcases List.mem_cons.mp h with h | h
    · injection h with h
      norm_num at h
    · exact (hes _ h).1 _ rfl

/-- C9, amended: for a live, non-knocked entity of nonzero actor type on
the ground whose movement flags are Forward + Running, that holds a
one-handed weapon, has no action in flight, a normal sit/sleep state, no
jump animation on the movement channel, its wants-weapon-out flag agreeing
with its weapon-out flag and a run speed multiplier of at least 1, the tick
resolves the key built from the Walking locomotion type, the one-handed
hand type and the FastForward base group; and when the resolved id carries
FastForward with a nonzero root-motion magnitude, the tick commits as
movement-speed multiplier exactly (runSpeedMult / magnitude) × movementSpeed,
once. -/
theorem C9_run_speed (movementSpeed turnSpeed : ℚ) (w w1 : World)
    (charController : bhkCharacterController) (weapInfo : ContChangesEntry)
    (weap : TESObjectWEAP)
    (hdying : w.IsDying = false) (hknocked : w.GetKnockedState = false)
    (hthird : ¬ (w.isPlayer = true ∧ w.IsNotFirstPerson = false))
    (hdata : w.hasAnimData = true) (hproc : w.hasBaseProcess = true)
    (hcc : w.charController = some charController)
    (hpre : endStaleWeaponSequences w = Except.ok w1)
    (hcur : w1.GetCurrentAnimAction = kAnimAction_None)
    (hsit : w1.GetSitSleepState = kSitSleepState_Normal)
    (hground : charController.GetContextHkState = kCharControllerState_OnGround)
    (hjump : ∀ v, w1.rigs.third.GetAnimSequenceElement kSequence_Movement = some v →
      (w1.group v).IsJumping = false ∧ (w1.group v).GetSequenceGroup ≠ kAnimGroup_JumpStart)
    (hwants : w1.GetWantsWeaponOut_IfSwimmingCancelVATS = w1.IsWeaponOut)
    (hflags : w1.GetMovementFlags = kMoveFlag_Forward ||| kMoveFlag_Running)
    (hinfo : w1.GetWeaponInfo = some weapInfo) (hweap : weapInfo.GetFlags = some weap)
    (hhand : w1.g_weaponTypeToAnim weap.getWeaponType = kAnimHandType_1HM)
    (htype : w1.GetActorType ≠ 0) (hrun : 1 ≤ w1.GetRunSpeedMult)
    (hres : AnimGroupID.GetGroupID (w1.AnimData_495740
        (Anim_Concat_MoveType_HandType_Group_PowerArmor kAnimMoveType_Walking
          kAnimHandType_1HM kAnimGroup_FastForward w1.isPowerArmor))
      = kAnimGroup_FastForward)
    (hmag : w1.rigs.third.GetPlayingAnimGroupMovementVectorMagnitude (w1.AnimData_495740
        (Anim_Concat_MoveType_HandType_Group_PowerArmor kAnimMoveType_Walking
          kAnimHandType_1HM kAnimGroup_FastForward w1.isPowerArmor)) ≠ 0) :
    ∃ l w2 es, classified charController movementSpeed w1 = Except.ok (w1, l) ∧
      resolvedID w1 l = w1.AnimData_495740
        (Anim_Concat_MoveType_HandType_Group_PowerArmor kAnimMoveType_Walking
          kAnimHandType_1HM kAnimGroup_FastForward w1.isPowerArmor) ∧
      Actor.PickAnimations movementSpeed turnSpeed w = Except.ok w2 ∧
      w2.trace = w1.trace ++
        Effect.SetMovementSpeedMult
          ((w1.GetRunSpeedMult /
              w1.rigs.third.GetPlayingAnimGroupMovementVectorMagnitude (w1.AnimData_495740
                (Anim_Concat_MoveType_HandType_Group_PowerArmor kAnimMoveType_Walking
                  kAnimHandType_1HM kAnimGroup_FastForward w1.isPowerArmor)))
            * movementSpeed) :: es ∧
      ∀ e ∈ es, ∀ v, e ≠ Effect.SetMovementSpeedMult v := by
  rw [← hhand] at hres hmag ⊢
  obtain ⟨l, w2, hclass, hid, hbody, -, -, -, es, ht, hes⟩ :=
    body_run_forward charController movementSpeed turnSpeed w1 weapInfo weap hcur hsit hground
      hjump hwants hflags hinfo hweap htype hrun hres
  refine ⟨l, w2, es, hclass, hid, ?_, ?_, fun e he => (hes e he).1⟩
  · rw [tick_eq_body movementSpeed turnSpeed w w1 charController hdying hknocked hthird hdata
      hproc hcc hpre]
    exact hbody
  · rw [ht, hid, if_pos hmag]
    simp [World.perform]

/-- C9, amended, at a concrete input: run multiplier 4, magnitude 2 and
movementSpeed 3 commit (4 / 2) × 3. -/
theorem C9_run_speed_witness :
    ∃ w2 es, Actor.PickAnimations 3 0 Example.runWorld = Except.ok w2 ∧
      w2.trace = Effect.SetMovementSpeedMult ((4 / 2) * 3) :: es ∧
      ∀ e ∈ es, ∀ v, e ≠ Effect.SetMovementSpeedMult v := by
  obtain ⟨l, w2, es, -, -, h3, h4, h5⟩ :=
    C9_run_speed 3 0 Example.runWorld Example.runWorld Example.onGround Example.pistolInfo
      Example.pistol rfl rfl (by decide) rfl rfl rfl rfl rfl rfl rfl (fun v hv => by cases hv)
      rfl rfl rfl rfl rfl (by decide) (by norm_num [Example.runWorld, Example.world])
      (by decide)
      (by simp [Example.runWorld, Example.world, Anim_Concat_MoveType_HandType_Group_PowerArmor])
  refine ⟨w2, es, h3, ?_, h5⟩
  rw [h4]
  simp [Example.runWorld, Example.world, Anim_Concat_MoveType_HandType_Group_PowerArmor]

/-- C10 as stated fails: a live, non-knocked entity with no movement flag,
no weapon, tick-start action None, a normal sit/sleep state, the controller
on the ground and no sequence on the movement channel, that wants its
weapon out while the weapon-out flag is not set, requests Equip_Weapon,
builds its key from the Equip group, calls SetRateOfFire and records the
new action. -/
theorem C10_counterexample :
    Example.raiseFistsWorld.IsDying = false ∧
    Example.raiseFistsWorld.GetKnockedState = false ∧
    Example.raiseFistsWorld.GetMovementFlags = 0 ∧
    Example.raiseFistsWorld.GetWeaponInfo = none ∧
    Example.raiseFistsWorld.GetCurrentAnimAction = kAnimAction_None ∧
    Example.raiseFistsWorld.GetSitSleepState = kSitSleepState_Normal ∧
    Example.raiseFistsWorld.charController = some Example.onGround ∧
    Example.raiseFistsWorld.rigs.third.GetAnimSequenceElement kSequence_Movement = none ∧
    (∃ l, Actor.PickAnimations.classified Example.onGround 1 Example.raiseFistsWorld
        = Except.ok (Example.raiseFistsWorld, l) ∧
      l.animGroup = kAnimGroup_Equip ∧ l.animAction = kAnimAction_Equip_Weapon) ∧
    ∃ w2, Actor.PickAnimations 1 0 Example.raiseFistsWorld = Except.ok w2 ∧
      w2.trace = [Effect.SetRateOfFire 1, Effect.PlayAnimGroup kAnimGroup_Equip 1,
        Effect.SetAnimActionAndSequence kAnimAction_Equip_Weapon none,
        Effect.PlayFirstPersonAnimation] :=
  ⟨rfl, rfl, rfl, rfl, rfl, rfl, rfl, rfl, ⟨_, rfl, rfl, rfl⟩, _, rfl, rfl⟩

/-- C10, amended: for a live, non-knocked entity with no movement flag set,
no weapon, tick-start action None, a normal sit/sleep state, the controller
on the ground, no jump animation on the movement channel and its
wants-weapon-out flag agreeing with its weapon-out flag, the tick builds its
key from the Idle base group and requests no new action; and when the
resolved id carries Idle, the tick completes and calls neither
AnimData::SetMovementSpeedMult nor AnimData::SetRateOfFire, records no
action, and leaves the action None. -/
theorem C10_idle (movementSpeed turnSpeed : ℚ) (w w1 : World)
    (charController : bhkCharacterController)
    (hdying : w.IsDying = false) (hknocked : w.GetKnockedState = false)
    (hthird : ¬ (w.isPlayer = true ∧ w.IsNotFirstPerson = false))
    (hdata : w.hasAnimData = true) (hproc : w.hasBaseProcess = true)
    (hcc : w.charController = some charController)
    (hpre : endStaleWeaponSequences w = Except.ok w1)
    (hcur : w1.GetCurrentAnimAction = kAnimAction_None)
    (hsit : w1.GetSitSleepState = kSitSleepState_Normal)
    (hground : charController.GetContextHkState = kCharControllerState_OnGround)
    (hjump : ∀ v, w1.rigs.third.GetAnimSequenceElement kSequence_Movement = some v →
      (w1.group v).IsJumping = false ∧ (w1.group v).GetSequenceGroup ≠ kAnimGroup_JumpStart)
    (hwants : w1.GetWantsWeaponOut_IfSwimmingCancelVATS = w1.IsWeaponOut)
    (hflags : w1.GetMovementFlags = 0)
    (hinfo : w1.GetWeaponInfo = none)
    (hres : AnimGroupID.GetGroupID (w1.AnimData_495740
        (Anim_Concat_MoveType_HandType_Group_PowerArmor kAnimMoveType_Walking
          kAnimHandType_1HM kAnimGroup_Idle w1.isPowerArmor))
      = kAnimGroup_Idle) :
    ∃ l w2 es, classified charController movementSpeed w1 = Except.ok (w1, l) ∧
      l.animGroup = kAnimGroup_Idle ∧ l.animAction = kAnimAction_None ∧
      Actor.PickAnimations movementSpeed turnSpeed w = Except.ok w2 ∧
      w2.GetCurrentAnimAction = kAnimAction_None ∧
      w2.trace = w1.trace ++ es ∧
      ∀ e ∈ es, (∀ v, e ≠ Effect.SetMovementSpeedMult v) ∧ (∀ v, e ≠ Effect.SetRateOfFire v) ∧
        ∀ a q, e ≠ Effect.SetAnimActionAndSequence a q := by
  obtain ⟨l, w2, hclass, hgroup, haction, -, hbody, -, hact, -, es, ht, hes⟩ :=
    body_idle charController movementSpeed turnSpeed w1 hcur hsit hground hjump hwants hflags
      hinfo hres
  refine ⟨l, w2, es, hclass, hgroup, haction, ?_, hact.trans hcur, ht, hes⟩
  rw [tick_eq_body movementSpeed turnSpeed w w1 charController hdying hknocked hthird hdata
    hproc hcc hpre]
  exact hbody

/-- C10, amended, at a concrete input: the unarmed entity standing still
resolves Idle and commits neither a speed multiplier nor a rate of fire. -/
theorem C10_idle_witness :
    ∃ w2 es, Actor.PickAnimations 1 0 Example.world = Except.ok w2 ∧
      w2.GetCurrentAnimAction = kAnimAction_None ∧
      w2.trace = Example.world.trace ++ es ∧
      ∀ e ∈ es, (∀ v, e ≠ Effect.SetMovementSpeedMult v) ∧ (∀ v, e ≠ Effect.SetRateOfFire v) ∧
        ∀ a q, e ≠ Effect.SetAnimActionAndSequence a q := by
  obtain ⟨l, w2, es, -, -, -, h4, h5, h6, h7⟩ :=
    C10_idle 1 0 Example.world Example.world Example.onGround rfl rfl (by decide) rfl rfl rfl rfl
      rfl rfl rfl (fun v hv => by cases hv) rfl rfl rfl (by decide)
  exact ⟨w2, es, h4, h5, h6, h7⟩

/-- C11: in a tick whose resolution runs (line 666), a zero root-motion
magnitude makes the committed movement-speed multiplier the movementSpeed
argument of the call, unscaled, (a) on the normal path, for a resolved
directional, fast or dodge group, the resolver answering the key of the tick
with its base group or with the sentinel (spec 4.3), and (b) on the
forced-script path, where the magnitude is that of the id playing on the
movement channel after the adjustment of lines 692-716, for actor type 0
whatever plays and for the other actor types when a directional, fast or
dodge group plays; in both cases it is the only multiplier the tick commits,
and no rate of fire is committed. -/
theorem C11_zero_magnitude (charController : bhkCharacterController)
    (movementSpeed turnSpeed : ℚ) (w w1 : World) (l : Locals)
    (hc : classified charController movementSpeed w = Except.ok (w1, l))
    (hguard : l.animAction = -1 ∨ l.currentAnimAction = -1) :
    (sequenceInFlight w1 l (AnimGroupID.GetGroupID (resolvedID w1 l)) = false →
      resolverKeepsGroup w1 l = true →
      kAnimGroup_Forward ≤ AnimGroupID.GetGroupID (resolvedID w1 l) →
      AnimGroupID.GetGroupID (resolvedID w1 l) ≤ kAnimGroup_DodgeRight →
      w1.rigs.third.GetPlayingAnimGroupMovementVectorMagnitude
        (magnitudeGroupID w1 (resolvedID w1 l)) = 0 →
      ∃ w2 es, body charController movementSpeed turnSpeed w = Except.ok w2 ∧
        w2.trace = w1.trace ++ Effect.SetMovementSpeedMult movementSpeed :: es ∧
        ∀ e ∈ es, Effect.isSpeedOrRate e = false) ∧
    (sequenceInFlight w1 l (AnimGroupID.GetGroupID (resolvedID w1 l)) = true →
      l.currentAnimAction = kAnimAction_Force_Script_Anim →
      (w1.GetActorType = 0 ∨
        (kAnimGroup_Forward ≤
            AnimGroupID.GetGroupID (w1.rigs.third.GetNthSequenceGroupID kSequence_Movement) ∧
          AnimGroupID.GetGroupID (w1.rigs.third.GetNthSequenceGroupID kSequence_Movement)
            ≤ kAnimGroup_DodgeRight)) →
      w1.rigs.third.GetPlayingAnimGroupMovementVectorMagnitude (forceScriptGroupID w1) = 0 →
      ∃ w2, body charController movementSpeed turnSpeed w = Except.ok w2 ∧
        w2.trace = w1.trace ++ [Effect.SetMovementSpeedMult movementSpeed]) := by
  obtain ⟨-, hreq, hspeed, -⟩ :=
    classified_summary (fun _ => True) (fun _ _ => trivial) charController movementSpeed w w1 l hc
  rw [body_eq charController movementSpeed turnSpeed w w1 l hc,
    resolvePhase_eq turnSpeed w1 l hguard]
  constructor
  · intro hnot hres h1 h2 hzero
    have hcarry : AnimGroupID.GetGroupID (resolvedID w1 l) = dropSlowMovement l :=
      carry_of_contract w1 l hres (le_trans h2 (by decide))
    have hgroup : l.animGroup = AnimGroupID.GetGroupID (resolvedID w1 l) :=
      dropSlowMovement_of_carry l _ hcarry h1
    have hv : l.v167 = movementSpeed := by
      rcases hspeed with ⟨a, -⟩ | ⟨a, -⟩
      · exact a
      · rw [hgroup] at a
        exact absurd (lt_of_lt_of_le a h2) (by decide)
    rw [if_neg (by rw [hnot]; simp), dropUnresolved_carry w1 l _ hcarry.symm]
    simp only []
    rw [commitSpeed_movement turnSpeed w1 _ (resolvedID w1 l)
      (ne_sentinel_of_group _ (le_trans h2 (by decide))) h1 h2, if_neg (by simpa using hzero)]
    obtain ⟨es, ht, hes⟩ := afterCommit_records (fun e => Effect.isSpeedOrRate e = false)
      (fun _ _ => rfl) rfl (fun _ _ => rfl) rfl rfl
      (w1.perform (Effect.SetMovementSpeedMult l.v167))
      { l with animAction := l.animAction,
               animGroup := AnimGroupID.GetGroupID (resolvedID w1 l) }
      (resolvedID w1 l) (fun _ => rfl)
    refine ⟨_, es, rfl, ?_, hes⟩
    rw [ht, ← hv]
    simp [World.perform]
  · intro hin hforce hplay hzero
    obtain ⟨h1, h2, -⟩ := forceScriptGroupID_movement w1 hplay
    have hstart : ¬ (w.GetCurrentAnimAction = -1 ∨
        w.GetCurrentAnimAction = kAAP1_Unequip_Weapon ∨
        w.GetCurrentAnimAction = kAAP1_Attack_Eject ∨ w.GetCurrentAnimAction = kAAP1_Dodge) := by
      rcases hreq with ⟨-, a, -⟩ | ⟨-, a, -⟩
      · rw [← a, hforce]
        decide
      · rw [hforce] at a
        exact absurd a (by decide)
    obtain ⟨hv, -, -, -⟩ := classified_in_flight charController movementSpeed w w1 l hc hstart
    have ha : l.animAction = -1 := by
      rcases hguard with a | a
      · exact a
      · rw [hforce] at a
        exact absurd a (by decide)
    rw [if_pos hin, if_pos hforce, dropUnresolved_none w1 l _ ha]
    simp only []
    rw [forceScriptSpeed_eq, if_neg, if_neg (by simpa using hzero)]
    · exact ⟨_, rfl, by rw [← hv]; rfl⟩
    · have a : (3 : Nat) ≤ AnimGroupID.GetGroupID (forceScriptGroupID w1) := h1
      have b : AnimGroupID.GetGroupID (forceScriptGroupID w1) ≤ 14 := h2
      simp only [kAnimGroup_TurnLeft, kAnimGroup_TurnRight]
      omega

/-- C11 at a concrete input: walking forward with a Forward group of magnitude
0 and movementSpeed 2 commits 2; the resolver of the fixture answers the
Forward key with the Forward group. -/
theorem C11_zero_magnitude_witness :
    ∃ w2 es, body Example.onGround 2 5
        (Example.movingWorld (kMoveFlag_Forward ||| kMoveFlag_Walking)) = Except.ok w2 ∧
      w2.trace = Effect.SetMovementSpeedMult 2 :: es ∧
      ∀ e ∈ es, Effect.isSpeedOrRate e = false := by
  have hl : ∃ l, classified Example.onGround 2
      (Example.movingWorld (kMoveFlag_Forward ||| kMoveFlag_Walking))
        = Except.ok (Example.movingWorld (kMoveFlag_Forward ||| kMoveFlag_Walking), l) ∧
      l.animAction = -1 ∧
      sequenceInFlight (Example.movingWorld (kMoveFlag_Forward ||| kMoveFlag_Walking)) l
        (AnimGroupID.GetGroupID
          (resolvedID (Example.movingWorld (kMoveFlag_Forward ||| kMoveFlag_Walking)) l)) = false ∧
      resolverKeepsGroup (Example.movingWorld (kMoveFlag_Forward ||| kMoveFlag_Walking)) l
        = true ∧
      AnimGroupID.GetGroupID
          (resolvedID (Example.movingWorld (kMoveFlag_Forward ||| kMoveFlag_Walking)) l)
        = kAnimGroup_Forward ∧
      (Example.movingWorld (kMoveFlag_Forward ||| kMoveFlag_Walking)
        ).rigs.third.GetPlayingAnimGroupMovementVectorMagnitude
          (magnitudeGroupID (Example.movingWorld (kMoveFlag_Forward ||| kMoveFlag_Walking))
            (resolvedID (Example.movingWorld (kMoveFlag_Forward ||| kMoveFlag_Walking)) l))
        = 0 := ⟨_, rfl, rfl, rfl, rfl, rfl, rfl⟩
  obtain ⟨l, h1, h2, h3, h4, h5, h6⟩ := hl
  obtain ⟨w2, es, a, b, c⟩ :=
    (C11_zero_magnitude Example.onGround 2 5 _ _ l h1 (Or.inl h2)).1 h3 h4
      (le_of_eq h5.symm) (by rw [h5]; decide) h6
  exact ⟨w2, es, a, b, c⟩

/-- C12 as stated fails: while a script-forced FastForward animation is in
flight on the movement channel, an entity walking forward, for which the
classification chooses the walk speed 1 as target, commits the multiplier
(4 / 2) × 1 = 2 from the run multiplier 4 and the magnitude 2, not
1 × (1 / 2). -/
theorem C12_counterexample :
    (∃ l, classified Example.onGround 1 Example.scriptedFastWorld
        = Except.ok (Example.scriptedFastWorld, l) ∧
      l.movementSpeedMult = Example.scriptedFastWorld.GetWalkSpeed ∧
      Example.scriptedFastWorld.GetWalkSpeed = 1 ∧
      Example.scriptedFastWorld.GetRunSpeedMult = 4 ∧
      AnimGroupID.GetGroupID (forceScriptGroupID Example.scriptedFastWorld)
        = kAnimGroup_FastForward ∧
      Example.scriptedFastWorld.rigs.third.GetPlayingAnimGroupMovementVectorMagnitude
        (forceScriptGroupID Example.scriptedFastWorld) = 2) ∧
    ∃ w2, Actor.PickAnimations 1 0 Example.scriptedFastWorld = Except.ok w2 ∧
      w2.trace = [Effect.SetMovementSpeedMult 2] ∧
      Effect.SetMovementSpeedMult (1 * (1 / 2)) ∉ w2.trace := by
  refine ⟨⟨_, rfl, rfl, rfl, rfl, rfl, rfl⟩, ?_⟩
  have h : ∃ w2, Actor.PickAnimations 1 0 Example.scriptedFastWorld = Except.ok w2 ∧
      w2.trace = [Effect.SetMovementSpeedMult ((4 / 2) * 1)] := ⟨_, rfl, rfl⟩
  obtain ⟨w2, h1, h2⟩ := h
  have h3 : w2.trace = [Effect.SetMovementSpeedMult 2] := by
    rw [h2]
    norm_num
  exact ⟨w2, h1, h3, by rw [h3]; norm_num⟩

/-- C12, amended: in a tick whose resolution runs (line 666), a nonzero
root-motion magnitude m makes the committed movement-speed multiplier
(target / m) × movementSpeed, where (a) on the normal path, for a resolved
directional, fast or dodge group, the resolver answering the key of the tick
with its base group or with the sentinel (spec 4.3), target is the walk speed
or the run multiplier chosen by the classification, and (b) on the
forced-script path target is chosen by the actor type and the group playing
on the movement channel, whatever the classification chose: for actor type 0
the walk speed, whatever plays (line 716 rewrites the id to Forward); for the
other actor types the run multiplier when FastForward, FastBackward, FastLeft
or FastRight plays and the walk speed when another directional or a dodge
group plays; there m is the magnitude of the playing id after the adjustment
of lines 692-716. In both cases it is the only multiplier the tick commits. -/
theorem C12_scaled_commit (charController : bhkCharacterController)
    (movementSpeed turnSpeed : ℚ) (w w1 : World) (l : Locals)
    (hc : classified charController movementSpeed w = Except.ok (w1, l))
    (hguard : l.animAction = -1 ∨ l.currentAnimAction = -1) :
    (sequenceInFlight w1 l (AnimGroupID.GetGroupID (resolvedID w1 l)) = false →
      resolverKeepsGroup w1 l = true →
      kAnimGroup_Forward ≤ AnimGroupID.GetGroupID (resolvedID w1 l) →
      AnimGroupID.GetGroupID (resolvedID w1 l) ≤ kAnimGroup_DodgeRight →
      w1.rigs.third.GetPlayingAnimGroupMovementVectorMagnitude
        (magnitudeGroupID w1 (resolvedID w1 l)) ≠ 0 →
      (l.movementSpeedMult = w1.GetWalkSpeed ∨ l.movementSpeedMult = w1.GetRunSpeedMult) ∧
      ∃ w2 es, body charController movementSpeed turnSpeed w = Except.ok w2 ∧
        w2.trace = w1.trace ++
          Effect.SetMovementSpeedMult
            ((l.movementSpeedMult /
                w1.rigs.third.GetPlayingAnimGroupMovementVectorMagnitude
                  (magnitudeGroupID w1 (resolvedID w1 l)))
              * movementSpeed) :: es ∧
        ∀ e ∈ es, Effect.isSpeedOrRate e = false) ∧
    (sequenceInFlight w1 l (AnimGroupID.GetGroupID (resolvedID w1 l)) = true →
      l.currentAnimAction = kAnimAction_Force_Script_Anim →
      (w1.GetActorType = 0 ∨
        (kAnimGroup_Forward ≤
            AnimGroupID.GetGroupID (w1.rigs.third.GetNthSequenceGroupID kSequence_Movement) ∧
          AnimGroupID.GetGroupID (w1.rigs.third.GetNthSequenceGroupID kSequence_Movement)
            ≤ kAnimGroup_DodgeRight)) →
      w1.rigs.third.GetPlayingAnimGroupMovementVectorMagnitude (forceScriptGroupID w1) ≠ 0 →
      ∃ w2, body charController movementSpeed turnSpeed w = Except.ok w2 ∧
        w2.trace = w1.trace ++
          [Effect.SetMovementSpeedMult
            (((if w1.GetActorType ≠ 0 ∧
                  (AnimGroupID.GetGroupID
                      (w1.rigs.third.GetNthSequenceGroupID kSequence_Movement)
                      = kAnimGroup_FastForward ∨
                    isFastSide (AnimGroupID.GetGroupID
                      (w1.rigs.third.GetNthSequenceGroupID kSequence_Movement)) = true)
                then w1.GetRunSpeedMult else w1.GetWalkSpeed) /
                w1.rigs.third.GetPlayingAnimGroupMovementVectorMagnitude (forceScriptGroupID w1))
              * movementSpeed)]) := by
  obtain ⟨-, hreq, hspeed, -⟩ :=
    classified_summary (fun _ => True) (fun _ _ => trivial) charController movementSpeed w w1 l hc
  rw [body_eq charController movementSpeed turnSpeed w w1 l hc,
    resolvePhase_eq turnSpeed w1 l hguard]
  constructor
  · intro hnot hres h1 h2 hmag
    have hcarry : AnimGroupID.GetGroupID (resolvedID w1 l) = dropSlowMovement l :=
      carry_of_contract w1 l hres (le_trans h2 (by decide))
    have hgroup : l.animGroup = AnimGroupID.GetGroupID (resolvedID w1 l) :=
      dropSlowMovement_of_carry l _ hcarry h1
    have hv : l.v167 = movementSpeed ∧
        (l.movementSpeedMult = w1.GetWalkSpeed ∨ l.movementSpeedMult = w1.GetRunSpeedMult) := by
      rcases hspeed with ⟨a, -, c⟩ | ⟨a, -⟩
      · exact ⟨a, c (by rw [hgroup]; exact h1) (by rw [hgroup]; exact h2)⟩
      · rw [hgroup] at a
        exact absurd (lt_of_lt_of_le a h2) (by decide)
    refine ⟨hv.2, ?_⟩
    rw [if_neg (by rw [hnot]; simp), dropUnresolved_carry w1 l _ hcarry.symm]
    simp only []
    rw [commitSpeed_movement turnSpeed w1 _ (resolvedID w1 l)
      (ne_sentinel_of_group _ (le_trans h2 (by decide))) h1 h2, if_pos hmag]
    obtain ⟨es, ht, hes⟩ := afterCommit_records (fun e => Effect.isSpeedOrRate e = false)
      (fun _ _ => rfl) rfl (fun _ _ => rfl) rfl rfl
      (w1.perform (Effect.SetMovementSpeedMult
        ((l.movementSpeedMult /
            w1.rigs.third.GetPlayingAnimGroupMovementVectorMagnitude
              (magnitudeGroupID w1 (resolvedID w1 l))) * l.v167)))
      { l with animAction := l.animAction,
               animGroup := AnimGroupID.GetGroupID (resolvedID w1 l) }
      (resolvedID w1 l) (fun _ => rfl)
    refine ⟨_, es, rfl, ?_, hes⟩
    rw [ht, ← hv.1]
    simp [World.perform]
  · intro hin hforce hplay hmag
    obtain ⟨h1, h2, hfast⟩ := forceScriptGroupID_movement w1 hplay
    have hstart : ¬ (w.GetCurrentAnimAction = -1 ∨
        w.GetCurrentAnimAction = kAAP1_Unequip_Weapon ∨
        w.GetCurrentAnimAction = kAAP1_Attack_Eject ∨ w.GetCurrentAnimAction = kAAP1_Dodge) := by
      rcases hreq with ⟨-, a, -⟩ | ⟨-, a, -⟩
      · rw [← a, hforce]
        decide
      · rw [hforce] at a
        exact absurd a (by decide)
    obtain ⟨hv, -, -, -⟩ := classified_in_flight charController movementSpeed w w1 l hc hstart
    have ha : l.animAction = -1 := by
      rcases hguard with a | a
      · exact a
      · rw [hforce] at a
        exact absurd a (by decide)
    rw [if_pos hin, if_pos hforce, dropUnresolved_none w1 l _ ha]
    simp only []
    rw [forceScriptSpeed_eq, if_neg, if_pos hmag, forceScriptTarget_movement w1 _ h1 h2,
      if_congr hfast rfl rfl]
    · exact ⟨_, rfl, by rw [← hv]; rfl⟩
    · have a : (3 : Nat) ≤ AnimGroupID.GetGroupID (forceScriptGroupID w1) := h1
      have b : AnimGroupID.GetGroupID (forceScriptGroupID w1) ≤ 14 := h2
      simp only [kAnimGroup_TurnLeft, kAnimGroup_TurnRight]
      omega

/-- C12, amended, at a concrete input: running forward with run multiplier
4, magnitude 2 and movementSpeed 3 commits (4 / 2) × 3. -/
theorem C12_scaled_commit_witness :
    ∃ w2 es, body Example.onGround 3 0 Example.runWorld = Except.ok w2 ∧
      w2.trace = Effect.SetMovementSpeedMult ((4 / 2) * 3) :: es ∧
      ∀ e ∈ es, Effect.isSpeedOrRate e = false := by
  have hl : ∃ l, classified Example.onGround 3 Example.runWorld
        = Except.ok (Example.runWorld, l) ∧
      l.animAction = -1 ∧
      sequenceInFlight Example.runWorld l
        (AnimGroupID.GetGroupID (resolvedID Example.runWorld l)) = false ∧
      resolverKeepsGroup Example.runWorld l = true ∧
      AnimGroupID.GetGroupID (resolvedID Example.runWorld l) = kAnimGroup_FastForward ∧
      l.movementSpeedMult = 4 ∧
      Example.runWorld.rigs.third.GetPlayingAnimGroupMovementVectorMagnitude
          (magnitudeGroupID Example.runWorld (resolvedID Example.runWorld l)) = 2 :=
    ⟨_, rfl, rfl, rfl, rfl, rfl, rfl, rfl⟩
  obtain ⟨l, h1, h2, h3, h4, h5, h6, h7⟩ := hl
  obtain ⟨-, w2, es, a, b, c⟩ :=
    (C12_scaled_commit Example.onGround 3 0 _ _ l h1 (Or.inl h2)).1 h3 h4
      (by rw [h5]; decide) (by rw [h5]; decide) (by rw [h7]; norm_num)
  rw [h6, h7] at b
  exact ⟨w2, es, a, b, c⟩

/-- C13 as stated fails: while a script-forced Forward animation is in
flight on the movement channel, an entity that turns left resolves the
TurnLeft group (the resolved id is 15, not the sentinel), but the tick
commits the movementSpeed argument 2 (the Forward group playing on the
movement channel has magnitude 0), not the turnSpeed argument 5. -/
theorem C13_counterexample :
    (∃ l, classified Example.onGround 2 Example.scriptedTurnWorld
        = Except.ok (Example.scriptedTurnWorld, l) ∧
      resolvedID Example.scriptedTurnWorld l ≠ 255 ∧
      AnimGroupID.GetGroupID (resolvedID Example.scriptedTurnWorld l) = kAnimGroup_TurnLeft) ∧
    ∃ w2, Actor.PickAnimations 2 5 Example.scriptedTurnWorld = Except.ok w2 ∧
      w2.trace = [Effect.SetMovementSpeedMult 2] ∧
      Effect.SetMovementSpeedMult 5 ∉ w2.trace := by
  refine ⟨⟨_, rfl, by decide, rfl⟩, ?_⟩
  have h : ∃ w2, Actor.PickAnimations 2 5 Example.scriptedTurnWorld = Except.ok w2 ∧
      w2.trace = [Effect.SetMovementSpeedMult 2] := ⟨_, rfl, rfl⟩
  obtain ⟨w2, h1, h2⟩ := h
  exact ⟨w2, h1, h2, by rw [h2]; norm_num⟩

/-- C13, amended: in a tick whose resolution runs (line 666), (a) on the
normal path, whenever the resolved group is TurnLeft or TurnRight, the tick
commits exactly the turnSpeed argument as movement-speed multiplier, and no
other multiplier and no rate of fire; (b) on the forced-script path the
resolved group does not decide: the tick commits the turnSpeed argument
when the group playing on the movement channel (after lines 692-716) is
TurnLeft or TurnRight, and otherwise the speed input, scaled when the
magnitude of that group is not zero. -/
theorem C13_turn_commit (charController : bhkCharacterController)
    (movementSpeed turnSpeed : ℚ) (w w1 : World) (l : Locals)
    (hc : classified charController movementSpeed w = Except.ok (w1, l))
    (hguard : l.animAction = -1 ∨ l.currentAnimAction = -1) :
    (sequenceInFlight w1 l (AnimGroupID.GetGroupID (resolvedID w1 l)) = false →
      (AnimGroupID.GetGroupID (resolvedID w1 l) = kAnimGroup_TurnLeft ∨
        AnimGroupID.GetGroupID (resolvedID w1 l) = kAnimGroup_TurnRight) →
      ∃ w2 pre es, body charController movementSpeed turnSpeed w = Except.ok w2 ∧
        w2.trace = w1.trace ++ pre ++ Effect.SetMovementSpeedMult turnSpeed :: es ∧
        (∀ e ∈ pre, Effect.isSpeedOrRate e = false) ∧
        ∀ e ∈ es, Effect.isSpeedOrRate e = false) ∧
    (sequenceInFlight w1 l (AnimGroupID.GetGroupID (resolvedID w1 l)) = true →
      l.currentAnimAction = kAnimAction_Force_Script_Anim →
      ∃ w2, body charController movementSpeed turnSpeed w = Except.ok w2 ∧
        w2.trace = w1.trace ++
          [Effect.SetMovementSpeedMult
            (if AnimGroupID.GetGroupID (forceScriptGroupID w1) = kAnimGroup_TurnLeft ∨
                AnimGroupID.GetGroupID (forceScriptGroupID w1) = kAnimGroup_TurnRight
              then turnSpeed
              else if w1.rigs.third.GetPlayingAnimGroupMovementVectorMagnitude
                  (forceScriptGroupID w1) ≠ 0
                then (forceScriptTarget w1 l /
                    w1.rigs.third.GetPlayingAnimGroupMovementVectorMagnitude
                      (forceScriptGroupID w1)) * movementSpeed
                else movementSpeed)]) := by
  obtain ⟨-, hreq, -, -⟩ :=
    classified_summary (fun _ => True) (fun _ _ => trivial) charController movementSpeed w w1 l hc
  rw [body_eq charController movementSpeed turnSpeed w w1 l hc,
    resolvePhase_eq turnSpeed w1 l hguard]
  constructor
  · intro hnot hturn
    rw [if_neg (by rw [hnot]; simp)]
    obtain ⟨pre, hpre, hpres⟩ := dropUnresolved_records
      (fun e => Effect.isSpeedOrRate e = false) rfl w1 l
      (AnimGroupID.GetGroupID (resolvedID w1 l))
    generalize dropUnresolved w1 l (AnimGroupID.GetGroupID (resolvedID w1 l)) = d at hpre ⊢
    obtain ⟨wd, ad⟩ := d
    simp only [] at hpre ⊢
    rw [commitSpeed_turn turnSpeed wd _ (resolvedID w1 l)
      (ne_sentinel_of_group _ (by rcases hturn with h | h <;> exact le_of_eq_of_le h (by decide))) hturn]
    obtain ⟨es, ht, hes⟩ := afterCommit_records (fun e => Effect.isSpeedOrRate e = false)
      (fun _ _ => rfl) rfl (fun _ _ => rfl) rfl rfl
      (wd.perform (Effect.SetMovementSpeedMult turnSpeed))
      { l with animAction := ad, animGroup := AnimGroupID.GetGroupID (resolvedID w1 l) }
      (resolvedID w1 l) (fun _ => rfl)
    refine ⟨_, pre, es, rfl, ?_, hpres, hes⟩
    rw [ht]
    simp [World.perform, hpre]
  · intro hin hforce
    have hstart : ¬ (w.GetCurrentAnimAction = -1 ∨
        w.GetCurrentAnimAction = kAAP1_Unequip_Weapon ∨
        w.GetCurrentAnimAction = kAAP1_Attack_Eject ∨ w.GetCurrentAnimAction = kAAP1_Dodge) := by
      rcases hreq with ⟨-, a, -⟩ | ⟨-, a, -⟩
      · rw [← a, hforce]
        decide
      · rw [hforce] at a
        exact absurd a (by decide)
    obtain ⟨hv, -, -, -⟩ := classified_in_flight charController movementSpeed w w1 l hc hstart
    have ha : l.animAction = -1 := by
      rcases hguard with a | a
      · exact a
      · rw [hforce] at a
        exact absurd a (by decide)
    rw [if_pos hin, if_pos hforce, dropUnresolved_none w1 l _ ha]
    simp only []
    rw [forceScriptSpeed_eq]
    refine ⟨_, rfl, ?_⟩
    rw [← hv]
    split <;> rfl

/-- C13, amended, at a concrete input: turning left with turnSpeed 5 and
movementSpeed 2 commits 5. -/
theorem C13_turn_commit_witness :
    ∃ w2 pre es, body Example.onGround 2 5 (Example.movingWorld kMoveFlag_TurnLeft)
        = Except.ok w2 ∧
      w2.trace = pre ++ Effect.SetMovementSpeedMult 5 :: es ∧
      (∀ e ∈ pre, Effect.isSpeedOrRate e = false) ∧
      ∀ e ∈ es, Effect.isSpeedOrRate e = false := by
  have hl : ∃ l, classified Example.onGround 2 (Example.movingWorld kMoveFlag_TurnLeft)
        = Except.ok (Example.movingWorld kMoveFlag_TurnLeft, l) ∧
      l.animAction = -1 ∧
      sequenceInFlight (Example.movingWorld kMoveFlag_TurnLeft) l
        (AnimGroupID.GetGroupID (resolvedID (Example.movingWorld kMoveFlag_TurnLeft) l))
        = false ∧
      AnimGroupID.GetGroupID (resolvedID (Example.movingWorld kMoveFlag_TurnLeft) l)
        = kAnimGroup_TurnLeft := ⟨_, rfl, rfl, rfl, rfl⟩
  obtain ⟨l, h1, h2, h3, h4⟩ := hl
  obtain ⟨w2, pre, es, a, b, c, d⟩ :=
    (C13_turn_commit Example.onGround 2 5 _ _ l h1 (Or.inl h2)).1 h3 (Or.inl h4)
  exact ⟨w2, pre, es, a, b, c, d⟩

/-- C14: if a tick requests a new action (Equip_Weapon, Unequip_Weapon or
Wait_For_Lower_Body_Anim) and the resolved id does not carry the requested
group, the request is dropped without an error: the tick returns, it calls
`Actor::SetAnimActionAndSequence` with none of the three actions, the
resolution leaves the action and its sequence as they were, and a dropped
unequip request clears the weapon-out flag (line 683). -/
theorem C14_unresolved_request_dropped (charController : bhkCharacterController)
    (movementSpeed turnSpeed : ℚ) (w w1 : World) (l : Locals)
    (hc : classified charController movementSpeed w = Except.ok (w1, l))
    (hreq : l.animAction = kAnimAction_Equip_Weapon ∨
      l.animAction = kAnimAction_Unequip_Weapon ∨
      l.animAction = kAnimAction_Wait_For_Lower_Body_Anim)
    (hmiss : AnimGroupID.GetGroupID (resolvedID w1 l) ≠ l.animGroup) :
    ∃ w2 es, body charController movementSpeed turnSpeed w = Except.ok w2 ∧
      w2.trace = w.trace ++ es ∧
      (∀ e ∈ es, Effect.isRequestCommit e = false) ∧
      w2.GetCurrentAnimAction = w1.GetCurrentAnimAction ∧
      w2.GetCurrentSequence = w1.GetCurrentSequence ∧
      (l.animAction = kAnimAction_Unequip_Weapon → w2.IsWeaponOut = false) := by
  have hisreq : isRequestedAction l.animAction = true := by
    rcases hreq with h | h | h <;> rw [h] <;> decide
  obtain ⟨hrec, hcase, -, -⟩ :=
    classified_summary (fun e => Effect.isRequestCommit e = false) (fun _ h => h)
      charController movementSpeed w w1 l hc
  have hfacts : l.currentAnimAction = -1 ∧ kAnimGroup_TurnRight < l.animGroup := by
    rcases hcase with ⟨a, -⟩ | ⟨-, b, c, -⟩
    · rw [hisreq] at a
      exact absurd a (by decide)
    · exact ⟨b, c⟩
  obtain ⟨hcur, hhigh⟩ := hfacts
  have hne : l.animAction ≠ -1 := by
    rcases hreq with h | h | h <;> rw [h] <;> decide
  rw [body_eq charController movementSpeed turnSpeed w w1 l hc,
    resolvePhase_eq turnSpeed w1 l (Or.inr hcur),
    if_neg (by rw [sequenceInFlight_none w1 l _ hcur]; simp),
    dropUnresolved_miss w1 l _ hne (by rw [dropSlowMovement_high l hhigh]; exact hmiss.symm)]
  simp only []
  have hdrop : w1.Records (fun e => Effect.isRequestCommit e = false)
      (if l.animAction = 1 then w1.SetWeaponOut false else w1) :=
    World.Records.branch _ ((World.Records.nil _ w1).setWeaponOut _ rfl) (World.Records.nil _ w1)
  have hrest := (commitSpeed_performs (fun e => Effect.isRequestCommit e = false)
      (fun _ => rfl) (fun _ => rfl) turnSpeed
      (if l.animAction = 1 then w1.SetWeaponOut false else w1)
      { l with animAction := -1, animGroup := AnimGroupID.GetGroupID (resolvedID w1 l) }
      (resolvedID w1 l)).trans
    (afterCommit_performs (fun e => Effect.isRequestCommit e = false)
      (fun _ _ => rfl) rfl (fun _ _ => rfl) rfl rfl _
      { l with animAction := -1, animGroup := AnimGroupID.GetGroupID (resolvedID w1 l) }
      (resolvedID w1 l) rfl)
  obtain ⟨es, ht, hes⟩ := (hrec.append hdrop).append hrest.records
  obtain ⟨hout, hact, hseq, -⟩ := hrest
  refine ⟨_, es, rfl, ht, hes, ?_, ?_, ?_⟩
  · rw [hact]
    split <;> rfl
  · rw [hseq]
    split <;> rfl
  · intro hun
    have hun1 : l.animAction = 1 := hun
    rw [hout, if_pos hun1]
    rfl

/-- C14 at a concrete input: the unarmed entity that wants its weapon out
requests Equip_Weapon; with no Equip group to resolve, the tick returns and
records no action. -/
theorem C14_unresolved_request_dropped_witness :
    ∃ w2 es, body Example.onGround 1 0 Example.noEquipWorld = Except.ok w2 ∧
      w2.trace = es ∧
      (∀ e ∈ es, Effect.isRequestCommit e = false) ∧
      w2.GetCurrentAnimAction = kAnimAction_None := by
  have hl : ∃ l, classified Example.onGround 1 Example.noEquipWorld
        = Except.ok (Example.noEquipWorld, l) ∧
      l.animAction = kAnimAction_Equip_Weapon ∧ l.animGroup = kAnimGroup_Equip ∧
      AnimGroupID.GetGroupID (resolvedID Example.noEquipWorld l) = 255 :=
    ⟨_, rfl, rfl, rfl, rfl⟩
  obtain ⟨l, h1, h2, h3, h4⟩ := hl
  obtain ⟨w2, es, a, b, c, d, -, -⟩ :=
    C14_unresolved_request_dropped Example.onGround 1 0 _ _ l h1 (Or.inl h2)
      (by rw [h3, h4]; decide)
  exact ⟨w2, es, a, b, c, d⟩

/-- C15 fails in the code: a tick that starts in Reload with no current
sequence handle, the pistol held (a weapon that allows jams) and nothing on
the off-hand channel adopts no Block and triggers no jam reload, yet the
action is not set to None: the jam branch reads the group of the absent
sequence (lines 435-436), which the guard of lines 81-85 had just found
absent, and the tick faults. -/
theorem C15_absent_sequence_faults :
    Example.lostReloadWorld.GetCurrentAnimAction = kAnimAction_Reload ∧
    Example.lostReloadWorld.GetCurrentAnimAction ≠ kAnimAction_None ∧
    Example.lostReloadWorld.GetCurrentSequence = none ∧
    Example.lostReloadWorld.rigs.third.GetAnimSequenceElement kSequence_LeftArm = none ∧
    Example.lostReloadWorld.weap = some Example.pistol ∧
    Example.pistol.NoJamAfterReload = false ∧
    actionPhase Example.onGround Example.lostReloadWorld (initLocals Example.lostReloadWorld)
      = Except.error Fault.nullDeref ∧
    Actor.PickAnimations 1 0 Example.lostReloadWorld = Except.error Fault.nullDeref :=
  ⟨rfl, by decide, rfl, rfl, rfl, rfl, rfl, rfl⟩

/-- C16 fails in the code: each of three inputs that pass the entry guards
makes the tick read through an absent handle. (1) Tick-start action Reload,
the pistol held, no current sequence: the jam branch reads the group of the
absent sequence (lines 435-436). (2) Tick-start action ReloadLoop on a live
sequence past its action point, no weapon profile: the reload lookup reads
the absent profile and weapon (lines 399-400). (3) No sequence on the
weapon channel while its group id reads as AttackLoop and the attack loop
has no time remaining: the pre-phase reads the state of the absent sequence
(line 32). -/
theorem C16_null_dereference :
    (Example.lostReloadWorld.IsDying = false ∧
      Example.lostReloadWorld.GetKnockedState = false ∧
      Example.lostReloadWorld.isPlayer = false ∧
      Example.lostReloadWorld.hasAnimData = true ∧
      Example.lostReloadWorld.hasBaseProcess = true ∧
      Example.lostReloadWorld.charController = some Example.onGround ∧
      Example.lostReloadWorld.GetCurrentAnimAction = kAnimAction_Reload ∧
      Example.lostReloadWorld.GetCurrentSequence = none ∧
      Actor.PickAnimations 1 0 Example.lostReloadWorld = Except.error Fault.nullDeref) ∧
    (Example.unarmedReloadWorld.IsDying = false ∧
      Example.unarmedReloadWorld.GetKnockedState = false ∧
      Example.unarmedReloadWorld.isPlayer = false ∧
      Example.unarmedReloadWorld.hasAnimData = true ∧
      Example.unarmedReloadWorld.hasBaseProcess = true ∧
      Example.unarmedReloadWorld.charController = some Example.onGround ∧
      Example.unarmedReloadWorld.GetCurrentAnimAction = kAnimAction_ReloadLoop ∧
      Example.unarmedReloadWorld.GetCurrentSequence = some 7 ∧
      (Example.unarmedReloadWorld.rigs.seq 7).GetState = kAnimState_Animating ∧
      Example.unarmedReloadWorld.GetWeaponInfo = none ∧
      Actor.PickAnimations 1 0 Example.unarmedReloadWorld = Except.error Fault.nullDeref) ∧
    (Example.emptyAttackLoopWorld.IsDying = false ∧
      Example.emptyAttackLoopWorld.GetKnockedState = false ∧
      Example.emptyAttackLoopWorld.isPlayer = false ∧
      Example.emptyAttackLoopWorld.hasAnimData = true ∧
      Example.emptyAttackLoopWorld.hasBaseProcess = true ∧
      Example.emptyAttackLoopWorld.charController = some Example.onGround ∧
      Example.emptyAttackLoopWorld.rigs.third.GetAnimSequenceElement kSequence_Weapon = none ∧
      AnimGroupID.GetGroupID
        (Example.emptyAttackLoopWorld.rigs.third.GetNthSequenceGroupID kSequence_Weapon)
        = kAnimGroup_AttackLoop ∧
      Actor.PickAnimations 1 0 Example.emptyAttackLoopWorld = Except.error Fault.nullDeref) :=
  ⟨⟨rfl, rfl, rfl, rfl, rfl, rfl, rfl, rfl, rfl⟩,
    ⟨rfl, rfl, rfl, rfl, rfl, rfl, rfl, rfl, rfl, rfl, rfl⟩,
    ⟨rfl, rfl, rfl, rfl, rfl, rfl, rfl, rfl, rfl⟩⟩

/-- C17 as stated fails. The two inputs differ only in entry 9 * 255 of the
sequence-type table, the entry of the sentinel's group number, and the
resolver answers 255 in both; with that entry naming the idle channel the
tick issues PlayAnimGroup for the sentinel id, with that entry naming the
weapon channel it issues nothing. So the sentinel's group number indexes the
table (lines 688, 818) and a PlayAnimGroup for id 255 is issued. -/
theorem C17_counterexample :
    (∀ index, index ≠ 9 * 255 →
      (Example.sentinelWorld kSequence_Idle).g_animSequenceTypes index
        = (Example.sentinelWorld kSequence_Weapon).g_animSequenceTypes index) ∧
    (∃ l, classified Example.onGround 1 (Example.sentinelWorld kSequence_Idle)
        = Except.ok (Example.sentinelWorld kSequence_Idle, l) ∧
      resolvedID (Example.sentinelWorld kSequence_Idle) l = 255) ∧
    (∃ w2, Actor.PickAnimations 1 0 (Example.sentinelWorld kSequence_Idle) = Except.ok w2 ∧
      w2.trace = [Effect.PlayAnimGroup 255 1, Effect.PlayFirstPersonAnimation]) ∧
    (∃ l, classified Example.onGround 1 (Example.sentinelWorld kSequence_Weapon)
        = Except.ok (Example.sentinelWorld kSequence_Weapon, l) ∧
      resolvedID (Example.sentinelWorld kSequence_Weapon) l = 255) ∧
    (∃ w2, Actor.PickAnimations 1 0 (Example.sentinelWorld kSequence_Weapon) = Except.ok w2 ∧
      w2.trace = []) := by
  refine ⟨?_, ⟨_, rfl, rfl⟩, ⟨_, rfl, rfl⟩, ⟨_, rfl, rfl⟩, ⟨_, rfl, rfl⟩⟩
  intro index hne
  show (if index = 9 * 255 then _ else _) = (if index = 9 * 255 then _ else _)
  rw [if_neg hne, if_neg hne]

/-- C17, amended: when the resolver returns the no-group sentinel (id 255)
and the tick does not find the action in flight on the channel that entry
9 * 255 of the sequence-type table names (line 688), the tick returns and
commits no movement-speed multiplier and no rate of fire (line 751); the
table is still indexed with the sentinel's group number, and PlayAnimGroup
for id 255 is issued exactly when the channel of that entry does not
already play id 255 on an active sequence and the sentinel id has a
sequence base (lines 818-843). -/
theorem C17_sentinel_commits_nothing (charController : bhkCharacterController)
    (movementSpeed turnSpeed : ℚ) (w w1 : World) (l : Locals)
    (hc : classified charController movementSpeed w = Except.ok (w1, l))
    (hguard : l.animAction = -1 ∨ l.currentAnimAction = -1)
    (hid : resolvedID w1 l = 255)
    (hnot : sequenceInFlight w1 l kAnimGroup_Invalid = false) :
    ∃ w2 es, body charController movementSpeed turnSpeed w = Except.ok w2 ∧
      w2.trace = w1.trace ++ es ∧ (∀ e ∈ es, Effect.isSpeedOrRate e = false) ∧
      (Effect.PlayAnimGroup 255 1 ∈ es ↔
        (needsPlay w1 { l with animGroup := kAnimGroup_Invalid } 255 = true ∧
          w1.rigs.third.GetSequenceBaseFromMap 255 = true)) := by
  have hg : AnimGroupID.GetGroupID (resolvedID w1 l) = kAnimGroup_Invalid := by
    rw [hid]
    rfl
  have hbody := body_eq charController movementSpeed turnSpeed w w1 l hc
  rw [resolvePhase_eq turnSpeed w1 l hguard, hg, hid,
    if_neg (by rw [hnot]; exact Bool.false_ne_true), commitSpeed_sentinel] at hbody
  obtain ⟨-, -, -, d4, d5, -⟩ := dropUnresolved_summary w1 l kAnimGroup_Invalid
  obtain ⟨e0, t0, p0⟩ := dropUnresolved_records (fun e => e = Effect.SetWeaponOut false) rfl
    w1 l kAnimGroup_Invalid
  revert hbody
  generalize dropUnresolved w1 l kAnimGroup_Invalid = d at d4 d5 t0 ⊢
  obtain ⟨wd, ad⟩ := d
  simp only [] at d4 d5 t0 ⊢
  intro hbody
  have hplay := playResolved_plays (fun e => Effect.isSpeedOrRate e = false)
    (fun _ _ => rfl) rfl wd { l with animAction := ad, animGroup := kAnimGroup_Invalid } 255
    (fun _ => rfl)
  have hneeds : needsPlay wd { l with animAction := ad, animGroup := kAnimGroup_Invalid } 255
      = needsPlay w1 { l with animGroup := kAnimGroup_Invalid } 255 :=
    needsPlay_congr w1 wd _ _ 255 d4 d5 rfl
  rw [hneeds, d4] at hplay
  obtain ⟨e2, t2, p2⟩ :=
    ((endMovement_performs
      (fun e => Effect.isSpeedOrRate e = false ∧ e ≠ Effect.PlayAnimGroup 255 1)
      (fun _ _ => ⟨rfl, by simp⟩)
      (playResolved wd { l with animAction := ad, animGroup := kAnimGroup_Invalid } 255)
      { l with animAction := ad, animGroup := kAnimGroup_Invalid }).records.append
    (attackHook_performs
      (fun e => Effect.isSpeedOrRate e = false ∧ e ≠ Effect.PlayAnimGroup 255 1)
      ⟨rfl, by simp⟩ ⟨rfl, by simp⟩ _).records)
  by_cases hcond : needsPlay w1 { l with animGroup := kAnimGroup_Invalid } 255 = true ∧
      w1.rigs.third.GetSequenceBaseFromMap 255 = true
  · obtain ⟨e1, t1, m1, p1⟩ := hplay.1 hcond
    refine ⟨_, e0 ++ e1 ++ e2, hbody, ?_, ?_, ?_⟩
    · rw [t2, t1, t0]
      simp
    · intro e he
      rcases List.mem_append.mp he with h | h
      · rcases List.mem_append.mp h with h | h
        · rw [p0 e h]
          rfl
        · exact p1 e h
      · exact (p2 e h).1
    · exact ⟨fun _ => hcond, fun _ => by simp [m1]⟩
  · refine ⟨_, e0 ++ e2, hbody, ?_, ?_, ?_⟩
    · rw [t2, hplay.2 hcond, t0]
      simp
    · intro e he
      rcases List.mem_append.mp he with h | h
      · rw [p0 e h]
        rfl
      · exact (p2 e h).1
    · constructor
      · intro hmem
        exfalso
        rcases List.mem_append.mp hmem with h | h
        · have := p0 _ h
          simp at this
        · exact (p2 _ h).2 rfl
      · intro h
        exact absurd h hcond

/-- C17, amended, at a concrete input: the resolver answers 255, the entry
of the table at 9 * 255 names the idle channel, which plays another id, and
the sentinel id has a sequence base; the tick commits no speed and no rate
and issues PlayAnimGroup for id 255. -/
theorem C17_sentinel_commits_nothing_witness :
    ∃ w2 es, body Example.onGround 1 0 (Example.sentinelWorld kSequence_Idle) = Except.ok w2 ∧
      w2.trace = (Example.sentinelWorld kSequence_Idle).trace ++ es ∧
      (∀ e ∈ es, Effect.isSpeedOrRate e = false) ∧ Effect.PlayAnimGroup 255 1 ∈ es := by
  have hl : ∃ l, classified Example.onGround 1 (Example.sentinelWorld kSequence_Idle)
      = Except.ok (Example.sentinelWorld kSequence_Idle, l) ∧ l.animAction = -1 ∧
      resolvedID (Example.sentinelWorld kSequence_Idle) l = 255 ∧
      sequenceInFlight (Example.sentinelWorld kSequence_Idle) l kAnimGroup_Invalid = false ∧
      needsPlay (Example.sentinelWorld kSequence_Idle)
        { l with animGroup := kAnimGroup_Invalid } 255 = true :=
    ⟨_, rfl, rfl, rfl, rfl, rfl⟩
  obtain ⟨l, h1, h2, h3, h4, h5⟩ := hl
  obtain ⟨w2, es, a, b, c, d⟩ :=
    C17_sentinel_commits_nothing Example.onGround 1 0 _ _ l h1 (Or.inl h2) h3 h4
  exact ⟨w2, es, a, b, c, d.mpr ⟨h5, rfl⟩⟩

/-- C18 as stated fails: the unarmed entity standing still has no weapon
profile, and its key is built with the hand type kAnimHandType_1HM assigned
at line 550, not with kAnimHandType_H2H. -/
theorem C18_counterexample :
    Example.world.GetWeaponInfo = none ∧
    ∃ l, classified Example.onGround 1 Example.world = Except.ok (Example.world, l) ∧
      l.animHandType = kAnimHandType_1HM ∧ l.animHandType ≠ kAnimHandType_H2H ∧
      resolvedID Example.world l
        = Example.world.AnimData_495740
            (Anim_Concat_MoveType_HandType_Group_PowerArmor kAnimMoveType_Walking
              kAnimHandType_1HM kAnimGroup_Idle false) :=
  ⟨rfl, _, rfl, rfl, by decide, rfl⟩

/-- C18, amended: when the entity has no weapon profile at lines 541-551,
the hand type of the tick's key is kAnimHandType_1HM (line 550) whenever the
test of line 541 holds (actor type 0 wanting its weapon out or in combat,
or the weapon-out flag set, or a requested action of at most 1, which
includes no request), and the default kAnimHandType_H2H of line 67
otherwise; and picking the hand type without a profile never faults. -/
theorem C18_hand_type_without_profile (charController : bhkCharacterController)
    (movementSpeed : ℚ) (w w1 : World) (l : Locals)
    (hc : classified charController movementSpeed w = Except.ok (w1, l))
    (hinfo : w1.GetWeaponInfo = none) :
    l.animHandType =
        (if (w1.GetActorType = 0 ∧ (w1.GetWantsWeaponOut_IfSwimmingCancelVATS = true ∨
            w1.GetIsInCombat = true)) ∨ w1.IsWeaponOut = true ∨ l.animAction ≤ 1
          then kAnimHandType_1HM else kAnimHandType_H2H) ∧
      resolvedID w1 l = w1.AnimData_495740
        (Anim_Concat_MoveType_HandType_Group_PowerArmor l.animMoveType
          (if (w1.GetActorType = 0 ∧ (w1.GetWantsWeaponOut_IfSwimmingCancelVATS = true ∨
              w1.GetIsInCombat = true)) ∨ w1.IsWeaponOut = true ∨ l.animAction ≤ 1
            then kAnimHandType_1HM else kAnimHandType_H2H)
          (dropSlowMovement l) w1.isPowerArmor) ∧
      ∀ l0, ∃ l1, pickHandType w1 l0 = Except.ok l1 := by
  obtain ⟨-, -, -, hhand⟩ :=
    classified_summary (fun _ => True) (fun _ _ => trivial) charController movementSpeed w w1 l hc
  refine ⟨hhand hinfo, ?_, fun l0 => ⟨_, pickHandType_no_profile w1 l0 hinfo⟩⟩
  unfold resolvedID
  rw [hhand hinfo]

/-- C18, amended, at a concrete input: the unarmed entity standing still
builds its key with kAnimHandType_1HM. -/
theorem C18_hand_type_without_profile_witness :
    ∃ l, classified Example.onGround 1 Example.world = Except.ok (Example.world, l) ∧
      l.animHandType = kAnimHandType_1HM := by
  have hl : ∃ l, classified Example.onGround 1 Example.world = Except.ok (Example.world, l) ∧
      l.animAction = -1 := ⟨_, rfl, rfl⟩
  obtain ⟨l, h1, h2⟩ := hl
  obtain ⟨a, -, -⟩ := C18_hand_type_without_profile Example.onGround 1 _ _ l h1 rfl
  rw [if_pos (Or.inr (Or.inr (by rw [h2]; decide)))] at a
  exact ⟨l, h1, a⟩

/-- C19: for an actor that is neither dying nor knocked, if it is the
player and the player is in first person, the tick emits exactly one
diagnostic log message and does nothing else: it returns without a fault,
and the action and its sequence, the weapon-out flag, the gateway state
(the sequences of both rigs) and every other part of the state are
unchanged; in particular no movement-speed multiplier and no rate of fire
is committed. -/
theorem C19_first_person_guard (movementSpeed turnSpeed : ℚ) (w : World)
    (hdying : w.IsDying = false) (hknocked : w.GetKnockedState = false)
    (hplayer : w.isPlayer = true) (hfirst : w.IsNotFirstPerson = false) :
    ∃ w2, Actor.PickAnimations movementSpeed turnSpeed w = Except.ok w2 ∧
      w2 = { w with trace := w.trace ++ [Effect.DebugLog] } ∧
      w2.trace = w.trace ++ [Effect.DebugLog] ∧
      w2.GetCurrentAnimAction = w.GetCurrentAnimAction ∧
      w2.GetCurrentSequence = w.GetCurrentSequence ∧
      w2.IsWeaponOut = w.IsWeaponOut ∧ w2.rigs = w.rigs := by
  refine ⟨_, ?_, rfl, rfl, rfl, rfl, rfl, rfl⟩
  unfold Actor.PickAnimations
  rw [if_pos (by simp [hdying, hknocked]), if_pos (by simp [hplayer, hfirst])]
  rfl

/-- C19 at a concrete input: the player in first person. -/
theorem C19_first_person_guard_witness :
    ∃ w2, Actor.PickAnimations 1 0 Example.firstPersonWorld = Except.ok w2 ∧
      w2.trace = [Effect.DebugLog] ∧ w2.rigs = Example.firstPersonWorld.rigs := by
  obtain ⟨w2, a, -, b, -, -, -, c⟩ :=
    C19_first_person_guard 1 0 Example.firstPersonWorld rfl rfl rfl rfl
  exact ⟨w2, a, b, c⟩

/-- C20 as stated fails: the tick starts with Attack in flight on the live
sequence 7 (Attack is the case label kAAP1_Unequip_Weapon of line 472), the
entity has landed while the movement channel still plays the jump loop, and
the tick requests Wait_For_Lower_Body_Anim (line 497) and records it with
the landing sequence (line 847), superseding the attack. -/
theorem C20_counterexample :
    Example.landingWorld.GetCurrentAnimAction = kAnimAction_Attack ∧
    kAnimAction_Attack ≠ kAnimAction_None ∧
    Example.landingWorld.GetCurrentSequence = some 7 ∧
    (Example.landingWorld.rigs.seq 7).GetState = kAnimState_Animating ∧
    (∃ w1 l, classified Example.onGround 1 Example.landingWorld = Except.ok (w1, l) ∧
      l.animAction = kAnimAction_Wait_For_Lower_Body_Anim) ∧
    ∃ w2, Actor.PickAnimations 1 0 Example.landingWorld = Except.ok w2 ∧
      w2.GetCurrentAnimAction = kAnimAction_Wait_For_Lower_Body_Anim ∧
      w2.GetCurrentSequence = some 9 ∧
      w2.trace = [Effect.SetByte120To1,
        Effect.PlayLandJumpSound Example.onGround.GetCycleType__Unk24,
        Effect.PlayAnimGroup kAnimGroup_JumpLand 1,
        Effect.SetAnimActionAndSequence kAnimAction_Wait_For_Lower_Body_Anim (some 9),
        Effect.PlayFirstPersonAnimation, Effect.sub_8A5340, Effect.Unk_117] :=
  ⟨rfl, by decide, rfl, rfl, ⟨_, _, rfl, rfl⟩, _, rfl, rfl, rfl, rfl⟩

/-- C20, amended: a new action (Equip_Weapon, Unequip_Weapon or
Wait_For_Lower_Body_Anim) is requested in a tick only if the tick-start
action is None or one of the case labels of lines 472-474; a tick that
starts with any other action in flight requests none of the three, returns,
and records no call of Actor::SetAnimActionAndSequence with one of them. -/
theorem C20_request_needs_label (charController : bhkCharacterController)
    (movementSpeed turnSpeed : ℚ) (w w1 : World) (l : Locals)
    (hc : classified charController movementSpeed w = Except.ok (w1, l)) :
    (isRequestedAction l.animAction = true →
        w.GetCurrentAnimAction = -1 ∨ w.GetCurrentAnimAction = kAAP1_Unequip_Weapon ∨
          w.GetCurrentAnimAction = kAAP1_Attack_Eject ∨ w.GetCurrentAnimAction = kAAP1_Dodge) ∧
      (¬ (w.GetCurrentAnimAction = -1 ∨ w.GetCurrentAnimAction = kAAP1_Unequip_Weapon ∨
          w.GetCurrentAnimAction = kAAP1_Attack_Eject ∨ w.GetCurrentAnimAction = kAAP1_Dodge) →
        isRequestedAction l.animAction = false ∧
          ∃ w2 es, body charController movementSpeed turnSpeed w = Except.ok w2 ∧
            w2.trace = w.trace ++ es ∧ ∀ e ∈ es, Effect.isRequestCommit e = false) := by
  obtain ⟨hrec, hreq, -, -⟩ :=
    classified_summary (fun e => Effect.isRequestCommit e = false) (fun _ h => h)
      charController movementSpeed w w1 l hc
  constructor
  · intro hr
    rcases hreq with ⟨hf, -, -⟩ | ⟨-, -, -, hl⟩
    · rw [hf] at hr
      exact absurd hr Bool.false_ne_true
    · exact hl
  · intro hstart
    rcases hreq with ⟨hf, hcur, hact⟩ | ⟨-, -, -, hl⟩
    · refine ⟨hf, ?_⟩
      have hbody := body_eq charController movementSpeed turnSpeed w w1 l hc
      have hres : w1.Records (fun e => Effect.isRequestCommit e = false)
          (resolvePhase turnSpeed w1 l) := by
        by_cases ha : l.animAction = -1
        · exact (resolvePhase_performs (fun e => Effect.isRequestCommit e = false)
            (fun _ => rfl) (fun _ => rfl) (fun _ _ => rfl) rfl (fun _ _ => rfl) rfl rfl
            turnSpeed w1 l ha).records
        · have hcur1 : l.currentAnimAction ≠ -1 := by
            rw [hcur]
            exact fun h => hstart (Or.inl h)
          unfold resolvePhase
          rw [if_neg (fun h => h.elim ha hcur1)]
          exact World.Records.nil _ w1
      obtain ⟨es, t, p⟩ := hrec.append hres
      exact ⟨_, es, hbody, t, p⟩
    · exact absurd hl hstart

/-- C20, amended, at a concrete input: a tick that starts with ReloadLoop
in flight requests nothing and records no commit of a requested action. -/
theorem C20_request_needs_label_witness :
    ∃ w2 es, body Example.onGround 1 0 (Example.reloadWorld true true) = Except.ok w2 ∧
      w2.trace = (Example.reloadWorld true true).trace ++ es ∧
      ∀ e ∈ es, Effect.isRequestCommit e = false := by
  have hl : ∃ w1 l, classified Example.onGround 1 (Example.reloadWorld true true)
      = Except.ok (w1, l) := ⟨_, _, rfl⟩
  obtain ⟨w1, l, h1⟩ := hl
  exact ((C20_request_needs_label Example.onGround 1 0 _ w1 l h1).2 (by decide)).2

/-- C21 as stated fails: mid-attack with the pistol at the hit stage, the
current sequence is present and its playback state is 2, which is neither
Inactive nor Animating; the guard of line 83 tests the state against
Inactive only, so the attack rule is evaluated: the queued-idle flag is set
and the action advances to Attack_Eject. -/
theorem C21_counterexample :
    (Example.armed kAnimAction_Attack 2 26 kSeqState_HitOrDetach).GetCurrentSequence = some 7 ∧
    ((Example.armed kAnimAction_Attack 2 26 kSeqState_HitOrDetach).rigs.seq 7).GetState = 2 ∧
    (2 : Nat) ≠ kAnimState_Animating ∧
    ∃ w1, actionPhase Example.onGround (Example.armed kAnimAction_Attack 2 26 kSeqState_HitOrDetach)
        (initLocals (Example.armed kAnimAction_Attack 2 26 kSeqState_HitOrDetach))
        = Except.ok (w1, initLocals (Example.armed kAnimAction_Attack 2 26 kSeqState_HitOrDetach)) ∧
      w1.GetCurrentAnimAction = kAnimAction_Attack_Eject ∧
      w1.trace = [Effect.SetQueuedIdleFlag,
        Effect.SetAnimActionAndSequence kAnimAction_Attack_Eject (some 7)] :=
  ⟨rfl, rfl, by decide, _, rfl, rfl, rfl⟩

/-- C21, amended: with an action in flight, the per-state transition rules
(the switch of lines 85-417) are evaluated in a tick exactly when the
current action's sequence handle is present and its playback state is not
Inactive, be it Animating or any other state; when the handle is absent or
its state is Inactive, the action phase is the fallback of lines 419-464 and
evaluates no per-state rule: it leaves the weapon-out flag alone, ends in
None, Block or Reload, and records only the commit of one of these and the
playback calls of a jam reload. -/
theorem C21_live_sequence_guard (charController : bhkCharacterController) (w : World)
    (hcur : w.GetCurrentAnimAction ≠ kAnimAction_None) :
    (∀ s, w.GetCurrentSequence = some s → (w.rigs.seq s).GetState ≠ kAnimState_Inactive →
      actionPhase charController w (initLocals w)
        = switchAction charController w (initLocals w)) ∧
    ((w.GetCurrentSequence = none ∨
        ∃ s, w.GetCurrentSequence = some s ∧ (w.rigs.seq s).GetState = kAnimState_Inactive) →
      actionPhase charController w (initLocals w) = noLiveSequence w (initLocals w) ∧
      ∀ w1 l1, actionPhase charController w (initLocals w) = Except.ok (w1, l1) →
        w1.IsWeaponOut = w.IsWeaponOut ∧
        (w1.GetCurrentAnimAction = kAnimAction_None ∨
          w1.GetCurrentAnimAction = kAnimAction_Block ∨
          w1.GetCurrentAnimAction = kAnimAction_Reload) ∧
        ∃ es, w1.trace = w.trace ++ es ∧ ∀ e ∈ es, Effect.isFallback e = true) := by
  have hcur1 : (initLocals w).currentAnimAction ≠ kAnimAction_None := hcur
  constructor
  · intro s hseq hlive
    exact actionPhase_live charController w _ s hcur1 hseq hlive
  · intro hdead
    have heq : actionPhase charController w (initLocals w) = noLiveSequence w (initLocals w) := by
      rcases hdead with hseq | ⟨s, hseq, hstate⟩
      · exact actionPhase_absent charController w _ hcur1 hseq
      · exact actionPhase_inactive charController w _ s hcur1 hseq hstate
    refine ⟨heq, ?_⟩
    intro w1 l1 h
    rw [heq] at h
    exact noLiveSequence_calls w w1 _ l1 rfl h

/-- C21, amended, at a concrete input: a reload whose sequence has gone
Inactive takes the fallback; with a draw of 0.999 against a jam chance of
0.1 it records the commit of None and nothing else. -/
theorem C21_live_sequence_guard_witness :
    ∃ w1 l1, actionPhase Example.onGround (Example.jamWorld (999 / 1000) (fun group _ => group))
        (initLocals (Example.jamWorld (999 / 1000) (fun group _ => group)))
        = Except.ok (w1, l1) ∧
      w1.IsWeaponOut = (Example.jamWorld (999 / 1000) (fun group _ => group)).IsWeaponOut ∧
      ∃ es, w1.trace = (Example.jamWorld (999 / 1000) (fun group _ => group)).trace ++ es ∧
        ∀ e ∈ es, Effect.isFallback e = true := by
  obtain ⟨w1, l1, h, -⟩ := noLiveSequence_fallback_example
  obtain ⟨a, -, c⟩ := ((C21_live_sequence_guard Example.onGround
    (Example.jamWorld (999 / 1000) (fun group _ => group)) (by decide)).2
    (Or.inr ⟨7, rfl, rfl⟩)).2 w1 l1 h
  exact ⟨w1, l1, h, a, c⟩

/-- C22 as stated fails: mid-attack with the semi-automatic pistol (a
non-melee weapon) on the weapon channel at the hit stage, the tick returns
and never calls the combat resolver `sub_899200`; the action phase sets the
queued-idle flag instead (line 218) and advances to Attack_Eject. -/
theorem C22_counterexample :
    Example.attackWorld.GetCurrentAnimAction = kAnimAction_Attack ∧
    Example.attackWorld.rigs.third.GetSequenceState1 kSequence_Weapon = kSeqState_HitOrDetach ∧
    (∃ w1, actionPhase Example.onGround Example.attackWorld (initLocals Example.attackWorld)
        = Except.ok (w1, initLocals Example.attackWorld) ∧
      w1.trace = [Effect.SetQueuedIdleFlag,
        Effect.SetAnimActionAndSequence kAnimAction_Attack_Eject (some 7)]) ∧
    ∃ w2, body Example.onGround 1 0 Example.attackWorld = Except.ok w2 ∧
      w2.trace.any Effect.isFire = false :=
  ⟨rfl, rfl, ⟨_, rfl, rfl⟩, _, rfl, rfl⟩

/-- C22, amended: in a tick that starts in Attack with a live current
sequence whose group plays on the weapon channel, is not looping/aim, and
whose weapon channel is at the hit/detach stage, the action phase returns,
and: for a power attack, and for a plain attack when no magic item is held
and the actor has no weapon or one that is neither automatic nor a
non-melee weapon, the combat resolver `sub_899200` is invoked exactly once,
in the action phase and in the whole tick when the tick returns; for a
plain attack with a magic item held, or with an automatic or a non-melee
weapon, the tick does not invoke it at all; when the actor is doing an
attack animation the action leaves Attack for Attack_Follow_Through or
Attack_Eject; and a tick that starts in Attack_Follow_Through or
Attack_Eject never invokes the combat resolver. -/
theorem C22_fire_at_hit_stage (charController : bhkCharacterController)
    (movementSpeed turnSpeed : ℚ) (w : World) (s : Nat)
    (hcur : w.GetCurrentAnimAction = kAnimAction_Attack)
    (hseq : w.GetCurrentSequence = some s)
    (hlive : (w.rigs.seq s).GetState ≠ kAnimState_Inactive)
    (hchan : w.g_animSequenceTypes (9 * (w.group s).GetSequenceGroup) = kSequence_Weapon)
    (hkey : w.g_animKeyTypes (9 * (w.group s).GetSequenceGroup)
      ≠ kAnimKeyType_LoopingSequenceOrAim)
    (hstage : w.rigs.third.GetSequenceState1 kSequence_Weapon = kSeqState_HitOrDetach) :
    ((w.g_animKeyTypes (9 * AnimGroupID.GetGroupID
          (w.rigs.third.GetNthSequenceGroupID kSequence_Weapon))
          = kAnimKeyType_PowerAttackOrPipboy ∨
        (w.g_animKeyTypes (9 * AnimGroupID.GetGroupID
            (w.rigs.third.GetNthSequenceGroupID kSequence_Weapon)) = kAnimKeyType_Attack ∧
          w.GetMagicItem160 = false ∧
          (w.weap = none ∨ ∃ weap, w.weap = some weap ∧ weap.IsAutomatic = false ∧
            weap.IsNonMeleeWeapon = false))) →
      ∃ w1, actionPhase charController w (initLocals w) = Except.ok (w1, initLocals w) ∧
        w.FiresOnce w1 ∧
        ∀ w2, body charController movementSpeed turnSpeed w = Except.ok w2 →
          w.FiresOnce w2) ∧
    ((w.g_animKeyTypes (9 * AnimGroupID.GetGroupID
          (w.rigs.third.GetNthSequenceGroupID kSequence_Weapon)) = kAnimKeyType_Attack ∧
        (w.GetMagicItem160 = true ∨ ∃ weap, w.weap = some weap ∧
          (weap.IsAutomatic = true ∨ weap.IsNonMeleeWeapon = true))) →
      ∃ w1, actionPhase charController w (initLocals w) = Except.ok (w1, initLocals w) ∧
        w.Records (fun e => Effect.isFire e = false) w1 ∧
        ∀ w2, body charController movementSpeed turnSpeed w = Except.ok w2 →
          w.Records (fun e => Effect.isFire e = false) w2) ∧
    ((w.g_animKeyTypes (9 * AnimGroupID.GetGroupID
          (w.rigs.third.GetNthSequenceGroupID kSequence_Weapon)) = kAnimKeyType_Attack ∨
        w.g_animKeyTypes (9 * AnimGroupID.GetGroupID
          (w.rigs.third.GetNthSequenceGroupID kSequence_Weapon))
          = kAnimKeyType_PowerAttackOrPipboy) →
      w.IsDoingAttackAnimation = true →
      ∃ w1, actionPhase charController w (initLocals w) = Except.ok (w1, initLocals w) ∧
        (w1.GetCurrentAnimAction = kAnimAction_Attack_Follow_Through ∨
          w1.GetCurrentAnimAction = kAnimAction_Attack_Eject)) ∧
    ∀ w3 : World,
      (w3.GetCurrentAnimAction = kAnimAction_Attack_Follow_Through ∨
        w3.GetCurrentAnimAction = kAnimAction_Attack_Eject) →
      ∀ w4, body charController movementSpeed turnSpeed w3 = Except.ok w4 →
        w3.Records (fun e => Effect.isFire e = false) w4 := by
  obtain ⟨h4, h5⟩ := caseAttack_hit w s hseq hchan hkey hstage
  have hlate : ∀ (w0 wa w2 : World) (la : Locals),
      actionPhase charController w0 (initLocals w0) = Except.ok (wa, la) →
      body charController movementSpeed turnSpeed w0 = Except.ok w2 →
      wa.Records (fun e => Effect.isFire e = false) w2 := fun w0 wa w2 la ha hb =>
    body_after_action _ not_fire_of_afterAction charController movementSpeed turnSpeed
      w0 wa w2 la ha hb
  refine ⟨?_, ?_, ?_, ?_⟩
  · rintro (hk | ⟨hk, hm, hw⟩)
    · obtain ⟨a, b, hx⟩ := firePowerAttack_cases w
      have ha := actionPhase_attack charController w _ s hcur hseq hlive (h5 hk)
      have hq := advance_quiet (firePowerAttack w) (w.IsDoingAttackAnimation = true)
        kAnimAction_Attack_Follow_Through (some s)
      exact ⟨_, ha, firesOnce_of_fire a b hx hq,
        fun w2 hb => firesOnce_of_fire a b hx (hq.append (hlate w _ w2 _ ha hb))⟩
    · have ha := actionPhase_attack charController w _ s hcur hseq hlive (h4 hk)
      have hq := advance_quiet (fireAttack w) (w.IsDoingAttackAnimation = true)
        (if followsThrough w = true then kAnimAction_Attack_Follow_Through
          else kAnimAction_Attack_Eject) (some s)
      rcases fireAttack_cases w with ⟨-, a, b, hx⟩ | ⟨hno, -⟩
      · exact ⟨_, ha, firesOnce_of_fire a b hx hq,
          fun w2 hb => firesOnce_of_fire a b hx (hq.append (hlate w _ w2 _ ha hb))⟩
      · exfalso
        rcases hno with hm1 | ⟨weap, hw1, hc⟩
        · rw [hm] at hm1
          exact absurd hm1 (by decide)
        · rcases hw with hw0 | ⟨weap0, hw0, hauto, hnm⟩
          · rw [hw0] at hw1
            exact absurd hw1 (by simp)
          · rw [hw0] at hw1
            injection hw1 with hw1
            subst hw1
            rcases hc with hc | hc
            · rw [hauto] at hc
              exact absurd hc (by decide)
            · rw [hnm] at hc
              exact absurd hc (by decide)
  · rintro ⟨hk, hno⟩
    have ha := actionPhase_attack charController w _ s hcur hseq hlive (h4 hk)
    have hq := advance_quiet (fireAttack w) (w.IsDoingAttackAnimation = true)
      (if followsThrough w = true then kAnimAction_Attack_Follow_Through
        else kAnimAction_Attack_Eject) (some s)
    have hx : w.Records (fun e => Effect.isFire e = false) (fireAttack w) := by
      rcases fireAttack_cases w with ⟨⟨hm, hw⟩, -⟩ | ⟨-, hx | hx | hx⟩
      · exfalso
        rcases hno with hm1 | ⟨weap, hw1, hc⟩
        · rw [hm] at hm1
          exact absurd hm1 (by decide)
        · rcases hw with hw0 | ⟨weap0, hw0, hauto, hnm⟩
          · rw [hw0] at hw1
            exact absurd hw1 (by simp)
          · rw [hw0] at hw1
            injection hw1 with hw1
            subst hw1
            rcases hc with hc | hc
            · rw [hauto] at hc
              exact absurd hc (by decide)
            · rw [hnm] at hc
              exact absurd hc (by decide)
      · rw [hx]
        exact World.Records.nil _ w
      · rw [hx]
        exact (World.Records.nil (fun e => Effect.isFire e = false) w).snoc _ rfl
      · rw [hx]
        exact (World.Records.nil (fun e => Effect.isFire e = false) w).snoc _ rfl
    exact ⟨_, ha, hx.append hq, fun w2 hb => (hx.append hq).append (hlate w _ w2 _ ha hb)⟩
  · rintro (hk | hk) hd
    · refine ⟨_, actionPhase_attack charController w _ s hcur hseq hlive (h4 hk), ?_⟩
      rw [if_pos hd]
      by_cases hf : followsThrough w = true
      · rw [if_pos hf]
        exact Or.inl rfl
      · rw [if_neg hf]
        exact Or.inr rfl
    · refine ⟨_, actionPhase_attack charController w _ s hcur hseq hlive (h5 hk), ?_⟩
      rw [if_pos hd]
      exact Or.inl rfl
  · intro w3 hc3 w4 hb
    cases ha : actionPhase charController w3 (initLocals w3) with
    | error e =>
      exfalso
      unfold body classified at hb
      simp [ha, bind, Except.bind] at hb
    | ok p =>
      obtain ⟨wa, la⟩ := p
      exact (actionPhase_after_attack charController w3 wa la hc3 ha).append
        (hlate w3 wa w4 la ha hb)

/-- C22, amended, at a concrete input: a plain attack with bare fists at the
hit stage calls the combat resolver once, `sub_899200 0 0`, and nothing else
in the action phase, and exactly once in the whole tick. -/
theorem C22_fire_at_hit_stage_witness :
    ∃ w1, actionPhase Example.onGround Example.punchWorld (initLocals Example.punchWorld)
        = Except.ok (w1, initLocals Example.punchWorld) ∧
      Example.punchWorld.FiresOnce w1 ∧
      ∃ w2, body Example.onGround 1 0 Example.punchWorld = Except.ok w2 ∧
        Example.punchWorld.FiresOnce w2 := by
  obtain ⟨w1, h1, h2, h3⟩ := (C22_fire_at_hit_stage Example.onGround 1 0 Example.punchWorld 7
    rfl rfl (by decide) (by decide) (by decide) rfl).1
    (Or.inr ⟨by decide, rfl, Or.inl rfl⟩)
  exact ⟨w1, h1, h2, _, rfl, h3 _ rfl⟩

/-- C23: in a tick that starts in Attack_Eject with a live current
sequence, the action phase returns; if the sequence's group plays on the
weapon channel, a weapon is present, the group's key type is not
looping/aim and the weapon channel's progress stage equals
kSeqState_EjectOrUnequipEnd, the queued-idle flag is set and the action
becomes Attack_Follow_Through with the same sequence, and these are the only
two calls recorded; in every other case the action phase changes nothing:
the action and its sequence are as they were. -/
theorem C23_attack_eject (charController : bhkCharacterController) (w : World) (s : Nat)
    (hcur : w.GetCurrentAnimAction = kAnimAction_Attack_Eject)
    (hseq : w.GetCurrentSequence = some s)
    (hlive : (w.rigs.seq s).GetState ≠ kAnimState_Inactive) :
    ((w.g_animSequenceTypes (9 * (w.group s).GetSequenceGroup) = kSequence_Weapon ∧
        w.weap.isSome = true ∧
        w.g_animKeyTypes (9 * (w.group s).GetSequenceGroup)
          ≠ kAnimKeyType_LoopingSequenceOrAim ∧
        w.rigs.third.GetSequenceState1 kSequence_Weapon = kSeqState_EjectOrUnequipEnd) →
      ∃ w1, actionPhase charController w (initLocals w) = Except.ok (w1, initLocals w) ∧
        w1.GetCurrentAnimAction = kAnimAction_Attack_Follow_Through ∧
        w1.GetCurrentSequence = some s ∧
        w1.trace = w.trace ++ [Effect.SetQueuedIdleFlag,
          Effect.SetAnimActionAndSequence kAnimAction_Attack_Follow_Through (some s)]) ∧
    (¬ (w.g_animSequenceTypes (9 * (w.group s).GetSequenceGroup) = kSequence_Weapon ∧
        w.weap.isSome = true ∧
        w.g_animKeyTypes (9 * (w.group s).GetSequenceGroup)
          ≠ kAnimKeyType_LoopingSequenceOrAim ∧
        w.rigs.third.GetSequenceState1 kSequence_Weapon = kSeqState_EjectOrUnequipEnd) →
      actionPhase charController w (initLocals w) = Except.ok (w, initLocals w)) := by
  have hcur1 : (initLocals w).currentAnimAction = kAnimAction_Attack_Eject := hcur
  rw [actionPhase_live charController w _ s (by rw [hcur1]; decide) hseq hlive,
    switchAction_eject charController w _ hcur1]
  unfold caseAttackEject
  simp only [hseq, deref, bind, Except.bind, pure, Except.pure]
  constructor
  · rintro ⟨h1, h2, h3, h4⟩
    obtain ⟨weap, hw⟩ := Option.isSome_iff_exists.mp h2
    rw [if_pos h1]
    simp only [hw]
    rw [if_pos ⟨h3, h4⟩]
    refine ⟨_, rfl, rfl, hseq, ?_⟩
    show (w.trace ++ [_]) ++ [_] = _
    rw [List.append_assoc]
    show _ = w.trace ++ [Effect.SetQueuedIdleFlag,
      Effect.SetAnimActionAndSequence kAnimAction_Attack_Follow_Through (some s)]
    rw [← hseq]
    rfl
  · intro hn
    by_cases h1 : w.g_animSequenceTypes (9 * (w.group s).GetSequenceGroup) = kSequence_Weapon
    · rw [if_pos h1]
      cases hw : w.weap with
      | none => rfl
      | some weap =>
        simp only []
        rw [if_neg (fun h34 => hn ⟨h1, by rw [hw]; rfl, h34.1, h34.2⟩)]
        rfl
    · rw [if_neg h1]
      rfl

/-- C23 at a concrete input: with the pistol on the weapon channel at the
eject stage, the action becomes Attack_Follow_Through on sequence 7. -/
theorem C23_attack_eject_witness :
    ∃ w1, actionPhase Example.onGround
        (Example.armed kAnimAction_Attack_Eject kAnimState_Animating 26
          kSeqState_EjectOrUnequipEnd)
        (initLocals (Example.armed kAnimAction_Attack_Eject kAnimState_Animating 26
          kSeqState_EjectOrUnequipEnd))
        = Except.ok (w1, initLocals (Example.armed kAnimAction_Attack_Eject
          kAnimState_Animating 26 kSeqState_EjectOrUnequipEnd)) ∧
      w1.GetCurrentAnimAction = kAnimAction_Attack_Follow_Through ∧
      w1.GetCurrentSequence = some 7 ∧
      w1.trace = [Effect.SetQueuedIdleFlag,
        Effect.SetAnimActionAndSequence kAnimAction_Attack_Follow_Through (some 7)] :=
  (C23_attack_eject Example.onGround
    (Example.armed kAnimAction_Attack_Eject kAnimState_Animating 26
      kSeqState_EjectOrUnequipEnd) 7 rfl rfl (by decide)).1
    ⟨by decide, rfl, by decide, by decide⟩

/-- C24: with a live current sequence, a tick that starts in Attack_Throw
ends its action phase in Attack_Throw_Attach exactly when the key type of
the current group is the thrown attack and the weapon channel's progress
stage equals kSeqState_EjectOrUnequipEnd, or the key type is the placed mine
and the stage equals kSeqState_HitOrDetach, and the actor is doing an attack
animation; a tick that starts in Attack_Throw_Attach ends it in
Attack_Follow_Through exactly when the stage equals 3 for a thrown attack or
2 for a placed mine, and the actor is doing an attack animation. Otherwise
the action is unchanged, so for any other key type neither state advances.
The sequence is kept, and the rest of the tick leaves the action and the
sequence as the action phase left them. -/
theorem C24_throw_stages (charController : bhkCharacterController)
    (movementSpeed turnSpeed : ℚ) (w : World) (s : Nat)
    (hseq : w.GetCurrentSequence = some s)
    (hlive : (w.rigs.seq s).GetState ≠ kAnimState_Inactive) :
    (w.GetCurrentAnimAction = kAnimAction_Attack_Throw →
      ∃ w1, actionPhase charController w (initLocals w) = Except.ok (w1, initLocals w) ∧
        w1.GetCurrentSequence = some s ∧
        (w1.GetCurrentAnimAction = kAnimAction_Attack_Throw_Attach ∨
          w1.GetCurrentAnimAction = kAnimAction_Attack_Throw) ∧
        (w1.GetCurrentAnimAction = kAnimAction_Attack_Throw_Attach ↔
          ((w.g_animKeyTypes (9 * (w.group s).GetSequenceGroup) = kAnimKeyType_AttackThrow ∧
              w.rigs.third.GetSequenceState1 kSequence_Weapon = kSeqState_EjectOrUnequipEnd) ∨
            (w.g_animKeyTypes (9 * (w.group s).GetSequenceGroup) = kAnimKeyType_PlaceMine ∧
              w.rigs.third.GetSequenceState1 kSequence_Weapon = kSeqState_HitOrDetach)) ∧
          w.IsDoingAttackAnimation = true) ∧
        ∀ w2, body charController movementSpeed turnSpeed w = Except.ok w2 →
          w2.GetCurrentAnimAction = w1.GetCurrentAnimAction ∧
          w2.GetCurrentSequence = w1.GetCurrentSequence) ∧
    (w.GetCurrentAnimAction = kAnimAction_Attack_Throw_Attach →
      ∃ w1, actionPhase charController w (initLocals w) = Except.ok (w1, initLocals w) ∧
        w1.GetCurrentSequence = some s ∧
        (w1.GetCurrentAnimAction = kAnimAction_Attack_Follow_Through ∨
          w1.GetCurrentAnimAction = kAnimAction_Attack_Throw_Attach) ∧
        (w1.GetCurrentAnimAction = kAnimAction_Attack_Follow_Through ↔
          ((w.g_animKeyTypes (9 * (w.group s).GetSequenceGroup) = kAnimKeyType_AttackThrow ∧
              w.rigs.third.GetSequenceState1 kSequence_Weapon = 3) ∨
            (w.g_animKeyTypes (9 * (w.group s).GetSequenceGroup) = kAnimKeyType_PlaceMine ∧
              w.rigs.third.GetSequenceState1 kSequence_Weapon = 2)) ∧
          w.IsDoingAttackAnimation = true) ∧
        ∀ w2, body charController movementSpeed turnSpeed w = Except.ok w2 →
          w2.GetCurrentAnimAction = w1.GetCurrentAnimAction ∧
          w2.GetCurrentSequence = w1.GetCurrentSequence) := by
  constructor
  · intro hcur
    have hcur1 : (initLocals w).currentAnimAction = kAnimAction_Attack_Throw := hcur
    obtain ⟨w1, h1, h2, h3, h4⟩ := caseAttackThrow_advance w s hseq hcur
    have ha : actionPhase charController w (initLocals w) = Except.ok (w1, initLocals w) := by
      rw [actionPhase_live charController w _ s (by rw [hcur1]; decide) hseq hlive,
        switchAction_throw charController w _ hcur1, h1]
      rfl
    refine ⟨w1, ha, h2, h3, h4, ?_⟩
    intro w2 hb
    obtain ⟨-, b, c, -⟩ := body_no_request (fun _ => True) (fun _ => trivial) (fun _ => trivial)
      (fun _ _ => trivial) trivial (fun _ _ => trivial) trivial trivial charController w w1 _ ha
      rfl (by rw [hcur1]; decide) movementSpeed turnSpeed w2 hb
    exact ⟨b, c⟩
  · intro hcur
    have hcur1 : (initLocals w).currentAnimAction = kAnimAction_Attack_Throw_Attach := hcur
    obtain ⟨w1, h1, h2, h3, h4⟩ := caseAttackThrowAttach_advance w s hseq hcur
    have ha : actionPhase charController w (initLocals w) = Except.ok (w1, initLocals w) := by
      rw [actionPhase_live charController w _ s (by rw [hcur1]; decide) hseq hlive,
        switchAction_throwAttach charController w _ hcur1, h1]
      rfl
    refine ⟨w1, ha, h2, h3, h4, ?_⟩
    intro w2 hb
    obtain ⟨-, b, c, -⟩ := body_no_request (fun _ => True) (fun _ => trivial) (fun _ => trivial)
      (fun _ _ => trivial) trivial (fun _ _ => trivial) trivial trivial charController w w1 _ ha
      rfl (by rw [hcur1]; decide) movementSpeed turnSpeed w2 hb
    exact ⟨b, c⟩

/-- C24 at a concrete input: a thrown attack at the release stage advances
from Attack_Throw to Attack_Throw_Attach, and one below the attach stage
stays in Attack_Throw_Attach. -/
theorem C24_throw_stages_witness :
    (∃ w1, actionPhase Example.onGround
        (Example.throwWorld kAnimAction_Attack_Throw kSeqState_EjectOrUnequipEnd)
        (initLocals (Example.throwWorld kAnimAction_Attack_Throw kSeqState_EjectOrUnequipEnd))
        = Except.ok (w1,
          initLocals (Example.throwWorld kAnimAction_Attack_Throw kSeqState_EjectOrUnequipEnd)) ∧
      w1.GetCurrentAnimAction = kAnimAction_Attack_Throw_Attach) ∧
    (∃ w1, actionPhase Example.onGround
        (Example.throwWorld kAnimAction_Attack_Throw_Attach kSeqState_EjectOrUnequipEnd)
        (initLocals
          (Example.throwWorld kAnimAction_Attack_Throw_Attach kSeqState_EjectOrUnequipEnd))
        = Except.ok (w1, initLocals
          (Example.throwWorld kAnimAction_Attack_Throw_Attach kSeqState_EjectOrUnequipEnd)) ∧
      w1.GetCurrentAnimAction = kAnimAction_Attack_Throw_Attach) := by
  constructor
  · obtain ⟨w1, h1, -, -, h4, -⟩ := (C24_throw_stages Example.onGround 1 0
      (Example.throwWorld kAnimAction_Attack_Throw kSeqState_EjectOrUnequipEnd) 7 rfl
      (by decide)).1 rfl
    exact ⟨w1, h1, h4.mpr ⟨Or.inl ⟨by decide, by decide⟩, rfl⟩⟩
  · obtain ⟨w1, h1, -, h3, h4, -⟩ := (C24_throw_stages Example.onGround 1 0
      (Example.throwWorld kAnimAction_Attack_Throw_Attach kSeqState_EjectOrUnequipEnd) 7 rfl
      (by decide)).2 rfl
    refine ⟨w1, h1, ?_⟩
    rcases h3 with h3 | h3
    · exfalso
      rcases (h4.mp h3).1 with ⟨-, h5⟩ | ⟨h5, -⟩
      · exact absurd h5 (by decide)
      · exact absurd h5 (by decide)
    · exact h3

/-- C25 as stated fails: a tick that starts in Wait_For_Lower_Body_Anim
with no current sequence left, the controller on the ground and nothing on
the movement channel, sets the action back to None through the fallback of
lines 419-464. -/
theorem C25_counterexample :
    Example.staleWaitWorld.GetCurrentAnimAction = kAnimAction_Wait_For_Lower_Body_Anim ∧
    Example.staleWaitWorld.GetCurrentSequence = none ∧
    Example.onGround.GetContextHkState = kCharControllerState_OnGround ∧
    Example.staleWaitWorld.rigs.third.GetAnimSequenceElement kSequence_Movement = none ∧
    ∃ w2, Actor.PickAnimations 1 0 Example.staleWaitWorld = Except.ok w2 ∧
      w2.GetCurrentAnimAction = kAnimAction_None ∧
      w2.trace = [Effect.SetAnimActionAndSequence kAnimAction_None none,
        Effect.PlayAnimGroup kAnimGroup_Idle 1, Effect.PlayFirstPersonAnimation] :=
  ⟨rfl, rfl, rfl, rfl, _, rfl, rfl, rfl⟩

/-- C25, amended: in a tick that starts in Wait_For_Lower_Body_Anim with a
live current sequence, the action phase sets the action back to None
exactly when the sit/sleep state is normal and the controller reports
jumping, or it reports in-air and the movement channel's sequence is a jump
animation; otherwise the action phase changes nothing. When the controller
reports neither jumping nor in-air and the movement channel holds no jump
animation (neither a jumping group nor JumpStart), a tick that returns ends
with the action still Wait_For_Lower_Body_Anim on the same sequence. -/
theorem C25_wait_for_lower_body (charController : bhkCharacterController)
    (movementSpeed turnSpeed : ℚ) (w : World) (s : Nat)
    (hcur : w.GetCurrentAnimAction = kAnimAction_Wait_For_Lower_Body_Anim)
    (hseq : w.GetCurrentSequence = some s)
    (hlive : (w.rigs.seq s).GetState ≠ kAnimState_Inactive) :
    ∃ w1, actionPhase charController w (initLocals w) = Except.ok (w1, initLocals w) ∧
      (w1 = w.SetAnimActionAndSequence kAnimAction_None none ∨ w1 = w) ∧
      (w1.GetCurrentAnimAction = kAnimAction_None ↔
        w.GetSitSleepState = kSitSleepState_Normal ∧
          (charController.GetContextHkState = kCharControllerState_Jumping ∨
            (charController.GetContextHkState = kCharControllerState_InAir ∧
              ∃ v, w.rigs.third.GetAnimSequenceElement kSequence_Movement = some v ∧
                (w.group v).IsJumping = true))) ∧
      (charController.GetContextHkState ≠ kCharControllerState_Jumping →
        charController.GetContextHkState ≠ kCharControllerState_InAir →
        (∀ v, w.rigs.third.GetAnimSequenceElement kSequence_Movement = some v →
          (w.group v).IsJumping = false ∧
            (w.group v).GetSequenceGroup ≠ kAnimGroup_JumpStart) →
        w1 = w ∧
          ∀ w2, body charController movementSpeed turnSpeed w = Except.ok w2 →
            w2.GetCurrentAnimAction = kAnimAction_Wait_For_Lower_Body_Anim ∧
            w2.GetCurrentSequence = some s) := by
  have hcur1 : (initLocals w).currentAnimAction = kAnimAction_Wait_For_Lower_Body_Anim := hcur
  have hne : kAnimAction_Wait_For_Lower_Body_Anim ≠ kAnimAction_None := by decide
  have hphase : actionPhase charController w (initLocals w)
      = Except.ok (caseWaitForLowerBody charController w (initLocals w), initLocals w) := by
    rw [actionPhase_live charController w _ s (by rw [hcur1]; decide) hseq hlive,
      switchAction_wait charController w _ hcur1]
  rcases caseWaitForLowerBody_cases charController w (initLocals w) with
    ⟨h1, h2, h3⟩ | ⟨h1, h3⟩
  · rw [h3] at hphase
    refine ⟨_, hphase, Or.inl rfl, ⟨fun _ => ⟨h1, h2⟩, fun _ => rfl⟩, ?_⟩
    intro hj hi
    exfalso
    rcases h2 with h2 | ⟨h2, -⟩
    · exact hj h2
    · exact hi h2
  · rw [h3] at hphase
    refine ⟨_, hphase, Or.inr rfl, ⟨fun h => ?_, fun h => absurd h h1⟩, ?_⟩
    · rw [hcur] at h
      exact absurd h hne
    · intro hj hi hv
      refine ⟨rfl, ?_⟩
      intro w2 hb
      unfold body at hb
      cases hc : classified charController movementSpeed w with
      | error e => simp [hc, bind, Except.bind] at hb
      | ok p =>
        obtain ⟨w3, l3⟩ := p
        simp only [hc, bind, Except.bind, pure, Except.pure] at hb
        have hr : requestPhase charController w (initLocals w) = (w, initLocals w) :=
          requestPhase_quiet charController w _ (by rw [hcur1]; decide)
            (jumpOrLand_quiet charController w _ hj hi hv)
        obtain ⟨e1, e2, -⟩ := classified_tail charController movementSpeed w w w3 _ l3
          hphase hr hc
        subst e1
        injection hb with hb
        obtain ⟨-, b, c, -⟩ := resolvePhase_performs (fun _ => True) (fun _ => trivial)
          (fun _ => trivial) (fun _ _ => trivial) trivial (fun _ _ => trivial) trivial trivial
          turnSpeed w3 l3 (e2.trans rfl)
        rw [← hb]
        exact ⟨b.trans hcur, c.trans hseq⟩

/-- C25, amended, at a concrete input: waiting on a live sequence with the
controller on the ground and nothing on the movement channel, the tick ends
still waiting. -/
theorem C25_wait_for_lower_body_witness :
    ∃ w2, body Example.onGround 1 0 Example.waitWorld = Except.ok w2 ∧
      w2.GetCurrentAnimAction = kAnimAction_Wait_For_Lower_Body_Anim ∧
      w2.GetCurrentSequence = some 7 := by
  have hb : ∃ w2, body Example.onGround 1 0 Example.waitWorld = Except.ok w2 := ⟨_, rfl⟩
  obtain ⟨w2, hb⟩ := hb
  obtain ⟨w1, -, -, -, h⟩ :=
    C25_wait_for_lower_body Example.onGround 1 0 Example.waitWorld 7 rfl rfl (by decide)
  obtain ⟨a, b⟩ := (h (by decide) (by decide) (fun v hv => by cases hv)).2 w2 hb
  exact ⟨w2, hb, a, b⟩

/-- C26: in a tick whose tick-start action is not None and whose current
sequence is absent or Inactive, if the off-hand (left-arm) channel holds a
sequence whose group is BlockIdle, the action phase returns and ends in
Block bound to that sequence, having recorded that commit and nothing else.
BlockIdle is taken to be no reload group (`AnimGroup::IsReload` is not in
the source); without that the jam roll of lines 431-460, which reads the
group of the sequence just adopted, could still replace Block by Reload, and
the action phase ends in Block or Reload. -/
theorem C26_block_adopted (charController : bhkCharacterController) (w : World) (v53 : Nat)
    (hcur : w.GetCurrentAnimAction ≠ kAnimAction_None)
    (hdead : ∀ s, w.GetCurrentSequence = some s →
      (w.rigs.seq s).GetState = kAnimState_Inactive)
    (hleft : w.rigs.third.GetAnimSequenceElement kSequence_LeftArm = some v53)
    (hgroup : AnimGroupID.GetGroupID (w.rigs.third.GetNthSequenceGroupID kSequence_LeftArm)
      = kAnimGroup_BlockIdle) :
    ∃ w1 l1, actionPhase charController w (initLocals w) = Except.ok (w1, l1) ∧
      ((w1.GetCurrentAnimAction = kAnimAction_Block ∧ l1.animAction = kAnimAction_Block) ∨
        (w1.GetCurrentAnimAction = kAnimAction_Reload ∧ l1.animAction = kAnimAction_Reload)) ∧
      ((w.group v53).GetSequenceGroup = kAnimGroup_BlockIdle →
        w.AnimGroup_IsReload kAnimGroup_BlockIdle = false →
        w1.GetCurrentAnimAction = kAnimAction_Block ∧
          w1.GetCurrentSequence = some v53 ∧
          l1.animAction = kAnimAction_Block ∧
          w1.trace = w.trace ++ [Effect.SetAnimActionAndSequence kAnimAction_Block (some v53)]) := by
  have hcur1 : (initLocals w).currentAnimAction ≠ kAnimAction_None := hcur
  have hphase : actionPhase charController w (initLocals w) = noLiveSequence w (initLocals w) := by
    cases hs : w.GetCurrentSequence with
    | none => exact actionPhase_absent charController w _ hcur1 hs
    | some s => exact actionPhase_inactive charController w _ s hcur1 hs (hdead s hs)
  have hadopt : adoptBlock w (initLocals w)
      = (w.SetAnimActionAndSequence kAnimAction_Block (some v53),
        { initLocals w with animAction := kAnimAction_Block }) := by
    rcases adoptBlock_cases w (initLocals w) with ⟨h1 | h1, -⟩ | ⟨v, h1, -, h2⟩
    · rw [hleft] at h1
      cases h1
    · exact absurd hgroup h1
    · rw [hleft] at h1
      cases h1
      exact h2
  obtain ⟨p, hp⟩ := jamRoll_returns (w.SetAnimActionAndSequence kAnimAction_Block (some v53))
    { initLocals w with animAction := kAnimAction_Block } (fun h => by cases h)
  obtain ⟨wj, lj⟩ := p
  rw [hphase]
  unfold noLiveSequence
  rw [hadopt]
  simp only [bind, Except.bind, hp, pure, Except.pure]
  rcases jamRoll_cases _ wj _ lj hp with ⟨h1, h2⟩ | ⟨weap, hw, h1, h2⟩
  · subst h1 h2
    rw [if_neg (show ¬ (kAnimAction_Block = -1) by decide)]
    exact ⟨_, _, rfl, Or.inl ⟨rfl, rfl⟩, fun _ _ => ⟨rfl, rfl, rfl, rfl⟩⟩
  · subst h1 h2
    rw [if_neg (show ¬ (kAnimAction_Reload = -1) by decide)]
    refine ⟨_, _, rfl, Or.inr ⟨rfl, rfl⟩, ?_⟩
    intro hg hr
    exfalso
    have hp1 := hp
    unfold jamRoll at hp1
    have hw1 : (w.SetAnimActionAndSequence kAnimAction_Block (some v53)).weap = some weap := hw
    simp only [hw1] at hp1
    have hv : (w.SetAnimActionAndSequence kAnimAction_Block (some v53)).AnimGroup_IsReload
        ((w.SetAnimActionAndSequence kAnimAction_Block (some v53)).group v53).GetSequenceGroup
        = false := by
      show w.AnimGroup_IsReload (w.group v53).GetSequenceGroup = false
      rw [hg]
      exact hr
    split at hp1
    · have hs1 : (w.SetAnimActionAndSequence kAnimAction_Block (some v53)).GetCurrentSequence
          = some v53 := rfl
      simp only [hs1, deref, bind, Except.bind, hv, pure, Except.pure] at hp1
      simp at hp1
      exact absurd hp1.2 (by decide)
    · simp only [pure, Except.pure] at hp1
      simp at hp1
      exact absurd hp1.2 (by decide)

/-- C26 at a concrete input: after a reload whose sequence went Inactive,
with the BlockIdle sequence 8 on the off-hand channel, the action becomes
Block on sequence 8. -/
theorem C26_block_adopted_witness :
    ∃ w1 l1, actionPhase Example.onGround Example.blockWorld (initLocals Example.blockWorld)
        = Except.ok (w1, l1) ∧
      w1.GetCurrentAnimAction = kAnimAction_Block ∧ w1.GetCurrentSequence = some 8 ∧
      w1.trace = [Effect.SetAnimActionAndSequence kAnimAction_Block (some 8)] := by
  obtain ⟨w1, l1, h1, -, h2⟩ := C26_block_adopted Example.onGround Example.blockWorld 8
    (by decide) (fun s hs => by cases hs; rfl) rfl rfl
  obtain ⟨a, b, -, c⟩ := h2 rfl rfl
  exact ⟨w1, l1, h1, a, b, c⟩

/-- C27 as stated fails: an unarmed entity on the ground with nothing on
the movement channel, so that no jump or landing group is selected, runs
forward while it wants its weapon out; the Equip group requested at line 531
skips the block (line 565) and the classification yields Equip, not
FastForward. -/
theorem C27_counterexample :
    Example.raiseFistsRunWorld.GetMovementFlags = kMoveFlag_Forward ||| kMoveFlag_Running ∧
    Example.onGround.GetContextHkState = kCharControllerState_OnGround ∧
    Example.raiseFistsRunWorld.rigs.third.GetAnimSequenceElement kSequence_Movement = none ∧
    ∃ w1 l, classified Example.onGround 1 Example.raiseFistsRunWorld = Except.ok (w1, l) ∧
      l.animGroup = kAnimGroup_Equip ∧ l.animGroup ≠ kAnimGroup_FastForward :=
  ⟨rfl, rfl, rfl, _, _, rfl, rfl, by decide⟩

/-- C27, amended: for every movement-flag mask, when no group was selected
earlier in the tick (neither a jump or landing group nor Equip or Unequip:
the group is still Idle when the classification starts), the classification
returns in the normal sit/sleep state, and whenever it returns it yields:
with Running and at least one direction flag, the Fast variant of the first
set direction in the order Forward, Backward, Left, Right; with no direction
flag, TurnLeft if the TurnLeft flag is set, otherwise TurnRight if the
TurnRight flag is set; with no direction and no turn flag, Idle in the
normal sit/sleep state. A Fast variant is selected only if the Running flag
is set. -/
theorem C27_direction_priority (movementSpeed : ℚ) (w : World) (l : Locals)
    (hidle : l.animGroup = kAnimGroup_Idle) :
    (w.GetSitSleepState = kSitSleepState_Normal →
      ∃ l1, classify movementSpeed w l = Except.ok l1) ∧
    ∀ l1, classify movementSpeed w l = Except.ok l1 →
      (w.GetMovementFlags &&& kMoveFlag_Running ≠ 0 →
        (w.GetMovementFlags &&& kMoveFlag_Forward ≠ 0 →
          l1.animGroup = kAnimGroup_FastForward) ∧
        (w.GetMovementFlags &&& kMoveFlag_Forward = 0 →
          w.GetMovementFlags &&& kMoveFlag_Backward ≠ 0 →
          l1.animGroup = kAnimGroup_FastBackward) ∧
        (w.GetMovementFlags &&& kMoveFlag_Forward = 0 →
          w.GetMovementFlags &&& kMoveFlag_Backward = 0 →
          w.GetMovementFlags &&& kMoveFlag_Left ≠ 0 →
          l1.animGroup = kAnimGroup_FastLeft) ∧
        (w.GetMovementFlags &&& kMoveFlag_Forward = 0 →
          w.GetMovementFlags &&& kMoveFlag_Backward = 0 →
          w.GetMovementFlags &&& kMoveFlag_Left = 0 →
          w.GetMovementFlags &&& kMoveFlag_Right ≠ 0 →
          l1.animGroup = kAnimGroup_FastRight)) ∧
      (w.GetMovementFlags &&& kMoveFlag_AnyDirection = 0 →
        (w.GetMovementFlags &&& kMoveFlag_TurnLeft ≠ 0 →
          l1.animGroup = kAnimGroup_TurnLeft) ∧
        (w.GetMovementFlags &&& kMoveFlag_TurnLeft = 0 →
          w.GetMovementFlags &&& kMoveFlag_TurnRight ≠ 0 →
          l1.animGroup = kAnimGroup_TurnRight) ∧
        (w.GetMovementFlags &&& kMoveFlag_TurnLeft = 0 →
          w.GetMovementFlags &&& kMoveFlag_TurnRight = 0 →
          w.GetSitSleepState = kSitSleepState_Normal →
          l1.animGroup = kAnimGroup_Idle)) ∧
      ((l1.animGroup = kAnimGroup_FastForward ∨ l1.animGroup = kAnimGroup_FastBackward ∨
          l1.animGroup = kAnimGroup_FastLeft ∨ l1.animGroup = kAnimGroup_FastRight) →
        w.GetMovementFlags &&& kMoveFlag_Running ≠ 0) := by
  refine ⟨fun hsit => ⟨_, classify_idle movementSpeed w l hidle hsit⟩, ?_⟩
  intro l1 hc
  obtain ⟨l2, hl2, hnormal, hl1⟩ := classify_block movementSpeed w l l1 hidle hc
  have hg2 : l2.animGroup ≤ 1 := by
    rcases hl2 with h | h
    · rw [h, hidle]
      decide
    · rw [h]
      show kAnimGroup_DynamicIdle ≤ 1
      decide
  have hdir : ∀ flag, flag &&& kMoveFlag_AnyDirection = flag →
      w.GetMovementFlags &&& flag ≠ 0 →
      w.GetMovementFlags &&& kMoveFlag_AnyDirection ≠ 0 :=
    fun flag h1 h2 => flag_of_part _ flag _ h1 h2
  subst hl1
  refine ⟨?_, ?_, ?_⟩
  · intro hrun
    refine ⟨?_, ?_, ?_, ?_⟩
    · intro hF
      have := hdir kMoveFlag_Forward (by decide) hF
      simp [kMoveFlag_Forward] at hF
      simp [directionBlock, hF, *]
    · intro hF hB
      have := hdir kMoveFlag_Backward (by decide) hB
      simp [kMoveFlag_Forward, kMoveFlag_Backward] at hF hB
      simp [directionBlock, hF, hB, *]
    · intro hF hB hL
      have := hdir kMoveFlag_Left (by decide) hL
      simp [kMoveFlag_Forward, kMoveFlag_Backward, kMoveFlag_Left] at hF hB hL
      simp [directionBlock, hF, hB, hL, *]
    · intro hF hB hL hR
      have := hdir kMoveFlag_Right (by decide) hR
      simp [kMoveFlag_Forward, kMoveFlag_Backward, kMoveFlag_Left, kMoveFlag_Right] at hF hB hL hR
      simp [directionBlock, hF, hB, hL, hR, *]
  · intro hnone
    refine ⟨?_, ?_, ?_⟩
    · intro hTL
      simp [directionBlock, hnone, hTL]
    · intro hTL hTR
      simp [directionBlock, hnone, hTL, hTR]
    · intro hTL hTR hsit
      rw [hnormal hsit]
      simp [directionBlock, hnone, hTL, hTR, hidle]
  · intro hfast
    by_contra hrun0
    have hg3 : ¬ kAnimGroup_Forward ≤ l2.animGroup := by
      intro h3
      have : (3 : Nat) ≤ l2.animGroup := h3
      omega
    have h7 : kAnimGroup_Forward ≤ (directionBlock w { l2 with v167 := movementSpeed }).animGroup := by
      rcases hfast with h | h | h | h <;> rw [h] <;> decide
    have h10 : (directionBlock w { l2 with v167 := movementSpeed }).animGroup
        ≤ kAnimGroup_FastRight := by
      rcases hfast with h | h | h | h <;> rw [h] <;> decide
    have h4 := ((directionBlock_speed w { l2 with v167 := movementSpeed } hg2 h7 h10).2 hrun0).1
    rcases hfast with h | h | h | h <;> rw [h] at h4 <;> exact absurd h4 (by decide)

/-- C27, amended, at a concrete input: running with the Backward and Left
flags set selects FastBackward. -/
theorem C27_direction_priority_witness :
    ∃ l1, classify 1
        (Example.movingWorld (kMoveFlag_Backward ||| kMoveFlag_Left ||| kMoveFlag_Running))
        (initLocals
          (Example.movingWorld (kMoveFlag_Backward ||| kMoveFlag_Left ||| kMoveFlag_Running)))
        = Except.ok l1 ∧
      l1.animGroup = kAnimGroup_FastBackward := by
  obtain ⟨h1, h2⟩ := C27_direction_priority 1
    (Example.movingWorld (kMoveFlag_Backward ||| kMoveFlag_Left ||| kMoveFlag_Running))
    (initLocals
      (Example.movingWorld (kMoveFlag_Backward ||| kMoveFlag_Left ||| kMoveFlag_Running))) rfl
  obtain ⟨l1, hl1⟩ := h1 rfl
  exact ⟨l1, hl1, ((h2 l1 hl1).1 (by decide)).2.1 (by decide) (by decide)⟩

/-- C28 as stated fails: an entity of actor type 0 that runs forward gets
the FastForward group with the walk speed 1 as movement-speed target, not
its run speed multiplier 4 (lines 631-634). -/
theorem C28_counterexample :
    Example.typeZeroRunWorld.GetMovementFlags = kMoveFlag_Forward ||| kMoveFlag_Running ∧
    Example.typeZeroRunWorld.GetActorType = 0 ∧
    Example.typeZeroRunWorld.GetWalkSpeed = 1 ∧
    Example.typeZeroRunWorld.GetRunSpeedMult = 4 ∧
    ∃ w1 l, classified Example.onGround 1 Example.typeZeroRunWorld = Except.ok (w1, l) ∧
      l.animGroup = kAnimGroup_FastForward ∧
      l.movementSpeedMult = 1 ∧ l.movementSpeedMult ≠ Example.typeZeroRunWorld.GetRunSpeedMult := by
  have h : ∃ w1 l, classified Example.onGround 1 Example.typeZeroRunWorld = Except.ok (w1, l) ∧
      l.animGroup = kAnimGroup_FastForward ∧ l.movementSpeedMult = 1 := ⟨_, _, rfl, rfl, rfl⟩
  obtain ⟨w1, l, h1, h2, h3⟩ := h
  refine ⟨rfl, rfl, rfl, rfl, w1, l, h1, h2, h3, ?_⟩
  rw [h3]
  show (1 : ℚ) ≠ 4
  norm_num

/-- C28, amended: in every tick in which the classification selects a
directional group (Forward, Backward, Left, Right or their Fast variants):
if the Running flag is set, the group is a Fast variant and the
movement-speed target is the entity's run speed multiplier when its actor
type is nonzero and its walk multiplier when its actor type is 0; if the
Running flag is not set, the group is not a Fast variant and the target is
the walk multiplier. -/
theorem C28_speed_target (charController : bhkCharacterController) (movementSpeed : ℚ)
    (w w1 : World) (l : Locals)
    (hc : classified charController movementSpeed w = Except.ok (w1, l))
    (hdir : kAnimGroup_Forward ≤ l.animGroup) (hfast : l.animGroup ≤ kAnimGroup_FastRight) :
    (w.GetMovementFlags &&& kMoveFlag_Running ≠ 0 →
        kAnimGroup_FastForward ≤ l.animGroup ∧
          l.movementSpeedMult =
            if w.GetActorType ≠ 0 then w.GetRunSpeedMult else w.GetWalkSpeed) ∧
      (w.GetMovementFlags &&& kMoveFlag_Running = 0 →
        l.animGroup ≤ kAnimGroup_Right ∧ l.movementSpeedMult = w.GetWalkSpeed) := by
  obtain ⟨l0, hcl, hentry, -⟩ := classified_entry charController movementSpeed w w1 l hc
  obtain ⟨hflags, -, -, -, htype, hwalk, hrun, -⟩ :=
    World.sameHost_reads (classified_host charController movementSpeed w w1 l hc)
  rcases hentry with hidle | hgt
  · obtain ⟨l2, hl2, -, hl⟩ := classify_block movementSpeed w1 l0 l hidle hcl
    have hg2 : ({ l2 with v167 := movementSpeed } : Locals).animGroup ≤ 1 := by
      rcases hl2 with h | h
      · rw [h]
        show l0.animGroup ≤ 1
        rw [hidle]
        decide
      · rw [h]
        show kAnimGroup_DynamicIdle ≤ 1
        decide
    subst hl
    have hs := directionBlock_speed w1 { l2 with v167 := movementSpeed } hg2 hdir hfast
    rw [hflags, htype, hwalk, hrun] at hs
    exact hs
  · exfalso
    obtain ⟨-, -, -, -, hcase⟩ := classify_summary movementSpeed w1 l0 l hcl
    rcases hcase with ⟨-, -, -, hg⟩ | ⟨h0, -⟩
    · have := jumpLoopGroup_gt w1.GetMovementFlags l0.animGroup hgt
      rw [← hg] at this
      have h16 : l.animGroup ≤ kAnimGroup_TurnRight := le_trans hfast (by decide)
      exact absurd h16 (not_le.mpr this)
    · rw [h0] at hgt
      exact absurd hgt (by decide)

/-- C28, amended, at a concrete input: an entity of nonzero actor type
running forward gets its run speed multiplier 4 as target. -/
theorem C28_speed_target_witness :
    ∃ w1 l, classified Example.onGround 1 Example.runWorld = Except.ok (w1, l) ∧
      l.movementSpeedMult = Example.runWorld.GetRunSpeedMult := by
  have h : ∃ w1 l, classified Example.onGround 1 Example.runWorld = Except.ok (w1, l) ∧
      l.animGroup = kAnimGroup_FastForward := ⟨_, _, rfl, rfl⟩
  obtain ⟨w1, l, h1, h2⟩ := h
  obtain ⟨-, h3⟩ := (C28_speed_target Example.onGround 1 Example.runWorld w1 l h1
    (by rw [h2]; decide) (by rw [h2]; decide)).1 (by decide)
  rw [if_pos (by decide)] at h3
  exact ⟨w1, l, h1, h3⟩

/-- C29: the locomotion type chosen in a tick that reaches lines 553-564
is a function of the Swimming, Flying and Sneaking bits of the movement
flags only: Swimming if Swimming is set, else Flying if Flying is set, else
Sneaking if Sneaking is set, else Walking; two ticks whose masks agree on
these three bits get the same locomotion type, whatever their other bits,
their arguments, their controllers and their action states. -/
theorem C29_locomotion_type (charController : bhkCharacterController) (movementSpeed : ℚ)
    (w w1 : World) (l : Locals)
    (hc : classified charController movementSpeed w = Except.ok (w1, l)) :
    l.animMoveType =
        (if w.GetMovementFlags &&& kMoveFlag_Swimming ≠ 0 then kAnimMoveType_Swimming
          else if w.GetMovementFlags &&& kMoveFlag_Flying ≠ 0 then kAnimMoveType_Flying
          else if w.GetMovementFlags &&& kMoveFlag_Sneaking ≠ 0 then kAnimMoveType_Sneaking
          else kAnimMoveType_Walking) ∧
      ∀ (charController2 : bhkCharacterController) (movementSpeed2 : ℚ) (w2 w3 : World)
        (l2 : Locals),
        classified charController2 movementSpeed2 w2 = Except.ok (w3, l2) →
        w2.GetMovementFlags &&& kMoveFlag_Swimming = w.GetMovementFlags &&& kMoveFlag_Swimming →
        w2.GetMovementFlags &&& kMoveFlag_Flying = w.GetMovementFlags &&& kMoveFlag_Flying →
        w2.GetMovementFlags &&& kMoveFlag_Sneaking = w.GetMovementFlags &&& kMoveFlag_Sneaking →
        l2.animMoveType = l.animMoveType := by
  refine ⟨classified_moveType charController movementSpeed w w1 l hc, ?_⟩
  intro charController2 movementSpeed2 w2 w3 l2 hc2 h1 h2 h3
  rw [classified_moveType charController movementSpeed w w1 l hc,
    classified_moveType charController2 movementSpeed2 w2 w3 l2 hc2, h1, h2, h3]

/-- C29 at a concrete input: sneaking forward chooses Sneaking, and so does
a tick mid-attack whose mask holds the Sneaking and Running bits. -/
theorem C29_locomotion_type_witness :
    ∃ w1 l, classified Example.onGround 1
        (Example.movingWorld (kMoveFlag_Forward ||| kMoveFlag_Sneaking)) = Except.ok (w1, l) ∧
      l.animMoveType = kAnimMoveType_Sneaking ∧
      ∃ w3 l2, classified Example.jumping 3
          { Example.attackWorld with GetMovementFlags := kMoveFlag_Sneaking ||| kMoveFlag_Running }
          = Except.ok (w3, l2) ∧
        l2.animMoveType = l.animMoveType := by
  have h : ∃ w1 l, classified Example.onGround 1
      (Example.movingWorld (kMoveFlag_Forward ||| kMoveFlag_Sneaking)) = Except.ok (w1, l) :=
    ⟨_, _, rfl⟩
  obtain ⟨w1, l, h1⟩ := h
  have h' : ∃ w3 l2, classified Example.jumping 3
      { Example.attackWorld with GetMovementFlags := kMoveFlag_Sneaking ||| kMoveFlag_Running }
      = Except.ok (w3, l2) := ⟨_, _, rfl⟩
  obtain ⟨w3, l2, h2⟩ := h'
  obtain ⟨a, b⟩ := C29_locomotion_type Example.onGround 1 _ w1 l h1
  refine ⟨w1, l, h1, ?_, w3, l2, h2, b _ _ _ w3 l2 h2 (by decide) (by decide) (by decide)⟩
  rw [a]
  decide

/-- C30: whenever the resolved group lies in the Equip..Counter range and
the resolved id is not the sentinel, the tick commits on the path of lines
749-817 exactly one rate of fire and no movement-speed multiplier; when the
resolver answers with the group it was asked for, the tick is on that path.
With no weapon the rate is exactly 1.0; with a weapon it is the weapon's
animation multiplier after perk modifiers, additionally multiplied by
`TESObjectWEAP::GetAnimAttackMult(weapon, hasRateOfFireMod)` if and only if
the group is an attack group and the weapon is not a melee weapon. -/
theorem C30_rate_of_fire (charController : bhkCharacterController)
    (movementSpeed turnSpeed : ℚ) (w w1 : World) (l : Locals)
    (hc : classified charController movementSpeed w = Except.ok (w1, l))
    (hlow : kAnimGroup_Equip ≤ AnimGroupID.GetGroupID (resolvedID w1 l))
    (hhigh : AnimGroupID.GetGroupID (resolvedID w1 l) ≤ kAnimGroup_Counter)
    (hid : resolvedID w1 l ≠ 255) :
    ((l.animAction = -1 ∨ l.currentAnimAction = -1) →
      sequenceInFlight w1 l (AnimGroupID.GetGroupID (resolvedID w1 l)) = false →
      ∃ w2 pre es, body charController movementSpeed turnSpeed w = Except.ok w2 ∧
        w2.trace = w1.trace ++ pre ++
          Effect.SetRateOfFire (rateOfFire w (AnimGroupID.GetGroupID (resolvedID w1 l))) :: es ∧
        (∀ e ∈ pre, Effect.isSpeedOrRate e = false) ∧
        ∀ e ∈ es, Effect.isSpeedOrRate e = false) ∧
    (AnimGroupID.GetGroupID (resolvedID w1 l) = dropSlowMovement l →
      (l.animAction = -1 ∨ l.currentAnimAction = -1) ∧
        sequenceInFlight w1 l (AnimGroupID.GetGroupID (resolvedID w1 l)) = false) ∧
    (w.weap = none → rateOfFire w (AnimGroupID.GetGroupID (resolvedID w1 l)) = 1) ∧
    (∀ weapInfo weap, w.GetWeaponInfo = some weapInfo → weapInfo.GetFlags = some weap →
      rateOfFire w (AnimGroupID.GetGroupID (resolvedID w1 l)) =
        if w.AnimGroup_IsAttack (AnimGroupID.GetGroupID (resolvedID w1 l)) = true ∧
            weap.IsMeleeWeapon = false then
          weap.GetAnimAttackMult (weapInfo.HasWeaponMod kWeaponModEffect_IncreaseRateOfFire)
            * w.ApplyPerkModifiers weap.GetAnimMult
        else w.ApplyPerkModifiers weap.GetAnimMult) := by
  have hhost := classified_host charController movementSpeed w w1 l hc
  refine ⟨?_, ?_, (rateOfFire_cases w _).1, (rateOfFire_cases w _).2⟩
  · intro hguard hnot
    rw [body_eq charController movementSpeed turnSpeed w w1 l hc,
      resolvePhase_eq turnSpeed w1 l hguard, if_neg (by rw [hnot]; simp)]
    obtain ⟨pre, hpre, hpres⟩ := dropUnresolved_records
      (fun e => Effect.isSpeedOrRate e = false) rfl w1 l
      (AnimGroupID.GetGroupID (resolvedID w1 l))
    have hd := World.sameHost_trans hhost
      (dropUnresolved_host (World.sameHost_refl w1) l (AnimGroupID.GetGroupID (resolvedID w1 l)))
    revert hpre hd
    generalize dropUnresolved w1 l (AnimGroupID.GetGroupID (resolvedID w1 l)) = d
    obtain ⟨wd, ad⟩ := d
    intro hpre hd
    simp only [] at hpre hd ⊢
    rw [commitSpeed_rate turnSpeed wd _ (resolvedID w1 l) hid hlow hhigh]
    simp only []
    rw [rateOfFire_host hd]
    obtain ⟨es, ht, hes⟩ := afterCommit_records (fun e => Effect.isSpeedOrRate e = false)
      (fun _ _ => rfl) rfl (fun _ _ => rfl) rfl rfl
      (wd.perform (Effect.SetRateOfFire
        (rateOfFire w (AnimGroupID.GetGroupID (resolvedID w1 l)))))
      { l with animAction := ad, animGroup := AnimGroupID.GetGroupID (resolvedID w1 l) }
      (resolvedID w1 l) (fun _ => rfl)
    refine ⟨_, pre, es, rfl, ?_, hpres, hes⟩
    rw [ht]
    simp [World.perform, hpre]
  · intro hkeep
    have hsame : dropSlowMovement l = l.animGroup := by
      unfold dropSlowMovement
      split
      · rename_i hslow
        exfalso
        rw [hkeep] at hlow
        unfold dropSlowMovement at hlow
        rw [if_pos hslow] at hlow
        exact absurd hlow (by decide)
      · rfl
    rw [hkeep, hsame] at hlow hhigh
    obtain ⟨-, hcur⟩ := classified_requested charController movementSpeed w w1 l hc hlow hhigh
    exact ⟨Or.inr hcur, sequenceInFlight_none w1 l _ hcur⟩

/-- C30 at a concrete input: an unarmed entity that wants its weapon out
resolves the Equip group and commits the rate of fire 1.0. -/
theorem C30_rate_of_fire_witness :
    ∃ w2 pre es, body Example.onGround 1 0 Example.raiseFistsWorld = Except.ok w2 ∧
      w2.trace = pre ++ Effect.SetRateOfFire 1 :: es ∧
      (∀ e ∈ pre, Effect.isSpeedOrRate e = false) ∧
      ∀ e ∈ es, Effect.isSpeedOrRate e = false := by
  have h : ∃ w1 l, classified Example.onGround 1 Example.raiseFistsWorld = Except.ok (w1, l) ∧
      w1.trace = [] ∧ resolvedID w1 l = kAnimGroup_Equip ∧ dropSlowMovement l = kAnimGroup_Equip :=
    ⟨_, _, rfl, rfl, rfl, rfl⟩
  obtain ⟨w1, l, h1, ht, h2, h3⟩ := h
  have hg : AnimGroupID.GetGroupID (resolvedID w1 l) = kAnimGroup_Equip := by
    rw [h2]
    rfl
  obtain ⟨a, b, c, -⟩ := C30_rate_of_fire Example.onGround 1 0 Example.raiseFistsWorld w1 l h1
    (le_of_eq hg.symm) (by rw [hg]; decide) (by rw [h2]; decide)
  obtain ⟨hguard, hnot⟩ := b (hg.trans h3.symm)
  obtain ⟨w2, pre, es, hb, htr, hp, he⟩ := a hguard hnot
  rw [c rfl, ht] at htr
  exact ⟨w2, pre, es, hb, htr, hp, he⟩

/-- C31: when the action phase returns, it has changed the action only
along the edges of the transition table. With a live sequence, the final
action is the tick-start one or an edge of the table away from it, and every
call of `Actor::SetAnimActionAndSequence` sets such an action; in particular
Equip_Weapon, Unequip_Weapon, Dodge, Block, Reload and Force_Script_Anim are
left unchanged and the phase records no call of
`Actor::SetAnimActionAndSequence` for them. With an action in flight whose
sequence is absent or Inactive, the phase ends in None, Block or Reload and
sets nothing else. With no action in flight the phase does nothing. And no
tick as a whole sets or ends in Attack, Attack_Throw, Dodge or
Force_Script_Anim unless the tick started in it. -/
theorem C31_transition_table (charController : bhkCharacterController) (w w1 : World)
    (l1 : Locals)
    (h : actionPhase charController w (initLocals w) = Except.ok (w1, l1)) :
    (w.GetCurrentAnimAction ≠ kAnimAction_None →
      (∃ s, w.GetCurrentSequence = some s ∧ (w.rigs.seq s).GetState ≠ 0) →
        w.SetsOnly (transitionEdge w.GetCurrentAnimAction) w1 ∧
        (w.GetCurrentAnimAction = kAnimAction_Equip_Weapon ∨
          w.GetCurrentAnimAction = kAnimAction_Unequip_Weapon ∨
          w.GetCurrentAnimAction = kAnimAction_Dodge ∨
          w.GetCurrentAnimAction = kAnimAction_Block ∨
          w.GetCurrentAnimAction = kAnimAction_Reload ∨
          w.GetCurrentAnimAction = kAnimAction_Force_Script_Anim →
          w1.GetCurrentAnimAction = w.GetCurrentAnimAction ∧
            ∃ es, w1.trace = w.trace ++ es ∧ ∀ e ∈ es, Effect.isSetAction e = false)) ∧
      (w.GetCurrentAnimAction ≠ kAnimAction_None →
        (∀ s, w.GetCurrentSequence = some s → (w.rigs.seq s).GetState = 0) →
          isFallbackAction w1.GetCurrentAnimAction = true ∧ w.SetsOnly isFallbackAction w1) ∧
      (w.GetCurrentAnimAction = kAnimAction_None → w1 = w) ∧
      ∀ movementSpeed turnSpeed w0 w2,
        Actor.PickAnimations movementSpeed turnSpeed w0 = Except.ok w2 →
          w0.SetsOnly (fun next => ! isForeignAction next) w2 := by
  refine ⟨?_, ?_, ?_, fun movementSpeed turnSpeed w0 w2 ht =>
    tick_sets movementSpeed turnSpeed w0 w2 ht⟩
  · rintro hn ⟨s, hs, hlive⟩
    have hsw : switchAction charController w (initLocals w) = Except.ok (w1, l1) := by
      have hn1 : (initLocals w).currentAnimAction ≠ kAnimAction_None := hn
      unfold actionPhase at h
      rw [if_pos hn1, hs] at h
      dsimp only at h
      rw [if_pos hlive] at h
      exact h
    have hedge : w.SetsOnly (transitionEdge w.GetCurrentAnimAction) w1 :=
      switchAction_sets charController w w1 _ l1 hsw
    refine ⟨hedge, fun hsix => ?_⟩
    have hnone : ∀ next, transitionEdge w.GetCurrentAnimAction next = false := by
      intro next
      rcases hsix with h6 | h6 | h6 | h6 | h6 | h6 <;> rw [h6] <;> rfl
    obtain ⟨ha, es, ht, hp⟩ := hedge
    refine ⟨?_, es, ht, ?_⟩
    · rcases ha with ha | ha
      · exact ha
      · rw [hnone] at ha
        exact Bool.noConfusion ha
    · intro e he
      cases e
      case SetAnimActionAndSequence action sequence =>
        have h7 := hp action sequence he
        rw [hnone] at h7
        exact Bool.noConfusion h7
      all_goals rfl
  · intro hn hdead
    have hno : noLiveSequence w (initLocals w) = Except.ok (w1, l1) := by
      have hn1 : (initLocals w).currentAnimAction ≠ kAnimAction_None := hn
      unfold actionPhase at h
      rw [if_pos hn1] at h
      cases hs : w.GetCurrentSequence with
      | none =>
        rw [hs] at h
        exact h
      | some s =>
        rw [hs] at h
        dsimp only at h
        rw [if_neg (not_not.mpr (hdead s hs))] at h
        exact h
    exact noLiveSequence_sets w w1 _ l1 rfl hno
  · intro hnone
    have hn1 : ¬ (initLocals w).currentAnimAction ≠ kAnimAction_None := not_not.mpr hnone
    unfold actionPhase at h
    rw [if_neg hn1] at h
    cases h
    rfl

/-- C31 at a concrete input: mid-attack with the pistol at the hit stage the
action phase returns, and the action has moved along the edge from Attack
to Attack_Eject. -/
theorem C31_transition_table_witness :
    ∃ w1 l1, actionPhase Example.onGround Example.attackWorld (initLocals Example.attackWorld)
        = Except.ok (w1, l1) ∧
      Example.attackWorld.SetsOnly (transitionEdge kAnimAction_Attack) w1 ∧
      w1.GetCurrentAnimAction = kAnimAction_Attack_Eject :=
  ⟨_, _, rfl,
    ((C31_transition_table Example.onGround Example.attackWorld _ _ rfl).1 (by decide)
      ⟨7, rfl, by decide⟩).1, rfl⟩

/-- C33: when the resolution phase starts with the tick-start action still
in flight (the local action in flight is not None, which makes it the
tick-start action) and the current sequence is the one on the channel of
the newly resolved group, the tick returns, and the resolution phase leaves
the action, its sequence and the weapon-out flag as they were, and records
no call at all unless the action is Force_Script_Anim; for
Force_Script_Anim it records at most one call, which is the commit of a
movement-speed multiplier. So it issues no PlayAnimGroup, stops no channel
and sets no action. -/
theorem C33_sequence_in_flight (charController : bhkCharacterController)
    (movementSpeed turnSpeed : ℚ) (w w1 : World) (l : Locals) (s : Nat)
    (hc : classified charController movementSpeed w = Except.ok (w1, l))
    (hcur : l.currentAnimAction ≠ kAnimAction_None)
    (hseq : w1.GetCurrentSequence = some s)
    (hchan : w1.rigs.third.GetAnimSequenceElement
      (w1.g_animSequenceTypes (9 * AnimGroupID.GetGroupID (resolvedID w1 l))) = some s) :
    w.GetCurrentAnimAction ≠ kAnimAction_None ∧
    l.currentAnimAction = w.GetCurrentAnimAction ∧
    ∃ w2 es, body charController movementSpeed turnSpeed w = Except.ok w2 ∧
      w2.GetCurrentAnimAction = w1.GetCurrentAnimAction ∧
      w2.GetCurrentSequence = w1.GetCurrentSequence ∧
      w2.IsWeaponOut = w1.IsWeaponOut ∧
      w2.trace = w1.trace ++ es ∧
      es.length ≤ 1 ∧
      (∀ e ∈ es, ∃ v, e = Effect.SetMovementSpeedMult v) ∧
      (w.GetCurrentAnimAction ≠ kAnimAction_Force_Script_Anim → w2 = w1) := by
  obtain ⟨-, hcase, -, -⟩ := classified_summary (fun _ => True) (fun _ _ => trivial)
    charController movementSpeed w w1 l hc
  have hstart : l.currentAnimAction = w.GetCurrentAnimAction := by
    rcases hcase with ⟨-, a, -⟩ | ⟨-, b, -⟩
    · exact a
    · exact absurd b hcur
  refine ⟨by rw [← hstart]; exact hcur, hstart, ?_⟩
  rw [body_eq charController movementSpeed turnSpeed w w1 l hc]
  by_cases hguard : l.animAction = -1 ∨ l.currentAnimAction = -1
  · have ha : l.animAction = -1 := by
      rcases hguard with h | h
      · exact h
      · exact absurd h hcur
    have hin : sequenceInFlight w1 l (AnimGroupID.GetGroupID (resolvedID w1 l)) = true := by
      unfold sequenceInFlight
      rw [hchan, hseq]
      simpa using hcur
    rw [resolvePhase_eq turnSpeed w1 l hguard, if_pos hin,
      dropUnresolved_none w1 l _ ha]
    simp only []
    by_cases hf : l.currentAnimAction = kAnimAction_Force_Script_Anim
    · rw [if_pos hf, forceScriptSpeed_eq]
      split
      · exact ⟨_, [_], rfl, rfl, rfl, rfl, rfl, le_refl _,
          fun e he => ⟨_, List.mem_singleton.mp he⟩, fun hn => absurd (hstart ▸ hf) hn⟩
      · exact ⟨_, [_], rfl, rfl, rfl, rfl, rfl, le_refl _,
          fun e he => ⟨_, List.mem_singleton.mp he⟩, fun hn => absurd (hstart ▸ hf) hn⟩
    · rw [if_neg hf]
      exact ⟨w1, [], rfl, rfl, rfl, rfl, by simp, by simp, by simp, fun _ => rfl⟩
  · have hskip : resolvePhase turnSpeed w1 l = w1 := by
      unfold resolvePhase
      rw [if_neg hguard]
    rw [hskip]
    exact ⟨w1, [], rfl, rfl, rfl, rfl, by simp, by simp, by simp, fun _ => rfl⟩

/-- C33 at a concrete input: walking forward under a script-forced
FastForward animation whose sequence 7 sits on the movement channel, the
resolution phase records the commit of one movement-speed multiplier and
nothing else, and the action stays Force_Script_Anim on sequence 7. -/
theorem C33_sequence_in_flight_witness :
    ∃ w2 es, body Example.onGround 1 0 Example.scriptedFastWorld = Except.ok w2 ∧
      w2.GetCurrentAnimAction = kAnimAction_Force_Script_Anim ∧
      w2.GetCurrentSequence = some 7 ∧
      w2.trace = es ∧ es.length ≤ 1 ∧
      ∀ e ∈ es, ∃ v, e = Effect.SetMovementSpeedMult v := by
  have hl : ∃ l, classified Example.onGround 1 Example.scriptedFastWorld
        = Except.ok (Example.scriptedFastWorld, l) ∧
      l.currentAnimAction ≠ kAnimAction_None ∧
      Example.scriptedFastWorld.rigs.third.GetAnimSequenceElement
        (Example.scriptedFastWorld.g_animSequenceTypes
          (9 * AnimGroupID.GetGroupID (resolvedID Example.scriptedFastWorld l))) = some 7 :=
    ⟨_, rfl, by decide, rfl⟩
  obtain ⟨l, h1, h2, h3⟩ := hl
  obtain ⟨-, -, w2, es, a, b, c, -, d, e, f, -⟩ :=
    C33_sequence_in_flight Example.onGround 1 0 Example.scriptedFastWorld
      Example.scriptedFastWorld l 7 h1 h2 rfl h3
  exact ⟨w2, es, a, b, c, by rw [d]; rfl, e, f⟩

/-- C34 as stated fails: in a reload loop whose elapsed time 1 equals the
action-point time 1 of its group, so that it does not strictly exceed it,
the lookup executes: the modded reload group 0xB2 is played and the action
is re-armed as ReloadLoop (the test of line 397 is `<=`). -/
theorem C34_counterexample :
    ((Example.reloadAtWorld 1).group 7).GetTimeForAction
      = (Example.reloadAtWorld 1).rigs.third.GetSequenceOffsetPlusTimePassed 7 ∧
    ∃ w1 l1, actionPhase Example.onGround (Example.reloadAtWorld 1)
        (initLocals (Example.reloadAtWorld 1)) = Except.ok (w1, l1) ∧
      l1.animAction = kAnimAction_ReloadLoop ∧
      w1.trace = [Effect.PlayAnimGroup 0xB2 1,
        Effect.SetAnimActionAndSequence kAnimAction_ReloadLoop (some 7)] :=
  ⟨rfl, _, _, rfl, rfl, rfl⟩

/-- C34, amended: in a tick that starts in ReloadLoop with a live current
sequence, that is not aborted and whose group is at or below
kAnimGroup_ReloadZStart: when the sequence's elapsed time (offset plus time
passed) is strictly less than the group's action-point time, the action
phase returns with no lookup, no playback request and no action change (it
changes nothing); so the lookup executes only if the elapsed time is at
least the action-point time; and when it is, equality included, with a
weapon and its profile present the lookup executes and the action is
re-armed as ReloadLoop. -/
theorem C34_action_point (charController : bhkCharacterController) (w : World) (s : Nat)
    (hcur : w.GetCurrentAnimAction = kAnimAction_ReloadLoop)
    (hseq : w.GetCurrentSequence = some s)
    (hlive : (w.rigs.seq s).GetState ≠ kAnimState_Inactive)
    (hkeep : ¬ (w.GetWantsWeaponOut_IfSwimmingCancelVATS = true ∧ w.IsWeaponOut = false ∧
      w.weap.isSome = true ∧ w.GetWeaponInfo.isSome = true))
    (hgroup : (w.group s).GetSequenceGroup ≤ kAnimGroup_ReloadZStart) :
    (w.rigs.third.GetSequenceOffsetPlusTimePassed s < (w.group s).GetTimeForAction →
      actionPhase charController w (initLocals w) = Except.ok (w, initLocals w)) ∧
    (∀ w1 l1, actionPhase charController w (initLocals w) = Except.ok (w1, l1) →
      (w1.trace ≠ w.trace ∨ l1 ≠ initLocals w) →
      (w.group s).GetTimeForAction ≤ w.rigs.third.GetSequenceOffsetPlusTimePassed s) ∧
    ((w.group s).GetTimeForAction ≤ w.rigs.third.GetSequenceOffsetPlusTimePassed s →
      ∀ weapInfo weap, w.GetWeaponInfo = some weapInfo → weapInfo.GetFlags = some weap →
      ∃ w1 es, actionPhase charController w (initLocals w)
          = Except.ok (w1, { initLocals w with animAction := kAnimAction_ReloadLoop }) ∧
        w1.GetCurrentAnimAction = kAnimAction_ReloadLoop ∧
        w1.trace = w.trace ++ es ++
          [Effect.SetAnimActionAndSequence kAnimAction_ReloadLoop w1.GetCurrentSequence]) := by
  have hcur1 : (initLocals w).currentAnimAction = kAnimAction_ReloadLoop := hcur
  have hnot : ¬ (w.GetWantsWeaponOut_IfSwimmingCancelVATS = true ∧ ¬ w.IsWeaponOut = true ∧
      w.weap.isSome = true ∧ w.GetWeaponInfo.isSome = true) := by
    rintro ⟨h1, h2, h3, h4⟩
    exact hkeep ⟨h1, by simpa using h2, h3, h4⟩
  have hphase : actionPhase charController w (initLocals w)
      = caseReloadLoop w (initLocals w) := by
    rw [actionPhase_live charController w _ s (by rw [hcur1]; decide) hseq hlive,
      switchAction_reloadLoop charController w _ hcur1]
  have hearly : w.rigs.third.GetSequenceOffsetPlusTimePassed s < (w.group s).GetTimeForAction →
      actionPhase charController w (initLocals w) = Except.ok (w, initLocals w) := by
    intro hlt
    rw [hphase]
    unfold caseReloadLoop
    simp only [deref, hseq, bind, Except.bind, pure, Except.pure]
    rw [if_neg hnot, if_neg (Nat.not_lt.mpr hgroup), if_neg (not_le.mpr hlt)]
  refine ⟨hearly, ?_, ?_⟩
  · intro w1 l1 h hchange
    by_contra hlt
    rw [hearly (not_le.mp hlt)] at h
    injection h with h
    injection h with h1 h2
    rcases hchange with hc | hc
    · exact hc (by rw [h1])
    · exact hc h2.symm
  · intro htime weapInfo weap hinfo hweap
    have hw : w.weap = some weap := by simp [World.weap, hinfo, hweap]
    rw [hphase]
    unfold caseReloadLoop
    simp only [deref, hseq, bind, Except.bind, pure, Except.pure]
    rw [if_neg hnot, if_neg (Nat.not_lt.mpr hgroup), if_pos htime]
    simp only [hinfo, hw]
    generalize weap.GetReloadAnimGroup
      (weapInfo.HasWeaponMod kWeaponModEffect_IncreaseClipCapacity) = a2a
    generalize w.Actor__GetAnimKey a2a none = AnimKey
    by_cases hk : AnimGroupID.GetGroupID AnimKey = a2a
    · rw [if_pos hk]
      by_cases hp : w.isPlayer = true
      · refine ⟨_, Effect.PlayAnimGroup AnimKey 1 :: [Effect.PlayFirstPersonAnimation],
          rfl, rfl, ?_⟩
        simp [World.SetAnimActionAndSequence, World.perform, hp]
      · refine ⟨_, [Effect.PlayAnimGroup AnimKey 1], rfl, rfl, ?_⟩
        simp [World.SetAnimActionAndSequence, World.perform, hp]
    · rw [if_neg hk]
      exact ⟨_, [], rfl, rfl, by simp [World.SetAnimActionAndSequence]⟩

/-- C34, amended, at a concrete input: half a time unit into a reload loop
whose action point is at 1, the action phase changes nothing. -/
theorem C34_action_point_witness :
    actionPhase Example.onGround (Example.reloadAtWorld (1 / 2))
        (initLocals (Example.reloadAtWorld (1 / 2)))
      = Except.ok (Example.reloadAtWorld (1 / 2), initLocals (Example.reloadAtWorld (1 / 2))) :=
  (C34_action_point Example.onGround (Example.reloadAtWorld (1 / 2)) 7 rfl rfl (by decide)
    (by decide) (by decide)).1
    (by norm_num [World.group, Example.reloadAtWorld, Example.reloadWorld, Example.armed,
      Example.weaponRigs, Example.group])

/-- C35 as stated fails: drawing an enchanted sword, a melee weapon and no
ranged one, the commit plays the equip cue: line 157 asks for a weapon and
lines 159-172 for an enchantment or a poison, nothing asks for a ranged
weapon. -/
theorem C35_counterexample :
    Example.sword.IsMeleeWeapon = true ∧ Example.sword.IsNonMeleeWeapon = false ∧
    ∃ w1, actionPhase Example.onGround Example.swordEquipWorld
        (initLocals Example.swordEquipWorld)
        = Except.ok (w1, initLocals Example.swordEquipWorld) ∧
      w1.trace = [Effect.SetWeaponOut true, Effect.SetEquippedWeaponPosition, Effect.AimWeapon,
        Effect.Unk_160, Effect.PlaySoundAtActorPos] :=
  ⟨rfl, rfl, _, rfl, rfl⟩

/-- C35, amended: in a tick that starts in Equip_Weapon or Unequip_Weapon
on a live sequence and commits (the weapon-out flag differs from the phase
and the weapon channel is at or past the hit stage), the action phase
returns and its calls come in this order: `SetWeaponOut`, then the
positioning of the weapon for each rig (each `SetEquippedWeaponPosition`
preceded by at most one `sub_8D6A80`), then `Actor::AimWeapon`, and after it
no second `SetWeaponOut`, positioning or aim refresh. The equip cue is
played at most once in the commit and not at all in the rest of the tick,
and only when the action is Equip_Weapon, so that the weapon is out after
the commit, `Unk_15D` answers, and the weapon, ranged or not, carries an
enchantment or an applied poison. -/
theorem C35_commit_order (charController : bhkCharacterController)
    (movementSpeed turnSpeed : ℚ) (w : World)
    (hcur : w.GetCurrentAnimAction = kAnimAction_Equip_Weapon ∨
      w.GetCurrentAnimAction = kAnimAction_Unequip_Weapon)
    (hseq : ∃ s, w.GetCurrentSequence = some s ∧ (w.rigs.seq s).GetState ≠ kAnimState_Inactive)
    (hflag : w.IsWeaponOut ≠ decide (w.GetCurrentAnimAction = kAnimAction_Equip_Weapon))
    (hstage : kSeqState_HitOrDetach ≤ w.rigs.third.GetSequenceState1 kSequence_Weapon) :
    ∃ w1 rigs rest, actionPhase charController w (initLocals w)
        = Except.ok (w1, initLocals w) ∧
      w1.IsWeaponOut = decide (w.GetCurrentAnimAction = kAnimAction_Equip_Weapon) ∧
      w1.trace = w.trace ++
        Effect.SetWeaponOut (decide (w.GetCurrentAnimAction = kAnimAction_Equip_Weapon))
          :: (rigs ++ Effect.AimWeapon :: rest) ∧
      Effect.SetEquippedWeaponPosition ∈ rigs ∧
      (∀ e ∈ rigs, e = Effect.SetEquippedWeaponPosition ∨ ∃ h r, e = Effect.sub_8D6A80 h r) ∧
      (∀ e ∈ rest, (∀ b, e ≠ Effect.SetWeaponOut b) ∧ e ≠ Effect.SetEquippedWeaponPosition ∧
        e ≠ Effect.AimWeapon) ∧
      rest.count Effect.PlaySoundAtActorPos ≤ 1 ∧
      (Effect.PlaySoundAtActorPos ∈ rest →
        w.GetCurrentAnimAction = kAnimAction_Equip_Weapon ∧ w1.IsWeaponOut = true ∧
        w.Unk_15D = true ∧
        ∃ weapInfo weap, w.GetWeaponInfo = some weapInfo ∧ weapInfo.GetFlags = some weap ∧
          (weap.GetEnchantmentItem = true ∨ weapInfo.GetExtraPoison = true)) ∧
      ∀ w2, body charController movementSpeed turnSpeed w = Except.ok w2 →
        ∃ es, w2.trace = w1.trace ++ es ∧ Effect.PlaySoundAtActorPos ∉ es := by
  have ha := actionPhase_equip charController w hcur hseq
  obtain ⟨hout, rigs, rest, t, c, p, q, n, m⟩ :=
    caseEquipUnequip_trace w w.GetCurrentAnimAction hflag hstage
  refine ⟨_, rigs, rest, ha, hout, t, ?_, p, q, n, ?_, ?_⟩
  · apply List.count_pos_iff.mp
    rw [c]
    split <;> decide
  · intro hin
    obtain ⟨a, b, d⟩ := m hin
    exact ⟨a, by rw [hout, a]; rfl, b, d⟩
  · intro w2 hb
    obtain ⟨es, hes, hp⟩ := body_after_action (fun e => Effect.isAfterAction e = true)
      (fun _ h => h) charController movementSpeed turnSpeed w _ w2 _ ha hb
    exact ⟨es, hes, (quiet_of_afterAction es hp).2⟩

/-- C35, amended, at a concrete input: drawing the pistol, which carries
neither an enchantment nor a poison, the commit sets the flag, positions
the weapon, refreshes the aim pose and plays no cue. -/
theorem C35_commit_order_witness :
    ∃ w1 rigs rest, actionPhase Example.onGround (Example.equipWorld false 1)
        (initLocals (Example.equipWorld false 1))
        = Except.ok (w1, initLocals (Example.equipWorld false 1)) ∧
      w1.IsWeaponOut = true ∧
      w1.trace = Effect.SetWeaponOut true :: (rigs ++ Effect.AimWeapon :: rest) ∧
      Effect.SetEquippedWeaponPosition ∈ rigs ∧
      Effect.PlaySoundAtActorPos ∉ rest := by
  obtain ⟨w1, rigs, rest, a, b, c, d, -, -, -, g, -⟩ :=
    C35_commit_order Example.onGround 1 0 (Example.equipWorld false 1) (Or.inl rfl)
      ⟨7, rfl, by decide⟩ (by decide) (by decide)
  refine ⟨w1, rigs, rest, a, b, c, d, fun hin => ?_⟩
  obtain ⟨-, -, -, weapInfo, weap, h1, h2, h3⟩ := g hin
  have h4 : weapInfo = Example.pistolInfo := by
    injection h1 with h1
    exact h1.symm
  subst h4
  have h5 : weap = Example.pistol := by
    injection h2 with h2
    exact h2.symm
  subst h5
  rcases h3 with h3 | h3 <;> exact absurd h3 (by decide)

/-- C36: each per-rig loop terminates and runs once per rig. In a tick that
starts in Equip_Weapon or Unequip_Weapon on a live sequence and commits, and
in a tick that starts in Attack_Throw_Attach on a live sequence at the
attach stage of its key type with a weapon that is not a melee weapon, the
action phase returns and `SetEquippedWeaponPosition` is called exactly
twice if the actor is the player and exactly once for any other actor; the
rest of the tick, when it returns, adds no further call of it. -/
theorem C36_rig_loops (charController : bhkCharacterController)
    (movementSpeed turnSpeed : ℚ) (w : World) (s : Nat)
    (hseq : w.GetCurrentSequence = some s)
    (hlive : (w.rigs.seq s).GetState ≠ kAnimState_Inactive)
    (hcase :
      ((w.GetCurrentAnimAction = kAnimAction_Equip_Weapon ∨
          w.GetCurrentAnimAction = kAnimAction_Unequip_Weapon) ∧
        w.IsWeaponOut ≠ decide (w.GetCurrentAnimAction = kAnimAction_Equip_Weapon) ∧
        kSeqState_HitOrDetach ≤ w.rigs.third.GetSequenceState1 kSequence_Weapon) ∨
      (w.GetCurrentAnimAction = kAnimAction_Attack_Throw_Attach ∧
        ((w.g_animKeyTypes (9 * (w.group s).GetSequenceGroup) = kAnimKeyType_AttackThrow ∧
            w.rigs.third.GetSequenceState1 kSequence_Weapon = 3) ∨
          (w.g_animKeyTypes (9 * (w.group s).GetSequenceGroup) = kAnimKeyType_PlaceMine ∧
            w.rigs.third.GetSequenceState1 kSequence_Weapon = 2)) ∧
        ∃ weap, w.weap = some weap ∧ weap.IsMeleeWeapon = false)) :
    ∃ w1 es, actionPhase charController w (initLocals w) = Except.ok (w1, initLocals w) ∧
      w1.trace = w.trace ++ es ∧
      es.count Effect.SetEquippedWeaponPosition = (if w.isPlayer = true then 2 else 1) ∧
      ∀ w2, body charController movementSpeed turnSpeed w = Except.ok w2 →
        ∃ es2, w2.trace = w.trace ++ es2 ∧
          es2.count Effect.SetEquippedWeaponPosition = (if w.isPlayer = true then 2 else 1) := by
  have htail : ∀ (w1 : World) (es : List Effect),
      actionPhase charController w (initLocals w) = Except.ok (w1, initLocals w) →
      w1.trace = w.trace ++ es →
      es.count Effect.SetEquippedWeaponPosition = (if w.isPlayer = true then 2 else 1) →
      ∀ w2, body charController movementSpeed turnSpeed w = Except.ok w2 →
        ∃ es2, w2.trace = w.trace ++ es2 ∧
          es2.count Effect.SetEquippedWeaponPosition
            = (if w.isPlayer = true then 2 else 1) := by
    intro w1 es ha ht hc w2 hb
    obtain ⟨es1, hes, hp⟩ := body_after_action (fun e => Effect.isAfterAction e = true)
      (fun _ h => h) charController movementSpeed turnSpeed w _ w2 _ ha hb
    refine ⟨es ++ es1, by rw [hes, ht, List.append_assoc], ?_⟩
    rw [List.count_append, (quiet_of_afterAction es1 hp).1, hc]
    rfl
  rcases hcase with ⟨hcur, hflag, hstage⟩ | ⟨hcur, hat, weap, hw, hmelee⟩
  · have ha := actionPhase_equip charController w hcur ⟨s, hseq, hlive⟩
    obtain ⟨-, rigs, rest, t, c, p, q, -, -⟩ :=
      caseEquipUnequip_trace w w.GetCurrentAnimAction hflag hstage
    have hrest : rest.count Effect.SetEquippedWeaponPosition = 0 :=
      List.count_eq_zero.mpr (fun h => (q _ h).2.1 rfl)
    have hc : (Effect.SetWeaponOut (decide (w.GetCurrentAnimAction = kAnimAction_Equip_Weapon))
        :: (rigs ++ Effect.AimWeapon :: rest)).count Effect.SetEquippedWeaponPosition
        = (if w.isPlayer = true then 2 else 1) := by
      rw [List.count_cons_of_ne (by simp), List.count_append,
        List.count_cons_of_ne (by simp), hrest, c]
      rfl
    exact ⟨_, _, ha, t, hc, htail _ _ ha t hc⟩
  · have hcur1 : (initLocals w).currentAnimAction = kAnimAction_Attack_Throw_Attach := hcur
    have hnm : hasNonMeleeWeapon w = true := by simp [hasNonMeleeWeapon, hw, hmelee]
    have hkey : w.g_animKeyTypes (9 * (w.group s).GetSequenceGroup) = kAnimKeyType_AttackThrow ∨
        w.g_animKeyTypes (9 * (w.group s).GetSequenceGroup) = kAnimKeyType_PlaceMine := by
      rcases hat with ⟨h1, -⟩ | ⟨h1, -⟩
      · exact Or.inl h1
      · exact Or.inr h1
    have hst : w.rigs.third.GetSequenceState1 kSequence_Weapon
        = (if w.g_animKeyTypes (9 * (w.group s).GetSequenceGroup) = kAnimKeyType_AttackThrow
            then 3 else 2) := by
      rcases hat with ⟨h1, h2⟩ | ⟨h1, h2⟩
      · rw [if_pos h1, h2]
      · rw [if_neg (by rw [h1]; decide), h2]
    have hloop := attachRigLoop_calls (if w.isPlayer = true then 2 else 1) w
    have hcount : (List.replicate (if w.isPlayer = true then 2 else 1)
        Effect.SetEquippedWeaponPosition).count Effect.SetEquippedWeaponPosition
        = (if w.isPlayer = true then 2 else 1) := by simp
    have hphase : ∃ w1 es, actionPhase charController w (initLocals w)
          = Except.ok (w1, initLocals w) ∧ w1.trace = w.trace ++ es ∧
        es.count Effect.SetEquippedWeaponPosition = (if w.isPlayer = true then 2 else 1) := by
      rw [actionPhase_live charController w _ s (by rw [hcur1]; decide) hseq hlive,
        switchAction_throwAttach charController w _ hcur1]
      unfold caseAttackThrowAttach
      simp only [hseq, deref, bind, Except.bind, pure, Except.pure]
      rw [if_pos hkey, if_pos hst, if_pos hnm]
      revert hloop
      generalize attachRigLoop (if w.isPlayer = true then 2 else 1) w = wl
      intro hloop
      split
      · refine ⟨_, List.replicate (if w.isPlayer = true then 2 else 1)
            Effect.SetEquippedWeaponPosition ++
          [Effect.SetAnimActionAndSequence kAnimAction_Attack_Follow_Through
            wl.GetCurrentSequence], rfl, ?_, ?_⟩
        · show wl.trace ++ [_] = _
          rw [hloop, List.append_assoc]
        · rw [List.count_append, hcount]
          simp
      · exact ⟨_, _, rfl, hloop, hcount⟩
    obtain ⟨w1, es, ha, ht, hc⟩ := hphase
    exact ⟨w1, es, ha, ht, hc, htail w1 es ha ht hc⟩

/-- C36 at a concrete input: drawing the pistol, a non-player positions the
weapon exactly once in the action phase. -/
theorem C36_rig_loops_witness :
    ∃ w1 es, actionPhase Example.onGround (Example.equipWorld false 1)
        (initLocals (Example.equipWorld false 1))
        = Except.ok (w1, initLocals (Example.equipWorld false 1)) ∧
      w1.trace = es ∧ es.count Effect.SetEquippedWeaponPosition = 1 := by
  obtain ⟨w1, es, a, b, c, -⟩ :=
    C36_rig_loops Example.onGround 1 0 (Example.equipWorld false 1) 7 rfl (by decide)
      (Or.inl ⟨Or.inl rfl, by decide, by decide⟩)
  exact ⟨w1, es, a, by rw [b]; rfl, by rw [c]; rfl⟩

/-- C38: if Unequip_Weapon is requested in a tick and the resolved id does
not carry the Unequip group, the tick returns and the resolution phase
opens with `SetWeaponOut(false)`: the weapon-out flag, which was set, is
cleared in that tick, no action is recorded and no further change of the
flag follows. For an Equip_Weapon or Wait_For_Lower_Body_Anim request,
resolved or not, the resolution phase records no `SetWeaponOut` and leaves
the weapon-out flag as it was. -/
theorem C38_forced_holster (charController : bhkCharacterController)
    (movementSpeed turnSpeed : ℚ) (w w1 : World) (l : Locals)
    (hc : classified charController movementSpeed w = Except.ok (w1, l)) :
    (l.animAction = kAnimAction_Unequip_Weapon →
      AnimGroupID.GetGroupID (resolvedID w1 l) ≠ kAnimGroup_Unequip →
      w1.IsWeaponOut = true ∧
      ∃ w2 es, body charController movementSpeed turnSpeed w = Except.ok w2 ∧
        w2.IsWeaponOut = false ∧
        w2.GetCurrentAnimAction = w1.GetCurrentAnimAction ∧
        w2.trace = w1.trace ++ Effect.SetWeaponOut false :: es ∧
        ∀ e ∈ es, (∀ out, e ≠ Effect.SetWeaponOut out) ∧
          ∀ a q, e ≠ Effect.SetAnimActionAndSequence a q) ∧
    ((l.animAction = kAnimAction_Equip_Weapon ∨
        l.animAction = kAnimAction_Wait_For_Lower_Body_Anim) →
      ∃ w2 es, body charController movementSpeed turnSpeed w = Except.ok w2 ∧
        w2.IsWeaponOut = w1.IsWeaponOut ∧
        w2.trace = w1.trace ++ es ∧
        ∀ e ∈ es, ∀ out, e ≠ Effect.SetWeaponOut out) := by
  rw [body_eq charController movementSpeed turnSpeed w w1 l hc]
  constructor
  · intro hu hmiss
    obtain ⟨hg, hcur, hout⟩ := classified_unequip charController movementSpeed w w1 l hc hu
    refine ⟨hout, ?_⟩
    have hne : l.animAction ≠ -1 := by rw [hu]; decide
    have hhigh : kAnimGroup_TurnRight < l.animGroup := by rw [hg]; decide
    rw [resolvePhase_eq turnSpeed w1 l (Or.inr hcur),
      if_neg (by rw [sequenceInFlight_none w1 l _ hcur]; simp),
      dropUnresolved_miss w1 l _ hne
        (by rw [dropSlowMovement_high l hhigh, hg]; exact hmiss.symm),
      if_pos (show l.animAction = 1 from hu)]
    simp only []
    have hrest := (commitSpeed_performs
        (fun e => (∀ out, e ≠ Effect.SetWeaponOut out) ∧
          ∀ a q, e ≠ Effect.SetAnimActionAndSequence a q)
        (fun _ => ⟨fun _ h => (by cases h), fun _ _ h => (by cases h)⟩)
        (fun _ => ⟨fun _ h => (by cases h), fun _ _ h => (by cases h)⟩) turnSpeed
        (w1.SetWeaponOut false)
        { l with animAction := -1, animGroup := AnimGroupID.GetGroupID (resolvedID w1 l) }
        (resolvedID w1 l)).trans
      (afterCommit_performs
        (fun e => (∀ out, e ≠ Effect.SetWeaponOut out) ∧
          ∀ a q, e ≠ Effect.SetAnimActionAndSequence a q)
        (fun _ _ => ⟨fun _ h => (by cases h), fun _ _ h => (by cases h)⟩)
        ⟨fun _ h => (by cases h), fun _ _ h => (by cases h)⟩
        (fun _ _ => ⟨fun _ h => (by cases h), fun _ _ h => (by cases h)⟩)
        ⟨fun _ h => (by cases h), fun _ _ h => (by cases h)⟩
        ⟨fun _ h => (by cases h), fun _ _ h => (by cases h)⟩ _
        { l with animAction := -1, animGroup := AnimGroupID.GetGroupID (resolvedID w1 l) }
        (resolvedID w1 l) rfl)
    obtain ⟨ho, hact, -, es, ht, hes⟩ := hrest
    refine ⟨_, es, rfl, by rw [ho]; rfl, by rw [hact]; rfl, ?_, hes⟩
    rw [ht]
    simp [World.SetWeaponOut]
  · intro hreq
    have hisreq : isRequestedAction l.animAction = true := by
      rcases hreq with h | h <;> rw [h] <;> decide
    have hnot1 : l.animAction ≠ 1 := by
      rcases hreq with h | h <;> rw [h] <;> decide
    obtain ⟨-, hcase, -, -⟩ := classified_summary (fun _ => True) (fun _ _ => trivial)
      charController movementSpeed w w1 l hc
    have hcur : l.currentAnimAction = -1 := by
      rcases hcase with ⟨a, -⟩ | ⟨-, b, -⟩
      · rw [hisreq] at a
        exact absurd a (by decide)
      · exact b
    rw [resolvePhase_eq turnSpeed w1 l (Or.inr hcur),
      if_neg (by rw [sequenceInFlight_none w1 l _ hcur]; simp)]
    have hd : (dropUnresolved w1 l (AnimGroupID.GetGroupID (resolvedID w1 l))).1 = w1 := by
      unfold dropUnresolved
      split
      · rfl
      · rfl
    rw [hd]
    generalize (dropUnresolved w1 l (AnimGroupID.GetGroupID (resolvedID w1 l))).2 = a
    have h1 := commitSpeed_performs (fun e => ∀ out, e ≠ Effect.SetWeaponOut out)
      (fun _ _ h => by cases h) (fun _ _ h => by cases h) turnSpeed w1
      { l with animAction := a, animGroup := AnimGroupID.GetGroupID (resolvedID w1 l) }
      (resolvedID w1 l)
    have h2 := afterCommit_records (fun e => ∀ out, e ≠ Effect.SetWeaponOut out)
      (fun _ _ _ h => by cases h) (fun _ h => by cases h) (fun _ _ _ h => by cases h)
      (fun _ h => by cases h) (fun _ h => by cases h)
      (commitSpeed turnSpeed w1
        { l with animAction := a, animGroup := AnimGroupID.GetGroupID (resolvedID w1 l) }
        (resolvedID w1 l))
      { l with animAction := a, animGroup := AnimGroupID.GetGroupID (resolvedID w1 l) }
      (resolvedID w1 l) (fun _ _ h => by cases h)
    obtain ⟨es, ht, hes⟩ := h1.records.append h2
    refine ⟨_, es, rfl, ?_, ht, hes⟩
    rw [(attackHook_performs (fun _ => True) trivial trivial _).1,
      (endMovement_performs (fun _ => True) (fun _ _ => trivial) _ _).1,
      playResolved_weaponOut, h1.1]

/-- C38 at a concrete input: the unarmed entity that wants its weapon out
requests Equip_Weapon; the resolution phase records no `SetWeaponOut` and
the weapon stays in. -/
theorem C38_forced_holster_witness :
    ∃ w2 es, body Example.onGround 1 0 Example.raiseFistsWorld = Except.ok w2 ∧
      w2.IsWeaponOut = false ∧ w2.trace = es ∧
      ∀ e ∈ es, ∀ out, e ≠ Effect.SetWeaponOut out := by
  have hl : ∃ l, classified Example.onGround 1 Example.raiseFistsWorld
        = Except.ok (Example.raiseFistsWorld, l) ∧
      l.animAction = kAnimAction_Equip_Weapon := ⟨_, rfl, rfl⟩
  obtain ⟨l, h1, h2⟩ := hl
  obtain ⟨w2, es, a, b, c, d⟩ :=
    (C38_forced_holster Example.onGround 1 0 Example.raiseFistsWorld
      Example.raiseFistsWorld l h1).2 (Or.inl h2)
  exact ⟨w2, es, a, by rw [b]; rfl, by rw [c]; rfl, d⟩

/-- C39 as stated fails: for the player in first person, neither dying nor
knocked, with no animation data, no base process and no character
controller, the tick logs the diagnostic of line 7, which is issued before
these handles are tested. -/
theorem C39_counterexample :
    Example.bareFirstPersonWorld.hasAnimData = false ∧
    Example.bareFirstPersonWorld.hasBaseProcess = false ∧
    Example.bareFirstPersonWorld.charController.isSome = false ∧
    ∃ w1, Actor.PickAnimations 1 0 Example.bareFirstPersonWorld = Except.ok w1 ∧
      w1.trace = Example.bareFirstPersonWorld.trace ++ [Effect.DebugLog] :=
  ⟨rfl, rfl, rfl, _, rfl, rfl⟩

/-- C39, amended: if the actor is dying or knocked, or is not the player in
first person and has no animation data, no base process or no character
controller, the tick returns the state it was given: the action and its
sequence, the weapon-out flag, every channel of every rig are unchanged and
no call is recorded, so no movement-speed multiplier and no rate of fire is
set and nothing is logged. -/
theorem C39_guards_return (movementSpeed turnSpeed : ℚ) (w : World)
    (h : w.IsDying = true ∨ w.GetKnockedState = true ∨
      (¬ (w.isPlayer = true ∧ w.IsNotFirstPerson = false) ∧
        (w.hasAnimData = false ∨ w.hasBaseProcess = false ∨ w.charController = none))) :
    Actor.PickAnimations movementSpeed turnSpeed w = Except.ok w := by
  unfold Actor.PickAnimations
  rcases h with h | h | ⟨hfirst, h⟩
  · simp [h]
    rfl
  · simp [h]
    rfl
  · by_cases hg : ¬ w.IsDying = true ∧ ¬ w.GetKnockedState = true
    · rw [if_pos hg, if_neg (by simpa using hfirst)]
      rcases h with h | h | h
      · simp [h]
        rfl
      · simp [h]
        rfl
      · simp only [h]
        split <;> rfl
    · rw [if_neg hg]
      rfl

/-- C39, amended, at a concrete input: a dying entity mid-attack at the hit
stage is returned unchanged. -/
theorem C39_guards_return_witness :
    Actor.PickAnimations 1 0 Example.dyingWorld = Except.ok Example.dyingWorld :=
  C39_guards_return 1 0 Example.dyingWorld (Or.inl rfl)

/-- C40: a tick of an entity other than the player neither reads nor changes
the close-up rig. When it returns, none of the calls it has made is
addressed to the close-up rig (no stop request on it, no hand-type reset of
it). When the gateway changes the close-up rig only in reaction to calls
addressed to it, the rig holds after the tick what it held before. And when
the gateway moreover reacts to the other calls the same whatever the
close-up rig holds, the tick does not depend on that rig: started with any
other content of it, the tick faults alike or returns alike, with the same
calls and the same state, that content apart. -/
theorem C40_close_up_rig_untouched (movementSpeed turnSpeed : ℚ) (w : World)
    (hp : w.isPlayer = false) :
    (∀ w2, Actor.PickAnimations movementSpeed turnSpeed w = Except.ok w2 →
        ∃ es, w2.trace = w.trace ++ es ∧ ∀ e ∈ es, Effect.onFirst e = false) ∧
      ((∀ e, Effect.onFirst e = false → ∀ r : Rigs, (w.ext e r).first = r.first) →
        ∀ w2, Actor.PickAnimations movementSpeed turnSpeed w = Except.ok w2 →
          w2.rigs.first = w.rigs.first) ∧
      ∀ first : Option AnimData,
        (∀ e, Effect.onFirst e = false → ∀ r : Rigs,
          w.ext e { r with first := first } = { w.ext e r with first := first }) →
        Actor.PickAnimations movementSpeed turnSpeed
            { w with rigs := { w.rigs with first := first } }
          = (Actor.PickAnimations movementSpeed turnSpeed w).map
              (fun w2 => { w2 with rigs := { w2.rigs with first := first } }) := by
  refine ⟨?_, ?_, ?_⟩
  · intro w2 h
    exact tick_third (fun w1 => w.Records (fun e => Effect.onFirst e = false) w1)
      (fun w1 e he h1 => World.Records.snoc h1 e he)
      (fun w1 action sequence h1 => World.Records.setAction h1 action sequence rfl)
      (fun w1 out h1 => World.Records.setWeaponOut h1 out rfl)
      movementSpeed turnSpeed w w2 hp (World.Records.nil _ w) h
  · intro hx w2 h
    have h1 := tick_third (fun w1 => w1.rigs.first = w.rigs.first ∧ w1.ext = w.ext)
      (fun w1 e he h1 => ⟨by
        show (w1.ext e w1.rigs).first = w.rigs.first
        rw [h1.2, hx e he, h1.1], h1.2⟩)
      (fun w1 action sequence h1 => h1)
      (fun w1 out h1 => h1)
      movementSpeed turnSpeed w w2 hp ⟨rfl, rfl⟩ h
    exact h1.1
  · intro first hx
    have h : w.Shifts (fun _ => first) := Or.inr ⟨hp, hx⟩
    exact tick_shift h [] movementSpeed turnSpeed

/-- C40 at a concrete input: drawing the pistol, a non-player positions the
weapon, addresses no call to the close-up rig, leaves that rig absent, and
does the same when a close-up rig is there. -/
theorem C40_close_up_rig_untouched_witness :
    ∃ w2, Actor.PickAnimations 1 0 (Example.equipWorld false 1) = Except.ok w2 ∧
      (∃ es, w2.trace = es ∧ Effect.SetEquippedWeaponPosition ∈ es ∧
        ∀ e ∈ es, Effect.onFirst e = false) ∧
      w2.rigs.first = none ∧
      Actor.PickAnimations 1 0
          { Example.equipWorld false 1 with
            rigs := { (Example.equipWorld false 1).rigs with first := some Example.animData } }
        = Except.ok { w2 with rigs := { w2.rigs with first := some Example.animData } } := by
  have h : ∃ w2, Actor.PickAnimations 1 0 (Example.equipWorld false 1) = Except.ok w2 ∧
      Effect.SetEquippedWeaponPosition ∈ w2.trace :=
    ⟨_, rfl, by decide⟩
  obtain ⟨w2, h2, hm⟩ := h
  obtain ⟨a, b, c⟩ := C40_close_up_rig_untouched 1 0 (Example.equipWorld false 1) rfl
  obtain ⟨es, he, hes⟩ := a w2 h2
  have hc := c (some Example.animData) (fun _ _ _ => rfl)
  rw [h2] at hc
  refine ⟨w2, h2, ⟨es, ?_, ?_, hes⟩, b (fun _ _ _ => rfl) w2 h2, hc⟩
  · rw [he]
    rfl
  · rw [he] at hm
    exact hm
